import Mathlib

/-!
Verification of the R-tree core (Guttman quadratic-split R-tree, C source).

Shallow embedding conventions:
* The source is compiled with NUM_DIMS = 2 (the default); the tree development
  below is the 2-dimensional instantiation.  A separate, dimension-generic
  embedding of the geometry primitives (a rectangle as a pair of coordinate
  lists, with the dimension count as a parameter) is used for the claims that
  quantify over the compile-time dimensionality.
* Coordinates are embedded as exact integers.  The C code stores IEEE doubles;
  on integer inputs every comparison, min, max, sum, difference and product the
  source performs is exact, so the integer sub-domain is embedded faithfully.
* rectSphericalVolume computes radius = sqrt(h0*h0 + h1*h1) and returns
  radius*radius * UNIT_SPHERE_VOLUME; since radius*radius = h0*h0 + h1*h1
  exactly (in real arithmetic), the volume equals
  ((e0*e0 + e1*e1) / 4) * (3141593 / 1000000) where e = max - min.
  We represent volumes exactly as integers in units of 1/4000000: the embedded
  volume is (e0*e0 + e1*e1) * 3141593.  Every use of a volume in the source is
  a comparison with another volume, a difference of volumes, or a comparison
  with the literals 0 and -1; the literal -1 is represented in the same units
  as volUnitNeg = -4000000.
* Heap mutation through pointers becomes explicit state passing: a function
  that mutates a node returns the updated node.  The payload handle (void*)
  becomes a number compared for equality, matching the identity comparison of
  the source.  A possibly-NULL node pointer becomes an Option.
-/

/-- MAX_NODES = 16 from the source. -/
def MAX_NODES : ℕ := 16

/-- MIN_NODES = MAX_NODES/2 from the source. -/
def MIN_NODES : ℕ := MAX_NODES / 2

/-- Minimal bounding rectangle, NUM_DIMS = 2: min[0], min[1], max[0], max[1]. -/
structure rectT where
  min0 : ℤ
  min1 : ℤ
  max0 : ℤ
  max1 : ℤ
deriving DecidableEq, Repr

/-- The helper min of the source (for doubles): if (a < b) return a; return b. -/
def dmin (a b : ℤ) : ℤ := if a < b then a else b

/-- The helper max of the source (for doubles): if (a > b) return a; return b. -/
def dmax (a b : ℤ) : ℤ := if a > b then a else b

/-- overlap: for each dimension, if rectA.min[i] > rectB.max[i] or
rectB.min[i] > rectA.max[i] return 0; after the loop return 1. -/
def overlap (rectA rectB : rectT) : Bool :=
  if rectA.min0 > rectB.max0 ∨ rectB.min0 > rectA.max0 then false
  else if rectA.min1 > rectB.max1 ∨ rectB.min1 > rectA.max1 then false
  else true

/-- combineRect: per dimension, min of mins and max of maxes (the loop bound
in the source is the literal 2, which at NUM_DIMS = 2 covers every dimension). -/
def combineRect (rectA rectB : rectT) : rectT :=
  { min0 := dmin rectA.min0 rectB.min0
    min1 := dmin rectA.min1 rectB.min1
    max0 := dmax rectA.max0 rectB.max0
    max1 := dmax rectA.max1 rectB.max1 }

/-- rectSphericalVolume in exact integer units of 1/4000000 (see the header
comment): ((max0-min0)^2 + (max1-min1)^2) * 3141593.  The source computes
(((max0-min0)*0.5)^2 + ((max1-min1)*0.5)^2) * 3.141593 via a square root that
is immediately squared again. -/
def rectSphericalVolume (rect : rectT) : ℤ :=
  ((rect.max0 - rect.min0) ^ 2 + (rect.max1 - rect.min1) ^ 2) * 3141593

/-- calcRectVolume: USE_SPHERICAL_VOLUME is 1 in the source. -/
def calcRectVolume (rect : rectT) : ℤ := rectSphericalVolume rect

/-- The double literal -1.0 in the volume units of the embedding. -/
def volUnitNeg : ℤ := -4000000

/-- A node: a level (leaf is zero, others positive) and an array of branches,
each branch being (rect, child pointer, data item).  The C struct keeps a
separate count; in the embedding the count is the length of the branch list. -/
inductive nodeT : Type where
  | mk (level : ℤ) (branch : List (rectT × Option nodeT × ℕ))

/-- A branch: bounds, child node pointer, data item (void* compared by
identity, embedded as a number). -/
abbrev branchT : Type := rectT × Option nodeT × ℕ

def branchT.rect (b : branchT) : rectT := b.1

def branchT.child (b : branchT) : Option nodeT := b.2.1

def branchT.item (b : branchT) : ℕ := b.2.2

def nodeT.level : nodeT → ℤ
  | .mk l _ => l

def nodeT.branch : nodeT → List branchT
  | .mk _ bs => bs

/-- count field of a node: the number of live branches. -/
def nodeT.count (n : nodeT) : ℕ := n.branch.length

/-- A zero-initialized branch (memset 0 in the source). -/
def defaultBranch : branchT := (⟨0, 0, 0, 0⟩, none, 0)

/-- Boolean equality of nodes (used to derive decidable equality, which the
nested inductive does not get automatically). -/
def nodeT.beq : nodeT → nodeT → Bool
  | .mk l1 bs1, .mk l2 bs2 => l1 == l2 && goList bs1 bs2
where
  goList : List branchT → List branchT → Bool
    | [], [] => true
    | (r1, none, i1) :: xs, (r2, none, i2) :: ys =>
      r1 == r2 && i1 == i2 && goList xs ys
    | (r1, some c1, i1) :: xs, (r2, some c2, i2) :: ys =>
      r1 == r2 && nodeT.beq c1 c2 && i1 == i2 && goList xs ys
    | _, _ => false
  termination_by structural x => x

/-- Soundness of nodeT.beq, packaged as a definition so that the whole
development keeps every definition ahead of every theorem. -/
def nodeT.beq_iff : ∀ a b : nodeT, nodeT.beq a b = true ↔ a = b
  | .mk l1 bs1, .mk l2 bs2 => by
    simp only [nodeT.beq, Bool.and_eq_true, beq_iff_eq, nodeT.mk.injEq]
    exact and_congr Iff.rfl (goList_iff bs1 bs2)
where
  goList_iff : ∀ xs ys : List branchT, nodeT.beq.goList xs ys = true ↔ xs = ys
    | [], [] => by simp [nodeT.beq.goList]
    | [], (_, _, _) :: _ => by simp [nodeT.beq.goList]
    | (_, _, _) :: _, [] => by simp [nodeT.beq.goList]
    | (r1, none, i1) :: xs, (r2, none, i2) :: ys => by
      simp only [nodeT.beq.goList, Bool.and_eq_true, beq_iff_eq, List.cons.injEq,
        Prod.mk.injEq]
      rw [goList_iff xs ys]
      tauto
    | (r1, none, i1) :: xs, (r2, some c2, i2) :: ys => by
      simp [nodeT.beq.goList]
    | (r1, some c1, i1) :: xs, (r2, none, i2) :: ys => by
      simp [nodeT.beq.goList]
    | (r1, some c1, i1) :: xs, (r2, some c2, i2) :: ys => by
      simp only [nodeT.beq.goList, Bool.and_eq_true, beq_iff_eq, List.cons.injEq,
        Prod.mk.injEq, Option.some.injEq]
      rw [goList_iff xs ys, nodeT.beq_iff c1 c2]
      tauto

instance : DecidableEq nodeT := fun a b =>
  decidable_of_iff (nodeT.beq a b = true) (nodeT.beq_iff a b)

/-- The double literal 1.0 in the volume units of the embedding (volumes are
scaled by 4000000, see the header comment). -/
def volUnit : ℤ := 4000000

/-- The iterated combineRect of a list of branch rectangles with a firstTime
flag; an empty list yields the zero-initialized rectangle (shared shape of
nodeCover and of the coverSplit computation of getBranches). -/
def coverOfList : List branchT → rectT
  | [] => ⟨0, 0, 0, 0⟩
  | b :: rest => rest.foldl (fun r x => combineRect r x.rect) b.rect

/-- nodeCover: the smallest rectangle including all branch rectangles. -/
def nodeCover (node : nodeT) : rectT := coverOfList node.branch

/-- Variables for finding a split partition.  The C arrays of MAX_NODES+1
ints become lists; count[2], cover[2], area[2] become paired fields. -/
structure partitionVarsT where
  partition : List ℤ
  total : ℕ
  minFill : ℕ
  taken : List Bool
  count0 : ℕ
  count1 : ℕ
  cover0 : rectT
  cover1 : rectT
  area0 : ℤ
  area1 : ℤ
  branchBuf : List branchT
  branchCount : ℕ
  coverSplit : rectT
  coverSplitArea : ℤ

/-- The zero-initialized partitionVarsT (memset 0 in splitNode). -/
def emptyParVars : partitionVarsT :=
  { partition := List.replicate (MAX_NODES + 1) 0
    total := 0
    minFill := 0
    taken := List.replicate (MAX_NODES + 1) false
    count0 := 0
    count1 := 0
    cover0 := ⟨0, 0, 0, 0⟩
    cover1 := ⟨0, 0, 0, 0⟩
    area0 := 0
    area1 := 0
    branchBuf := List.replicate (MAX_NODES + 1) defaultBranch
    branchCount := 0
    coverSplit := ⟨0, 0, 0, 0⟩
    coverSplitArea := 0 }

/-- Rectangle of branchBuf[i]. -/
def partitionVarsT.bufRect (pv : partitionVarsT) (i : ℕ) : rectT :=
  (pv.branchBuf.getD i defaultBranch).rect

/-- count[group] for group 0/1. -/
def partitionVarsT.countOf (pv : partitionVarsT) (group : ℤ) : ℕ :=
  if group = 0 then pv.count0 else pv.count1

/-- getBranches: load the branch buffer with the full node's branches plus
the extra branch, compute the covering rectangle of the whole set, and clear
the node (count 0, level -1).  The source copies exactly MAX_NODES branches;
it is only called on a full node. -/
def getBranches (node : nodeT) (branch : branchT) (parVars : partitionVarsT) :
    nodeT × partitionVarsT :=
  let buf := node.branch ++ [branch]
  let coverSplit := coverOfList buf
  (⟨-1, []⟩,
    { parVars with
      branchBuf := buf
      branchCount := MAX_NODES + 1
      coverSplit := coverSplit
      coverSplitArea := calcRectVolume coverSplit })

/-- initParVars: reset counts, areas, total, minFill, and mark every slot
untaken and unpartitioned. -/
def initParVars (parVars : partitionVarsT) (maxRects : ℕ) (minFill : ℕ) :
    partitionVarsT :=
  { parVars with
    count0 := 0
    count1 := 0
    area0 := 0
    area1 := 0
    total := maxRects
    minFill := minFill
    taken := List.replicate maxRects false
    partition := List.replicate maxRects (-1) }

/-- classify: put branch index in one of the two groups, updating that
group's cover, area and count. -/
def classify (index : ℕ) (group : ℤ) (parVars : partitionVarsT) :
    partitionVarsT :=
  let b := parVars.branchBuf.getD index defaultBranch
  let pv :=
    { parVars with
      partition := parVars.partition.set index group
      taken := parVars.taken.set index true }
  if group = 0 then
    let cover := if pv.count0 = 0 then b.rect else combineRect b.rect pv.cover0
    { pv with cover0 := cover, area0 := calcRectVolume cover, count0 := pv.count0 + 1 }
  else
    let cover := if pv.count1 = 0 then b.rect else combineRect b.rect pv.cover1
    { pv with cover1 := cover, area1 := calcRectVolume cover, count1 := pv.count1 + 1 }

/-- The seed-searching double loop of pickSeeds: over every pair
indexA < indexB track (seed0, seed1, worst); worst starts at
-coverSplitArea - 1, whose literal -1 is -volUnit in the volume units. -/
def pickSeedsFold (parVars : partitionVarsT) : ℕ × ℕ × ℤ :=
  let area := (List.range parVars.total).map
    (fun i => calcRectVolume (parVars.bufRect i))
  (List.range parVars.total).foldl
    (fun st indexA =>
      (List.range parVars.total).foldl
        (fun st indexB =>
          if indexA < indexB then
            let oneRect := combineRect (parVars.bufRect indexA) (parVars.bufRect indexB)
            let waste := calcRectVolume oneRect - area.getD indexA 0 - area.getD indexB 0
            if waste > st.2.2 then (indexA, indexB, waste) else st
          else st)
        st)
    ((0, 0, -parVars.coverSplitArea - volUnit) : ℕ × ℕ × ℤ)

/-- pickSeeds: pick the pair wasting the most area when covered by one
rectangle, then seed group 0 and group 1 with it. -/
def pickSeeds (parVars : partitionVarsT) : partitionVarsT :=
  let st := pickSeedsFold parVars
  classify st.2.1 1 (classify st.1 0 parVars)

/-- The scanning loop of the iterative selection of choosePartition: among
untaken branches pick the one with the biggest difference in group growth,
preferring on a tie the group with the fewer branches; state is
(biggestDiff, chosen, betterGroup), and the literal -1 initializing
biggestDiff is -volUnit in the volume units. -/
def chooseNextFold (pv : partitionVarsT) : ℤ × ℕ × ℤ :=
  (List.range pv.total).foldl
    (fun st index =>
      if pv.taken.getD index true = false then
        let curRect := pv.bufRect index
        let growth0 := calcRectVolume (combineRect curRect pv.cover0) - pv.area0
        let growth1 := calcRectVolume (combineRect curRect pv.cover1) - pv.area1
        let d0 := growth1 - growth0
        let group : ℤ := if d0 ≥ 0 then 0 else 1
        let diff := if d0 ≥ 0 then d0 else -d0
        if diff > st.1 then (diff, index, group)
        else if diff = st.1 ∧ pv.countOf group < pv.countOf st.2.2 then
          (st.1, index, group)
        else st
      else st)
    ((-volUnit, 0, 0) : ℤ × ℕ × ℤ)

/-- chooseNext: the (chosen, betterGroup) result of the scan. -/
def chooseNext (pv : partitionVarsT) : ℕ × ℤ :=
  ((chooseNextFold pv).2.1, (chooseNextFold pv).2.2)

/-- The while loop of choosePartition.  Each iteration classifies one branch,
so count0 + count1 strictly increases; fuel = total therefore always
suffices to reach the loop condition becoming false. -/
def choosePartitionLoop : ℕ → partitionVarsT → partitionVarsT
  | 0, pv => pv
  | fuel + 1, pv =>
    if pv.count0 + pv.count1 < pv.total ∧ pv.count0 < pv.total - pv.minFill ∧
        pv.count1 < pv.total - pv.minFill then
      let c := chooseNext pv
      choosePartitionLoop fuel (classify c.1 c.2 pv)
    else pv

/-- choosePartition: seed the two groups, iteratively assign until one group
would force the other below minFill, then dump the remaining branches into
the group that is not too full. -/
def choosePartition (parVars : partitionVarsT) (minFill : ℕ) : partitionVarsT :=
  let pv := initParVars parVars parVars.branchCount minFill
  let pv := pickSeeds pv
  let pv := choosePartitionLoop pv.total pv
  if pv.count0 + pv.count1 < pv.total then
    let group : ℤ := if pv.count0 ≥ pv.total - pv.minFill then 1 else 0
    (List.range pv.total).foldl
      (fun pv2 index =>
        if pv2.taken.getD index true = false then classify index group pv2 else pv2)
      pv
  else pv

/-- addBranch specialized to the call sites that pass newNode = NULL
(loadNodes and the root growth of insertRect).  There a split would make the
source write through the NULL pointer (undefined behavior); such a split is
impossible at those sites, and the embedding simply appends. -/
def addBranchNoSplit (branch : branchT) (node : nodeT) : nodeT :=
  if node.count < MAX_NODES then ⟨node.level, node.branch ++ [branch]⟩ else node

/-- loadNodes: copy branches from the buffer into the two nodes according to
the partition (slots that are neither 0 nor 1 are skipped, as in the source). -/
def loadNodes (nodeA nodeB : nodeT) (parVars : partitionVarsT) : nodeT × nodeT :=
  (List.range parVars.total).foldl
    (fun ab index =>
      if parVars.partition.getD index (-1) = 0 then
        (addBranchNoSplit (parVars.branchBuf.getD index defaultBranch) ab.1, ab.2)
      else if parVars.partition.getD index (-1) = 1 then
        (ab.1, addBranchNoSplit (parVars.branchBuf.getD index defaultBranch) ab.2)
      else ab)
    (nodeA, nodeB)

/-- splitNode: load all branches into the buffer, choose a partition with
minFill = MIN_NODES, then fill the reused old node and the freshly allocated
sibling (which gets the old node's level). -/
def splitNode (node : nodeT) (branch : branchT) : nodeT × nodeT :=
  let level := node.level
  let gb := getBranches node branch emptyParVars
  let parVars := choosePartition gb.2 MIN_NODES
  let nodeA : nodeT := ⟨level, (gb.1).branch⟩
  let newNode : nodeT := ⟨level, []⟩
  loadNodes nodeA newNode parVars

/-- addBranch: append if the node is not full, otherwise split.  The int
result plus out-parameter of the source becomes (updated node, optional new
node); the result is 1 exactly when the optional node is present. -/
def addBranch (branch : branchT) (node : nodeT) : nodeT × Option nodeT :=
  if node.count < MAX_NODES then
    (⟨node.level, node.branch ++ [branch]⟩, none)
  else
    let s := splitNode node branch
    (s.1, some s.2)

/-- pickBranch: the branch needing the smallest increase in volume, ties
broken by the smaller current volume.  State is (firstTime, bestIncr,
bestArea, best); the literal -1 initializing bestIncr is -volUnit. -/
def pickBranch (rect : rectT) (node : nodeT) : ℕ :=
  (node.branch.enum.foldl
    (fun st ib =>
      let curRect := ib.2.1
      let area := calcRectVolume curRect
      let tempRect := combineRect rect curRect
      let increase := calcRectVolume tempRect - area
      if increase < st.2.1 ∨ st.1 = true then (false, increase, area, ib.1)
      else if increase = st.2.1 ∧ area < st.2.2.1 then (st.1, increase, area, ib.1)
      else st)
    ((true, -volUnit, 0, 0) : Bool × ℤ × ℤ × ℕ)).2.2.2

/-- Rectangle of an optional child; the none case is unreachable at the use
site (a split child is never NULL). -/
def nodeCoverChild : Option nodeT → rectT
  | some n => nodeCover n
  | none => ⟨0, 0, 0, 0⟩

/-- insertRectRec: recursive descent.  Above the target level, descend into
the branch picked by pickBranch (walkChild walks to that index and recurses
into the child there, returning the updated child and the possible new node
from a split); a NULL child returns 0 in the source, leaving everything
unchanged.  At the target level, add the (rect, item) branch.  The int
result plus out-parameter becomes (updated node, optional split-off node). -/
def insertRectRec (rect : rectT) (item : ℕ) : nodeT → ℤ → nodeT × Option nodeT
  | .mk l bs, level =>
    if l > level then
      let index := pickBranch rect (.mk l bs)
      let b := bs.getD index defaultBranch
      let w := walkChild bs index level
      match w.2 with
      | none =>
        (⟨l, bs.set index (combineRect rect b.1, w.1, b.2.2)⟩, none)
      | some other =>
        let bs2 := bs.set index (nodeCoverChild w.1, w.1, b.2.2)
        addBranch (nodeCover other, some other, 0) ⟨l, bs2⟩
    else if l = level then
      addBranch (rect, none, item) ⟨l, bs⟩
    else
      (⟨l, bs⟩, none)
where
  /-- Walk to position index and run insertRectRec on the child there;
  returns (updated child, split-off node).  A NULL child (or an index past
  the end, unreachable on live nodes) yields no change and no split. -/
  walkChild : List branchT → ℕ → ℤ → Option nodeT × Option nodeT
    | [], _, _ => (none, none)
    | (_, some c, _) :: _, 0, level =>
      let r := insertRectRec rect item c level
      (some r.1, r.2)
    | (_, none, _) :: _, 0, _ => (none, none)
    | _ :: rest, n + 1, level => walkChild rest n level

/-- insertRect: run the recursive insertion; if the root split, grow a new
root one level taller holding the two halves (the addBranch calls there pass
newNode = NULL in the source and can never split). -/
def insertRect (rect : rectT) (item : ℕ) (root : nodeT) (level : ℤ) :
    Bool × nodeT :=
  match insertRectRec rect item root level with
  | (r2, some newNode) =>
    let newRoot : nodeT := ⟨r2.level + 1, []⟩
    let nr := addBranchNoSplit (nodeCover r2, some r2, 0) newRoot
    let nr2 := addBranchNoSplit (nodeCover newNode, some newNode, 0) nr
    (true, nr2)
  | (r2, none) => (false, r2)

/-- insertRect through a possibly-NULL root pointer: with a NULL root the
recursion returns 0 at once and the root stays NULL. -/
def insertRectTop (rect : rectT) (item : ℕ) (root : Option nodeT) (level : ℤ) :
    Option nodeT :=
  match root with
  | none => none
  | some r => some (insertRect rect item r level).2

/-- search on a non-NULL node: count the leaf branches overlapping the
query, pruning subtrees whose branch rectangle does not overlap it.  The
recursive call of the source passes the child pointer, whose NULL check
contributes 0; here a NULL child is skipped directly. -/
def searchNode : nodeT → rectT → ℕ
  | .mk l bs, rect =>
    if l > 0 then goInt bs rect else goLeaf bs rect
where
  goInt : List branchT → rectT → ℕ
    | [], _ => 0
    | (r, some c, _) :: rest, rect =>
      (if overlap rect r then searchNode c rect else 0) + goInt rest rect
    | (_, none, _) :: rest, rect => goInt rest rect
  goLeaf : List branchT → rectT → ℕ
    | [], _ => 0
    | (r, _, _) :: rest, rect =>
      (if overlap rect r then 1 else 0) + goLeaf rest rect

/-- search: the source checks the node pointer for NULL and returns 0. -/
def search (node : Option nodeT) (rect : rectT) : ℕ :=
  match node with
  | none => 0
  | some n => searchNode n rect

/-- countRec: total number of leaf branches.  The source dereferences every
child of an internal node without a NULL check; a NULL child (which only
arises after the deletion-repair defect examined below) is skipped here where
the source would crash. -/
def countRec : nodeT → ℕ → ℕ
  | .mk l bs, counter => if l > 0 then goList bs counter else counter + bs.length
where
  goList : List branchT → ℕ → ℕ
    | [], counter => counter
    | (_, some c, _) :: rest, counter => goList rest (countRec c counter)
    | (_, none, _) :: rest, counter => goList rest counter

/-- Observer (not in the source): the list of (rect, item) leaf entries in
traversal order, skipping NULL children. -/
def leafEntries : nodeT → List (rectT × ℕ)
  | .mk l bs => if l > 0 then goList bs else bs.map (fun b => (b.1, b.2.2))
where
  goList : List branchT → List (rectT × ℕ)
    | [] => []
    | (_, some c, _) :: rest => leafEntries c ++ goList rest
    | (_, none, _) :: rest => goList rest

/-- Observer: the payload handles stored in the leaves. -/
def itemsOf (n : nodeT) : List ℕ := (leafEntries n).map Prod.snd

/-- disconnectBranch: overwrite slot index with the last branch and drop the
last slot. -/
def disconnectBranch (node : nodeT) (index : ℕ) : nodeT :=
  ⟨node.level, (node.branch.set index (node.branch.getLastD defaultBranch)).dropLast⟩

/-- removeRectRec: on an internal node scan the branches in order; for each
branch overlapping the query recurse into its child, and on the first
success either refresh that branch's rectangle (child still holds at least
MIN_NODES branches) or detach the child onto the reinsertion list and
disconnect the branch.  On a leaf remove the first branch whose item equals
the argument by identity.  The source's 0-on-success int becomes true; the
listNode out-parameter becomes an explicit list threaded through (reInsert
prepends).  remLoop returns the branch array with every child updated as the
scan left it, the threaded list, and the position of the first success. -/
def removeRectRec (rect : rectT) (item : ℕ) :
    nodeT → List nodeT → Bool × nodeT × List nodeT
  | .mk l bs, listNode =>
    if l > 0 then
      match remLoop bs listNode with
      | (bs2, l2, some index) =>
        match bs2.getD index defaultBranch with
        | (_, some c, it) =>
          if MIN_NODES ≤ c.count then
            (true, ⟨l, bs2.set index (nodeCover c, some c, it)⟩, l2)
          else
            (true, disconnectBranch ⟨l, bs2⟩ index, c :: l2)
        | (_, none, _) => (true, ⟨l, bs2⟩, l2)
      | (bs2, l2, none) => (false, ⟨l, bs2⟩, l2)
    else
      match bs.findIdx? (fun b => b.2.2 == item) with
      | some index => (true, disconnectBranch ⟨l, bs⟩ index, listNode)
      | none => (false, ⟨l, bs⟩, listNode)
where
  remLoop : List branchT → List nodeT → List branchT × List nodeT × Option ℕ
    | [], l => ([], l, none)
    | (br, some c, it) :: rest, l =>
      if overlap rect br then
        match removeRectRec rect item c l with
        | (true, c2, l2) => ((br, some c2, it) :: rest, l2, some 0)
        | (false, c2, l2) =>
          let r := remLoop rest l2
          ((br, some c2, it) :: r.1, r.2.1, r.2.2.map (· + 1))
      else
        let r := remLoop rest l
        ((br, some c, it) :: r.1, r.2.1, r.2.2.map (· + 1))
    | (br, none, it) :: rest, l =>
      let r := remLoop rest l
      ((br, none, it) :: r.1, r.2.1, r.2.2.map (· + 1))

/-- Reinsert every branch of a detached node at that node's original level
(the drain loop body of removeRect): insertRect(rect, item, root, level) for
each branch in order. -/
def insertBranches : List branchT → ℤ → Option nodeT → Option nodeT
  | [], _, root => root
  | b :: bs, level, root => insertBranches bs level (insertRectTop b.1 b.2.2 root level)

/-- The drain loop of removeRect over the reinsertion list; the freeNode of
each drained node becomes garbage collection. -/
def drainList : List nodeT → Option nodeT → Option nodeT
  | [], root => root
  | tempNode :: rest, root =>
    drainList rest (insertBranches tempNode.branch tempNode.level root)

/-- removeRect: run the recursive removal; on success drain the reinsertion
list, then eliminate a redundant root (internal with exactly one branch) by
replacing the root with its single child pointer (which the source does
without a NULL check: the root can become NULL here). -/
def removeRect (rect : rectT) (item : ℕ) (root : nodeT) : Bool × Option nodeT :=
  match removeRectRec rect item root [] with
  | (true, r2, reInsertList) =>
    match drainList reInsertList (some r2) with
    | some r3 =>
      if r3.count = 1 ∧ r3.level > 0 then
        (true, (r3.branch.getD 0 defaultBranch).2.1)
      else (true, some r3)
    | none => (true, none)
  | (false, r2, _) => (false, some r2)

/-- A top-level tree operation: Insert at leaf level, or Delete. -/
inductive OpT : Type where
  | ins (rect : rectT) (item : ℕ)
  | del (rect : rectT) (item : ℕ)
deriving DecidableEq, Repr

/-- Apply one operation to the root handle.  Insert passes targetLevel 0;
Delete passes the query rectangle and payload.  A NULL root is kept NULL by
both (matching the source's NULL checks). -/
def applyOp (root : Option nodeT) (op : OpT) : Option nodeT :=
  match op with
  | .ins rect item => insertRectTop rect item root 0
  | .del rect item =>
    match root with
    | none => none
    | some r => (removeRect rect item r).2

/-- The initial empty root: a leaf node with no branches. -/
def emptyRoot : nodeT := ⟨0, []⟩

/-- Apply a sequence of operations starting from a given root handle. -/
def applyOps (ops : List OpT) (root : Option nodeT) : Option nodeT :=
  ops.foldl applyOp root

/-! ### Dimension-generic geometry primitives

The source fixes the dimensionality at compile time (NUM_DIMS ∈ {2,3,4});
rectD embeds a rectangle as a pair of coordinate arrays and the functions
take the compiled dimension count as the parameter numDims. -/

/-- A rectangle of the dimension-generic embedding: min[NUM_DIMS],
max[NUM_DIMS] as coordinate lists. -/
structure rectD where
  min : List ℤ
  max : List ℤ
deriving DecidableEq, Repr

/-- Well-formed rectangle at dimensionality d: min[i] ≤ max[i] for all i. -/
def wfRectD (d : ℕ) (r : rectD) : Prop :=
  ∀ i < d, r.min.getD i 0 ≤ r.max.getD i 0

/-- overlap, dimension-generic: the loop runs over NUM_DIMS = numDims
dimensions and rejects as soon as one dimension is disjoint. -/
def overlapD (numDims : ℕ) (rectA rectB : rectD) : Bool :=
  (List.range numDims).all fun index =>
    if rectA.min.getD index 0 > rectB.max.getD index 0 ∨
        rectB.min.getD index 0 > rectA.max.getD index 0 then false
    else true

/-- combineRect, dimension-generic.  The result is zero-initialized (memset)
with NUM_DIMS = numDims slots, and the loop of the source runs over the
literal 2, not NUM_DIMS: only dimensions 0 and 1 are combined, any higher
dimension keeps the memset zeros. -/
def combineRectD (numDims : ℕ) (rectA rectB : rectD) : rectD :=
  { min := (List.range numDims).map fun index =>
      if index < 2 then dmin (rectA.min.getD index 0) (rectB.min.getD index 0) else 0
    max := (List.range numDims).map fun index =>
      if index < 2 then dmax (rectA.max.getD index 0) (rectB.max.getD index 0) else 0 }

/-! ### Specification-level predicates and observers (not from the source) -/

/-- Well-formed 2-dimensional rectangle: min ≤ max in both dimensions. -/
def wfRect (r : rectT) : Prop := r.min0 ≤ r.max0 ∧ r.min1 ≤ r.max1

instance (r : rectT) : Decidable (wfRect r) := by unfold wfRect; infer_instance

/-- Containment: a lies inside b. -/
def rectSub (a b : rectT) : Prop :=
  b.min0 ≤ a.min0 ∧ a.max0 ≤ b.max0 ∧ b.min1 ≤ a.min1 ∧ a.max1 ≤ b.max1

instance (a b : rectT) : Decidable (rectSub a b) := by unfold rectSub; infer_instance

/-- Structural well-formedness of a live node, as the data model states it:
level nonnegative, at most MAX_NODES branches, well-formed branch rectangles,
leaf branches childless, and every child one level down, with at least
MIN_NODES branches (children are exactly the non-root nodes), recursively. -/
inductive Good : nodeT → Prop where
  | intro (l : ℤ) (bs : List branchT) :
      0 ≤ l →
      bs.length ≤ MAX_NODES →
      (∀ b ∈ bs, wfRect b.1) →
      (l = 0 → ∀ b ∈ bs, b.2.1 = none) →
      (∀ b ∈ bs, ∀ c, b.2.1 = some c → c.level = l - 1) →
      (∀ b ∈ bs, ∀ c, b.2.1 = some c → MIN_NODES ≤ c.count) →
      (∀ b ∈ bs, ∀ c, b.2.1 = some c → Good c) →
      Good (.mk l bs)

/-- The cover invariant: every branch that points at a child carries exactly
the covering rectangle of that child, recursively. -/
inductive Covered : nodeT → Prop where
  | intro (l : ℤ) (bs : List branchT) :
      (∀ b ∈ bs, ∀ c, b.2.1 = some c → b.1 = nodeCover c) →
      (∀ b ∈ bs, ∀ c, b.2.1 = some c → Covered c) →
      Covered (.mk l bs)

/-- No internal branch has a NULL child (true of every insert-only tree;
broken by the deletion-repair defect examined below). -/
inductive NoNull : nodeT → Prop where
  | intro (l : ℤ) (bs : List branchT) :
      (0 < l → ∀ b ∈ bs, b.2.1 ≠ none) →
      (∀ b ∈ bs, ∀ c, b.2.1 = some c → NoNull c) →
      NoNull (.mk l bs)

/-- Strict descendant relation between nodes. -/
inductive Subnode : nodeT → nodeT → Prop where
  | child {c n : nodeT} (b : branchT) : b ∈ n.branch → b.2.1 = some c → Subnode c n
  | trans {a b c : nodeT} : Subnode a b → Subnode b c → Subnode a c

/-- The per-operation precondition of the spec: inserted rectangles are
well-formed (deletion queries are only compared, never stored). -/
def opWf : OpT → Prop
  | .ins r _ => wfRect r
  | .del _ _ => True

instance (op : OpT) : Decidable (opWf op) := by
  cases op <;> simp only [opWf] <;> infer_instance

/-- Insert a list of (rect, item) pairs at leaf level, in order. -/
def insertAll (ps : List (rectT × ℕ)) (root : Option nodeT) : Option nodeT :=
  ps.foldl (fun r p => insertRectTop p.1 p.2 r 0) root

/-- Invariant of the partition state threaded through choosePartition at the
concrete sizes of the program: total = MAX_NODES+1 = 17, minFill = 8. -/
structure PInv (pv : partitionVarsT) : Prop where
  htotal : pv.total = 17
  hminFill : pv.minFill = 8
  hplen : pv.partition.length = 17
  htlen : pv.taken.length = 17
  hvals : ∀ x ∈ pv.partition, x = -1 ∨ x = 0 ∨ x = 1
  htaken : ∀ i, i < 17 → (pv.taken.getD i true = true ↔ pv.partition.getD i (-1) ≠ -1)
  hc0 : pv.count0 = pv.partition.count 0
  hc1 : pv.count1 = pv.partition.count 1

/-- Concrete full node content for the split witness: 16 well-formed
branches. -/
def witBranches : List branchT :=
  (List.range 16).map
    (fun (k : ℕ) => ((⟨10 * (k:ℤ), 0, 10 * (k:ℤ) + 1, 1⟩ : rectT), none, k))

/-- The extra incoming branch of the split witness. -/
def witBranch : branchT := ((⟨160, 0, 161, 1⟩ : rectT), none, 16)

-- ===================================================================
/-- The per-branch well-formedness of a branch living in a node of level l. -/
def branchOk (l : ℤ) (b : branchT) : Prop :=
  wfRect b.rect ∧ (l = 0 → b.2.1 = none) ∧
  ∀ c, b.2.1 = some c → c.level = l - 1 ∧ MIN_NODES ≤ c.count ∧ Good c

/-- The combined goodness and exact-cover invariant on an optional root. -/
def rootInv (root : Option nodeT) : Prop := ∀ n, root = some n → Good n ∧ Covered n

/-- Leaf entries contributed by one branch of an internal node. -/
def branchEntries (b : branchT) : List (rectT × ℕ) :=
  match b.2.1 with
  | some c => leafEntries c
  | none => []

/-! ### Concrete evaluation scenario for the deletion-repair defect

A reachable operation sequence: 152 unit squares inserted at x = 4k (k <
152), growing the root to level 2; deleting items 0 and 1 underflows their
leaf and then its level-1 parent, whose branches are reinserted WITHOUT
their child pointers; a subsequent insert into the region of such an orphan
branch vanishes.  The intermediate states are spelled out as literals so
that each evaluation step stays small. -/

/-- The k-th insert of the scenario: a unit-height box at x = 4k. -/
def mkIns (k : ℕ) : OpT := OpT.ins ⟨4*(k:ℤ), 0, 4*(k:ℤ)+1, 1⟩ k

/-- Operations k, k+1, ..., k+n-1 of the insertion phase. -/
def opsChunk (a n : ℕ) : List OpT := (List.range' a n).map mkIns

/-- The tree after the first 4 inserts of the scenario. -/
def state4 : nodeT :=
  nodeT.mk 0 [((⟨0, 0, 1, 1⟩ : rectT), none, 0), ((⟨4, 0, 5, 1⟩ : rectT), none, 1), ((⟨8, 0, 9, 1⟩ : rectT), none, 2), ((⟨12, 0, 13, 1⟩ : rectT), none, 3)]

/-- The tree after the first 8 inserts of the scenario. -/
def state8 : nodeT :=
  nodeT.mk 0 [((⟨0, 0, 1, 1⟩ : rectT), none, 0), ((⟨4, 0, 5, 1⟩ : rectT), none, 1), ((⟨8, 0, 9, 1⟩ : rectT), none, 2), ((⟨12, 0, 13, 1⟩ : rectT), none, 3), ((⟨16, 0, 17, 1⟩ : rectT), none, 4), ((⟨20, 0, 21, 1⟩ : rectT), none, 5), ((⟨24, 0, 25, 1⟩ : rectT), none, 6), ((⟨28, 0, 29, 1⟩ : rectT), none, 7)]

/-- The tree after the first 12 inserts of the scenario. -/
def state12 : nodeT :=
  nodeT.mk 0 [((⟨0, 0, 1, 1⟩ : rectT), none, 0), ((⟨4, 0, 5, 1⟩ : rectT), none, 1), ((⟨8, 0, 9, 1⟩ : rectT), none, 2), ((⟨12, 0, 13, 1⟩ : rectT), none, 3), ((⟨16, 0, 17, 1⟩ : rectT), none, 4), ((⟨20, 0, 21, 1⟩ : rectT), none, 5), ((⟨24, 0, 25, 1⟩ : rectT), none, 6), ((⟨28, 0, 29, 1⟩ : rectT), none, 7), ((⟨32, 0, 33, 1⟩ : rectT), none, 8), ((⟨36, 0, 37, 1⟩ : rectT), none, 9), ((⟨40, 0, 41, 1⟩ : rectT), none, 10), ((⟨44, 0, 45, 1⟩ : rectT), none, 11)]

/-- The tree after the first 16 inserts of the scenario. -/
def state16 : nodeT :=
  nodeT.mk 0 [((⟨0, 0, 1, 1⟩ : rectT), none, 0), ((⟨4, 0, 5, 1⟩ : rectT), none, 1), ((⟨8, 0, 9, 1⟩ : rectT), none, 2), ((⟨12, 0, 13, 1⟩ : rectT), none, 3), ((⟨16, 0, 17, 1⟩ : rectT), none, 4), ((⟨20, 0, 21, 1⟩ : rectT), none, 5), ((⟨24, 0, 25, 1⟩ : rectT), none, 6), ((⟨28, 0, 29, 1⟩ : rectT), none, 7), ((⟨32, 0, 33, 1⟩ : rectT), none, 8), ((⟨36, 0, 37, 1⟩ : rectT), none, 9), ((⟨40, 0, 41, 1⟩ : rectT), none, 10), ((⟨44, 0, 45, 1⟩ : rectT), none, 11), ((⟨48, 0, 49, 1⟩ : rectT), none, 12), ((⟨52, 0, 53, 1⟩ : rectT), none, 13), ((⟨56, 0, 57, 1⟩ : rectT), none, 14), ((⟨60, 0, 61, 1⟩ : rectT), none, 15)]

/-- The tree after the first 20 inserts of the scenario. -/
def state20 : nodeT :=
  nodeT.mk 1 [((⟨0, 0, 33, 1⟩ : rectT), some (nodeT.mk 0 [((⟨0, 0, 1, 1⟩ : rectT), none, 0), ((⟨4, 0, 5, 1⟩ : rectT), none, 1), ((⟨8, 0, 9, 1⟩ : rectT), none, 2), ((⟨12, 0, 13, 1⟩ : rectT), none, 3), ((⟨16, 0, 17, 1⟩ : rectT), none, 4), ((⟨20, 0, 21, 1⟩ : rectT), none, 5), ((⟨24, 0, 25, 1⟩ : rectT), none, 6), ((⟨28, 0, 29, 1⟩ : rectT), none, 7), ((⟨32, 0, 33, 1⟩ : rectT), none, 8)]), 0), ((⟨36, 0, 77, 1⟩ : rectT), some (nodeT.mk 0 [((⟨36, 0, 37, 1⟩ : rectT), none, 9), ((⟨40, 0, 41, 1⟩ : rectT), none, 10), ((⟨44, 0, 45, 1⟩ : rectT), none, 11), ((⟨48, 0, 49, 1⟩ : rectT), none, 12), ((⟨52, 0, 53, 1⟩ : rectT), none, 13), ((⟨56, 0, 57, 1⟩ : rectT), none, 14), ((⟨60, 0, 61, 1⟩ : rectT), none, 15), ((⟨64, 0, 65, 1⟩ : rectT), none, 16), ((⟨68, 0, 69, 1⟩ : rectT), none, 17), ((⟨72, 0, 73, 1⟩ : rectT), none, 18), ((⟨76, 0, 77, 1⟩ : rectT), none, 19)]), 0)]

/-- The tree after the first 24 inserts of the scenario. -/
def state24 : nodeT :=
  nodeT.mk 1 [((⟨0, 0, 33, 1⟩ : rectT), some (nodeT.mk 0 [((⟨0, 0, 1, 1⟩ : rectT), none, 0), ((⟨4, 0, 5, 1⟩ : rectT), none, 1), ((⟨8, 0, 9, 1⟩ : rectT), none, 2), ((⟨12, 0, 13, 1⟩ : rectT), none, 3), ((⟨16, 0, 17, 1⟩ : rectT), none, 4), ((⟨20, 0, 21, 1⟩ : rectT), none, 5), ((⟨24, 0, 25, 1⟩ : rectT), none, 6), ((⟨28, 0, 29, 1⟩ : rectT), none, 7), ((⟨32, 0, 33, 1⟩ : rectT), none, 8)]), 0), ((⟨36, 0, 93, 1⟩ : rectT), some (nodeT.mk 0 [((⟨36, 0, 37, 1⟩ : rectT), none, 9), ((⟨40, 0, 41, 1⟩ : rectT), none, 10), ((⟨44, 0, 45, 1⟩ : rectT), none, 11), ((⟨48, 0, 49, 1⟩ : rectT), none, 12), ((⟨52, 0, 53, 1⟩ : rectT), none, 13), ((⟨56, 0, 57, 1⟩ : rectT), none, 14), ((⟨60, 0, 61, 1⟩ : rectT), none, 15), ((⟨64, 0, 65, 1⟩ : rectT), none, 16), ((⟨68, 0, 69, 1⟩ : rectT), none, 17), ((⟨72, 0, 73, 1⟩ : rectT), none, 18), ((⟨76, 0, 77, 1⟩ : rectT), none, 19), ((⟨80, 0, 81, 1⟩ : rectT), none, 20), ((⟨84, 0, 85, 1⟩ : rectT), none, 21), ((⟨88, 0, 89, 1⟩ : rectT), none, 22), ((⟨92, 0, 93, 1⟩ : rectT), none, 23)]), 0)]

/-- The tree after the first 28 inserts of the scenario. -/
def state28 : nodeT :=
  nodeT.mk 1 [((⟨0, 0, 33, 1⟩ : rectT), some (nodeT.mk 0 [((⟨0, 0, 1, 1⟩ : rectT), none, 0), ((⟨4, 0, 5, 1⟩ : rectT), none, 1), ((⟨8, 0, 9, 1⟩ : rectT), none, 2), ((⟨12, 0, 13, 1⟩ : rectT), none, 3), ((⟨16, 0, 17, 1⟩ : rectT), none, 4), ((⟨20, 0, 21, 1⟩ : rectT), none, 5), ((⟨24, 0, 25, 1⟩ : rectT), none, 6), ((⟨28, 0, 29, 1⟩ : rectT), none, 7), ((⟨32, 0, 33, 1⟩ : rectT), none, 8)]), 0), ((⟨36, 0, 69, 1⟩ : rectT), some (nodeT.mk 0 [((⟨36, 0, 37, 1⟩ : rectT), none, 9), ((⟨40, 0, 41, 1⟩ : rectT), none, 10), ((⟨44, 0, 45, 1⟩ : rectT), none, 11), ((⟨48, 0, 49, 1⟩ : rectT), none, 12), ((⟨52, 0, 53, 1⟩ : rectT), none, 13), ((⟨56, 0, 57, 1⟩ : rectT), none, 14), ((⟨60, 0, 61, 1⟩ : rectT), none, 15), ((⟨64, 0, 65, 1⟩ : rectT), none, 16), ((⟨68, 0, 69, 1⟩ : rectT), none, 17)]), 0), ((⟨72, 0, 109, 1⟩ : rectT), some (nodeT.mk 0 [((⟨72, 0, 73, 1⟩ : rectT), none, 18), ((⟨76, 0, 77, 1⟩ : rectT), none, 19), ((⟨80, 0, 81, 1⟩ : rectT), none, 20), ((⟨84, 0, 85, 1⟩ : rectT), none, 21), ((⟨88, 0, 89, 1⟩ : rectT), none, 22), ((⟨92, 0, 93, 1⟩ : rectT), none, 23), ((⟨96, 0, 97, 1⟩ : rectT), none, 24), ((⟨100, 0, 101, 1⟩ : rectT), none, 25), ((⟨104, 0, 105, 1⟩ : rectT), none, 26), ((⟨108, 0, 109, 1⟩ : rectT), none, 27)]), 0)]

/-- The tree after the first 32 inserts of the scenario. -/
def state32 : nodeT :=
  nodeT.mk 1 [((⟨0, 0, 33, 1⟩ : rectT), some (nodeT.mk 0 [((⟨0, 0, 1, 1⟩ : rectT), none, 0), ((⟨4, 0, 5, 1⟩ : rectT), none, 1), ((⟨8, 0, 9, 1⟩ : rectT), none, 2), ((⟨12, 0, 13, 1⟩ : rectT), none, 3), ((⟨16, 0, 17, 1⟩ : rectT), none, 4), ((⟨20, 0, 21, 1⟩ : rectT), none, 5), ((⟨24, 0, 25, 1⟩ : rectT), none, 6), ((⟨28, 0, 29, 1⟩ : rectT), none, 7), ((⟨32, 0, 33, 1⟩ : rectT), none, 8)]), 0), ((⟨36, 0, 69, 1⟩ : rectT), some (nodeT.mk 0 [((⟨36, 0, 37, 1⟩ : rectT), none, 9), ((⟨40, 0, 41, 1⟩ : rectT), none, 10), ((⟨44, 0, 45, 1⟩ : rectT), none, 11), ((⟨48, 0, 49, 1⟩ : rectT), none, 12), ((⟨52, 0, 53, 1⟩ : rectT), none, 13), ((⟨56, 0, 57, 1⟩ : rectT), none, 14), ((⟨60, 0, 61, 1⟩ : rectT), none, 15), ((⟨64, 0, 65, 1⟩ : rectT), none, 16), ((⟨68, 0, 69, 1⟩ : rectT), none, 17)]), 0), ((⟨72, 0, 125, 1⟩ : rectT), some (nodeT.mk 0 [((⟨72, 0, 73, 1⟩ : rectT), none, 18), ((⟨76, 0, 77, 1⟩ : rectT), none, 19), ((⟨80, 0, 81, 1⟩ : rectT), none, 20), ((⟨84, 0, 85, 1⟩ : rectT), none, 21), ((⟨88, 0, 89, 1⟩ : rectT), none, 22), ((⟨92, 0, 93, 1⟩ : rectT), none, 23), ((⟨96, 0, 97, 1⟩ : rectT), none, 24), ((⟨100, 0, 101, 1⟩ : rectT), none, 25), ((⟨104, 0, 105, 1⟩ : rectT), none, 26), ((⟨108, 0, 109, 1⟩ : rectT), none, 27), ((⟨112, 0, 113, 1⟩ : rectT), none, 28), ((⟨116, 0, 117, 1⟩ : rectT), none, 29), ((⟨120, 0, 121, 1⟩ : rectT), none, 30), ((⟨124, 0, 125, 1⟩ : rectT), none, 31)]), 0)]

/-- The tree after the first 36 inserts of the scenario. -/
def state36 : nodeT :=
  nodeT.mk 1 [((⟨0, 0, 33, 1⟩ : rectT), some (nodeT.mk 0 [((⟨0, 0, 1, 1⟩ : rectT), none, 0), ((⟨4, 0, 5, 1⟩ : rectT), none, 1), ((⟨8, 0, 9, 1⟩ : rectT), none, 2), ((⟨12, 0, 13, 1⟩ : rectT), none, 3), ((⟨16, 0, 17, 1⟩ : rectT), none, 4), ((⟨20, 0, 21, 1⟩ : rectT), none, 5), ((⟨24, 0, 25, 1⟩ : rectT), none, 6), ((⟨28, 0, 29, 1⟩ : rectT), none, 7), ((⟨32, 0, 33, 1⟩ : rectT), none, 8)]), 0), ((⟨36, 0, 69, 1⟩ : rectT), some (nodeT.mk 0 [((⟨36, 0, 37, 1⟩ : rectT), none, 9), ((⟨40, 0, 41, 1⟩ : rectT), none, 10), ((⟨44, 0, 45, 1⟩ : rectT), none, 11), ((⟨48, 0, 49, 1⟩ : rectT), none, 12), ((⟨52, 0, 53, 1⟩ : rectT), none, 13), ((⟨56, 0, 57, 1⟩ : rectT), none, 14), ((⟨60, 0, 61, 1⟩ : rectT), none, 15), ((⟨64, 0, 65, 1⟩ : rectT), none, 16), ((⟨68, 0, 69, 1⟩ : rectT), none, 17)]), 0), ((⟨72, 0, 105, 1⟩ : rectT), some (nodeT.mk 0 [((⟨72, 0, 73, 1⟩ : rectT), none, 18), ((⟨76, 0, 77, 1⟩ : rectT), none, 19), ((⟨80, 0, 81, 1⟩ : rectT), none, 20), ((⟨84, 0, 85, 1⟩ : rectT), none, 21), ((⟨88, 0, 89, 1⟩ : rectT), none, 22), ((⟨92, 0, 93, 1⟩ : rectT), none, 23), ((⟨96, 0, 97, 1⟩ : rectT), none, 24), ((⟨100, 0, 101, 1⟩ : rectT), none, 25), ((⟨104, 0, 105, 1⟩ : rectT), none, 26)]), 0), ((⟨108, 0, 141, 1⟩ : rectT), some (nodeT.mk 0 [((⟨108, 0, 109, 1⟩ : rectT), none, 27), ((⟨112, 0, 113, 1⟩ : rectT), none, 28), ((⟨116, 0, 117, 1⟩ : rectT), none, 29), ((⟨120, 0, 121, 1⟩ : rectT), none, 30), ((⟨124, 0, 125, 1⟩ : rectT), none, 31), ((⟨128, 0, 129, 1⟩ : rectT), none, 32), ((⟨132, 0, 133, 1⟩ : rectT), none, 33), ((⟨136, 0, 137, 1⟩ : rectT), none, 34), ((⟨140, 0, 141, 1⟩ : rectT), none, 35)]), 0)]

/-- The tree after the first 40 inserts of the scenario. -/
def state40 : nodeT :=
  nodeT.mk 1 [((⟨0, 0, 33, 1⟩ : rectT), some (nodeT.mk 0 [((⟨0, 0, 1, 1⟩ : rectT), none, 0), ((⟨4, 0, 5, 1⟩ : rectT), none, 1), ((⟨8, 0, 9, 1⟩ : rectT), none, 2), ((⟨12, 0, 13, 1⟩ : rectT), none, 3), ((⟨16, 0, 17, 1⟩ : rectT), none, 4), ((⟨20, 0, 21, 1⟩ : rectT), none, 5), ((⟨24, 0, 25, 1⟩ : rectT), none, 6), ((⟨28, 0, 29, 1⟩ : rectT), none, 7), ((⟨32, 0, 33, 1⟩ : rectT), none, 8)]), 0), ((⟨36, 0, 69, 1⟩ : rectT), some (nodeT.mk 0 [((⟨36, 0, 37, 1⟩ : rectT), none, 9), ((⟨40, 0, 41, 1⟩ : rectT), none, 10), ((⟨44, 0, 45, 1⟩ : rectT), none, 11), ((⟨48, 0, 49, 1⟩ : rectT), none, 12), ((⟨52, 0, 53, 1⟩ : rectT), none, 13), ((⟨56, 0, 57, 1⟩ : rectT), none, 14), ((⟨60, 0, 61, 1⟩ : rectT), none, 15), ((⟨64, 0, 65, 1⟩ : rectT), none, 16), ((⟨68, 0, 69, 1⟩ : rectT), none, 17)]), 0), ((⟨72, 0, 105, 1⟩ : rectT), some (nodeT.mk 0 [((⟨72, 0, 73, 1⟩ : rectT), none, 18), ((⟨76, 0, 77, 1⟩ : rectT), none, 19), ((⟨80, 0, 81, 1⟩ : rectT), none, 20), ((⟨84, 0, 85, 1⟩ : rectT), none, 21), ((⟨88, 0, 89, 1⟩ : rectT), none, 22), ((⟨92, 0, 93, 1⟩ : rectT), none, 23), ((⟨96, 0, 97, 1⟩ : rectT), none, 24), ((⟨100, 0, 101, 1⟩ : rectT), none, 25), ((⟨104, 0, 105, 1⟩ : rectT), none, 26)]), 0), ((⟨108, 0, 157, 1⟩ : rectT), some (nodeT.mk 0 [((⟨108, 0, 109, 1⟩ : rectT), none, 27), ((⟨112, 0, 113, 1⟩ : rectT), none, 28), ((⟨116, 0, 117, 1⟩ : rectT), none, 29), ((⟨120, 0, 121, 1⟩ : rectT), none, 30), ((⟨124, 0, 125, 1⟩ : rectT), none, 31), ((⟨128, 0, 129, 1⟩ : rectT), none, 32), ((⟨132, 0, 133, 1⟩ : rectT), none, 33), ((⟨136, 0, 137, 1⟩ : rectT), none, 34), ((⟨140, 0, 141, 1⟩ : rectT), none, 35), ((⟨144, 0, 145, 1⟩ : rectT), none, 36), ((⟨148, 0, 149, 1⟩ : rectT), none, 37), ((⟨152, 0, 153, 1⟩ : rectT), none, 38), ((⟨156, 0, 157, 1⟩ : rectT), none, 39)]), 0)]

/-- The tree after the first 44 inserts of the scenario. -/
def state44 : nodeT :=
  nodeT.mk 1 [((⟨0, 0, 33, 1⟩ : rectT), some (nodeT.mk 0 [((⟨0, 0, 1, 1⟩ : rectT), none, 0), ((⟨4, 0, 5, 1⟩ : rectT), none, 1), ((⟨8, 0, 9, 1⟩ : rectT), none, 2), ((⟨12, 0, 13, 1⟩ : rectT), none, 3), ((⟨16, 0, 17, 1⟩ : rectT), none, 4), ((⟨20, 0, 21, 1⟩ : rectT), none, 5), ((⟨24, 0, 25, 1⟩ : rectT), none, 6), ((⟨28, 0, 29, 1⟩ : rectT), none, 7), ((⟨32, 0, 33, 1⟩ : rectT), none, 8)]), 0), ((⟨36, 0, 69, 1⟩ : rectT), some (nodeT.mk 0 [((⟨36, 0, 37, 1⟩ : rectT), none, 9), ((⟨40, 0, 41, 1⟩ : rectT), none, 10), ((⟨44, 0, 45, 1⟩ : rectT), none, 11), ((⟨48, 0, 49, 1⟩ : rectT), none, 12), ((⟨52, 0, 53, 1⟩ : rectT), none, 13), ((⟨56, 0, 57, 1⟩ : rectT), none, 14), ((⟨60, 0, 61, 1⟩ : rectT), none, 15), ((⟨64, 0, 65, 1⟩ : rectT), none, 16), ((⟨68, 0, 69, 1⟩ : rectT), none, 17)]), 0), ((⟨72, 0, 105, 1⟩ : rectT), some (nodeT.mk 0 [((⟨72, 0, 73, 1⟩ : rectT), none, 18), ((⟨76, 0, 77, 1⟩ : rectT), none, 19), ((⟨80, 0, 81, 1⟩ : rectT), none, 20), ((⟨84, 0, 85, 1⟩ : rectT), none, 21), ((⟨88, 0, 89, 1⟩ : rectT), none, 22), ((⟨92, 0, 93, 1⟩ : rectT), none, 23), ((⟨96, 0, 97, 1⟩ : rectT), none, 24), ((⟨100, 0, 101, 1⟩ : rectT), none, 25), ((⟨104, 0, 105, 1⟩ : rectT), none, 26)]), 0), ((⟨108, 0, 141, 1⟩ : rectT), some (nodeT.mk 0 [((⟨108, 0, 109, 1⟩ : rectT), none, 27), ((⟨112, 0, 113, 1⟩ : rectT), none, 28), ((⟨116, 0, 117, 1⟩ : rectT), none, 29), ((⟨120, 0, 121, 1⟩ : rectT), none, 30), ((⟨124, 0, 125, 1⟩ : rectT), none, 31), ((⟨128, 0, 129, 1⟩ : rectT), none, 32), ((⟨132, 0, 133, 1⟩ : rectT), none, 33), ((⟨136, 0, 137, 1⟩ : rectT), none, 34), ((⟨140, 0, 141, 1⟩ : rectT), none, 35)]), 0), ((⟨144, 0, 173, 1⟩ : rectT), some (nodeT.mk 0 [((⟨144, 0, 145, 1⟩ : rectT), none, 36), ((⟨148, 0, 149, 1⟩ : rectT), none, 37), ((⟨152, 0, 153, 1⟩ : rectT), none, 38), ((⟨156, 0, 157, 1⟩ : rectT), none, 39), ((⟨160, 0, 161, 1⟩ : rectT), none, 40), ((⟨164, 0, 165, 1⟩ : rectT), none, 41), ((⟨168, 0, 169, 1⟩ : rectT), none, 42), ((⟨172, 0, 173, 1⟩ : rectT), none, 43)]), 0)]

/-- The tree after the first 48 inserts of the scenario. -/
def state48 : nodeT :=
  nodeT.mk 1 [((⟨0, 0, 33, 1⟩ : rectT), some (nodeT.mk 0 [((⟨0, 0, 1, 1⟩ : rectT), none, 0), ((⟨4, 0, 5, 1⟩ : rectT), none, 1), ((⟨8, 0, 9, 1⟩ : rectT), none, 2), ((⟨12, 0, 13, 1⟩ : rectT), none, 3), ((⟨16, 0, 17, 1⟩ : rectT), none, 4), ((⟨20, 0, 21, 1⟩ : rectT), none, 5), ((⟨24, 0, 25, 1⟩ : rectT), none, 6), ((⟨28, 0, 29, 1⟩ : rectT), none, 7), ((⟨32, 0, 33, 1⟩ : rectT), none, 8)]), 0), ((⟨36, 0, 69, 1⟩ : rectT), some (nodeT.mk 0 [((⟨36, 0, 37, 1⟩ : rectT), none, 9), ((⟨40, 0, 41, 1⟩ : rectT), none, 10), ((⟨44, 0, 45, 1⟩ : rectT), none, 11), ((⟨48, 0, 49, 1⟩ : rectT), none, 12), ((⟨52, 0, 53, 1⟩ : rectT), none, 13), ((⟨56, 0, 57, 1⟩ : rectT), none, 14), ((⟨60, 0, 61, 1⟩ : rectT), none, 15), ((⟨64, 0, 65, 1⟩ : rectT), none, 16), ((⟨68, 0, 69, 1⟩ : rectT), none, 17)]), 0), ((⟨72, 0, 105, 1⟩ : rectT), some (nodeT.mk 0 [((⟨72, 0, 73, 1⟩ : rectT), none, 18), ((⟨76, 0, 77, 1⟩ : rectT), none, 19), ((⟨80, 0, 81, 1⟩ : rectT), none, 20), ((⟨84, 0, 85, 1⟩ : rectT), none, 21), ((⟨88, 0, 89, 1⟩ : rectT), none, 22), ((⟨92, 0, 93, 1⟩ : rectT), none, 23), ((⟨96, 0, 97, 1⟩ : rectT), none, 24), ((⟨100, 0, 101, 1⟩ : rectT), none, 25), ((⟨104, 0, 105, 1⟩ : rectT), none, 26)]), 0), ((⟨108, 0, 141, 1⟩ : rectT), some (nodeT.mk 0 [((⟨108, 0, 109, 1⟩ : rectT), none, 27), ((⟨112, 0, 113, 1⟩ : rectT), none, 28), ((⟨116, 0, 117, 1⟩ : rectT), none, 29), ((⟨120, 0, 121, 1⟩ : rectT), none, 30), ((⟨124, 0, 125, 1⟩ : rectT), none, 31), ((⟨128, 0, 129, 1⟩ : rectT), none, 32), ((⟨132, 0, 133, 1⟩ : rectT), none, 33), ((⟨136, 0, 137, 1⟩ : rectT), none, 34), ((⟨140, 0, 141, 1⟩ : rectT), none, 35)]), 0), ((⟨144, 0, 189, 1⟩ : rectT), some (nodeT.mk 0 [((⟨144, 0, 145, 1⟩ : rectT), none, 36), ((⟨148, 0, 149, 1⟩ : rectT), none, 37), ((⟨152, 0, 153, 1⟩ : rectT), none, 38), ((⟨156, 0, 157, 1⟩ : rectT), none, 39), ((⟨160, 0, 161, 1⟩ : rectT), none, 40), ((⟨164, 0, 165, 1⟩ : rectT), none, 41), ((⟨168, 0, 169, 1⟩ : rectT), none, 42), ((⟨172, 0, 173, 1⟩ : rectT), none, 43), ((⟨176, 0, 177, 1⟩ : rectT), none, 44), ((⟨180, 0, 181, 1⟩ : rectT), none, 45), ((⟨184, 0, 185, 1⟩ : rectT), none, 46), ((⟨188, 0, 189, 1⟩ : rectT), none, 47)]), 0)]

/-- The tree after the first 52 inserts of the scenario. -/
def state52 : nodeT :=
  nodeT.mk 1 [((⟨0, 0, 33, 1⟩ : rectT), some (nodeT.mk 0 [((⟨0, 0, 1, 1⟩ : rectT), none, 0), ((⟨4, 0, 5, 1⟩ : rectT), none, 1), ((⟨8, 0, 9, 1⟩ : rectT), none, 2), ((⟨12, 0, 13, 1⟩ : rectT), none, 3), ((⟨16, 0, 17, 1⟩ : rectT), none, 4), ((⟨20, 0, 21, 1⟩ : rectT), none, 5), ((⟨24, 0, 25, 1⟩ : rectT), none, 6), ((⟨28, 0, 29, 1⟩ : rectT), none, 7), ((⟨32, 0, 33, 1⟩ : rectT), none, 8)]), 0), ((⟨36, 0, 69, 1⟩ : rectT), some (nodeT.mk 0 [((⟨36, 0, 37, 1⟩ : rectT), none, 9), ((⟨40, 0, 41, 1⟩ : rectT), none, 10), ((⟨44, 0, 45, 1⟩ : rectT), none, 11), ((⟨48, 0, 49, 1⟩ : rectT), none, 12), ((⟨52, 0, 53, 1⟩ : rectT), none, 13), ((⟨56, 0, 57, 1⟩ : rectT), none, 14), ((⟨60, 0, 61, 1⟩ : rectT), none, 15), ((⟨64, 0, 65, 1⟩ : rectT), none, 16), ((⟨68, 0, 69, 1⟩ : rectT), none, 17)]), 0), ((⟨72, 0, 105, 1⟩ : rectT), some (nodeT.mk 0 [((⟨72, 0, 73, 1⟩ : rectT), none, 18), ((⟨76, 0, 77, 1⟩ : rectT), none, 19), ((⟨80, 0, 81, 1⟩ : rectT), none, 20), ((⟨84, 0, 85, 1⟩ : rectT), none, 21), ((⟨88, 0, 89, 1⟩ : rectT), none, 22), ((⟨92, 0, 93, 1⟩ : rectT), none, 23), ((⟨96, 0, 97, 1⟩ : rectT), none, 24), ((⟨100, 0, 101, 1⟩ : rectT), none, 25), ((⟨104, 0, 105, 1⟩ : rectT), none, 26)]), 0), ((⟨108, 0, 141, 1⟩ : rectT), some (nodeT.mk 0 [((⟨108, 0, 109, 1⟩ : rectT), none, 27), ((⟨112, 0, 113, 1⟩ : rectT), none, 28), ((⟨116, 0, 117, 1⟩ : rectT), none, 29), ((⟨120, 0, 121, 1⟩ : rectT), none, 30), ((⟨124, 0, 125, 1⟩ : rectT), none, 31), ((⟨128, 0, 129, 1⟩ : rectT), none, 32), ((⟨132, 0, 133, 1⟩ : rectT), none, 33), ((⟨136, 0, 137, 1⟩ : rectT), none, 34), ((⟨140, 0, 141, 1⟩ : rectT), none, 35)]), 0), ((⟨144, 0, 205, 1⟩ : rectT), some (nodeT.mk 0 [((⟨144, 0, 145, 1⟩ : rectT), none, 36), ((⟨148, 0, 149, 1⟩ : rectT), none, 37), ((⟨152, 0, 153, 1⟩ : rectT), none, 38), ((⟨156, 0, 157, 1⟩ : rectT), none, 39), ((⟨160, 0, 161, 1⟩ : rectT), none, 40), ((⟨164, 0, 165, 1⟩ : rectT), none, 41), ((⟨168, 0, 169, 1⟩ : rectT), none, 42), ((⟨172, 0, 173, 1⟩ : rectT), none, 43), ((⟨176, 0, 177, 1⟩ : rectT), none, 44), ((⟨180, 0, 181, 1⟩ : rectT), none, 45), ((⟨184, 0, 185, 1⟩ : rectT), none, 46), ((⟨188, 0, 189, 1⟩ : rectT), none, 47), ((⟨192, 0, 193, 1⟩ : rectT), none, 48), ((⟨196, 0, 197, 1⟩ : rectT), none, 49), ((⟨200, 0, 201, 1⟩ : rectT), none, 50), ((⟨204, 0, 205, 1⟩ : rectT), none, 51)]), 0)]

/-- The tree after the first 56 inserts of the scenario. -/
def state56 : nodeT :=
  nodeT.mk 1 [((⟨0, 0, 33, 1⟩ : rectT), some (nodeT.mk 0 [((⟨0, 0, 1, 1⟩ : rectT), none, 0), ((⟨4, 0, 5, 1⟩ : rectT), none, 1), ((⟨8, 0, 9, 1⟩ : rectT), none, 2), ((⟨12, 0, 13, 1⟩ : rectT), none, 3), ((⟨16, 0, 17, 1⟩ : rectT), none, 4), ((⟨20, 0, 21, 1⟩ : rectT), none, 5), ((⟨24, 0, 25, 1⟩ : rectT), none, 6), ((⟨28, 0, 29, 1⟩ : rectT), none, 7), ((⟨32, 0, 33, 1⟩ : rectT), none, 8)]), 0), ((⟨36, 0, 69, 1⟩ : rectT), some (nodeT.mk 0 [((⟨36, 0, 37, 1⟩ : rectT), none, 9), ((⟨40, 0, 41, 1⟩ : rectT), none, 10), ((⟨44, 0, 45, 1⟩ : rectT), none, 11), ((⟨48, 0, 49, 1⟩ : rectT), none, 12), ((⟨52, 0, 53, 1⟩ : rectT), none, 13), ((⟨56, 0, 57, 1⟩ : rectT), none, 14), ((⟨60, 0, 61, 1⟩ : rectT), none, 15), ((⟨64, 0, 65, 1⟩ : rectT), none, 16), ((⟨68, 0, 69, 1⟩ : rectT), none, 17)]), 0), ((⟨72, 0, 105, 1⟩ : rectT), some (nodeT.mk 0 [((⟨72, 0, 73, 1⟩ : rectT), none, 18), ((⟨76, 0, 77, 1⟩ : rectT), none, 19), ((⟨80, 0, 81, 1⟩ : rectT), none, 20), ((⟨84, 0, 85, 1⟩ : rectT), none, 21), ((⟨88, 0, 89, 1⟩ : rectT), none, 22), ((⟨92, 0, 93, 1⟩ : rectT), none, 23), ((⟨96, 0, 97, 1⟩ : rectT), none, 24), ((⟨100, 0, 101, 1⟩ : rectT), none, 25), ((⟨104, 0, 105, 1⟩ : rectT), none, 26)]), 0), ((⟨108, 0, 141, 1⟩ : rectT), some (nodeT.mk 0 [((⟨108, 0, 109, 1⟩ : rectT), none, 27), ((⟨112, 0, 113, 1⟩ : rectT), none, 28), ((⟨116, 0, 117, 1⟩ : rectT), none, 29), ((⟨120, 0, 121, 1⟩ : rectT), none, 30), ((⟨124, 0, 125, 1⟩ : rectT), none, 31), ((⟨128, 0, 129, 1⟩ : rectT), none, 32), ((⟨132, 0, 133, 1⟩ : rectT), none, 33), ((⟨136, 0, 137, 1⟩ : rectT), none, 34), ((⟨140, 0, 141, 1⟩ : rectT), none, 35)]), 0), ((⟨144, 0, 177, 1⟩ : rectT), some (nodeT.mk 0 [((⟨144, 0, 145, 1⟩ : rectT), none, 36), ((⟨148, 0, 149, 1⟩ : rectT), none, 37), ((⟨152, 0, 153, 1⟩ : rectT), none, 38), ((⟨156, 0, 157, 1⟩ : rectT), none, 39), ((⟨160, 0, 161, 1⟩ : rectT), none, 40), ((⟨164, 0, 165, 1⟩ : rectT), none, 41), ((⟨168, 0, 169, 1⟩ : rectT), none, 42), ((⟨172, 0, 173, 1⟩ : rectT), none, 43), ((⟨176, 0, 177, 1⟩ : rectT), none, 44)]), 0), ((⟨180, 0, 221, 1⟩ : rectT), some (nodeT.mk 0 [((⟨180, 0, 181, 1⟩ : rectT), none, 45), ((⟨184, 0, 185, 1⟩ : rectT), none, 46), ((⟨188, 0, 189, 1⟩ : rectT), none, 47), ((⟨192, 0, 193, 1⟩ : rectT), none, 48), ((⟨196, 0, 197, 1⟩ : rectT), none, 49), ((⟨200, 0, 201, 1⟩ : rectT), none, 50), ((⟨204, 0, 205, 1⟩ : rectT), none, 51), ((⟨208, 0, 209, 1⟩ : rectT), none, 52), ((⟨212, 0, 213, 1⟩ : rectT), none, 53), ((⟨216, 0, 217, 1⟩ : rectT), none, 54), ((⟨220, 0, 221, 1⟩ : rectT), none, 55)]), 0)]

/-- The tree after the first 60 inserts of the scenario. -/
def state60 : nodeT :=
  nodeT.mk 1 [((⟨0, 0, 33, 1⟩ : rectT), some (nodeT.mk 0 [((⟨0, 0, 1, 1⟩ : rectT), none, 0), ((⟨4, 0, 5, 1⟩ : rectT), none, 1), ((⟨8, 0, 9, 1⟩ : rectT), none, 2), ((⟨12, 0, 13, 1⟩ : rectT), none, 3), ((⟨16, 0, 17, 1⟩ : rectT), none, 4), ((⟨20, 0, 21, 1⟩ : rectT), none, 5), ((⟨24, 0, 25, 1⟩ : rectT), none, 6), ((⟨28, 0, 29, 1⟩ : rectT), none, 7), ((⟨32, 0, 33, 1⟩ : rectT), none, 8)]), 0), ((⟨36, 0, 69, 1⟩ : rectT), some (nodeT.mk 0 [((⟨36, 0, 37, 1⟩ : rectT), none, 9), ((⟨40, 0, 41, 1⟩ : rectT), none, 10), ((⟨44, 0, 45, 1⟩ : rectT), none, 11), ((⟨48, 0, 49, 1⟩ : rectT), none, 12), ((⟨52, 0, 53, 1⟩ : rectT), none, 13), ((⟨56, 0, 57, 1⟩ : rectT), none, 14), ((⟨60, 0, 61, 1⟩ : rectT), none, 15), ((⟨64, 0, 65, 1⟩ : rectT), none, 16), ((⟨68, 0, 69, 1⟩ : rectT), none, 17)]), 0), ((⟨72, 0, 105, 1⟩ : rectT), some (nodeT.mk 0 [((⟨72, 0, 73, 1⟩ : rectT), none, 18), ((⟨76, 0, 77, 1⟩ : rectT), none, 19), ((⟨80, 0, 81, 1⟩ : rectT), none, 20), ((⟨84, 0, 85, 1⟩ : rectT), none, 21), ((⟨88, 0, 89, 1⟩ : rectT), none, 22), ((⟨92, 0, 93, 1⟩ : rectT), none, 23), ((⟨96, 0, 97, 1⟩ : rectT), none, 24), ((⟨100, 0, 101, 1⟩ : rectT), none, 25), ((⟨104, 0, 105, 1⟩ : rectT), none, 26)]), 0), ((⟨108, 0, 141, 1⟩ : rectT), some (nodeT.mk 0 [((⟨108, 0, 109, 1⟩ : rectT), none, 27), ((⟨112, 0, 113, 1⟩ : rectT), none, 28), ((⟨116, 0, 117, 1⟩ : rectT), none, 29), ((⟨120, 0, 121, 1⟩ : rectT), none, 30), ((⟨124, 0, 125, 1⟩ : rectT), none, 31), ((⟨128, 0, 129, 1⟩ : rectT), none, 32), ((⟨132, 0, 133, 1⟩ : rectT), none, 33), ((⟨136, 0, 137, 1⟩ : rectT), none, 34), ((⟨140, 0, 141, 1⟩ : rectT), none, 35)]), 0), ((⟨144, 0, 177, 1⟩ : rectT), some (nodeT.mk 0 [((⟨144, 0, 145, 1⟩ : rectT), none, 36), ((⟨148, 0, 149, 1⟩ : rectT), none, 37), ((⟨152, 0, 153, 1⟩ : rectT), none, 38), ((⟨156, 0, 157, 1⟩ : rectT), none, 39), ((⟨160, 0, 161, 1⟩ : rectT), none, 40), ((⟨164, 0, 165, 1⟩ : rectT), none, 41), ((⟨168, 0, 169, 1⟩ : rectT), none, 42), ((⟨172, 0, 173, 1⟩ : rectT), none, 43), ((⟨176, 0, 177, 1⟩ : rectT), none, 44)]), 0), ((⟨180, 0, 237, 1⟩ : rectT), some (nodeT.mk 0 [((⟨180, 0, 181, 1⟩ : rectT), none, 45), ((⟨184, 0, 185, 1⟩ : rectT), none, 46), ((⟨188, 0, 189, 1⟩ : rectT), none, 47), ((⟨192, 0, 193, 1⟩ : rectT), none, 48), ((⟨196, 0, 197, 1⟩ : rectT), none, 49), ((⟨200, 0, 201, 1⟩ : rectT), none, 50), ((⟨204, 0, 205, 1⟩ : rectT), none, 51), ((⟨208, 0, 209, 1⟩ : rectT), none, 52), ((⟨212, 0, 213, 1⟩ : rectT), none, 53), ((⟨216, 0, 217, 1⟩ : rectT), none, 54), ((⟨220, 0, 221, 1⟩ : rectT), none, 55), ((⟨224, 0, 225, 1⟩ : rectT), none, 56), ((⟨228, 0, 229, 1⟩ : rectT), none, 57), ((⟨232, 0, 233, 1⟩ : rectT), none, 58), ((⟨236, 0, 237, 1⟩ : rectT), none, 59)]), 0)]

/-- The tree after the first 64 inserts of the scenario. -/
def state64 : nodeT :=
  nodeT.mk 1 [((⟨0, 0, 33, 1⟩ : rectT), some (nodeT.mk 0 [((⟨0, 0, 1, 1⟩ : rectT), none, 0), ((⟨4, 0, 5, 1⟩ : rectT), none, 1), ((⟨8, 0, 9, 1⟩ : rectT), none, 2), ((⟨12, 0, 13, 1⟩ : rectT), none, 3), ((⟨16, 0, 17, 1⟩ : rectT), none, 4), ((⟨20, 0, 21, 1⟩ : rectT), none, 5), ((⟨24, 0, 25, 1⟩ : rectT), none, 6), ((⟨28, 0, 29, 1⟩ : rectT), none, 7), ((⟨32, 0, 33, 1⟩ : rectT), none, 8)]), 0), ((⟨36, 0, 69, 1⟩ : rectT), some (nodeT.mk 0 [((⟨36, 0, 37, 1⟩ : rectT), none, 9), ((⟨40, 0, 41, 1⟩ : rectT), none, 10), ((⟨44, 0, 45, 1⟩ : rectT), none, 11), ((⟨48, 0, 49, 1⟩ : rectT), none, 12), ((⟨52, 0, 53, 1⟩ : rectT), none, 13), ((⟨56, 0, 57, 1⟩ : rectT), none, 14), ((⟨60, 0, 61, 1⟩ : rectT), none, 15), ((⟨64, 0, 65, 1⟩ : rectT), none, 16), ((⟨68, 0, 69, 1⟩ : rectT), none, 17)]), 0), ((⟨72, 0, 105, 1⟩ : rectT), some (nodeT.mk 0 [((⟨72, 0, 73, 1⟩ : rectT), none, 18), ((⟨76, 0, 77, 1⟩ : rectT), none, 19), ((⟨80, 0, 81, 1⟩ : rectT), none, 20), ((⟨84, 0, 85, 1⟩ : rectT), none, 21), ((⟨88, 0, 89, 1⟩ : rectT), none, 22), ((⟨92, 0, 93, 1⟩ : rectT), none, 23), ((⟨96, 0, 97, 1⟩ : rectT), none, 24), ((⟨100, 0, 101, 1⟩ : rectT), none, 25), ((⟨104, 0, 105, 1⟩ : rectT), none, 26)]), 0), ((⟨108, 0, 141, 1⟩ : rectT), some (nodeT.mk 0 [((⟨108, 0, 109, 1⟩ : rectT), none, 27), ((⟨112, 0, 113, 1⟩ : rectT), none, 28), ((⟨116, 0, 117, 1⟩ : rectT), none, 29), ((⟨120, 0, 121, 1⟩ : rectT), none, 30), ((⟨124, 0, 125, 1⟩ : rectT), none, 31), ((⟨128, 0, 129, 1⟩ : rectT), none, 32), ((⟨132, 0, 133, 1⟩ : rectT), none, 33), ((⟨136, 0, 137, 1⟩ : rectT), none, 34), ((⟨140, 0, 141, 1⟩ : rectT), none, 35)]), 0), ((⟨144, 0, 177, 1⟩ : rectT), some (nodeT.mk 0 [((⟨144, 0, 145, 1⟩ : rectT), none, 36), ((⟨148, 0, 149, 1⟩ : rectT), none, 37), ((⟨152, 0, 153, 1⟩ : rectT), none, 38), ((⟨156, 0, 157, 1⟩ : rectT), none, 39), ((⟨160, 0, 161, 1⟩ : rectT), none, 40), ((⟨164, 0, 165, 1⟩ : rectT), none, 41), ((⟨168, 0, 169, 1⟩ : rectT), none, 42), ((⟨172, 0, 173, 1⟩ : rectT), none, 43), ((⟨176, 0, 177, 1⟩ : rectT), none, 44)]), 0), ((⟨180, 0, 213, 1⟩ : rectT), some (nodeT.mk 0 [((⟨180, 0, 181, 1⟩ : rectT), none, 45), ((⟨184, 0, 185, 1⟩ : rectT), none, 46), ((⟨188, 0, 189, 1⟩ : rectT), none, 47), ((⟨192, 0, 193, 1⟩ : rectT), none, 48), ((⟨196, 0, 197, 1⟩ : rectT), none, 49), ((⟨200, 0, 201, 1⟩ : rectT), none, 50), ((⟨204, 0, 205, 1⟩ : rectT), none, 51), ((⟨208, 0, 209, 1⟩ : rectT), none, 52), ((⟨212, 0, 213, 1⟩ : rectT), none, 53)]), 0), ((⟨216, 0, 253, 1⟩ : rectT), some (nodeT.mk 0 [((⟨216, 0, 217, 1⟩ : rectT), none, 54), ((⟨220, 0, 221, 1⟩ : rectT), none, 55), ((⟨224, 0, 225, 1⟩ : rectT), none, 56), ((⟨228, 0, 229, 1⟩ : rectT), none, 57), ((⟨232, 0, 233, 1⟩ : rectT), none, 58), ((⟨236, 0, 237, 1⟩ : rectT), none, 59), ((⟨240, 0, 241, 1⟩ : rectT), none, 60), ((⟨244, 0, 245, 1⟩ : rectT), none, 61), ((⟨248, 0, 249, 1⟩ : rectT), none, 62), ((⟨252, 0, 253, 1⟩ : rectT), none, 63)]), 0)]

/-- The tree after the first 68 inserts of the scenario. -/
def state68 : nodeT :=
  nodeT.mk 1 [((⟨0, 0, 33, 1⟩ : rectT), some (nodeT.mk 0 [((⟨0, 0, 1, 1⟩ : rectT), none, 0), ((⟨4, 0, 5, 1⟩ : rectT), none, 1), ((⟨8, 0, 9, 1⟩ : rectT), none, 2), ((⟨12, 0, 13, 1⟩ : rectT), none, 3), ((⟨16, 0, 17, 1⟩ : rectT), none, 4), ((⟨20, 0, 21, 1⟩ : rectT), none, 5), ((⟨24, 0, 25, 1⟩ : rectT), none, 6), ((⟨28, 0, 29, 1⟩ : rectT), none, 7), ((⟨32, 0, 33, 1⟩ : rectT), none, 8)]), 0), ((⟨36, 0, 69, 1⟩ : rectT), some (nodeT.mk 0 [((⟨36, 0, 37, 1⟩ : rectT), none, 9), ((⟨40, 0, 41, 1⟩ : rectT), none, 10), ((⟨44, 0, 45, 1⟩ : rectT), none, 11), ((⟨48, 0, 49, 1⟩ : rectT), none, 12), ((⟨52, 0, 53, 1⟩ : rectT), none, 13), ((⟨56, 0, 57, 1⟩ : rectT), none, 14), ((⟨60, 0, 61, 1⟩ : rectT), none, 15), ((⟨64, 0, 65, 1⟩ : rectT), none, 16), ((⟨68, 0, 69, 1⟩ : rectT), none, 17)]), 0), ((⟨72, 0, 105, 1⟩ : rectT), some (nodeT.mk 0 [((⟨72, 0, 73, 1⟩ : rectT), none, 18), ((⟨76, 0, 77, 1⟩ : rectT), none, 19), ((⟨80, 0, 81, 1⟩ : rectT), none, 20), ((⟨84, 0, 85, 1⟩ : rectT), none, 21), ((⟨88, 0, 89, 1⟩ : rectT), none, 22), ((⟨92, 0, 93, 1⟩ : rectT), none, 23), ((⟨96, 0, 97, 1⟩ : rectT), none, 24), ((⟨100, 0, 101, 1⟩ : rectT), none, 25), ((⟨104, 0, 105, 1⟩ : rectT), none, 26)]), 0), ((⟨108, 0, 141, 1⟩ : rectT), some (nodeT.mk 0 [((⟨108, 0, 109, 1⟩ : rectT), none, 27), ((⟨112, 0, 113, 1⟩ : rectT), none, 28), ((⟨116, 0, 117, 1⟩ : rectT), none, 29), ((⟨120, 0, 121, 1⟩ : rectT), none, 30), ((⟨124, 0, 125, 1⟩ : rectT), none, 31), ((⟨128, 0, 129, 1⟩ : rectT), none, 32), ((⟨132, 0, 133, 1⟩ : rectT), none, 33), ((⟨136, 0, 137, 1⟩ : rectT), none, 34), ((⟨140, 0, 141, 1⟩ : rectT), none, 35)]), 0), ((⟨144, 0, 177, 1⟩ : rectT), some (nodeT.mk 0 [((⟨144, 0, 145, 1⟩ : rectT), none, 36), ((⟨148, 0, 149, 1⟩ : rectT), none, 37), ((⟨152, 0, 153, 1⟩ : rectT), none, 38), ((⟨156, 0, 157, 1⟩ : rectT), none, 39), ((⟨160, 0, 161, 1⟩ : rectT), none, 40), ((⟨164, 0, 165, 1⟩ : rectT), none, 41), ((⟨168, 0, 169, 1⟩ : rectT), none, 42), ((⟨172, 0, 173, 1⟩ : rectT), none, 43), ((⟨176, 0, 177, 1⟩ : rectT), none, 44)]), 0), ((⟨180, 0, 213, 1⟩ : rectT), some (nodeT.mk 0 [((⟨180, 0, 181, 1⟩ : rectT), none, 45), ((⟨184, 0, 185, 1⟩ : rectT), none, 46), ((⟨188, 0, 189, 1⟩ : rectT), none, 47), ((⟨192, 0, 193, 1⟩ : rectT), none, 48), ((⟨196, 0, 197, 1⟩ : rectT), none, 49), ((⟨200, 0, 201, 1⟩ : rectT), none, 50), ((⟨204, 0, 205, 1⟩ : rectT), none, 51), ((⟨208, 0, 209, 1⟩ : rectT), none, 52), ((⟨212, 0, 213, 1⟩ : rectT), none, 53)]), 0), ((⟨216, 0, 269, 1⟩ : rectT), some (nodeT.mk 0 [((⟨216, 0, 217, 1⟩ : rectT), none, 54), ((⟨220, 0, 221, 1⟩ : rectT), none, 55), ((⟨224, 0, 225, 1⟩ : rectT), none, 56), ((⟨228, 0, 229, 1⟩ : rectT), none, 57), ((⟨232, 0, 233, 1⟩ : rectT), none, 58), ((⟨236, 0, 237, 1⟩ : rectT), none, 59), ((⟨240, 0, 241, 1⟩ : rectT), none, 60), ((⟨244, 0, 245, 1⟩ : rectT), none, 61), ((⟨248, 0, 249, 1⟩ : rectT), none, 62), ((⟨252, 0, 253, 1⟩ : rectT), none, 63), ((⟨256, 0, 257, 1⟩ : rectT), none, 64), ((⟨260, 0, 261, 1⟩ : rectT), none, 65), ((⟨264, 0, 265, 1⟩ : rectT), none, 66), ((⟨268, 0, 269, 1⟩ : rectT), none, 67)]), 0)]

/-- The tree after the first 72 inserts of the scenario. -/
def state72 : nodeT :=
  nodeT.mk 1 [((⟨0, 0, 33, 1⟩ : rectT), some (nodeT.mk 0 [((⟨0, 0, 1, 1⟩ : rectT), none, 0), ((⟨4, 0, 5, 1⟩ : rectT), none, 1), ((⟨8, 0, 9, 1⟩ : rectT), none, 2), ((⟨12, 0, 13, 1⟩ : rectT), none, 3), ((⟨16, 0, 17, 1⟩ : rectT), none, 4), ((⟨20, 0, 21, 1⟩ : rectT), none, 5), ((⟨24, 0, 25, 1⟩ : rectT), none, 6), ((⟨28, 0, 29, 1⟩ : rectT), none, 7), ((⟨32, 0, 33, 1⟩ : rectT), none, 8)]), 0), ((⟨36, 0, 69, 1⟩ : rectT), some (nodeT.mk 0 [((⟨36, 0, 37, 1⟩ : rectT), none, 9), ((⟨40, 0, 41, 1⟩ : rectT), none, 10), ((⟨44, 0, 45, 1⟩ : rectT), none, 11), ((⟨48, 0, 49, 1⟩ : rectT), none, 12), ((⟨52, 0, 53, 1⟩ : rectT), none, 13), ((⟨56, 0, 57, 1⟩ : rectT), none, 14), ((⟨60, 0, 61, 1⟩ : rectT), none, 15), ((⟨64, 0, 65, 1⟩ : rectT), none, 16), ((⟨68, 0, 69, 1⟩ : rectT), none, 17)]), 0), ((⟨72, 0, 105, 1⟩ : rectT), some (nodeT.mk 0 [((⟨72, 0, 73, 1⟩ : rectT), none, 18), ((⟨76, 0, 77, 1⟩ : rectT), none, 19), ((⟨80, 0, 81, 1⟩ : rectT), none, 20), ((⟨84, 0, 85, 1⟩ : rectT), none, 21), ((⟨88, 0, 89, 1⟩ : rectT), none, 22), ((⟨92, 0, 93, 1⟩ : rectT), none, 23), ((⟨96, 0, 97, 1⟩ : rectT), none, 24), ((⟨100, 0, 101, 1⟩ : rectT), none, 25), ((⟨104, 0, 105, 1⟩ : rectT), none, 26)]), 0), ((⟨108, 0, 141, 1⟩ : rectT), some (nodeT.mk 0 [((⟨108, 0, 109, 1⟩ : rectT), none, 27), ((⟨112, 0, 113, 1⟩ : rectT), none, 28), ((⟨116, 0, 117, 1⟩ : rectT), none, 29), ((⟨120, 0, 121, 1⟩ : rectT), none, 30), ((⟨124, 0, 125, 1⟩ : rectT), none, 31), ((⟨128, 0, 129, 1⟩ : rectT), none, 32), ((⟨132, 0, 133, 1⟩ : rectT), none, 33), ((⟨136, 0, 137, 1⟩ : rectT), none, 34), ((⟨140, 0, 141, 1⟩ : rectT), none, 35)]), 0), ((⟨144, 0, 177, 1⟩ : rectT), some (nodeT.mk 0 [((⟨144, 0, 145, 1⟩ : rectT), none, 36), ((⟨148, 0, 149, 1⟩ : rectT), none, 37), ((⟨152, 0, 153, 1⟩ : rectT), none, 38), ((⟨156, 0, 157, 1⟩ : rectT), none, 39), ((⟨160, 0, 161, 1⟩ : rectT), none, 40), ((⟨164, 0, 165, 1⟩ : rectT), none, 41), ((⟨168, 0, 169, 1⟩ : rectT), none, 42), ((⟨172, 0, 173, 1⟩ : rectT), none, 43), ((⟨176, 0, 177, 1⟩ : rectT), none, 44)]), 0), ((⟨180, 0, 213, 1⟩ : rectT), some (nodeT.mk 0 [((⟨180, 0, 181, 1⟩ : rectT), none, 45), ((⟨184, 0, 185, 1⟩ : rectT), none, 46), ((⟨188, 0, 189, 1⟩ : rectT), none, 47), ((⟨192, 0, 193, 1⟩ : rectT), none, 48), ((⟨196, 0, 197, 1⟩ : rectT), none, 49), ((⟨200, 0, 201, 1⟩ : rectT), none, 50), ((⟨204, 0, 205, 1⟩ : rectT), none, 51), ((⟨208, 0, 209, 1⟩ : rectT), none, 52), ((⟨212, 0, 213, 1⟩ : rectT), none, 53)]), 0), ((⟨216, 0, 249, 1⟩ : rectT), some (nodeT.mk 0 [((⟨216, 0, 217, 1⟩ : rectT), none, 54), ((⟨220, 0, 221, 1⟩ : rectT), none, 55), ((⟨224, 0, 225, 1⟩ : rectT), none, 56), ((⟨228, 0, 229, 1⟩ : rectT), none, 57), ((⟨232, 0, 233, 1⟩ : rectT), none, 58), ((⟨236, 0, 237, 1⟩ : rectT), none, 59), ((⟨240, 0, 241, 1⟩ : rectT), none, 60), ((⟨244, 0, 245, 1⟩ : rectT), none, 61), ((⟨248, 0, 249, 1⟩ : rectT), none, 62)]), 0), ((⟨252, 0, 285, 1⟩ : rectT), some (nodeT.mk 0 [((⟨252, 0, 253, 1⟩ : rectT), none, 63), ((⟨256, 0, 257, 1⟩ : rectT), none, 64), ((⟨260, 0, 261, 1⟩ : rectT), none, 65), ((⟨264, 0, 265, 1⟩ : rectT), none, 66), ((⟨268, 0, 269, 1⟩ : rectT), none, 67), ((⟨272, 0, 273, 1⟩ : rectT), none, 68), ((⟨276, 0, 277, 1⟩ : rectT), none, 69), ((⟨280, 0, 281, 1⟩ : rectT), none, 70), ((⟨284, 0, 285, 1⟩ : rectT), none, 71)]), 0)]

/-- The tree after the first 76 inserts of the scenario. -/
def state76 : nodeT :=
  nodeT.mk 1 [((⟨0, 0, 33, 1⟩ : rectT), some (nodeT.mk 0 [((⟨0, 0, 1, 1⟩ : rectT), none, 0), ((⟨4, 0, 5, 1⟩ : rectT), none, 1), ((⟨8, 0, 9, 1⟩ : rectT), none, 2), ((⟨12, 0, 13, 1⟩ : rectT), none, 3), ((⟨16, 0, 17, 1⟩ : rectT), none, 4), ((⟨20, 0, 21, 1⟩ : rectT), none, 5), ((⟨24, 0, 25, 1⟩ : rectT), none, 6), ((⟨28, 0, 29, 1⟩ : rectT), none, 7), ((⟨32, 0, 33, 1⟩ : rectT), none, 8)]), 0), ((⟨36, 0, 69, 1⟩ : rectT), some (nodeT.mk 0 [((⟨36, 0, 37, 1⟩ : rectT), none, 9), ((⟨40, 0, 41, 1⟩ : rectT), none, 10), ((⟨44, 0, 45, 1⟩ : rectT), none, 11), ((⟨48, 0, 49, 1⟩ : rectT), none, 12), ((⟨52, 0, 53, 1⟩ : rectT), none, 13), ((⟨56, 0, 57, 1⟩ : rectT), none, 14), ((⟨60, 0, 61, 1⟩ : rectT), none, 15), ((⟨64, 0, 65, 1⟩ : rectT), none, 16), ((⟨68, 0, 69, 1⟩ : rectT), none, 17)]), 0), ((⟨72, 0, 105, 1⟩ : rectT), some (nodeT.mk 0 [((⟨72, 0, 73, 1⟩ : rectT), none, 18), ((⟨76, 0, 77, 1⟩ : rectT), none, 19), ((⟨80, 0, 81, 1⟩ : rectT), none, 20), ((⟨84, 0, 85, 1⟩ : rectT), none, 21), ((⟨88, 0, 89, 1⟩ : rectT), none, 22), ((⟨92, 0, 93, 1⟩ : rectT), none, 23), ((⟨96, 0, 97, 1⟩ : rectT), none, 24), ((⟨100, 0, 101, 1⟩ : rectT), none, 25), ((⟨104, 0, 105, 1⟩ : rectT), none, 26)]), 0), ((⟨108, 0, 141, 1⟩ : rectT), some (nodeT.mk 0 [((⟨108, 0, 109, 1⟩ : rectT), none, 27), ((⟨112, 0, 113, 1⟩ : rectT), none, 28), ((⟨116, 0, 117, 1⟩ : rectT), none, 29), ((⟨120, 0, 121, 1⟩ : rectT), none, 30), ((⟨124, 0, 125, 1⟩ : rectT), none, 31), ((⟨128, 0, 129, 1⟩ : rectT), none, 32), ((⟨132, 0, 133, 1⟩ : rectT), none, 33), ((⟨136, 0, 137, 1⟩ : rectT), none, 34), ((⟨140, 0, 141, 1⟩ : rectT), none, 35)]), 0), ((⟨144, 0, 177, 1⟩ : rectT), some (nodeT.mk 0 [((⟨144, 0, 145, 1⟩ : rectT), none, 36), ((⟨148, 0, 149, 1⟩ : rectT), none, 37), ((⟨152, 0, 153, 1⟩ : rectT), none, 38), ((⟨156, 0, 157, 1⟩ : rectT), none, 39), ((⟨160, 0, 161, 1⟩ : rectT), none, 40), ((⟨164, 0, 165, 1⟩ : rectT), none, 41), ((⟨168, 0, 169, 1⟩ : rectT), none, 42), ((⟨172, 0, 173, 1⟩ : rectT), none, 43), ((⟨176, 0, 177, 1⟩ : rectT), none, 44)]), 0), ((⟨180, 0, 213, 1⟩ : rectT), some (nodeT.mk 0 [((⟨180, 0, 181, 1⟩ : rectT), none, 45), ((⟨184, 0, 185, 1⟩ : rectT), none, 46), ((⟨188, 0, 189, 1⟩ : rectT), none, 47), ((⟨192, 0, 193, 1⟩ : rectT), none, 48), ((⟨196, 0, 197, 1⟩ : rectT), none, 49), ((⟨200, 0, 201, 1⟩ : rectT), none, 50), ((⟨204, 0, 205, 1⟩ : rectT), none, 51), ((⟨208, 0, 209, 1⟩ : rectT), none, 52), ((⟨212, 0, 213, 1⟩ : rectT), none, 53)]), 0), ((⟨216, 0, 249, 1⟩ : rectT), some (nodeT.mk 0 [((⟨216, 0, 217, 1⟩ : rectT), none, 54), ((⟨220, 0, 221, 1⟩ : rectT), none, 55), ((⟨224, 0, 225, 1⟩ : rectT), none, 56), ((⟨228, 0, 229, 1⟩ : rectT), none, 57), ((⟨232, 0, 233, 1⟩ : rectT), none, 58), ((⟨236, 0, 237, 1⟩ : rectT), none, 59), ((⟨240, 0, 241, 1⟩ : rectT), none, 60), ((⟨244, 0, 245, 1⟩ : rectT), none, 61), ((⟨248, 0, 249, 1⟩ : rectT), none, 62)]), 0), ((⟨252, 0, 301, 1⟩ : rectT), some (nodeT.mk 0 [((⟨252, 0, 253, 1⟩ : rectT), none, 63), ((⟨256, 0, 257, 1⟩ : rectT), none, 64), ((⟨260, 0, 261, 1⟩ : rectT), none, 65), ((⟨264, 0, 265, 1⟩ : rectT), none, 66), ((⟨268, 0, 269, 1⟩ : rectT), none, 67), ((⟨272, 0, 273, 1⟩ : rectT), none, 68), ((⟨276, 0, 277, 1⟩ : rectT), none, 69), ((⟨280, 0, 281, 1⟩ : rectT), none, 70), ((⟨284, 0, 285, 1⟩ : rectT), none, 71), ((⟨288, 0, 289, 1⟩ : rectT), none, 72), ((⟨292, 0, 293, 1⟩ : rectT), none, 73), ((⟨296, 0, 297, 1⟩ : rectT), none, 74), ((⟨300, 0, 301, 1⟩ : rectT), none, 75)]), 0)]

/-- The tree after the first 80 inserts of the scenario. -/
def state80 : nodeT :=
  nodeT.mk 1 [((⟨0, 0, 33, 1⟩ : rectT), some (nodeT.mk 0 [((⟨0, 0, 1, 1⟩ : rectT), none, 0), ((⟨4, 0, 5, 1⟩ : rectT), none, 1), ((⟨8, 0, 9, 1⟩ : rectT), none, 2), ((⟨12, 0, 13, 1⟩ : rectT), none, 3), ((⟨16, 0, 17, 1⟩ : rectT), none, 4), ((⟨20, 0, 21, 1⟩ : rectT), none, 5), ((⟨24, 0, 25, 1⟩ : rectT), none, 6), ((⟨28, 0, 29, 1⟩ : rectT), none, 7), ((⟨32, 0, 33, 1⟩ : rectT), none, 8)]), 0), ((⟨36, 0, 69, 1⟩ : rectT), some (nodeT.mk 0 [((⟨36, 0, 37, 1⟩ : rectT), none, 9), ((⟨40, 0, 41, 1⟩ : rectT), none, 10), ((⟨44, 0, 45, 1⟩ : rectT), none, 11), ((⟨48, 0, 49, 1⟩ : rectT), none, 12), ((⟨52, 0, 53, 1⟩ : rectT), none, 13), ((⟨56, 0, 57, 1⟩ : rectT), none, 14), ((⟨60, 0, 61, 1⟩ : rectT), none, 15), ((⟨64, 0, 65, 1⟩ : rectT), none, 16), ((⟨68, 0, 69, 1⟩ : rectT), none, 17)]), 0), ((⟨72, 0, 105, 1⟩ : rectT), some (nodeT.mk 0 [((⟨72, 0, 73, 1⟩ : rectT), none, 18), ((⟨76, 0, 77, 1⟩ : rectT), none, 19), ((⟨80, 0, 81, 1⟩ : rectT), none, 20), ((⟨84, 0, 85, 1⟩ : rectT), none, 21), ((⟨88, 0, 89, 1⟩ : rectT), none, 22), ((⟨92, 0, 93, 1⟩ : rectT), none, 23), ((⟨96, 0, 97, 1⟩ : rectT), none, 24), ((⟨100, 0, 101, 1⟩ : rectT), none, 25), ((⟨104, 0, 105, 1⟩ : rectT), none, 26)]), 0), ((⟨108, 0, 141, 1⟩ : rectT), some (nodeT.mk 0 [((⟨108, 0, 109, 1⟩ : rectT), none, 27), ((⟨112, 0, 113, 1⟩ : rectT), none, 28), ((⟨116, 0, 117, 1⟩ : rectT), none, 29), ((⟨120, 0, 121, 1⟩ : rectT), none, 30), ((⟨124, 0, 125, 1⟩ : rectT), none, 31), ((⟨128, 0, 129, 1⟩ : rectT), none, 32), ((⟨132, 0, 133, 1⟩ : rectT), none, 33), ((⟨136, 0, 137, 1⟩ : rectT), none, 34), ((⟨140, 0, 141, 1⟩ : rectT), none, 35)]), 0), ((⟨144, 0, 177, 1⟩ : rectT), some (nodeT.mk 0 [((⟨144, 0, 145, 1⟩ : rectT), none, 36), ((⟨148, 0, 149, 1⟩ : rectT), none, 37), ((⟨152, 0, 153, 1⟩ : rectT), none, 38), ((⟨156, 0, 157, 1⟩ : rectT), none, 39), ((⟨160, 0, 161, 1⟩ : rectT), none, 40), ((⟨164, 0, 165, 1⟩ : rectT), none, 41), ((⟨168, 0, 169, 1⟩ : rectT), none, 42), ((⟨172, 0, 173, 1⟩ : rectT), none, 43), ((⟨176, 0, 177, 1⟩ : rectT), none, 44)]), 0), ((⟨180, 0, 213, 1⟩ : rectT), some (nodeT.mk 0 [((⟨180, 0, 181, 1⟩ : rectT), none, 45), ((⟨184, 0, 185, 1⟩ : rectT), none, 46), ((⟨188, 0, 189, 1⟩ : rectT), none, 47), ((⟨192, 0, 193, 1⟩ : rectT), none, 48), ((⟨196, 0, 197, 1⟩ : rectT), none, 49), ((⟨200, 0, 201, 1⟩ : rectT), none, 50), ((⟨204, 0, 205, 1⟩ : rectT), none, 51), ((⟨208, 0, 209, 1⟩ : rectT), none, 52), ((⟨212, 0, 213, 1⟩ : rectT), none, 53)]), 0), ((⟨216, 0, 249, 1⟩ : rectT), some (nodeT.mk 0 [((⟨216, 0, 217, 1⟩ : rectT), none, 54), ((⟨220, 0, 221, 1⟩ : rectT), none, 55), ((⟨224, 0, 225, 1⟩ : rectT), none, 56), ((⟨228, 0, 229, 1⟩ : rectT), none, 57), ((⟨232, 0, 233, 1⟩ : rectT), none, 58), ((⟨236, 0, 237, 1⟩ : rectT), none, 59), ((⟨240, 0, 241, 1⟩ : rectT), none, 60), ((⟨244, 0, 245, 1⟩ : rectT), none, 61), ((⟨248, 0, 249, 1⟩ : rectT), none, 62)]), 0), ((⟨252, 0, 285, 1⟩ : rectT), some (nodeT.mk 0 [((⟨252, 0, 253, 1⟩ : rectT), none, 63), ((⟨256, 0, 257, 1⟩ : rectT), none, 64), ((⟨260, 0, 261, 1⟩ : rectT), none, 65), ((⟨264, 0, 265, 1⟩ : rectT), none, 66), ((⟨268, 0, 269, 1⟩ : rectT), none, 67), ((⟨272, 0, 273, 1⟩ : rectT), none, 68), ((⟨276, 0, 277, 1⟩ : rectT), none, 69), ((⟨280, 0, 281, 1⟩ : rectT), none, 70), ((⟨284, 0, 285, 1⟩ : rectT), none, 71)]), 0), ((⟨288, 0, 317, 1⟩ : rectT), some (nodeT.mk 0 [((⟨288, 0, 289, 1⟩ : rectT), none, 72), ((⟨292, 0, 293, 1⟩ : rectT), none, 73), ((⟨296, 0, 297, 1⟩ : rectT), none, 74), ((⟨300, 0, 301, 1⟩ : rectT), none, 75), ((⟨304, 0, 305, 1⟩ : rectT), none, 76), ((⟨308, 0, 309, 1⟩ : rectT), none, 77), ((⟨312, 0, 313, 1⟩ : rectT), none, 78), ((⟨316, 0, 317, 1⟩ : rectT), none, 79)]), 0)]

/-- The tree after the first 84 inserts of the scenario. -/
def state84 : nodeT :=
  nodeT.mk 1 [((⟨0, 0, 33, 1⟩ : rectT), some (nodeT.mk 0 [((⟨0, 0, 1, 1⟩ : rectT), none, 0), ((⟨4, 0, 5, 1⟩ : rectT), none, 1), ((⟨8, 0, 9, 1⟩ : rectT), none, 2), ((⟨12, 0, 13, 1⟩ : rectT), none, 3), ((⟨16, 0, 17, 1⟩ : rectT), none, 4), ((⟨20, 0, 21, 1⟩ : rectT), none, 5), ((⟨24, 0, 25, 1⟩ : rectT), none, 6), ((⟨28, 0, 29, 1⟩ : rectT), none, 7), ((⟨32, 0, 33, 1⟩ : rectT), none, 8)]), 0), ((⟨36, 0, 69, 1⟩ : rectT), some (nodeT.mk 0 [((⟨36, 0, 37, 1⟩ : rectT), none, 9), ((⟨40, 0, 41, 1⟩ : rectT), none, 10), ((⟨44, 0, 45, 1⟩ : rectT), none, 11), ((⟨48, 0, 49, 1⟩ : rectT), none, 12), ((⟨52, 0, 53, 1⟩ : rectT), none, 13), ((⟨56, 0, 57, 1⟩ : rectT), none, 14), ((⟨60, 0, 61, 1⟩ : rectT), none, 15), ((⟨64, 0, 65, 1⟩ : rectT), none, 16), ((⟨68, 0, 69, 1⟩ : rectT), none, 17)]), 0), ((⟨72, 0, 105, 1⟩ : rectT), some (nodeT.mk 0 [((⟨72, 0, 73, 1⟩ : rectT), none, 18), ((⟨76, 0, 77, 1⟩ : rectT), none, 19), ((⟨80, 0, 81, 1⟩ : rectT), none, 20), ((⟨84, 0, 85, 1⟩ : rectT), none, 21), ((⟨88, 0, 89, 1⟩ : rectT), none, 22), ((⟨92, 0, 93, 1⟩ : rectT), none, 23), ((⟨96, 0, 97, 1⟩ : rectT), none, 24), ((⟨100, 0, 101, 1⟩ : rectT), none, 25), ((⟨104, 0, 105, 1⟩ : rectT), none, 26)]), 0), ((⟨108, 0, 141, 1⟩ : rectT), some (nodeT.mk 0 [((⟨108, 0, 109, 1⟩ : rectT), none, 27), ((⟨112, 0, 113, 1⟩ : rectT), none, 28), ((⟨116, 0, 117, 1⟩ : rectT), none, 29), ((⟨120, 0, 121, 1⟩ : rectT), none, 30), ((⟨124, 0, 125, 1⟩ : rectT), none, 31), ((⟨128, 0, 129, 1⟩ : rectT), none, 32), ((⟨132, 0, 133, 1⟩ : rectT), none, 33), ((⟨136, 0, 137, 1⟩ : rectT), none, 34), ((⟨140, 0, 141, 1⟩ : rectT), none, 35)]), 0), ((⟨144, 0, 177, 1⟩ : rectT), some (nodeT.mk 0 [((⟨144, 0, 145, 1⟩ : rectT), none, 36), ((⟨148, 0, 149, 1⟩ : rectT), none, 37), ((⟨152, 0, 153, 1⟩ : rectT), none, 38), ((⟨156, 0, 157, 1⟩ : rectT), none, 39), ((⟨160, 0, 161, 1⟩ : rectT), none, 40), ((⟨164, 0, 165, 1⟩ : rectT), none, 41), ((⟨168, 0, 169, 1⟩ : rectT), none, 42), ((⟨172, 0, 173, 1⟩ : rectT), none, 43), ((⟨176, 0, 177, 1⟩ : rectT), none, 44)]), 0), ((⟨180, 0, 213, 1⟩ : rectT), some (nodeT.mk 0 [((⟨180, 0, 181, 1⟩ : rectT), none, 45), ((⟨184, 0, 185, 1⟩ : rectT), none, 46), ((⟨188, 0, 189, 1⟩ : rectT), none, 47), ((⟨192, 0, 193, 1⟩ : rectT), none, 48), ((⟨196, 0, 197, 1⟩ : rectT), none, 49), ((⟨200, 0, 201, 1⟩ : rectT), none, 50), ((⟨204, 0, 205, 1⟩ : rectT), none, 51), ((⟨208, 0, 209, 1⟩ : rectT), none, 52), ((⟨212, 0, 213, 1⟩ : rectT), none, 53)]), 0), ((⟨216, 0, 249, 1⟩ : rectT), some (nodeT.mk 0 [((⟨216, 0, 217, 1⟩ : rectT), none, 54), ((⟨220, 0, 221, 1⟩ : rectT), none, 55), ((⟨224, 0, 225, 1⟩ : rectT), none, 56), ((⟨228, 0, 229, 1⟩ : rectT), none, 57), ((⟨232, 0, 233, 1⟩ : rectT), none, 58), ((⟨236, 0, 237, 1⟩ : rectT), none, 59), ((⟨240, 0, 241, 1⟩ : rectT), none, 60), ((⟨244, 0, 245, 1⟩ : rectT), none, 61), ((⟨248, 0, 249, 1⟩ : rectT), none, 62)]), 0), ((⟨252, 0, 285, 1⟩ : rectT), some (nodeT.mk 0 [((⟨252, 0, 253, 1⟩ : rectT), none, 63), ((⟨256, 0, 257, 1⟩ : rectT), none, 64), ((⟨260, 0, 261, 1⟩ : rectT), none, 65), ((⟨264, 0, 265, 1⟩ : rectT), none, 66), ((⟨268, 0, 269, 1⟩ : rectT), none, 67), ((⟨272, 0, 273, 1⟩ : rectT), none, 68), ((⟨276, 0, 277, 1⟩ : rectT), none, 69), ((⟨280, 0, 281, 1⟩ : rectT), none, 70), ((⟨284, 0, 285, 1⟩ : rectT), none, 71)]), 0), ((⟨288, 0, 333, 1⟩ : rectT), some (nodeT.mk 0 [((⟨288, 0, 289, 1⟩ : rectT), none, 72), ((⟨292, 0, 293, 1⟩ : rectT), none, 73), ((⟨296, 0, 297, 1⟩ : rectT), none, 74), ((⟨300, 0, 301, 1⟩ : rectT), none, 75), ((⟨304, 0, 305, 1⟩ : rectT), none, 76), ((⟨308, 0, 309, 1⟩ : rectT), none, 77), ((⟨312, 0, 313, 1⟩ : rectT), none, 78), ((⟨316, 0, 317, 1⟩ : rectT), none, 79), ((⟨320, 0, 321, 1⟩ : rectT), none, 80), ((⟨324, 0, 325, 1⟩ : rectT), none, 81), ((⟨328, 0, 329, 1⟩ : rectT), none, 82), ((⟨332, 0, 333, 1⟩ : rectT), none, 83)]), 0)]

/-- The tree after the first 88 inserts of the scenario. -/
def state88 : nodeT :=
  nodeT.mk 1 [((⟨0, 0, 33, 1⟩ : rectT), some (nodeT.mk 0 [((⟨0, 0, 1, 1⟩ : rectT), none, 0), ((⟨4, 0, 5, 1⟩ : rectT), none, 1), ((⟨8, 0, 9, 1⟩ : rectT), none, 2), ((⟨12, 0, 13, 1⟩ : rectT), none, 3), ((⟨16, 0, 17, 1⟩ : rectT), none, 4), ((⟨20, 0, 21, 1⟩ : rectT), none, 5), ((⟨24, 0, 25, 1⟩ : rectT), none, 6), ((⟨28, 0, 29, 1⟩ : rectT), none, 7), ((⟨32, 0, 33, 1⟩ : rectT), none, 8)]), 0), ((⟨36, 0, 69, 1⟩ : rectT), some (nodeT.mk 0 [((⟨36, 0, 37, 1⟩ : rectT), none, 9), ((⟨40, 0, 41, 1⟩ : rectT), none, 10), ((⟨44, 0, 45, 1⟩ : rectT), none, 11), ((⟨48, 0, 49, 1⟩ : rectT), none, 12), ((⟨52, 0, 53, 1⟩ : rectT), none, 13), ((⟨56, 0, 57, 1⟩ : rectT), none, 14), ((⟨60, 0, 61, 1⟩ : rectT), none, 15), ((⟨64, 0, 65, 1⟩ : rectT), none, 16), ((⟨68, 0, 69, 1⟩ : rectT), none, 17)]), 0), ((⟨72, 0, 105, 1⟩ : rectT), some (nodeT.mk 0 [((⟨72, 0, 73, 1⟩ : rectT), none, 18), ((⟨76, 0, 77, 1⟩ : rectT), none, 19), ((⟨80, 0, 81, 1⟩ : rectT), none, 20), ((⟨84, 0, 85, 1⟩ : rectT), none, 21), ((⟨88, 0, 89, 1⟩ : rectT), none, 22), ((⟨92, 0, 93, 1⟩ : rectT), none, 23), ((⟨96, 0, 97, 1⟩ : rectT), none, 24), ((⟨100, 0, 101, 1⟩ : rectT), none, 25), ((⟨104, 0, 105, 1⟩ : rectT), none, 26)]), 0), ((⟨108, 0, 141, 1⟩ : rectT), some (nodeT.mk 0 [((⟨108, 0, 109, 1⟩ : rectT), none, 27), ((⟨112, 0, 113, 1⟩ : rectT), none, 28), ((⟨116, 0, 117, 1⟩ : rectT), none, 29), ((⟨120, 0, 121, 1⟩ : rectT), none, 30), ((⟨124, 0, 125, 1⟩ : rectT), none, 31), ((⟨128, 0, 129, 1⟩ : rectT), none, 32), ((⟨132, 0, 133, 1⟩ : rectT), none, 33), ((⟨136, 0, 137, 1⟩ : rectT), none, 34), ((⟨140, 0, 141, 1⟩ : rectT), none, 35)]), 0), ((⟨144, 0, 177, 1⟩ : rectT), some (nodeT.mk 0 [((⟨144, 0, 145, 1⟩ : rectT), none, 36), ((⟨148, 0, 149, 1⟩ : rectT), none, 37), ((⟨152, 0, 153, 1⟩ : rectT), none, 38), ((⟨156, 0, 157, 1⟩ : rectT), none, 39), ((⟨160, 0, 161, 1⟩ : rectT), none, 40), ((⟨164, 0, 165, 1⟩ : rectT), none, 41), ((⟨168, 0, 169, 1⟩ : rectT), none, 42), ((⟨172, 0, 173, 1⟩ : rectT), none, 43), ((⟨176, 0, 177, 1⟩ : rectT), none, 44)]), 0), ((⟨180, 0, 213, 1⟩ : rectT), some (nodeT.mk 0 [((⟨180, 0, 181, 1⟩ : rectT), none, 45), ((⟨184, 0, 185, 1⟩ : rectT), none, 46), ((⟨188, 0, 189, 1⟩ : rectT), none, 47), ((⟨192, 0, 193, 1⟩ : rectT), none, 48), ((⟨196, 0, 197, 1⟩ : rectT), none, 49), ((⟨200, 0, 201, 1⟩ : rectT), none, 50), ((⟨204, 0, 205, 1⟩ : rectT), none, 51), ((⟨208, 0, 209, 1⟩ : rectT), none, 52), ((⟨212, 0, 213, 1⟩ : rectT), none, 53)]), 0), ((⟨216, 0, 249, 1⟩ : rectT), some (nodeT.mk 0 [((⟨216, 0, 217, 1⟩ : rectT), none, 54), ((⟨220, 0, 221, 1⟩ : rectT), none, 55), ((⟨224, 0, 225, 1⟩ : rectT), none, 56), ((⟨228, 0, 229, 1⟩ : rectT), none, 57), ((⟨232, 0, 233, 1⟩ : rectT), none, 58), ((⟨236, 0, 237, 1⟩ : rectT), none, 59), ((⟨240, 0, 241, 1⟩ : rectT), none, 60), ((⟨244, 0, 245, 1⟩ : rectT), none, 61), ((⟨248, 0, 249, 1⟩ : rectT), none, 62)]), 0), ((⟨252, 0, 285, 1⟩ : rectT), some (nodeT.mk 0 [((⟨252, 0, 253, 1⟩ : rectT), none, 63), ((⟨256, 0, 257, 1⟩ : rectT), none, 64), ((⟨260, 0, 261, 1⟩ : rectT), none, 65), ((⟨264, 0, 265, 1⟩ : rectT), none, 66), ((⟨268, 0, 269, 1⟩ : rectT), none, 67), ((⟨272, 0, 273, 1⟩ : rectT), none, 68), ((⟨276, 0, 277, 1⟩ : rectT), none, 69), ((⟨280, 0, 281, 1⟩ : rectT), none, 70), ((⟨284, 0, 285, 1⟩ : rectT), none, 71)]), 0), ((⟨288, 0, 349, 1⟩ : rectT), some (nodeT.mk 0 [((⟨288, 0, 289, 1⟩ : rectT), none, 72), ((⟨292, 0, 293, 1⟩ : rectT), none, 73), ((⟨296, 0, 297, 1⟩ : rectT), none, 74), ((⟨300, 0, 301, 1⟩ : rectT), none, 75), ((⟨304, 0, 305, 1⟩ : rectT), none, 76), ((⟨308, 0, 309, 1⟩ : rectT), none, 77), ((⟨312, 0, 313, 1⟩ : rectT), none, 78), ((⟨316, 0, 317, 1⟩ : rectT), none, 79), ((⟨320, 0, 321, 1⟩ : rectT), none, 80), ((⟨324, 0, 325, 1⟩ : rectT), none, 81), ((⟨328, 0, 329, 1⟩ : rectT), none, 82), ((⟨332, 0, 333, 1⟩ : rectT), none, 83), ((⟨336, 0, 337, 1⟩ : rectT), none, 84), ((⟨340, 0, 341, 1⟩ : rectT), none, 85), ((⟨344, 0, 345, 1⟩ : rectT), none, 86), ((⟨348, 0, 349, 1⟩ : rectT), none, 87)]), 0)]

/-- The tree after the first 92 inserts of the scenario. -/
def state92 : nodeT :=
  nodeT.mk 1 [((⟨0, 0, 33, 1⟩ : rectT), some (nodeT.mk 0 [((⟨0, 0, 1, 1⟩ : rectT), none, 0), ((⟨4, 0, 5, 1⟩ : rectT), none, 1), ((⟨8, 0, 9, 1⟩ : rectT), none, 2), ((⟨12, 0, 13, 1⟩ : rectT), none, 3), ((⟨16, 0, 17, 1⟩ : rectT), none, 4), ((⟨20, 0, 21, 1⟩ : rectT), none, 5), ((⟨24, 0, 25, 1⟩ : rectT), none, 6), ((⟨28, 0, 29, 1⟩ : rectT), none, 7), ((⟨32, 0, 33, 1⟩ : rectT), none, 8)]), 0), ((⟨36, 0, 69, 1⟩ : rectT), some (nodeT.mk 0 [((⟨36, 0, 37, 1⟩ : rectT), none, 9), ((⟨40, 0, 41, 1⟩ : rectT), none, 10), ((⟨44, 0, 45, 1⟩ : rectT), none, 11), ((⟨48, 0, 49, 1⟩ : rectT), none, 12), ((⟨52, 0, 53, 1⟩ : rectT), none, 13), ((⟨56, 0, 57, 1⟩ : rectT), none, 14), ((⟨60, 0, 61, 1⟩ : rectT), none, 15), ((⟨64, 0, 65, 1⟩ : rectT), none, 16), ((⟨68, 0, 69, 1⟩ : rectT), none, 17)]), 0), ((⟨72, 0, 105, 1⟩ : rectT), some (nodeT.mk 0 [((⟨72, 0, 73, 1⟩ : rectT), none, 18), ((⟨76, 0, 77, 1⟩ : rectT), none, 19), ((⟨80, 0, 81, 1⟩ : rectT), none, 20), ((⟨84, 0, 85, 1⟩ : rectT), none, 21), ((⟨88, 0, 89, 1⟩ : rectT), none, 22), ((⟨92, 0, 93, 1⟩ : rectT), none, 23), ((⟨96, 0, 97, 1⟩ : rectT), none, 24), ((⟨100, 0, 101, 1⟩ : rectT), none, 25), ((⟨104, 0, 105, 1⟩ : rectT), none, 26)]), 0), ((⟨108, 0, 141, 1⟩ : rectT), some (nodeT.mk 0 [((⟨108, 0, 109, 1⟩ : rectT), none, 27), ((⟨112, 0, 113, 1⟩ : rectT), none, 28), ((⟨116, 0, 117, 1⟩ : rectT), none, 29), ((⟨120, 0, 121, 1⟩ : rectT), none, 30), ((⟨124, 0, 125, 1⟩ : rectT), none, 31), ((⟨128, 0, 129, 1⟩ : rectT), none, 32), ((⟨132, 0, 133, 1⟩ : rectT), none, 33), ((⟨136, 0, 137, 1⟩ : rectT), none, 34), ((⟨140, 0, 141, 1⟩ : rectT), none, 35)]), 0), ((⟨144, 0, 177, 1⟩ : rectT), some (nodeT.mk 0 [((⟨144, 0, 145, 1⟩ : rectT), none, 36), ((⟨148, 0, 149, 1⟩ : rectT), none, 37), ((⟨152, 0, 153, 1⟩ : rectT), none, 38), ((⟨156, 0, 157, 1⟩ : rectT), none, 39), ((⟨160, 0, 161, 1⟩ : rectT), none, 40), ((⟨164, 0, 165, 1⟩ : rectT), none, 41), ((⟨168, 0, 169, 1⟩ : rectT), none, 42), ((⟨172, 0, 173, 1⟩ : rectT), none, 43), ((⟨176, 0, 177, 1⟩ : rectT), none, 44)]), 0), ((⟨180, 0, 213, 1⟩ : rectT), some (nodeT.mk 0 [((⟨180, 0, 181, 1⟩ : rectT), none, 45), ((⟨184, 0, 185, 1⟩ : rectT), none, 46), ((⟨188, 0, 189, 1⟩ : rectT), none, 47), ((⟨192, 0, 193, 1⟩ : rectT), none, 48), ((⟨196, 0, 197, 1⟩ : rectT), none, 49), ((⟨200, 0, 201, 1⟩ : rectT), none, 50), ((⟨204, 0, 205, 1⟩ : rectT), none, 51), ((⟨208, 0, 209, 1⟩ : rectT), none, 52), ((⟨212, 0, 213, 1⟩ : rectT), none, 53)]), 0), ((⟨216, 0, 249, 1⟩ : rectT), some (nodeT.mk 0 [((⟨216, 0, 217, 1⟩ : rectT), none, 54), ((⟨220, 0, 221, 1⟩ : rectT), none, 55), ((⟨224, 0, 225, 1⟩ : rectT), none, 56), ((⟨228, 0, 229, 1⟩ : rectT), none, 57), ((⟨232, 0, 233, 1⟩ : rectT), none, 58), ((⟨236, 0, 237, 1⟩ : rectT), none, 59), ((⟨240, 0, 241, 1⟩ : rectT), none, 60), ((⟨244, 0, 245, 1⟩ : rectT), none, 61), ((⟨248, 0, 249, 1⟩ : rectT), none, 62)]), 0), ((⟨252, 0, 285, 1⟩ : rectT), some (nodeT.mk 0 [((⟨252, 0, 253, 1⟩ : rectT), none, 63), ((⟨256, 0, 257, 1⟩ : rectT), none, 64), ((⟨260, 0, 261, 1⟩ : rectT), none, 65), ((⟨264, 0, 265, 1⟩ : rectT), none, 66), ((⟨268, 0, 269, 1⟩ : rectT), none, 67), ((⟨272, 0, 273, 1⟩ : rectT), none, 68), ((⟨276, 0, 277, 1⟩ : rectT), none, 69), ((⟨280, 0, 281, 1⟩ : rectT), none, 70), ((⟨284, 0, 285, 1⟩ : rectT), none, 71)]), 0), ((⟨288, 0, 321, 1⟩ : rectT), some (nodeT.mk 0 [((⟨288, 0, 289, 1⟩ : rectT), none, 72), ((⟨292, 0, 293, 1⟩ : rectT), none, 73), ((⟨296, 0, 297, 1⟩ : rectT), none, 74), ((⟨300, 0, 301, 1⟩ : rectT), none, 75), ((⟨304, 0, 305, 1⟩ : rectT), none, 76), ((⟨308, 0, 309, 1⟩ : rectT), none, 77), ((⟨312, 0, 313, 1⟩ : rectT), none, 78), ((⟨316, 0, 317, 1⟩ : rectT), none, 79), ((⟨320, 0, 321, 1⟩ : rectT), none, 80)]), 0), ((⟨324, 0, 365, 1⟩ : rectT), some (nodeT.mk 0 [((⟨324, 0, 325, 1⟩ : rectT), none, 81), ((⟨328, 0, 329, 1⟩ : rectT), none, 82), ((⟨332, 0, 333, 1⟩ : rectT), none, 83), ((⟨336, 0, 337, 1⟩ : rectT), none, 84), ((⟨340, 0, 341, 1⟩ : rectT), none, 85), ((⟨344, 0, 345, 1⟩ : rectT), none, 86), ((⟨348, 0, 349, 1⟩ : rectT), none, 87), ((⟨352, 0, 353, 1⟩ : rectT), none, 88), ((⟨356, 0, 357, 1⟩ : rectT), none, 89), ((⟨360, 0, 361, 1⟩ : rectT), none, 90), ((⟨364, 0, 365, 1⟩ : rectT), none, 91)]), 0)]

/-- The tree after the first 96 inserts of the scenario. -/
def state96 : nodeT :=
  nodeT.mk 1 [((⟨0, 0, 33, 1⟩ : rectT), some (nodeT.mk 0 [((⟨0, 0, 1, 1⟩ : rectT), none, 0), ((⟨4, 0, 5, 1⟩ : rectT), none, 1), ((⟨8, 0, 9, 1⟩ : rectT), none, 2), ((⟨12, 0, 13, 1⟩ : rectT), none, 3), ((⟨16, 0, 17, 1⟩ : rectT), none, 4), ((⟨20, 0, 21, 1⟩ : rectT), none, 5), ((⟨24, 0, 25, 1⟩ : rectT), none, 6), ((⟨28, 0, 29, 1⟩ : rectT), none, 7), ((⟨32, 0, 33, 1⟩ : rectT), none, 8)]), 0), ((⟨36, 0, 69, 1⟩ : rectT), some (nodeT.mk 0 [((⟨36, 0, 37, 1⟩ : rectT), none, 9), ((⟨40, 0, 41, 1⟩ : rectT), none, 10), ((⟨44, 0, 45, 1⟩ : rectT), none, 11), ((⟨48, 0, 49, 1⟩ : rectT), none, 12), ((⟨52, 0, 53, 1⟩ : rectT), none, 13), ((⟨56, 0, 57, 1⟩ : rectT), none, 14), ((⟨60, 0, 61, 1⟩ : rectT), none, 15), ((⟨64, 0, 65, 1⟩ : rectT), none, 16), ((⟨68, 0, 69, 1⟩ : rectT), none, 17)]), 0), ((⟨72, 0, 105, 1⟩ : rectT), some (nodeT.mk 0 [((⟨72, 0, 73, 1⟩ : rectT), none, 18), ((⟨76, 0, 77, 1⟩ : rectT), none, 19), ((⟨80, 0, 81, 1⟩ : rectT), none, 20), ((⟨84, 0, 85, 1⟩ : rectT), none, 21), ((⟨88, 0, 89, 1⟩ : rectT), none, 22), ((⟨92, 0, 93, 1⟩ : rectT), none, 23), ((⟨96, 0, 97, 1⟩ : rectT), none, 24), ((⟨100, 0, 101, 1⟩ : rectT), none, 25), ((⟨104, 0, 105, 1⟩ : rectT), none, 26)]), 0), ((⟨108, 0, 141, 1⟩ : rectT), some (nodeT.mk 0 [((⟨108, 0, 109, 1⟩ : rectT), none, 27), ((⟨112, 0, 113, 1⟩ : rectT), none, 28), ((⟨116, 0, 117, 1⟩ : rectT), none, 29), ((⟨120, 0, 121, 1⟩ : rectT), none, 30), ((⟨124, 0, 125, 1⟩ : rectT), none, 31), ((⟨128, 0, 129, 1⟩ : rectT), none, 32), ((⟨132, 0, 133, 1⟩ : rectT), none, 33), ((⟨136, 0, 137, 1⟩ : rectT), none, 34), ((⟨140, 0, 141, 1⟩ : rectT), none, 35)]), 0), ((⟨144, 0, 177, 1⟩ : rectT), some (nodeT.mk 0 [((⟨144, 0, 145, 1⟩ : rectT), none, 36), ((⟨148, 0, 149, 1⟩ : rectT), none, 37), ((⟨152, 0, 153, 1⟩ : rectT), none, 38), ((⟨156, 0, 157, 1⟩ : rectT), none, 39), ((⟨160, 0, 161, 1⟩ : rectT), none, 40), ((⟨164, 0, 165, 1⟩ : rectT), none, 41), ((⟨168, 0, 169, 1⟩ : rectT), none, 42), ((⟨172, 0, 173, 1⟩ : rectT), none, 43), ((⟨176, 0, 177, 1⟩ : rectT), none, 44)]), 0), ((⟨180, 0, 213, 1⟩ : rectT), some (nodeT.mk 0 [((⟨180, 0, 181, 1⟩ : rectT), none, 45), ((⟨184, 0, 185, 1⟩ : rectT), none, 46), ((⟨188, 0, 189, 1⟩ : rectT), none, 47), ((⟨192, 0, 193, 1⟩ : rectT), none, 48), ((⟨196, 0, 197, 1⟩ : rectT), none, 49), ((⟨200, 0, 201, 1⟩ : rectT), none, 50), ((⟨204, 0, 205, 1⟩ : rectT), none, 51), ((⟨208, 0, 209, 1⟩ : rectT), none, 52), ((⟨212, 0, 213, 1⟩ : rectT), none, 53)]), 0), ((⟨216, 0, 249, 1⟩ : rectT), some (nodeT.mk 0 [((⟨216, 0, 217, 1⟩ : rectT), none, 54), ((⟨220, 0, 221, 1⟩ : rectT), none, 55), ((⟨224, 0, 225, 1⟩ : rectT), none, 56), ((⟨228, 0, 229, 1⟩ : rectT), none, 57), ((⟨232, 0, 233, 1⟩ : rectT), none, 58), ((⟨236, 0, 237, 1⟩ : rectT), none, 59), ((⟨240, 0, 241, 1⟩ : rectT), none, 60), ((⟨244, 0, 245, 1⟩ : rectT), none, 61), ((⟨248, 0, 249, 1⟩ : rectT), none, 62)]), 0), ((⟨252, 0, 285, 1⟩ : rectT), some (nodeT.mk 0 [((⟨252, 0, 253, 1⟩ : rectT), none, 63), ((⟨256, 0, 257, 1⟩ : rectT), none, 64), ((⟨260, 0, 261, 1⟩ : rectT), none, 65), ((⟨264, 0, 265, 1⟩ : rectT), none, 66), ((⟨268, 0, 269, 1⟩ : rectT), none, 67), ((⟨272, 0, 273, 1⟩ : rectT), none, 68), ((⟨276, 0, 277, 1⟩ : rectT), none, 69), ((⟨280, 0, 281, 1⟩ : rectT), none, 70), ((⟨284, 0, 285, 1⟩ : rectT), none, 71)]), 0), ((⟨288, 0, 321, 1⟩ : rectT), some (nodeT.mk 0 [((⟨288, 0, 289, 1⟩ : rectT), none, 72), ((⟨292, 0, 293, 1⟩ : rectT), none, 73), ((⟨296, 0, 297, 1⟩ : rectT), none, 74), ((⟨300, 0, 301, 1⟩ : rectT), none, 75), ((⟨304, 0, 305, 1⟩ : rectT), none, 76), ((⟨308, 0, 309, 1⟩ : rectT), none, 77), ((⟨312, 0, 313, 1⟩ : rectT), none, 78), ((⟨316, 0, 317, 1⟩ : rectT), none, 79), ((⟨320, 0, 321, 1⟩ : rectT), none, 80)]), 0), ((⟨324, 0, 381, 1⟩ : rectT), some (nodeT.mk 0 [((⟨324, 0, 325, 1⟩ : rectT), none, 81), ((⟨328, 0, 329, 1⟩ : rectT), none, 82), ((⟨332, 0, 333, 1⟩ : rectT), none, 83), ((⟨336, 0, 337, 1⟩ : rectT), none, 84), ((⟨340, 0, 341, 1⟩ : rectT), none, 85), ((⟨344, 0, 345, 1⟩ : rectT), none, 86), ((⟨348, 0, 349, 1⟩ : rectT), none, 87), ((⟨352, 0, 353, 1⟩ : rectT), none, 88), ((⟨356, 0, 357, 1⟩ : rectT), none, 89), ((⟨360, 0, 361, 1⟩ : rectT), none, 90), ((⟨364, 0, 365, 1⟩ : rectT), none, 91), ((⟨368, 0, 369, 1⟩ : rectT), none, 92), ((⟨372, 0, 373, 1⟩ : rectT), none, 93), ((⟨376, 0, 377, 1⟩ : rectT), none, 94), ((⟨380, 0, 381, 1⟩ : rectT), none, 95)]), 0)]

/-- The tree after the first 100 inserts of the scenario. -/
def state100 : nodeT :=
  nodeT.mk 1 [((⟨0, 0, 33, 1⟩ : rectT), some (nodeT.mk 0 [((⟨0, 0, 1, 1⟩ : rectT), none, 0), ((⟨4, 0, 5, 1⟩ : rectT), none, 1), ((⟨8, 0, 9, 1⟩ : rectT), none, 2), ((⟨12, 0, 13, 1⟩ : rectT), none, 3), ((⟨16, 0, 17, 1⟩ : rectT), none, 4), ((⟨20, 0, 21, 1⟩ : rectT), none, 5), ((⟨24, 0, 25, 1⟩ : rectT), none, 6), ((⟨28, 0, 29, 1⟩ : rectT), none, 7), ((⟨32, 0, 33, 1⟩ : rectT), none, 8)]), 0), ((⟨36, 0, 69, 1⟩ : rectT), some (nodeT.mk 0 [((⟨36, 0, 37, 1⟩ : rectT), none, 9), ((⟨40, 0, 41, 1⟩ : rectT), none, 10), ((⟨44, 0, 45, 1⟩ : rectT), none, 11), ((⟨48, 0, 49, 1⟩ : rectT), none, 12), ((⟨52, 0, 53, 1⟩ : rectT), none, 13), ((⟨56, 0, 57, 1⟩ : rectT), none, 14), ((⟨60, 0, 61, 1⟩ : rectT), none, 15), ((⟨64, 0, 65, 1⟩ : rectT), none, 16), ((⟨68, 0, 69, 1⟩ : rectT), none, 17)]), 0), ((⟨72, 0, 105, 1⟩ : rectT), some (nodeT.mk 0 [((⟨72, 0, 73, 1⟩ : rectT), none, 18), ((⟨76, 0, 77, 1⟩ : rectT), none, 19), ((⟨80, 0, 81, 1⟩ : rectT), none, 20), ((⟨84, 0, 85, 1⟩ : rectT), none, 21), ((⟨88, 0, 89, 1⟩ : rectT), none, 22), ((⟨92, 0, 93, 1⟩ : rectT), none, 23), ((⟨96, 0, 97, 1⟩ : rectT), none, 24), ((⟨100, 0, 101, 1⟩ : rectT), none, 25), ((⟨104, 0, 105, 1⟩ : rectT), none, 26)]), 0), ((⟨108, 0, 141, 1⟩ : rectT), some (nodeT.mk 0 [((⟨108, 0, 109, 1⟩ : rectT), none, 27), ((⟨112, 0, 113, 1⟩ : rectT), none, 28), ((⟨116, 0, 117, 1⟩ : rectT), none, 29), ((⟨120, 0, 121, 1⟩ : rectT), none, 30), ((⟨124, 0, 125, 1⟩ : rectT), none, 31), ((⟨128, 0, 129, 1⟩ : rectT), none, 32), ((⟨132, 0, 133, 1⟩ : rectT), none, 33), ((⟨136, 0, 137, 1⟩ : rectT), none, 34), ((⟨140, 0, 141, 1⟩ : rectT), none, 35)]), 0), ((⟨144, 0, 177, 1⟩ : rectT), some (nodeT.mk 0 [((⟨144, 0, 145, 1⟩ : rectT), none, 36), ((⟨148, 0, 149, 1⟩ : rectT), none, 37), ((⟨152, 0, 153, 1⟩ : rectT), none, 38), ((⟨156, 0, 157, 1⟩ : rectT), none, 39), ((⟨160, 0, 161, 1⟩ : rectT), none, 40), ((⟨164, 0, 165, 1⟩ : rectT), none, 41), ((⟨168, 0, 169, 1⟩ : rectT), none, 42), ((⟨172, 0, 173, 1⟩ : rectT), none, 43), ((⟨176, 0, 177, 1⟩ : rectT), none, 44)]), 0), ((⟨180, 0, 213, 1⟩ : rectT), some (nodeT.mk 0 [((⟨180, 0, 181, 1⟩ : rectT), none, 45), ((⟨184, 0, 185, 1⟩ : rectT), none, 46), ((⟨188, 0, 189, 1⟩ : rectT), none, 47), ((⟨192, 0, 193, 1⟩ : rectT), none, 48), ((⟨196, 0, 197, 1⟩ : rectT), none, 49), ((⟨200, 0, 201, 1⟩ : rectT), none, 50), ((⟨204, 0, 205, 1⟩ : rectT), none, 51), ((⟨208, 0, 209, 1⟩ : rectT), none, 52), ((⟨212, 0, 213, 1⟩ : rectT), none, 53)]), 0), ((⟨216, 0, 249, 1⟩ : rectT), some (nodeT.mk 0 [((⟨216, 0, 217, 1⟩ : rectT), none, 54), ((⟨220, 0, 221, 1⟩ : rectT), none, 55), ((⟨224, 0, 225, 1⟩ : rectT), none, 56), ((⟨228, 0, 229, 1⟩ : rectT), none, 57), ((⟨232, 0, 233, 1⟩ : rectT), none, 58), ((⟨236, 0, 237, 1⟩ : rectT), none, 59), ((⟨240, 0, 241, 1⟩ : rectT), none, 60), ((⟨244, 0, 245, 1⟩ : rectT), none, 61), ((⟨248, 0, 249, 1⟩ : rectT), none, 62)]), 0), ((⟨252, 0, 285, 1⟩ : rectT), some (nodeT.mk 0 [((⟨252, 0, 253, 1⟩ : rectT), none, 63), ((⟨256, 0, 257, 1⟩ : rectT), none, 64), ((⟨260, 0, 261, 1⟩ : rectT), none, 65), ((⟨264, 0, 265, 1⟩ : rectT), none, 66), ((⟨268, 0, 269, 1⟩ : rectT), none, 67), ((⟨272, 0, 273, 1⟩ : rectT), none, 68), ((⟨276, 0, 277, 1⟩ : rectT), none, 69), ((⟨280, 0, 281, 1⟩ : rectT), none, 70), ((⟨284, 0, 285, 1⟩ : rectT), none, 71)]), 0), ((⟨288, 0, 321, 1⟩ : rectT), some (nodeT.mk 0 [((⟨288, 0, 289, 1⟩ : rectT), none, 72), ((⟨292, 0, 293, 1⟩ : rectT), none, 73), ((⟨296, 0, 297, 1⟩ : rectT), none, 74), ((⟨300, 0, 301, 1⟩ : rectT), none, 75), ((⟨304, 0, 305, 1⟩ : rectT), none, 76), ((⟨308, 0, 309, 1⟩ : rectT), none, 77), ((⟨312, 0, 313, 1⟩ : rectT), none, 78), ((⟨316, 0, 317, 1⟩ : rectT), none, 79), ((⟨320, 0, 321, 1⟩ : rectT), none, 80)]), 0), ((⟨324, 0, 357, 1⟩ : rectT), some (nodeT.mk 0 [((⟨324, 0, 325, 1⟩ : rectT), none, 81), ((⟨328, 0, 329, 1⟩ : rectT), none, 82), ((⟨332, 0, 333, 1⟩ : rectT), none, 83), ((⟨336, 0, 337, 1⟩ : rectT), none, 84), ((⟨340, 0, 341, 1⟩ : rectT), none, 85), ((⟨344, 0, 345, 1⟩ : rectT), none, 86), ((⟨348, 0, 349, 1⟩ : rectT), none, 87), ((⟨352, 0, 353, 1⟩ : rectT), none, 88), ((⟨356, 0, 357, 1⟩ : rectT), none, 89)]), 0), ((⟨360, 0, 397, 1⟩ : rectT), some (nodeT.mk 0 [((⟨360, 0, 361, 1⟩ : rectT), none, 90), ((⟨364, 0, 365, 1⟩ : rectT), none, 91), ((⟨368, 0, 369, 1⟩ : rectT), none, 92), ((⟨372, 0, 373, 1⟩ : rectT), none, 93), ((⟨376, 0, 377, 1⟩ : rectT), none, 94), ((⟨380, 0, 381, 1⟩ : rectT), none, 95), ((⟨384, 0, 385, 1⟩ : rectT), none, 96), ((⟨388, 0, 389, 1⟩ : rectT), none, 97), ((⟨392, 0, 393, 1⟩ : rectT), none, 98), ((⟨396, 0, 397, 1⟩ : rectT), none, 99)]), 0)]

/-- The tree after the first 104 inserts of the scenario. -/
def state104 : nodeT :=
  nodeT.mk 1 [((⟨0, 0, 33, 1⟩ : rectT), some (nodeT.mk 0 [((⟨0, 0, 1, 1⟩ : rectT), none, 0), ((⟨4, 0, 5, 1⟩ : rectT), none, 1), ((⟨8, 0, 9, 1⟩ : rectT), none, 2), ((⟨12, 0, 13, 1⟩ : rectT), none, 3), ((⟨16, 0, 17, 1⟩ : rectT), none, 4), ((⟨20, 0, 21, 1⟩ : rectT), none, 5), ((⟨24, 0, 25, 1⟩ : rectT), none, 6), ((⟨28, 0, 29, 1⟩ : rectT), none, 7), ((⟨32, 0, 33, 1⟩ : rectT), none, 8)]), 0), ((⟨36, 0, 69, 1⟩ : rectT), some (nodeT.mk 0 [((⟨36, 0, 37, 1⟩ : rectT), none, 9), ((⟨40, 0, 41, 1⟩ : rectT), none, 10), ((⟨44, 0, 45, 1⟩ : rectT), none, 11), ((⟨48, 0, 49, 1⟩ : rectT), none, 12), ((⟨52, 0, 53, 1⟩ : rectT), none, 13), ((⟨56, 0, 57, 1⟩ : rectT), none, 14), ((⟨60, 0, 61, 1⟩ : rectT), none, 15), ((⟨64, 0, 65, 1⟩ : rectT), none, 16), ((⟨68, 0, 69, 1⟩ : rectT), none, 17)]), 0), ((⟨72, 0, 105, 1⟩ : rectT), some (nodeT.mk 0 [((⟨72, 0, 73, 1⟩ : rectT), none, 18), ((⟨76, 0, 77, 1⟩ : rectT), none, 19), ((⟨80, 0, 81, 1⟩ : rectT), none, 20), ((⟨84, 0, 85, 1⟩ : rectT), none, 21), ((⟨88, 0, 89, 1⟩ : rectT), none, 22), ((⟨92, 0, 93, 1⟩ : rectT), none, 23), ((⟨96, 0, 97, 1⟩ : rectT), none, 24), ((⟨100, 0, 101, 1⟩ : rectT), none, 25), ((⟨104, 0, 105, 1⟩ : rectT), none, 26)]), 0), ((⟨108, 0, 141, 1⟩ : rectT), some (nodeT.mk 0 [((⟨108, 0, 109, 1⟩ : rectT), none, 27), ((⟨112, 0, 113, 1⟩ : rectT), none, 28), ((⟨116, 0, 117, 1⟩ : rectT), none, 29), ((⟨120, 0, 121, 1⟩ : rectT), none, 30), ((⟨124, 0, 125, 1⟩ : rectT), none, 31), ((⟨128, 0, 129, 1⟩ : rectT), none, 32), ((⟨132, 0, 133, 1⟩ : rectT), none, 33), ((⟨136, 0, 137, 1⟩ : rectT), none, 34), ((⟨140, 0, 141, 1⟩ : rectT), none, 35)]), 0), ((⟨144, 0, 177, 1⟩ : rectT), some (nodeT.mk 0 [((⟨144, 0, 145, 1⟩ : rectT), none, 36), ((⟨148, 0, 149, 1⟩ : rectT), none, 37), ((⟨152, 0, 153, 1⟩ : rectT), none, 38), ((⟨156, 0, 157, 1⟩ : rectT), none, 39), ((⟨160, 0, 161, 1⟩ : rectT), none, 40), ((⟨164, 0, 165, 1⟩ : rectT), none, 41), ((⟨168, 0, 169, 1⟩ : rectT), none, 42), ((⟨172, 0, 173, 1⟩ : rectT), none, 43), ((⟨176, 0, 177, 1⟩ : rectT), none, 44)]), 0), ((⟨180, 0, 213, 1⟩ : rectT), some (nodeT.mk 0 [((⟨180, 0, 181, 1⟩ : rectT), none, 45), ((⟨184, 0, 185, 1⟩ : rectT), none, 46), ((⟨188, 0, 189, 1⟩ : rectT), none, 47), ((⟨192, 0, 193, 1⟩ : rectT), none, 48), ((⟨196, 0, 197, 1⟩ : rectT), none, 49), ((⟨200, 0, 201, 1⟩ : rectT), none, 50), ((⟨204, 0, 205, 1⟩ : rectT), none, 51), ((⟨208, 0, 209, 1⟩ : rectT), none, 52), ((⟨212, 0, 213, 1⟩ : rectT), none, 53)]), 0), ((⟨216, 0, 249, 1⟩ : rectT), some (nodeT.mk 0 [((⟨216, 0, 217, 1⟩ : rectT), none, 54), ((⟨220, 0, 221, 1⟩ : rectT), none, 55), ((⟨224, 0, 225, 1⟩ : rectT), none, 56), ((⟨228, 0, 229, 1⟩ : rectT), none, 57), ((⟨232, 0, 233, 1⟩ : rectT), none, 58), ((⟨236, 0, 237, 1⟩ : rectT), none, 59), ((⟨240, 0, 241, 1⟩ : rectT), none, 60), ((⟨244, 0, 245, 1⟩ : rectT), none, 61), ((⟨248, 0, 249, 1⟩ : rectT), none, 62)]), 0), ((⟨252, 0, 285, 1⟩ : rectT), some (nodeT.mk 0 [((⟨252, 0, 253, 1⟩ : rectT), none, 63), ((⟨256, 0, 257, 1⟩ : rectT), none, 64), ((⟨260, 0, 261, 1⟩ : rectT), none, 65), ((⟨264, 0, 265, 1⟩ : rectT), none, 66), ((⟨268, 0, 269, 1⟩ : rectT), none, 67), ((⟨272, 0, 273, 1⟩ : rectT), none, 68), ((⟨276, 0, 277, 1⟩ : rectT), none, 69), ((⟨280, 0, 281, 1⟩ : rectT), none, 70), ((⟨284, 0, 285, 1⟩ : rectT), none, 71)]), 0), ((⟨288, 0, 321, 1⟩ : rectT), some (nodeT.mk 0 [((⟨288, 0, 289, 1⟩ : rectT), none, 72), ((⟨292, 0, 293, 1⟩ : rectT), none, 73), ((⟨296, 0, 297, 1⟩ : rectT), none, 74), ((⟨300, 0, 301, 1⟩ : rectT), none, 75), ((⟨304, 0, 305, 1⟩ : rectT), none, 76), ((⟨308, 0, 309, 1⟩ : rectT), none, 77), ((⟨312, 0, 313, 1⟩ : rectT), none, 78), ((⟨316, 0, 317, 1⟩ : rectT), none, 79), ((⟨320, 0, 321, 1⟩ : rectT), none, 80)]), 0), ((⟨324, 0, 357, 1⟩ : rectT), some (nodeT.mk 0 [((⟨324, 0, 325, 1⟩ : rectT), none, 81), ((⟨328, 0, 329, 1⟩ : rectT), none, 82), ((⟨332, 0, 333, 1⟩ : rectT), none, 83), ((⟨336, 0, 337, 1⟩ : rectT), none, 84), ((⟨340, 0, 341, 1⟩ : rectT), none, 85), ((⟨344, 0, 345, 1⟩ : rectT), none, 86), ((⟨348, 0, 349, 1⟩ : rectT), none, 87), ((⟨352, 0, 353, 1⟩ : rectT), none, 88), ((⟨356, 0, 357, 1⟩ : rectT), none, 89)]), 0), ((⟨360, 0, 413, 1⟩ : rectT), some (nodeT.mk 0 [((⟨360, 0, 361, 1⟩ : rectT), none, 90), ((⟨364, 0, 365, 1⟩ : rectT), none, 91), ((⟨368, 0, 369, 1⟩ : rectT), none, 92), ((⟨372, 0, 373, 1⟩ : rectT), none, 93), ((⟨376, 0, 377, 1⟩ : rectT), none, 94), ((⟨380, 0, 381, 1⟩ : rectT), none, 95), ((⟨384, 0, 385, 1⟩ : rectT), none, 96), ((⟨388, 0, 389, 1⟩ : rectT), none, 97), ((⟨392, 0, 393, 1⟩ : rectT), none, 98), ((⟨396, 0, 397, 1⟩ : rectT), none, 99), ((⟨400, 0, 401, 1⟩ : rectT), none, 100), ((⟨404, 0, 405, 1⟩ : rectT), none, 101), ((⟨408, 0, 409, 1⟩ : rectT), none, 102), ((⟨412, 0, 413, 1⟩ : rectT), none, 103)]), 0)]

/-- The tree after the first 108 inserts of the scenario. -/
def state108 : nodeT :=
  nodeT.mk 1 [((⟨0, 0, 33, 1⟩ : rectT), some (nodeT.mk 0 [((⟨0, 0, 1, 1⟩ : rectT), none, 0), ((⟨4, 0, 5, 1⟩ : rectT), none, 1), ((⟨8, 0, 9, 1⟩ : rectT), none, 2), ((⟨12, 0, 13, 1⟩ : rectT), none, 3), ((⟨16, 0, 17, 1⟩ : rectT), none, 4), ((⟨20, 0, 21, 1⟩ : rectT), none, 5), ((⟨24, 0, 25, 1⟩ : rectT), none, 6), ((⟨28, 0, 29, 1⟩ : rectT), none, 7), ((⟨32, 0, 33, 1⟩ : rectT), none, 8)]), 0), ((⟨36, 0, 69, 1⟩ : rectT), some (nodeT.mk 0 [((⟨36, 0, 37, 1⟩ : rectT), none, 9), ((⟨40, 0, 41, 1⟩ : rectT), none, 10), ((⟨44, 0, 45, 1⟩ : rectT), none, 11), ((⟨48, 0, 49, 1⟩ : rectT), none, 12), ((⟨52, 0, 53, 1⟩ : rectT), none, 13), ((⟨56, 0, 57, 1⟩ : rectT), none, 14), ((⟨60, 0, 61, 1⟩ : rectT), none, 15), ((⟨64, 0, 65, 1⟩ : rectT), none, 16), ((⟨68, 0, 69, 1⟩ : rectT), none, 17)]), 0), ((⟨72, 0, 105, 1⟩ : rectT), some (nodeT.mk 0 [((⟨72, 0, 73, 1⟩ : rectT), none, 18), ((⟨76, 0, 77, 1⟩ : rectT), none, 19), ((⟨80, 0, 81, 1⟩ : rectT), none, 20), ((⟨84, 0, 85, 1⟩ : rectT), none, 21), ((⟨88, 0, 89, 1⟩ : rectT), none, 22), ((⟨92, 0, 93, 1⟩ : rectT), none, 23), ((⟨96, 0, 97, 1⟩ : rectT), none, 24), ((⟨100, 0, 101, 1⟩ : rectT), none, 25), ((⟨104, 0, 105, 1⟩ : rectT), none, 26)]), 0), ((⟨108, 0, 141, 1⟩ : rectT), some (nodeT.mk 0 [((⟨108, 0, 109, 1⟩ : rectT), none, 27), ((⟨112, 0, 113, 1⟩ : rectT), none, 28), ((⟨116, 0, 117, 1⟩ : rectT), none, 29), ((⟨120, 0, 121, 1⟩ : rectT), none, 30), ((⟨124, 0, 125, 1⟩ : rectT), none, 31), ((⟨128, 0, 129, 1⟩ : rectT), none, 32), ((⟨132, 0, 133, 1⟩ : rectT), none, 33), ((⟨136, 0, 137, 1⟩ : rectT), none, 34), ((⟨140, 0, 141, 1⟩ : rectT), none, 35)]), 0), ((⟨144, 0, 177, 1⟩ : rectT), some (nodeT.mk 0 [((⟨144, 0, 145, 1⟩ : rectT), none, 36), ((⟨148, 0, 149, 1⟩ : rectT), none, 37), ((⟨152, 0, 153, 1⟩ : rectT), none, 38), ((⟨156, 0, 157, 1⟩ : rectT), none, 39), ((⟨160, 0, 161, 1⟩ : rectT), none, 40), ((⟨164, 0, 165, 1⟩ : rectT), none, 41), ((⟨168, 0, 169, 1⟩ : rectT), none, 42), ((⟨172, 0, 173, 1⟩ : rectT), none, 43), ((⟨176, 0, 177, 1⟩ : rectT), none, 44)]), 0), ((⟨180, 0, 213, 1⟩ : rectT), some (nodeT.mk 0 [((⟨180, 0, 181, 1⟩ : rectT), none, 45), ((⟨184, 0, 185, 1⟩ : rectT), none, 46), ((⟨188, 0, 189, 1⟩ : rectT), none, 47), ((⟨192, 0, 193, 1⟩ : rectT), none, 48), ((⟨196, 0, 197, 1⟩ : rectT), none, 49), ((⟨200, 0, 201, 1⟩ : rectT), none, 50), ((⟨204, 0, 205, 1⟩ : rectT), none, 51), ((⟨208, 0, 209, 1⟩ : rectT), none, 52), ((⟨212, 0, 213, 1⟩ : rectT), none, 53)]), 0), ((⟨216, 0, 249, 1⟩ : rectT), some (nodeT.mk 0 [((⟨216, 0, 217, 1⟩ : rectT), none, 54), ((⟨220, 0, 221, 1⟩ : rectT), none, 55), ((⟨224, 0, 225, 1⟩ : rectT), none, 56), ((⟨228, 0, 229, 1⟩ : rectT), none, 57), ((⟨232, 0, 233, 1⟩ : rectT), none, 58), ((⟨236, 0, 237, 1⟩ : rectT), none, 59), ((⟨240, 0, 241, 1⟩ : rectT), none, 60), ((⟨244, 0, 245, 1⟩ : rectT), none, 61), ((⟨248, 0, 249, 1⟩ : rectT), none, 62)]), 0), ((⟨252, 0, 285, 1⟩ : rectT), some (nodeT.mk 0 [((⟨252, 0, 253, 1⟩ : rectT), none, 63), ((⟨256, 0, 257, 1⟩ : rectT), none, 64), ((⟨260, 0, 261, 1⟩ : rectT), none, 65), ((⟨264, 0, 265, 1⟩ : rectT), none, 66), ((⟨268, 0, 269, 1⟩ : rectT), none, 67), ((⟨272, 0, 273, 1⟩ : rectT), none, 68), ((⟨276, 0, 277, 1⟩ : rectT), none, 69), ((⟨280, 0, 281, 1⟩ : rectT), none, 70), ((⟨284, 0, 285, 1⟩ : rectT), none, 71)]), 0), ((⟨288, 0, 321, 1⟩ : rectT), some (nodeT.mk 0 [((⟨288, 0, 289, 1⟩ : rectT), none, 72), ((⟨292, 0, 293, 1⟩ : rectT), none, 73), ((⟨296, 0, 297, 1⟩ : rectT), none, 74), ((⟨300, 0, 301, 1⟩ : rectT), none, 75), ((⟨304, 0, 305, 1⟩ : rectT), none, 76), ((⟨308, 0, 309, 1⟩ : rectT), none, 77), ((⟨312, 0, 313, 1⟩ : rectT), none, 78), ((⟨316, 0, 317, 1⟩ : rectT), none, 79), ((⟨320, 0, 321, 1⟩ : rectT), none, 80)]), 0), ((⟨324, 0, 357, 1⟩ : rectT), some (nodeT.mk 0 [((⟨324, 0, 325, 1⟩ : rectT), none, 81), ((⟨328, 0, 329, 1⟩ : rectT), none, 82), ((⟨332, 0, 333, 1⟩ : rectT), none, 83), ((⟨336, 0, 337, 1⟩ : rectT), none, 84), ((⟨340, 0, 341, 1⟩ : rectT), none, 85), ((⟨344, 0, 345, 1⟩ : rectT), none, 86), ((⟨348, 0, 349, 1⟩ : rectT), none, 87), ((⟨352, 0, 353, 1⟩ : rectT), none, 88), ((⟨356, 0, 357, 1⟩ : rectT), none, 89)]), 0), ((⟨360, 0, 393, 1⟩ : rectT), some (nodeT.mk 0 [((⟨360, 0, 361, 1⟩ : rectT), none, 90), ((⟨364, 0, 365, 1⟩ : rectT), none, 91), ((⟨368, 0, 369, 1⟩ : rectT), none, 92), ((⟨372, 0, 373, 1⟩ : rectT), none, 93), ((⟨376, 0, 377, 1⟩ : rectT), none, 94), ((⟨380, 0, 381, 1⟩ : rectT), none, 95), ((⟨384, 0, 385, 1⟩ : rectT), none, 96), ((⟨388, 0, 389, 1⟩ : rectT), none, 97), ((⟨392, 0, 393, 1⟩ : rectT), none, 98)]), 0), ((⟨396, 0, 429, 1⟩ : rectT), some (nodeT.mk 0 [((⟨396, 0, 397, 1⟩ : rectT), none, 99), ((⟨400, 0, 401, 1⟩ : rectT), none, 100), ((⟨404, 0, 405, 1⟩ : rectT), none, 101), ((⟨408, 0, 409, 1⟩ : rectT), none, 102), ((⟨412, 0, 413, 1⟩ : rectT), none, 103), ((⟨416, 0, 417, 1⟩ : rectT), none, 104), ((⟨420, 0, 421, 1⟩ : rectT), none, 105), ((⟨424, 0, 425, 1⟩ : rectT), none, 106), ((⟨428, 0, 429, 1⟩ : rectT), none, 107)]), 0)]

/-- The tree after the first 112 inserts of the scenario. -/
def state112 : nodeT :=
  nodeT.mk 1 [((⟨0, 0, 33, 1⟩ : rectT), some (nodeT.mk 0 [((⟨0, 0, 1, 1⟩ : rectT), none, 0), ((⟨4, 0, 5, 1⟩ : rectT), none, 1), ((⟨8, 0, 9, 1⟩ : rectT), none, 2), ((⟨12, 0, 13, 1⟩ : rectT), none, 3), ((⟨16, 0, 17, 1⟩ : rectT), none, 4), ((⟨20, 0, 21, 1⟩ : rectT), none, 5), ((⟨24, 0, 25, 1⟩ : rectT), none, 6), ((⟨28, 0, 29, 1⟩ : rectT), none, 7), ((⟨32, 0, 33, 1⟩ : rectT), none, 8)]), 0), ((⟨36, 0, 69, 1⟩ : rectT), some (nodeT.mk 0 [((⟨36, 0, 37, 1⟩ : rectT), none, 9), ((⟨40, 0, 41, 1⟩ : rectT), none, 10), ((⟨44, 0, 45, 1⟩ : rectT), none, 11), ((⟨48, 0, 49, 1⟩ : rectT), none, 12), ((⟨52, 0, 53, 1⟩ : rectT), none, 13), ((⟨56, 0, 57, 1⟩ : rectT), none, 14), ((⟨60, 0, 61, 1⟩ : rectT), none, 15), ((⟨64, 0, 65, 1⟩ : rectT), none, 16), ((⟨68, 0, 69, 1⟩ : rectT), none, 17)]), 0), ((⟨72, 0, 105, 1⟩ : rectT), some (nodeT.mk 0 [((⟨72, 0, 73, 1⟩ : rectT), none, 18), ((⟨76, 0, 77, 1⟩ : rectT), none, 19), ((⟨80, 0, 81, 1⟩ : rectT), none, 20), ((⟨84, 0, 85, 1⟩ : rectT), none, 21), ((⟨88, 0, 89, 1⟩ : rectT), none, 22), ((⟨92, 0, 93, 1⟩ : rectT), none, 23), ((⟨96, 0, 97, 1⟩ : rectT), none, 24), ((⟨100, 0, 101, 1⟩ : rectT), none, 25), ((⟨104, 0, 105, 1⟩ : rectT), none, 26)]), 0), ((⟨108, 0, 141, 1⟩ : rectT), some (nodeT.mk 0 [((⟨108, 0, 109, 1⟩ : rectT), none, 27), ((⟨112, 0, 113, 1⟩ : rectT), none, 28), ((⟨116, 0, 117, 1⟩ : rectT), none, 29), ((⟨120, 0, 121, 1⟩ : rectT), none, 30), ((⟨124, 0, 125, 1⟩ : rectT), none, 31), ((⟨128, 0, 129, 1⟩ : rectT), none, 32), ((⟨132, 0, 133, 1⟩ : rectT), none, 33), ((⟨136, 0, 137, 1⟩ : rectT), none, 34), ((⟨140, 0, 141, 1⟩ : rectT), none, 35)]), 0), ((⟨144, 0, 177, 1⟩ : rectT), some (nodeT.mk 0 [((⟨144, 0, 145, 1⟩ : rectT), none, 36), ((⟨148, 0, 149, 1⟩ : rectT), none, 37), ((⟨152, 0, 153, 1⟩ : rectT), none, 38), ((⟨156, 0, 157, 1⟩ : rectT), none, 39), ((⟨160, 0, 161, 1⟩ : rectT), none, 40), ((⟨164, 0, 165, 1⟩ : rectT), none, 41), ((⟨168, 0, 169, 1⟩ : rectT), none, 42), ((⟨172, 0, 173, 1⟩ : rectT), none, 43), ((⟨176, 0, 177, 1⟩ : rectT), none, 44)]), 0), ((⟨180, 0, 213, 1⟩ : rectT), some (nodeT.mk 0 [((⟨180, 0, 181, 1⟩ : rectT), none, 45), ((⟨184, 0, 185, 1⟩ : rectT), none, 46), ((⟨188, 0, 189, 1⟩ : rectT), none, 47), ((⟨192, 0, 193, 1⟩ : rectT), none, 48), ((⟨196, 0, 197, 1⟩ : rectT), none, 49), ((⟨200, 0, 201, 1⟩ : rectT), none, 50), ((⟨204, 0, 205, 1⟩ : rectT), none, 51), ((⟨208, 0, 209, 1⟩ : rectT), none, 52), ((⟨212, 0, 213, 1⟩ : rectT), none, 53)]), 0), ((⟨216, 0, 249, 1⟩ : rectT), some (nodeT.mk 0 [((⟨216, 0, 217, 1⟩ : rectT), none, 54), ((⟨220, 0, 221, 1⟩ : rectT), none, 55), ((⟨224, 0, 225, 1⟩ : rectT), none, 56), ((⟨228, 0, 229, 1⟩ : rectT), none, 57), ((⟨232, 0, 233, 1⟩ : rectT), none, 58), ((⟨236, 0, 237, 1⟩ : rectT), none, 59), ((⟨240, 0, 241, 1⟩ : rectT), none, 60), ((⟨244, 0, 245, 1⟩ : rectT), none, 61), ((⟨248, 0, 249, 1⟩ : rectT), none, 62)]), 0), ((⟨252, 0, 285, 1⟩ : rectT), some (nodeT.mk 0 [((⟨252, 0, 253, 1⟩ : rectT), none, 63), ((⟨256, 0, 257, 1⟩ : rectT), none, 64), ((⟨260, 0, 261, 1⟩ : rectT), none, 65), ((⟨264, 0, 265, 1⟩ : rectT), none, 66), ((⟨268, 0, 269, 1⟩ : rectT), none, 67), ((⟨272, 0, 273, 1⟩ : rectT), none, 68), ((⟨276, 0, 277, 1⟩ : rectT), none, 69), ((⟨280, 0, 281, 1⟩ : rectT), none, 70), ((⟨284, 0, 285, 1⟩ : rectT), none, 71)]), 0), ((⟨288, 0, 321, 1⟩ : rectT), some (nodeT.mk 0 [((⟨288, 0, 289, 1⟩ : rectT), none, 72), ((⟨292, 0, 293, 1⟩ : rectT), none, 73), ((⟨296, 0, 297, 1⟩ : rectT), none, 74), ((⟨300, 0, 301, 1⟩ : rectT), none, 75), ((⟨304, 0, 305, 1⟩ : rectT), none, 76), ((⟨308, 0, 309, 1⟩ : rectT), none, 77), ((⟨312, 0, 313, 1⟩ : rectT), none, 78), ((⟨316, 0, 317, 1⟩ : rectT), none, 79), ((⟨320, 0, 321, 1⟩ : rectT), none, 80)]), 0), ((⟨324, 0, 357, 1⟩ : rectT), some (nodeT.mk 0 [((⟨324, 0, 325, 1⟩ : rectT), none, 81), ((⟨328, 0, 329, 1⟩ : rectT), none, 82), ((⟨332, 0, 333, 1⟩ : rectT), none, 83), ((⟨336, 0, 337, 1⟩ : rectT), none, 84), ((⟨340, 0, 341, 1⟩ : rectT), none, 85), ((⟨344, 0, 345, 1⟩ : rectT), none, 86), ((⟨348, 0, 349, 1⟩ : rectT), none, 87), ((⟨352, 0, 353, 1⟩ : rectT), none, 88), ((⟨356, 0, 357, 1⟩ : rectT), none, 89)]), 0), ((⟨360, 0, 393, 1⟩ : rectT), some (nodeT.mk 0 [((⟨360, 0, 361, 1⟩ : rectT), none, 90), ((⟨364, 0, 365, 1⟩ : rectT), none, 91), ((⟨368, 0, 369, 1⟩ : rectT), none, 92), ((⟨372, 0, 373, 1⟩ : rectT), none, 93), ((⟨376, 0, 377, 1⟩ : rectT), none, 94), ((⟨380, 0, 381, 1⟩ : rectT), none, 95), ((⟨384, 0, 385, 1⟩ : rectT), none, 96), ((⟨388, 0, 389, 1⟩ : rectT), none, 97), ((⟨392, 0, 393, 1⟩ : rectT), none, 98)]), 0), ((⟨396, 0, 445, 1⟩ : rectT), some (nodeT.mk 0 [((⟨396, 0, 397, 1⟩ : rectT), none, 99), ((⟨400, 0, 401, 1⟩ : rectT), none, 100), ((⟨404, 0, 405, 1⟩ : rectT), none, 101), ((⟨408, 0, 409, 1⟩ : rectT), none, 102), ((⟨412, 0, 413, 1⟩ : rectT), none, 103), ((⟨416, 0, 417, 1⟩ : rectT), none, 104), ((⟨420, 0, 421, 1⟩ : rectT), none, 105), ((⟨424, 0, 425, 1⟩ : rectT), none, 106), ((⟨428, 0, 429, 1⟩ : rectT), none, 107), ((⟨432, 0, 433, 1⟩ : rectT), none, 108), ((⟨436, 0, 437, 1⟩ : rectT), none, 109), ((⟨440, 0, 441, 1⟩ : rectT), none, 110), ((⟨444, 0, 445, 1⟩ : rectT), none, 111)]), 0)]

/-- The tree after the first 116 inserts of the scenario. -/
def state116 : nodeT :=
  nodeT.mk 1 [((⟨0, 0, 33, 1⟩ : rectT), some (nodeT.mk 0 [((⟨0, 0, 1, 1⟩ : rectT), none, 0), ((⟨4, 0, 5, 1⟩ : rectT), none, 1), ((⟨8, 0, 9, 1⟩ : rectT), none, 2), ((⟨12, 0, 13, 1⟩ : rectT), none, 3), ((⟨16, 0, 17, 1⟩ : rectT), none, 4), ((⟨20, 0, 21, 1⟩ : rectT), none, 5), ((⟨24, 0, 25, 1⟩ : rectT), none, 6), ((⟨28, 0, 29, 1⟩ : rectT), none, 7), ((⟨32, 0, 33, 1⟩ : rectT), none, 8)]), 0), ((⟨36, 0, 69, 1⟩ : rectT), some (nodeT.mk 0 [((⟨36, 0, 37, 1⟩ : rectT), none, 9), ((⟨40, 0, 41, 1⟩ : rectT), none, 10), ((⟨44, 0, 45, 1⟩ : rectT), none, 11), ((⟨48, 0, 49, 1⟩ : rectT), none, 12), ((⟨52, 0, 53, 1⟩ : rectT), none, 13), ((⟨56, 0, 57, 1⟩ : rectT), none, 14), ((⟨60, 0, 61, 1⟩ : rectT), none, 15), ((⟨64, 0, 65, 1⟩ : rectT), none, 16), ((⟨68, 0, 69, 1⟩ : rectT), none, 17)]), 0), ((⟨72, 0, 105, 1⟩ : rectT), some (nodeT.mk 0 [((⟨72, 0, 73, 1⟩ : rectT), none, 18), ((⟨76, 0, 77, 1⟩ : rectT), none, 19), ((⟨80, 0, 81, 1⟩ : rectT), none, 20), ((⟨84, 0, 85, 1⟩ : rectT), none, 21), ((⟨88, 0, 89, 1⟩ : rectT), none, 22), ((⟨92, 0, 93, 1⟩ : rectT), none, 23), ((⟨96, 0, 97, 1⟩ : rectT), none, 24), ((⟨100, 0, 101, 1⟩ : rectT), none, 25), ((⟨104, 0, 105, 1⟩ : rectT), none, 26)]), 0), ((⟨108, 0, 141, 1⟩ : rectT), some (nodeT.mk 0 [((⟨108, 0, 109, 1⟩ : rectT), none, 27), ((⟨112, 0, 113, 1⟩ : rectT), none, 28), ((⟨116, 0, 117, 1⟩ : rectT), none, 29), ((⟨120, 0, 121, 1⟩ : rectT), none, 30), ((⟨124, 0, 125, 1⟩ : rectT), none, 31), ((⟨128, 0, 129, 1⟩ : rectT), none, 32), ((⟨132, 0, 133, 1⟩ : rectT), none, 33), ((⟨136, 0, 137, 1⟩ : rectT), none, 34), ((⟨140, 0, 141, 1⟩ : rectT), none, 35)]), 0), ((⟨144, 0, 177, 1⟩ : rectT), some (nodeT.mk 0 [((⟨144, 0, 145, 1⟩ : rectT), none, 36), ((⟨148, 0, 149, 1⟩ : rectT), none, 37), ((⟨152, 0, 153, 1⟩ : rectT), none, 38), ((⟨156, 0, 157, 1⟩ : rectT), none, 39), ((⟨160, 0, 161, 1⟩ : rectT), none, 40), ((⟨164, 0, 165, 1⟩ : rectT), none, 41), ((⟨168, 0, 169, 1⟩ : rectT), none, 42), ((⟨172, 0, 173, 1⟩ : rectT), none, 43), ((⟨176, 0, 177, 1⟩ : rectT), none, 44)]), 0), ((⟨180, 0, 213, 1⟩ : rectT), some (nodeT.mk 0 [((⟨180, 0, 181, 1⟩ : rectT), none, 45), ((⟨184, 0, 185, 1⟩ : rectT), none, 46), ((⟨188, 0, 189, 1⟩ : rectT), none, 47), ((⟨192, 0, 193, 1⟩ : rectT), none, 48), ((⟨196, 0, 197, 1⟩ : rectT), none, 49), ((⟨200, 0, 201, 1⟩ : rectT), none, 50), ((⟨204, 0, 205, 1⟩ : rectT), none, 51), ((⟨208, 0, 209, 1⟩ : rectT), none, 52), ((⟨212, 0, 213, 1⟩ : rectT), none, 53)]), 0), ((⟨216, 0, 249, 1⟩ : rectT), some (nodeT.mk 0 [((⟨216, 0, 217, 1⟩ : rectT), none, 54), ((⟨220, 0, 221, 1⟩ : rectT), none, 55), ((⟨224, 0, 225, 1⟩ : rectT), none, 56), ((⟨228, 0, 229, 1⟩ : rectT), none, 57), ((⟨232, 0, 233, 1⟩ : rectT), none, 58), ((⟨236, 0, 237, 1⟩ : rectT), none, 59), ((⟨240, 0, 241, 1⟩ : rectT), none, 60), ((⟨244, 0, 245, 1⟩ : rectT), none, 61), ((⟨248, 0, 249, 1⟩ : rectT), none, 62)]), 0), ((⟨252, 0, 285, 1⟩ : rectT), some (nodeT.mk 0 [((⟨252, 0, 253, 1⟩ : rectT), none, 63), ((⟨256, 0, 257, 1⟩ : rectT), none, 64), ((⟨260, 0, 261, 1⟩ : rectT), none, 65), ((⟨264, 0, 265, 1⟩ : rectT), none, 66), ((⟨268, 0, 269, 1⟩ : rectT), none, 67), ((⟨272, 0, 273, 1⟩ : rectT), none, 68), ((⟨276, 0, 277, 1⟩ : rectT), none, 69), ((⟨280, 0, 281, 1⟩ : rectT), none, 70), ((⟨284, 0, 285, 1⟩ : rectT), none, 71)]), 0), ((⟨288, 0, 321, 1⟩ : rectT), some (nodeT.mk 0 [((⟨288, 0, 289, 1⟩ : rectT), none, 72), ((⟨292, 0, 293, 1⟩ : rectT), none, 73), ((⟨296, 0, 297, 1⟩ : rectT), none, 74), ((⟨300, 0, 301, 1⟩ : rectT), none, 75), ((⟨304, 0, 305, 1⟩ : rectT), none, 76), ((⟨308, 0, 309, 1⟩ : rectT), none, 77), ((⟨312, 0, 313, 1⟩ : rectT), none, 78), ((⟨316, 0, 317, 1⟩ : rectT), none, 79), ((⟨320, 0, 321, 1⟩ : rectT), none, 80)]), 0), ((⟨324, 0, 357, 1⟩ : rectT), some (nodeT.mk 0 [((⟨324, 0, 325, 1⟩ : rectT), none, 81), ((⟨328, 0, 329, 1⟩ : rectT), none, 82), ((⟨332, 0, 333, 1⟩ : rectT), none, 83), ((⟨336, 0, 337, 1⟩ : rectT), none, 84), ((⟨340, 0, 341, 1⟩ : rectT), none, 85), ((⟨344, 0, 345, 1⟩ : rectT), none, 86), ((⟨348, 0, 349, 1⟩ : rectT), none, 87), ((⟨352, 0, 353, 1⟩ : rectT), none, 88), ((⟨356, 0, 357, 1⟩ : rectT), none, 89)]), 0), ((⟨360, 0, 393, 1⟩ : rectT), some (nodeT.mk 0 [((⟨360, 0, 361, 1⟩ : rectT), none, 90), ((⟨364, 0, 365, 1⟩ : rectT), none, 91), ((⟨368, 0, 369, 1⟩ : rectT), none, 92), ((⟨372, 0, 373, 1⟩ : rectT), none, 93), ((⟨376, 0, 377, 1⟩ : rectT), none, 94), ((⟨380, 0, 381, 1⟩ : rectT), none, 95), ((⟨384, 0, 385, 1⟩ : rectT), none, 96), ((⟨388, 0, 389, 1⟩ : rectT), none, 97), ((⟨392, 0, 393, 1⟩ : rectT), none, 98)]), 0), ((⟨396, 0, 429, 1⟩ : rectT), some (nodeT.mk 0 [((⟨396, 0, 397, 1⟩ : rectT), none, 99), ((⟨400, 0, 401, 1⟩ : rectT), none, 100), ((⟨404, 0, 405, 1⟩ : rectT), none, 101), ((⟨408, 0, 409, 1⟩ : rectT), none, 102), ((⟨412, 0, 413, 1⟩ : rectT), none, 103), ((⟨416, 0, 417, 1⟩ : rectT), none, 104), ((⟨420, 0, 421, 1⟩ : rectT), none, 105), ((⟨424, 0, 425, 1⟩ : rectT), none, 106), ((⟨428, 0, 429, 1⟩ : rectT), none, 107)]), 0), ((⟨432, 0, 461, 1⟩ : rectT), some (nodeT.mk 0 [((⟨432, 0, 433, 1⟩ : rectT), none, 108), ((⟨436, 0, 437, 1⟩ : rectT), none, 109), ((⟨440, 0, 441, 1⟩ : rectT), none, 110), ((⟨444, 0, 445, 1⟩ : rectT), none, 111), ((⟨448, 0, 449, 1⟩ : rectT), none, 112), ((⟨452, 0, 453, 1⟩ : rectT), none, 113), ((⟨456, 0, 457, 1⟩ : rectT), none, 114), ((⟨460, 0, 461, 1⟩ : rectT), none, 115)]), 0)]

/-- The tree after the first 120 inserts of the scenario. -/
def state120 : nodeT :=
  nodeT.mk 1 [((⟨0, 0, 33, 1⟩ : rectT), some (nodeT.mk 0 [((⟨0, 0, 1, 1⟩ : rectT), none, 0), ((⟨4, 0, 5, 1⟩ : rectT), none, 1), ((⟨8, 0, 9, 1⟩ : rectT), none, 2), ((⟨12, 0, 13, 1⟩ : rectT), none, 3), ((⟨16, 0, 17, 1⟩ : rectT), none, 4), ((⟨20, 0, 21, 1⟩ : rectT), none, 5), ((⟨24, 0, 25, 1⟩ : rectT), none, 6), ((⟨28, 0, 29, 1⟩ : rectT), none, 7), ((⟨32, 0, 33, 1⟩ : rectT), none, 8)]), 0), ((⟨36, 0, 69, 1⟩ : rectT), some (nodeT.mk 0 [((⟨36, 0, 37, 1⟩ : rectT), none, 9), ((⟨40, 0, 41, 1⟩ : rectT), none, 10), ((⟨44, 0, 45, 1⟩ : rectT), none, 11), ((⟨48, 0, 49, 1⟩ : rectT), none, 12), ((⟨52, 0, 53, 1⟩ : rectT), none, 13), ((⟨56, 0, 57, 1⟩ : rectT), none, 14), ((⟨60, 0, 61, 1⟩ : rectT), none, 15), ((⟨64, 0, 65, 1⟩ : rectT), none, 16), ((⟨68, 0, 69, 1⟩ : rectT), none, 17)]), 0), ((⟨72, 0, 105, 1⟩ : rectT), some (nodeT.mk 0 [((⟨72, 0, 73, 1⟩ : rectT), none, 18), ((⟨76, 0, 77, 1⟩ : rectT), none, 19), ((⟨80, 0, 81, 1⟩ : rectT), none, 20), ((⟨84, 0, 85, 1⟩ : rectT), none, 21), ((⟨88, 0, 89, 1⟩ : rectT), none, 22), ((⟨92, 0, 93, 1⟩ : rectT), none, 23), ((⟨96, 0, 97, 1⟩ : rectT), none, 24), ((⟨100, 0, 101, 1⟩ : rectT), none, 25), ((⟨104, 0, 105, 1⟩ : rectT), none, 26)]), 0), ((⟨108, 0, 141, 1⟩ : rectT), some (nodeT.mk 0 [((⟨108, 0, 109, 1⟩ : rectT), none, 27), ((⟨112, 0, 113, 1⟩ : rectT), none, 28), ((⟨116, 0, 117, 1⟩ : rectT), none, 29), ((⟨120, 0, 121, 1⟩ : rectT), none, 30), ((⟨124, 0, 125, 1⟩ : rectT), none, 31), ((⟨128, 0, 129, 1⟩ : rectT), none, 32), ((⟨132, 0, 133, 1⟩ : rectT), none, 33), ((⟨136, 0, 137, 1⟩ : rectT), none, 34), ((⟨140, 0, 141, 1⟩ : rectT), none, 35)]), 0), ((⟨144, 0, 177, 1⟩ : rectT), some (nodeT.mk 0 [((⟨144, 0, 145, 1⟩ : rectT), none, 36), ((⟨148, 0, 149, 1⟩ : rectT), none, 37), ((⟨152, 0, 153, 1⟩ : rectT), none, 38), ((⟨156, 0, 157, 1⟩ : rectT), none, 39), ((⟨160, 0, 161, 1⟩ : rectT), none, 40), ((⟨164, 0, 165, 1⟩ : rectT), none, 41), ((⟨168, 0, 169, 1⟩ : rectT), none, 42), ((⟨172, 0, 173, 1⟩ : rectT), none, 43), ((⟨176, 0, 177, 1⟩ : rectT), none, 44)]), 0), ((⟨180, 0, 213, 1⟩ : rectT), some (nodeT.mk 0 [((⟨180, 0, 181, 1⟩ : rectT), none, 45), ((⟨184, 0, 185, 1⟩ : rectT), none, 46), ((⟨188, 0, 189, 1⟩ : rectT), none, 47), ((⟨192, 0, 193, 1⟩ : rectT), none, 48), ((⟨196, 0, 197, 1⟩ : rectT), none, 49), ((⟨200, 0, 201, 1⟩ : rectT), none, 50), ((⟨204, 0, 205, 1⟩ : rectT), none, 51), ((⟨208, 0, 209, 1⟩ : rectT), none, 52), ((⟨212, 0, 213, 1⟩ : rectT), none, 53)]), 0), ((⟨216, 0, 249, 1⟩ : rectT), some (nodeT.mk 0 [((⟨216, 0, 217, 1⟩ : rectT), none, 54), ((⟨220, 0, 221, 1⟩ : rectT), none, 55), ((⟨224, 0, 225, 1⟩ : rectT), none, 56), ((⟨228, 0, 229, 1⟩ : rectT), none, 57), ((⟨232, 0, 233, 1⟩ : rectT), none, 58), ((⟨236, 0, 237, 1⟩ : rectT), none, 59), ((⟨240, 0, 241, 1⟩ : rectT), none, 60), ((⟨244, 0, 245, 1⟩ : rectT), none, 61), ((⟨248, 0, 249, 1⟩ : rectT), none, 62)]), 0), ((⟨252, 0, 285, 1⟩ : rectT), some (nodeT.mk 0 [((⟨252, 0, 253, 1⟩ : rectT), none, 63), ((⟨256, 0, 257, 1⟩ : rectT), none, 64), ((⟨260, 0, 261, 1⟩ : rectT), none, 65), ((⟨264, 0, 265, 1⟩ : rectT), none, 66), ((⟨268, 0, 269, 1⟩ : rectT), none, 67), ((⟨272, 0, 273, 1⟩ : rectT), none, 68), ((⟨276, 0, 277, 1⟩ : rectT), none, 69), ((⟨280, 0, 281, 1⟩ : rectT), none, 70), ((⟨284, 0, 285, 1⟩ : rectT), none, 71)]), 0), ((⟨288, 0, 321, 1⟩ : rectT), some (nodeT.mk 0 [((⟨288, 0, 289, 1⟩ : rectT), none, 72), ((⟨292, 0, 293, 1⟩ : rectT), none, 73), ((⟨296, 0, 297, 1⟩ : rectT), none, 74), ((⟨300, 0, 301, 1⟩ : rectT), none, 75), ((⟨304, 0, 305, 1⟩ : rectT), none, 76), ((⟨308, 0, 309, 1⟩ : rectT), none, 77), ((⟨312, 0, 313, 1⟩ : rectT), none, 78), ((⟨316, 0, 317, 1⟩ : rectT), none, 79), ((⟨320, 0, 321, 1⟩ : rectT), none, 80)]), 0), ((⟨324, 0, 357, 1⟩ : rectT), some (nodeT.mk 0 [((⟨324, 0, 325, 1⟩ : rectT), none, 81), ((⟨328, 0, 329, 1⟩ : rectT), none, 82), ((⟨332, 0, 333, 1⟩ : rectT), none, 83), ((⟨336, 0, 337, 1⟩ : rectT), none, 84), ((⟨340, 0, 341, 1⟩ : rectT), none, 85), ((⟨344, 0, 345, 1⟩ : rectT), none, 86), ((⟨348, 0, 349, 1⟩ : rectT), none, 87), ((⟨352, 0, 353, 1⟩ : rectT), none, 88), ((⟨356, 0, 357, 1⟩ : rectT), none, 89)]), 0), ((⟨360, 0, 393, 1⟩ : rectT), some (nodeT.mk 0 [((⟨360, 0, 361, 1⟩ : rectT), none, 90), ((⟨364, 0, 365, 1⟩ : rectT), none, 91), ((⟨368, 0, 369, 1⟩ : rectT), none, 92), ((⟨372, 0, 373, 1⟩ : rectT), none, 93), ((⟨376, 0, 377, 1⟩ : rectT), none, 94), ((⟨380, 0, 381, 1⟩ : rectT), none, 95), ((⟨384, 0, 385, 1⟩ : rectT), none, 96), ((⟨388, 0, 389, 1⟩ : rectT), none, 97), ((⟨392, 0, 393, 1⟩ : rectT), none, 98)]), 0), ((⟨396, 0, 429, 1⟩ : rectT), some (nodeT.mk 0 [((⟨396, 0, 397, 1⟩ : rectT), none, 99), ((⟨400, 0, 401, 1⟩ : rectT), none, 100), ((⟨404, 0, 405, 1⟩ : rectT), none, 101), ((⟨408, 0, 409, 1⟩ : rectT), none, 102), ((⟨412, 0, 413, 1⟩ : rectT), none, 103), ((⟨416, 0, 417, 1⟩ : rectT), none, 104), ((⟨420, 0, 421, 1⟩ : rectT), none, 105), ((⟨424, 0, 425, 1⟩ : rectT), none, 106), ((⟨428, 0, 429, 1⟩ : rectT), none, 107)]), 0), ((⟨432, 0, 477, 1⟩ : rectT), some (nodeT.mk 0 [((⟨432, 0, 433, 1⟩ : rectT), none, 108), ((⟨436, 0, 437, 1⟩ : rectT), none, 109), ((⟨440, 0, 441, 1⟩ : rectT), none, 110), ((⟨444, 0, 445, 1⟩ : rectT), none, 111), ((⟨448, 0, 449, 1⟩ : rectT), none, 112), ((⟨452, 0, 453, 1⟩ : rectT), none, 113), ((⟨456, 0, 457, 1⟩ : rectT), none, 114), ((⟨460, 0, 461, 1⟩ : rectT), none, 115), ((⟨464, 0, 465, 1⟩ : rectT), none, 116), ((⟨468, 0, 469, 1⟩ : rectT), none, 117), ((⟨472, 0, 473, 1⟩ : rectT), none, 118), ((⟨476, 0, 477, 1⟩ : rectT), none, 119)]), 0)]

/-- The tree after the first 124 inserts of the scenario. -/
def state124 : nodeT :=
  nodeT.mk 1 [((⟨0, 0, 33, 1⟩ : rectT), some (nodeT.mk 0 [((⟨0, 0, 1, 1⟩ : rectT), none, 0), ((⟨4, 0, 5, 1⟩ : rectT), none, 1), ((⟨8, 0, 9, 1⟩ : rectT), none, 2), ((⟨12, 0, 13, 1⟩ : rectT), none, 3), ((⟨16, 0, 17, 1⟩ : rectT), none, 4), ((⟨20, 0, 21, 1⟩ : rectT), none, 5), ((⟨24, 0, 25, 1⟩ : rectT), none, 6), ((⟨28, 0, 29, 1⟩ : rectT), none, 7), ((⟨32, 0, 33, 1⟩ : rectT), none, 8)]), 0), ((⟨36, 0, 69, 1⟩ : rectT), some (nodeT.mk 0 [((⟨36, 0, 37, 1⟩ : rectT), none, 9), ((⟨40, 0, 41, 1⟩ : rectT), none, 10), ((⟨44, 0, 45, 1⟩ : rectT), none, 11), ((⟨48, 0, 49, 1⟩ : rectT), none, 12), ((⟨52, 0, 53, 1⟩ : rectT), none, 13), ((⟨56, 0, 57, 1⟩ : rectT), none, 14), ((⟨60, 0, 61, 1⟩ : rectT), none, 15), ((⟨64, 0, 65, 1⟩ : rectT), none, 16), ((⟨68, 0, 69, 1⟩ : rectT), none, 17)]), 0), ((⟨72, 0, 105, 1⟩ : rectT), some (nodeT.mk 0 [((⟨72, 0, 73, 1⟩ : rectT), none, 18), ((⟨76, 0, 77, 1⟩ : rectT), none, 19), ((⟨80, 0, 81, 1⟩ : rectT), none, 20), ((⟨84, 0, 85, 1⟩ : rectT), none, 21), ((⟨88, 0, 89, 1⟩ : rectT), none, 22), ((⟨92, 0, 93, 1⟩ : rectT), none, 23), ((⟨96, 0, 97, 1⟩ : rectT), none, 24), ((⟨100, 0, 101, 1⟩ : rectT), none, 25), ((⟨104, 0, 105, 1⟩ : rectT), none, 26)]), 0), ((⟨108, 0, 141, 1⟩ : rectT), some (nodeT.mk 0 [((⟨108, 0, 109, 1⟩ : rectT), none, 27), ((⟨112, 0, 113, 1⟩ : rectT), none, 28), ((⟨116, 0, 117, 1⟩ : rectT), none, 29), ((⟨120, 0, 121, 1⟩ : rectT), none, 30), ((⟨124, 0, 125, 1⟩ : rectT), none, 31), ((⟨128, 0, 129, 1⟩ : rectT), none, 32), ((⟨132, 0, 133, 1⟩ : rectT), none, 33), ((⟨136, 0, 137, 1⟩ : rectT), none, 34), ((⟨140, 0, 141, 1⟩ : rectT), none, 35)]), 0), ((⟨144, 0, 177, 1⟩ : rectT), some (nodeT.mk 0 [((⟨144, 0, 145, 1⟩ : rectT), none, 36), ((⟨148, 0, 149, 1⟩ : rectT), none, 37), ((⟨152, 0, 153, 1⟩ : rectT), none, 38), ((⟨156, 0, 157, 1⟩ : rectT), none, 39), ((⟨160, 0, 161, 1⟩ : rectT), none, 40), ((⟨164, 0, 165, 1⟩ : rectT), none, 41), ((⟨168, 0, 169, 1⟩ : rectT), none, 42), ((⟨172, 0, 173, 1⟩ : rectT), none, 43), ((⟨176, 0, 177, 1⟩ : rectT), none, 44)]), 0), ((⟨180, 0, 213, 1⟩ : rectT), some (nodeT.mk 0 [((⟨180, 0, 181, 1⟩ : rectT), none, 45), ((⟨184, 0, 185, 1⟩ : rectT), none, 46), ((⟨188, 0, 189, 1⟩ : rectT), none, 47), ((⟨192, 0, 193, 1⟩ : rectT), none, 48), ((⟨196, 0, 197, 1⟩ : rectT), none, 49), ((⟨200, 0, 201, 1⟩ : rectT), none, 50), ((⟨204, 0, 205, 1⟩ : rectT), none, 51), ((⟨208, 0, 209, 1⟩ : rectT), none, 52), ((⟨212, 0, 213, 1⟩ : rectT), none, 53)]), 0), ((⟨216, 0, 249, 1⟩ : rectT), some (nodeT.mk 0 [((⟨216, 0, 217, 1⟩ : rectT), none, 54), ((⟨220, 0, 221, 1⟩ : rectT), none, 55), ((⟨224, 0, 225, 1⟩ : rectT), none, 56), ((⟨228, 0, 229, 1⟩ : rectT), none, 57), ((⟨232, 0, 233, 1⟩ : rectT), none, 58), ((⟨236, 0, 237, 1⟩ : rectT), none, 59), ((⟨240, 0, 241, 1⟩ : rectT), none, 60), ((⟨244, 0, 245, 1⟩ : rectT), none, 61), ((⟨248, 0, 249, 1⟩ : rectT), none, 62)]), 0), ((⟨252, 0, 285, 1⟩ : rectT), some (nodeT.mk 0 [((⟨252, 0, 253, 1⟩ : rectT), none, 63), ((⟨256, 0, 257, 1⟩ : rectT), none, 64), ((⟨260, 0, 261, 1⟩ : rectT), none, 65), ((⟨264, 0, 265, 1⟩ : rectT), none, 66), ((⟨268, 0, 269, 1⟩ : rectT), none, 67), ((⟨272, 0, 273, 1⟩ : rectT), none, 68), ((⟨276, 0, 277, 1⟩ : rectT), none, 69), ((⟨280, 0, 281, 1⟩ : rectT), none, 70), ((⟨284, 0, 285, 1⟩ : rectT), none, 71)]), 0), ((⟨288, 0, 321, 1⟩ : rectT), some (nodeT.mk 0 [((⟨288, 0, 289, 1⟩ : rectT), none, 72), ((⟨292, 0, 293, 1⟩ : rectT), none, 73), ((⟨296, 0, 297, 1⟩ : rectT), none, 74), ((⟨300, 0, 301, 1⟩ : rectT), none, 75), ((⟨304, 0, 305, 1⟩ : rectT), none, 76), ((⟨308, 0, 309, 1⟩ : rectT), none, 77), ((⟨312, 0, 313, 1⟩ : rectT), none, 78), ((⟨316, 0, 317, 1⟩ : rectT), none, 79), ((⟨320, 0, 321, 1⟩ : rectT), none, 80)]), 0), ((⟨324, 0, 357, 1⟩ : rectT), some (nodeT.mk 0 [((⟨324, 0, 325, 1⟩ : rectT), none, 81), ((⟨328, 0, 329, 1⟩ : rectT), none, 82), ((⟨332, 0, 333, 1⟩ : rectT), none, 83), ((⟨336, 0, 337, 1⟩ : rectT), none, 84), ((⟨340, 0, 341, 1⟩ : rectT), none, 85), ((⟨344, 0, 345, 1⟩ : rectT), none, 86), ((⟨348, 0, 349, 1⟩ : rectT), none, 87), ((⟨352, 0, 353, 1⟩ : rectT), none, 88), ((⟨356, 0, 357, 1⟩ : rectT), none, 89)]), 0), ((⟨360, 0, 393, 1⟩ : rectT), some (nodeT.mk 0 [((⟨360, 0, 361, 1⟩ : rectT), none, 90), ((⟨364, 0, 365, 1⟩ : rectT), none, 91), ((⟨368, 0, 369, 1⟩ : rectT), none, 92), ((⟨372, 0, 373, 1⟩ : rectT), none, 93), ((⟨376, 0, 377, 1⟩ : rectT), none, 94), ((⟨380, 0, 381, 1⟩ : rectT), none, 95), ((⟨384, 0, 385, 1⟩ : rectT), none, 96), ((⟨388, 0, 389, 1⟩ : rectT), none, 97), ((⟨392, 0, 393, 1⟩ : rectT), none, 98)]), 0), ((⟨396, 0, 429, 1⟩ : rectT), some (nodeT.mk 0 [((⟨396, 0, 397, 1⟩ : rectT), none, 99), ((⟨400, 0, 401, 1⟩ : rectT), none, 100), ((⟨404, 0, 405, 1⟩ : rectT), none, 101), ((⟨408, 0, 409, 1⟩ : rectT), none, 102), ((⟨412, 0, 413, 1⟩ : rectT), none, 103), ((⟨416, 0, 417, 1⟩ : rectT), none, 104), ((⟨420, 0, 421, 1⟩ : rectT), none, 105), ((⟨424, 0, 425, 1⟩ : rectT), none, 106), ((⟨428, 0, 429, 1⟩ : rectT), none, 107)]), 0), ((⟨432, 0, 493, 1⟩ : rectT), some (nodeT.mk 0 [((⟨432, 0, 433, 1⟩ : rectT), none, 108), ((⟨436, 0, 437, 1⟩ : rectT), none, 109), ((⟨440, 0, 441, 1⟩ : rectT), none, 110), ((⟨444, 0, 445, 1⟩ : rectT), none, 111), ((⟨448, 0, 449, 1⟩ : rectT), none, 112), ((⟨452, 0, 453, 1⟩ : rectT), none, 113), ((⟨456, 0, 457, 1⟩ : rectT), none, 114), ((⟨460, 0, 461, 1⟩ : rectT), none, 115), ((⟨464, 0, 465, 1⟩ : rectT), none, 116), ((⟨468, 0, 469, 1⟩ : rectT), none, 117), ((⟨472, 0, 473, 1⟩ : rectT), none, 118), ((⟨476, 0, 477, 1⟩ : rectT), none, 119), ((⟨480, 0, 481, 1⟩ : rectT), none, 120), ((⟨484, 0, 485, 1⟩ : rectT), none, 121), ((⟨488, 0, 489, 1⟩ : rectT), none, 122), ((⟨492, 0, 493, 1⟩ : rectT), none, 123)]), 0)]

/-- The tree after the first 128 inserts of the scenario. -/
def state128 : nodeT :=
  nodeT.mk 1 [((⟨0, 0, 33, 1⟩ : rectT), some (nodeT.mk 0 [((⟨0, 0, 1, 1⟩ : rectT), none, 0), ((⟨4, 0, 5, 1⟩ : rectT), none, 1), ((⟨8, 0, 9, 1⟩ : rectT), none, 2), ((⟨12, 0, 13, 1⟩ : rectT), none, 3), ((⟨16, 0, 17, 1⟩ : rectT), none, 4), ((⟨20, 0, 21, 1⟩ : rectT), none, 5), ((⟨24, 0, 25, 1⟩ : rectT), none, 6), ((⟨28, 0, 29, 1⟩ : rectT), none, 7), ((⟨32, 0, 33, 1⟩ : rectT), none, 8)]), 0), ((⟨36, 0, 69, 1⟩ : rectT), some (nodeT.mk 0 [((⟨36, 0, 37, 1⟩ : rectT), none, 9), ((⟨40, 0, 41, 1⟩ : rectT), none, 10), ((⟨44, 0, 45, 1⟩ : rectT), none, 11), ((⟨48, 0, 49, 1⟩ : rectT), none, 12), ((⟨52, 0, 53, 1⟩ : rectT), none, 13), ((⟨56, 0, 57, 1⟩ : rectT), none, 14), ((⟨60, 0, 61, 1⟩ : rectT), none, 15), ((⟨64, 0, 65, 1⟩ : rectT), none, 16), ((⟨68, 0, 69, 1⟩ : rectT), none, 17)]), 0), ((⟨72, 0, 105, 1⟩ : rectT), some (nodeT.mk 0 [((⟨72, 0, 73, 1⟩ : rectT), none, 18), ((⟨76, 0, 77, 1⟩ : rectT), none, 19), ((⟨80, 0, 81, 1⟩ : rectT), none, 20), ((⟨84, 0, 85, 1⟩ : rectT), none, 21), ((⟨88, 0, 89, 1⟩ : rectT), none, 22), ((⟨92, 0, 93, 1⟩ : rectT), none, 23), ((⟨96, 0, 97, 1⟩ : rectT), none, 24), ((⟨100, 0, 101, 1⟩ : rectT), none, 25), ((⟨104, 0, 105, 1⟩ : rectT), none, 26)]), 0), ((⟨108, 0, 141, 1⟩ : rectT), some (nodeT.mk 0 [((⟨108, 0, 109, 1⟩ : rectT), none, 27), ((⟨112, 0, 113, 1⟩ : rectT), none, 28), ((⟨116, 0, 117, 1⟩ : rectT), none, 29), ((⟨120, 0, 121, 1⟩ : rectT), none, 30), ((⟨124, 0, 125, 1⟩ : rectT), none, 31), ((⟨128, 0, 129, 1⟩ : rectT), none, 32), ((⟨132, 0, 133, 1⟩ : rectT), none, 33), ((⟨136, 0, 137, 1⟩ : rectT), none, 34), ((⟨140, 0, 141, 1⟩ : rectT), none, 35)]), 0), ((⟨144, 0, 177, 1⟩ : rectT), some (nodeT.mk 0 [((⟨144, 0, 145, 1⟩ : rectT), none, 36), ((⟨148, 0, 149, 1⟩ : rectT), none, 37), ((⟨152, 0, 153, 1⟩ : rectT), none, 38), ((⟨156, 0, 157, 1⟩ : rectT), none, 39), ((⟨160, 0, 161, 1⟩ : rectT), none, 40), ((⟨164, 0, 165, 1⟩ : rectT), none, 41), ((⟨168, 0, 169, 1⟩ : rectT), none, 42), ((⟨172, 0, 173, 1⟩ : rectT), none, 43), ((⟨176, 0, 177, 1⟩ : rectT), none, 44)]), 0), ((⟨180, 0, 213, 1⟩ : rectT), some (nodeT.mk 0 [((⟨180, 0, 181, 1⟩ : rectT), none, 45), ((⟨184, 0, 185, 1⟩ : rectT), none, 46), ((⟨188, 0, 189, 1⟩ : rectT), none, 47), ((⟨192, 0, 193, 1⟩ : rectT), none, 48), ((⟨196, 0, 197, 1⟩ : rectT), none, 49), ((⟨200, 0, 201, 1⟩ : rectT), none, 50), ((⟨204, 0, 205, 1⟩ : rectT), none, 51), ((⟨208, 0, 209, 1⟩ : rectT), none, 52), ((⟨212, 0, 213, 1⟩ : rectT), none, 53)]), 0), ((⟨216, 0, 249, 1⟩ : rectT), some (nodeT.mk 0 [((⟨216, 0, 217, 1⟩ : rectT), none, 54), ((⟨220, 0, 221, 1⟩ : rectT), none, 55), ((⟨224, 0, 225, 1⟩ : rectT), none, 56), ((⟨228, 0, 229, 1⟩ : rectT), none, 57), ((⟨232, 0, 233, 1⟩ : rectT), none, 58), ((⟨236, 0, 237, 1⟩ : rectT), none, 59), ((⟨240, 0, 241, 1⟩ : rectT), none, 60), ((⟨244, 0, 245, 1⟩ : rectT), none, 61), ((⟨248, 0, 249, 1⟩ : rectT), none, 62)]), 0), ((⟨252, 0, 285, 1⟩ : rectT), some (nodeT.mk 0 [((⟨252, 0, 253, 1⟩ : rectT), none, 63), ((⟨256, 0, 257, 1⟩ : rectT), none, 64), ((⟨260, 0, 261, 1⟩ : rectT), none, 65), ((⟨264, 0, 265, 1⟩ : rectT), none, 66), ((⟨268, 0, 269, 1⟩ : rectT), none, 67), ((⟨272, 0, 273, 1⟩ : rectT), none, 68), ((⟨276, 0, 277, 1⟩ : rectT), none, 69), ((⟨280, 0, 281, 1⟩ : rectT), none, 70), ((⟨284, 0, 285, 1⟩ : rectT), none, 71)]), 0), ((⟨288, 0, 321, 1⟩ : rectT), some (nodeT.mk 0 [((⟨288, 0, 289, 1⟩ : rectT), none, 72), ((⟨292, 0, 293, 1⟩ : rectT), none, 73), ((⟨296, 0, 297, 1⟩ : rectT), none, 74), ((⟨300, 0, 301, 1⟩ : rectT), none, 75), ((⟨304, 0, 305, 1⟩ : rectT), none, 76), ((⟨308, 0, 309, 1⟩ : rectT), none, 77), ((⟨312, 0, 313, 1⟩ : rectT), none, 78), ((⟨316, 0, 317, 1⟩ : rectT), none, 79), ((⟨320, 0, 321, 1⟩ : rectT), none, 80)]), 0), ((⟨324, 0, 357, 1⟩ : rectT), some (nodeT.mk 0 [((⟨324, 0, 325, 1⟩ : rectT), none, 81), ((⟨328, 0, 329, 1⟩ : rectT), none, 82), ((⟨332, 0, 333, 1⟩ : rectT), none, 83), ((⟨336, 0, 337, 1⟩ : rectT), none, 84), ((⟨340, 0, 341, 1⟩ : rectT), none, 85), ((⟨344, 0, 345, 1⟩ : rectT), none, 86), ((⟨348, 0, 349, 1⟩ : rectT), none, 87), ((⟨352, 0, 353, 1⟩ : rectT), none, 88), ((⟨356, 0, 357, 1⟩ : rectT), none, 89)]), 0), ((⟨360, 0, 393, 1⟩ : rectT), some (nodeT.mk 0 [((⟨360, 0, 361, 1⟩ : rectT), none, 90), ((⟨364, 0, 365, 1⟩ : rectT), none, 91), ((⟨368, 0, 369, 1⟩ : rectT), none, 92), ((⟨372, 0, 373, 1⟩ : rectT), none, 93), ((⟨376, 0, 377, 1⟩ : rectT), none, 94), ((⟨380, 0, 381, 1⟩ : rectT), none, 95), ((⟨384, 0, 385, 1⟩ : rectT), none, 96), ((⟨388, 0, 389, 1⟩ : rectT), none, 97), ((⟨392, 0, 393, 1⟩ : rectT), none, 98)]), 0), ((⟨396, 0, 429, 1⟩ : rectT), some (nodeT.mk 0 [((⟨396, 0, 397, 1⟩ : rectT), none, 99), ((⟨400, 0, 401, 1⟩ : rectT), none, 100), ((⟨404, 0, 405, 1⟩ : rectT), none, 101), ((⟨408, 0, 409, 1⟩ : rectT), none, 102), ((⟨412, 0, 413, 1⟩ : rectT), none, 103), ((⟨416, 0, 417, 1⟩ : rectT), none, 104), ((⟨420, 0, 421, 1⟩ : rectT), none, 105), ((⟨424, 0, 425, 1⟩ : rectT), none, 106), ((⟨428, 0, 429, 1⟩ : rectT), none, 107)]), 0), ((⟨432, 0, 465, 1⟩ : rectT), some (nodeT.mk 0 [((⟨432, 0, 433, 1⟩ : rectT), none, 108), ((⟨436, 0, 437, 1⟩ : rectT), none, 109), ((⟨440, 0, 441, 1⟩ : rectT), none, 110), ((⟨444, 0, 445, 1⟩ : rectT), none, 111), ((⟨448, 0, 449, 1⟩ : rectT), none, 112), ((⟨452, 0, 453, 1⟩ : rectT), none, 113), ((⟨456, 0, 457, 1⟩ : rectT), none, 114), ((⟨460, 0, 461, 1⟩ : rectT), none, 115), ((⟨464, 0, 465, 1⟩ : rectT), none, 116)]), 0), ((⟨468, 0, 509, 1⟩ : rectT), some (nodeT.mk 0 [((⟨468, 0, 469, 1⟩ : rectT), none, 117), ((⟨472, 0, 473, 1⟩ : rectT), none, 118), ((⟨476, 0, 477, 1⟩ : rectT), none, 119), ((⟨480, 0, 481, 1⟩ : rectT), none, 120), ((⟨484, 0, 485, 1⟩ : rectT), none, 121), ((⟨488, 0, 489, 1⟩ : rectT), none, 122), ((⟨492, 0, 493, 1⟩ : rectT), none, 123), ((⟨496, 0, 497, 1⟩ : rectT), none, 124), ((⟨500, 0, 501, 1⟩ : rectT), none, 125), ((⟨504, 0, 505, 1⟩ : rectT), none, 126), ((⟨508, 0, 509, 1⟩ : rectT), none, 127)]), 0)]

/-- The tree after the first 132 inserts of the scenario. -/
def state132 : nodeT :=
  nodeT.mk 1 [((⟨0, 0, 33, 1⟩ : rectT), some (nodeT.mk 0 [((⟨0, 0, 1, 1⟩ : rectT), none, 0), ((⟨4, 0, 5, 1⟩ : rectT), none, 1), ((⟨8, 0, 9, 1⟩ : rectT), none, 2), ((⟨12, 0, 13, 1⟩ : rectT), none, 3), ((⟨16, 0, 17, 1⟩ : rectT), none, 4), ((⟨20, 0, 21, 1⟩ : rectT), none, 5), ((⟨24, 0, 25, 1⟩ : rectT), none, 6), ((⟨28, 0, 29, 1⟩ : rectT), none, 7), ((⟨32, 0, 33, 1⟩ : rectT), none, 8)]), 0), ((⟨36, 0, 69, 1⟩ : rectT), some (nodeT.mk 0 [((⟨36, 0, 37, 1⟩ : rectT), none, 9), ((⟨40, 0, 41, 1⟩ : rectT), none, 10), ((⟨44, 0, 45, 1⟩ : rectT), none, 11), ((⟨48, 0, 49, 1⟩ : rectT), none, 12), ((⟨52, 0, 53, 1⟩ : rectT), none, 13), ((⟨56, 0, 57, 1⟩ : rectT), none, 14), ((⟨60, 0, 61, 1⟩ : rectT), none, 15), ((⟨64, 0, 65, 1⟩ : rectT), none, 16), ((⟨68, 0, 69, 1⟩ : rectT), none, 17)]), 0), ((⟨72, 0, 105, 1⟩ : rectT), some (nodeT.mk 0 [((⟨72, 0, 73, 1⟩ : rectT), none, 18), ((⟨76, 0, 77, 1⟩ : rectT), none, 19), ((⟨80, 0, 81, 1⟩ : rectT), none, 20), ((⟨84, 0, 85, 1⟩ : rectT), none, 21), ((⟨88, 0, 89, 1⟩ : rectT), none, 22), ((⟨92, 0, 93, 1⟩ : rectT), none, 23), ((⟨96, 0, 97, 1⟩ : rectT), none, 24), ((⟨100, 0, 101, 1⟩ : rectT), none, 25), ((⟨104, 0, 105, 1⟩ : rectT), none, 26)]), 0), ((⟨108, 0, 141, 1⟩ : rectT), some (nodeT.mk 0 [((⟨108, 0, 109, 1⟩ : rectT), none, 27), ((⟨112, 0, 113, 1⟩ : rectT), none, 28), ((⟨116, 0, 117, 1⟩ : rectT), none, 29), ((⟨120, 0, 121, 1⟩ : rectT), none, 30), ((⟨124, 0, 125, 1⟩ : rectT), none, 31), ((⟨128, 0, 129, 1⟩ : rectT), none, 32), ((⟨132, 0, 133, 1⟩ : rectT), none, 33), ((⟨136, 0, 137, 1⟩ : rectT), none, 34), ((⟨140, 0, 141, 1⟩ : rectT), none, 35)]), 0), ((⟨144, 0, 177, 1⟩ : rectT), some (nodeT.mk 0 [((⟨144, 0, 145, 1⟩ : rectT), none, 36), ((⟨148, 0, 149, 1⟩ : rectT), none, 37), ((⟨152, 0, 153, 1⟩ : rectT), none, 38), ((⟨156, 0, 157, 1⟩ : rectT), none, 39), ((⟨160, 0, 161, 1⟩ : rectT), none, 40), ((⟨164, 0, 165, 1⟩ : rectT), none, 41), ((⟨168, 0, 169, 1⟩ : rectT), none, 42), ((⟨172, 0, 173, 1⟩ : rectT), none, 43), ((⟨176, 0, 177, 1⟩ : rectT), none, 44)]), 0), ((⟨180, 0, 213, 1⟩ : rectT), some (nodeT.mk 0 [((⟨180, 0, 181, 1⟩ : rectT), none, 45), ((⟨184, 0, 185, 1⟩ : rectT), none, 46), ((⟨188, 0, 189, 1⟩ : rectT), none, 47), ((⟨192, 0, 193, 1⟩ : rectT), none, 48), ((⟨196, 0, 197, 1⟩ : rectT), none, 49), ((⟨200, 0, 201, 1⟩ : rectT), none, 50), ((⟨204, 0, 205, 1⟩ : rectT), none, 51), ((⟨208, 0, 209, 1⟩ : rectT), none, 52), ((⟨212, 0, 213, 1⟩ : rectT), none, 53)]), 0), ((⟨216, 0, 249, 1⟩ : rectT), some (nodeT.mk 0 [((⟨216, 0, 217, 1⟩ : rectT), none, 54), ((⟨220, 0, 221, 1⟩ : rectT), none, 55), ((⟨224, 0, 225, 1⟩ : rectT), none, 56), ((⟨228, 0, 229, 1⟩ : rectT), none, 57), ((⟨232, 0, 233, 1⟩ : rectT), none, 58), ((⟨236, 0, 237, 1⟩ : rectT), none, 59), ((⟨240, 0, 241, 1⟩ : rectT), none, 60), ((⟨244, 0, 245, 1⟩ : rectT), none, 61), ((⟨248, 0, 249, 1⟩ : rectT), none, 62)]), 0), ((⟨252, 0, 285, 1⟩ : rectT), some (nodeT.mk 0 [((⟨252, 0, 253, 1⟩ : rectT), none, 63), ((⟨256, 0, 257, 1⟩ : rectT), none, 64), ((⟨260, 0, 261, 1⟩ : rectT), none, 65), ((⟨264, 0, 265, 1⟩ : rectT), none, 66), ((⟨268, 0, 269, 1⟩ : rectT), none, 67), ((⟨272, 0, 273, 1⟩ : rectT), none, 68), ((⟨276, 0, 277, 1⟩ : rectT), none, 69), ((⟨280, 0, 281, 1⟩ : rectT), none, 70), ((⟨284, 0, 285, 1⟩ : rectT), none, 71)]), 0), ((⟨288, 0, 321, 1⟩ : rectT), some (nodeT.mk 0 [((⟨288, 0, 289, 1⟩ : rectT), none, 72), ((⟨292, 0, 293, 1⟩ : rectT), none, 73), ((⟨296, 0, 297, 1⟩ : rectT), none, 74), ((⟨300, 0, 301, 1⟩ : rectT), none, 75), ((⟨304, 0, 305, 1⟩ : rectT), none, 76), ((⟨308, 0, 309, 1⟩ : rectT), none, 77), ((⟨312, 0, 313, 1⟩ : rectT), none, 78), ((⟨316, 0, 317, 1⟩ : rectT), none, 79), ((⟨320, 0, 321, 1⟩ : rectT), none, 80)]), 0), ((⟨324, 0, 357, 1⟩ : rectT), some (nodeT.mk 0 [((⟨324, 0, 325, 1⟩ : rectT), none, 81), ((⟨328, 0, 329, 1⟩ : rectT), none, 82), ((⟨332, 0, 333, 1⟩ : rectT), none, 83), ((⟨336, 0, 337, 1⟩ : rectT), none, 84), ((⟨340, 0, 341, 1⟩ : rectT), none, 85), ((⟨344, 0, 345, 1⟩ : rectT), none, 86), ((⟨348, 0, 349, 1⟩ : rectT), none, 87), ((⟨352, 0, 353, 1⟩ : rectT), none, 88), ((⟨356, 0, 357, 1⟩ : rectT), none, 89)]), 0), ((⟨360, 0, 393, 1⟩ : rectT), some (nodeT.mk 0 [((⟨360, 0, 361, 1⟩ : rectT), none, 90), ((⟨364, 0, 365, 1⟩ : rectT), none, 91), ((⟨368, 0, 369, 1⟩ : rectT), none, 92), ((⟨372, 0, 373, 1⟩ : rectT), none, 93), ((⟨376, 0, 377, 1⟩ : rectT), none, 94), ((⟨380, 0, 381, 1⟩ : rectT), none, 95), ((⟨384, 0, 385, 1⟩ : rectT), none, 96), ((⟨388, 0, 389, 1⟩ : rectT), none, 97), ((⟨392, 0, 393, 1⟩ : rectT), none, 98)]), 0), ((⟨396, 0, 429, 1⟩ : rectT), some (nodeT.mk 0 [((⟨396, 0, 397, 1⟩ : rectT), none, 99), ((⟨400, 0, 401, 1⟩ : rectT), none, 100), ((⟨404, 0, 405, 1⟩ : rectT), none, 101), ((⟨408, 0, 409, 1⟩ : rectT), none, 102), ((⟨412, 0, 413, 1⟩ : rectT), none, 103), ((⟨416, 0, 417, 1⟩ : rectT), none, 104), ((⟨420, 0, 421, 1⟩ : rectT), none, 105), ((⟨424, 0, 425, 1⟩ : rectT), none, 106), ((⟨428, 0, 429, 1⟩ : rectT), none, 107)]), 0), ((⟨432, 0, 465, 1⟩ : rectT), some (nodeT.mk 0 [((⟨432, 0, 433, 1⟩ : rectT), none, 108), ((⟨436, 0, 437, 1⟩ : rectT), none, 109), ((⟨440, 0, 441, 1⟩ : rectT), none, 110), ((⟨444, 0, 445, 1⟩ : rectT), none, 111), ((⟨448, 0, 449, 1⟩ : rectT), none, 112), ((⟨452, 0, 453, 1⟩ : rectT), none, 113), ((⟨456, 0, 457, 1⟩ : rectT), none, 114), ((⟨460, 0, 461, 1⟩ : rectT), none, 115), ((⟨464, 0, 465, 1⟩ : rectT), none, 116)]), 0), ((⟨468, 0, 525, 1⟩ : rectT), some (nodeT.mk 0 [((⟨468, 0, 469, 1⟩ : rectT), none, 117), ((⟨472, 0, 473, 1⟩ : rectT), none, 118), ((⟨476, 0, 477, 1⟩ : rectT), none, 119), ((⟨480, 0, 481, 1⟩ : rectT), none, 120), ((⟨484, 0, 485, 1⟩ : rectT), none, 121), ((⟨488, 0, 489, 1⟩ : rectT), none, 122), ((⟨492, 0, 493, 1⟩ : rectT), none, 123), ((⟨496, 0, 497, 1⟩ : rectT), none, 124), ((⟨500, 0, 501, 1⟩ : rectT), none, 125), ((⟨504, 0, 505, 1⟩ : rectT), none, 126), ((⟨508, 0, 509, 1⟩ : rectT), none, 127), ((⟨512, 0, 513, 1⟩ : rectT), none, 128), ((⟨516, 0, 517, 1⟩ : rectT), none, 129), ((⟨520, 0, 521, 1⟩ : rectT), none, 130), ((⟨524, 0, 525, 1⟩ : rectT), none, 131)]), 0)]

/-- The tree after the first 136 inserts of the scenario. -/
def state136 : nodeT :=
  nodeT.mk 1 [((⟨0, 0, 33, 1⟩ : rectT), some (nodeT.mk 0 [((⟨0, 0, 1, 1⟩ : rectT), none, 0), ((⟨4, 0, 5, 1⟩ : rectT), none, 1), ((⟨8, 0, 9, 1⟩ : rectT), none, 2), ((⟨12, 0, 13, 1⟩ : rectT), none, 3), ((⟨16, 0, 17, 1⟩ : rectT), none, 4), ((⟨20, 0, 21, 1⟩ : rectT), none, 5), ((⟨24, 0, 25, 1⟩ : rectT), none, 6), ((⟨28, 0, 29, 1⟩ : rectT), none, 7), ((⟨32, 0, 33, 1⟩ : rectT), none, 8)]), 0), ((⟨36, 0, 69, 1⟩ : rectT), some (nodeT.mk 0 [((⟨36, 0, 37, 1⟩ : rectT), none, 9), ((⟨40, 0, 41, 1⟩ : rectT), none, 10), ((⟨44, 0, 45, 1⟩ : rectT), none, 11), ((⟨48, 0, 49, 1⟩ : rectT), none, 12), ((⟨52, 0, 53, 1⟩ : rectT), none, 13), ((⟨56, 0, 57, 1⟩ : rectT), none, 14), ((⟨60, 0, 61, 1⟩ : rectT), none, 15), ((⟨64, 0, 65, 1⟩ : rectT), none, 16), ((⟨68, 0, 69, 1⟩ : rectT), none, 17)]), 0), ((⟨72, 0, 105, 1⟩ : rectT), some (nodeT.mk 0 [((⟨72, 0, 73, 1⟩ : rectT), none, 18), ((⟨76, 0, 77, 1⟩ : rectT), none, 19), ((⟨80, 0, 81, 1⟩ : rectT), none, 20), ((⟨84, 0, 85, 1⟩ : rectT), none, 21), ((⟨88, 0, 89, 1⟩ : rectT), none, 22), ((⟨92, 0, 93, 1⟩ : rectT), none, 23), ((⟨96, 0, 97, 1⟩ : rectT), none, 24), ((⟨100, 0, 101, 1⟩ : rectT), none, 25), ((⟨104, 0, 105, 1⟩ : rectT), none, 26)]), 0), ((⟨108, 0, 141, 1⟩ : rectT), some (nodeT.mk 0 [((⟨108, 0, 109, 1⟩ : rectT), none, 27), ((⟨112, 0, 113, 1⟩ : rectT), none, 28), ((⟨116, 0, 117, 1⟩ : rectT), none, 29), ((⟨120, 0, 121, 1⟩ : rectT), none, 30), ((⟨124, 0, 125, 1⟩ : rectT), none, 31), ((⟨128, 0, 129, 1⟩ : rectT), none, 32), ((⟨132, 0, 133, 1⟩ : rectT), none, 33), ((⟨136, 0, 137, 1⟩ : rectT), none, 34), ((⟨140, 0, 141, 1⟩ : rectT), none, 35)]), 0), ((⟨144, 0, 177, 1⟩ : rectT), some (nodeT.mk 0 [((⟨144, 0, 145, 1⟩ : rectT), none, 36), ((⟨148, 0, 149, 1⟩ : rectT), none, 37), ((⟨152, 0, 153, 1⟩ : rectT), none, 38), ((⟨156, 0, 157, 1⟩ : rectT), none, 39), ((⟨160, 0, 161, 1⟩ : rectT), none, 40), ((⟨164, 0, 165, 1⟩ : rectT), none, 41), ((⟨168, 0, 169, 1⟩ : rectT), none, 42), ((⟨172, 0, 173, 1⟩ : rectT), none, 43), ((⟨176, 0, 177, 1⟩ : rectT), none, 44)]), 0), ((⟨180, 0, 213, 1⟩ : rectT), some (nodeT.mk 0 [((⟨180, 0, 181, 1⟩ : rectT), none, 45), ((⟨184, 0, 185, 1⟩ : rectT), none, 46), ((⟨188, 0, 189, 1⟩ : rectT), none, 47), ((⟨192, 0, 193, 1⟩ : rectT), none, 48), ((⟨196, 0, 197, 1⟩ : rectT), none, 49), ((⟨200, 0, 201, 1⟩ : rectT), none, 50), ((⟨204, 0, 205, 1⟩ : rectT), none, 51), ((⟨208, 0, 209, 1⟩ : rectT), none, 52), ((⟨212, 0, 213, 1⟩ : rectT), none, 53)]), 0), ((⟨216, 0, 249, 1⟩ : rectT), some (nodeT.mk 0 [((⟨216, 0, 217, 1⟩ : rectT), none, 54), ((⟨220, 0, 221, 1⟩ : rectT), none, 55), ((⟨224, 0, 225, 1⟩ : rectT), none, 56), ((⟨228, 0, 229, 1⟩ : rectT), none, 57), ((⟨232, 0, 233, 1⟩ : rectT), none, 58), ((⟨236, 0, 237, 1⟩ : rectT), none, 59), ((⟨240, 0, 241, 1⟩ : rectT), none, 60), ((⟨244, 0, 245, 1⟩ : rectT), none, 61), ((⟨248, 0, 249, 1⟩ : rectT), none, 62)]), 0), ((⟨252, 0, 285, 1⟩ : rectT), some (nodeT.mk 0 [((⟨252, 0, 253, 1⟩ : rectT), none, 63), ((⟨256, 0, 257, 1⟩ : rectT), none, 64), ((⟨260, 0, 261, 1⟩ : rectT), none, 65), ((⟨264, 0, 265, 1⟩ : rectT), none, 66), ((⟨268, 0, 269, 1⟩ : rectT), none, 67), ((⟨272, 0, 273, 1⟩ : rectT), none, 68), ((⟨276, 0, 277, 1⟩ : rectT), none, 69), ((⟨280, 0, 281, 1⟩ : rectT), none, 70), ((⟨284, 0, 285, 1⟩ : rectT), none, 71)]), 0), ((⟨288, 0, 321, 1⟩ : rectT), some (nodeT.mk 0 [((⟨288, 0, 289, 1⟩ : rectT), none, 72), ((⟨292, 0, 293, 1⟩ : rectT), none, 73), ((⟨296, 0, 297, 1⟩ : rectT), none, 74), ((⟨300, 0, 301, 1⟩ : rectT), none, 75), ((⟨304, 0, 305, 1⟩ : rectT), none, 76), ((⟨308, 0, 309, 1⟩ : rectT), none, 77), ((⟨312, 0, 313, 1⟩ : rectT), none, 78), ((⟨316, 0, 317, 1⟩ : rectT), none, 79), ((⟨320, 0, 321, 1⟩ : rectT), none, 80)]), 0), ((⟨324, 0, 357, 1⟩ : rectT), some (nodeT.mk 0 [((⟨324, 0, 325, 1⟩ : rectT), none, 81), ((⟨328, 0, 329, 1⟩ : rectT), none, 82), ((⟨332, 0, 333, 1⟩ : rectT), none, 83), ((⟨336, 0, 337, 1⟩ : rectT), none, 84), ((⟨340, 0, 341, 1⟩ : rectT), none, 85), ((⟨344, 0, 345, 1⟩ : rectT), none, 86), ((⟨348, 0, 349, 1⟩ : rectT), none, 87), ((⟨352, 0, 353, 1⟩ : rectT), none, 88), ((⟨356, 0, 357, 1⟩ : rectT), none, 89)]), 0), ((⟨360, 0, 393, 1⟩ : rectT), some (nodeT.mk 0 [((⟨360, 0, 361, 1⟩ : rectT), none, 90), ((⟨364, 0, 365, 1⟩ : rectT), none, 91), ((⟨368, 0, 369, 1⟩ : rectT), none, 92), ((⟨372, 0, 373, 1⟩ : rectT), none, 93), ((⟨376, 0, 377, 1⟩ : rectT), none, 94), ((⟨380, 0, 381, 1⟩ : rectT), none, 95), ((⟨384, 0, 385, 1⟩ : rectT), none, 96), ((⟨388, 0, 389, 1⟩ : rectT), none, 97), ((⟨392, 0, 393, 1⟩ : rectT), none, 98)]), 0), ((⟨396, 0, 429, 1⟩ : rectT), some (nodeT.mk 0 [((⟨396, 0, 397, 1⟩ : rectT), none, 99), ((⟨400, 0, 401, 1⟩ : rectT), none, 100), ((⟨404, 0, 405, 1⟩ : rectT), none, 101), ((⟨408, 0, 409, 1⟩ : rectT), none, 102), ((⟨412, 0, 413, 1⟩ : rectT), none, 103), ((⟨416, 0, 417, 1⟩ : rectT), none, 104), ((⟨420, 0, 421, 1⟩ : rectT), none, 105), ((⟨424, 0, 425, 1⟩ : rectT), none, 106), ((⟨428, 0, 429, 1⟩ : rectT), none, 107)]), 0), ((⟨432, 0, 465, 1⟩ : rectT), some (nodeT.mk 0 [((⟨432, 0, 433, 1⟩ : rectT), none, 108), ((⟨436, 0, 437, 1⟩ : rectT), none, 109), ((⟨440, 0, 441, 1⟩ : rectT), none, 110), ((⟨444, 0, 445, 1⟩ : rectT), none, 111), ((⟨448, 0, 449, 1⟩ : rectT), none, 112), ((⟨452, 0, 453, 1⟩ : rectT), none, 113), ((⟨456, 0, 457, 1⟩ : rectT), none, 114), ((⟨460, 0, 461, 1⟩ : rectT), none, 115), ((⟨464, 0, 465, 1⟩ : rectT), none, 116)]), 0), ((⟨468, 0, 501, 1⟩ : rectT), some (nodeT.mk 0 [((⟨468, 0, 469, 1⟩ : rectT), none, 117), ((⟨472, 0, 473, 1⟩ : rectT), none, 118), ((⟨476, 0, 477, 1⟩ : rectT), none, 119), ((⟨480, 0, 481, 1⟩ : rectT), none, 120), ((⟨484, 0, 485, 1⟩ : rectT), none, 121), ((⟨488, 0, 489, 1⟩ : rectT), none, 122), ((⟨492, 0, 493, 1⟩ : rectT), none, 123), ((⟨496, 0, 497, 1⟩ : rectT), none, 124), ((⟨500, 0, 501, 1⟩ : rectT), none, 125)]), 0), ((⟨504, 0, 541, 1⟩ : rectT), some (nodeT.mk 0 [((⟨504, 0, 505, 1⟩ : rectT), none, 126), ((⟨508, 0, 509, 1⟩ : rectT), none, 127), ((⟨512, 0, 513, 1⟩ : rectT), none, 128), ((⟨516, 0, 517, 1⟩ : rectT), none, 129), ((⟨520, 0, 521, 1⟩ : rectT), none, 130), ((⟨524, 0, 525, 1⟩ : rectT), none, 131), ((⟨528, 0, 529, 1⟩ : rectT), none, 132), ((⟨532, 0, 533, 1⟩ : rectT), none, 133), ((⟨536, 0, 537, 1⟩ : rectT), none, 134), ((⟨540, 0, 541, 1⟩ : rectT), none, 135)]), 0)]

/-- The tree after the first 140 inserts of the scenario. -/
def state140 : nodeT :=
  nodeT.mk 1 [((⟨0, 0, 33, 1⟩ : rectT), some (nodeT.mk 0 [((⟨0, 0, 1, 1⟩ : rectT), none, 0), ((⟨4, 0, 5, 1⟩ : rectT), none, 1), ((⟨8, 0, 9, 1⟩ : rectT), none, 2), ((⟨12, 0, 13, 1⟩ : rectT), none, 3), ((⟨16, 0, 17, 1⟩ : rectT), none, 4), ((⟨20, 0, 21, 1⟩ : rectT), none, 5), ((⟨24, 0, 25, 1⟩ : rectT), none, 6), ((⟨28, 0, 29, 1⟩ : rectT), none, 7), ((⟨32, 0, 33, 1⟩ : rectT), none, 8)]), 0), ((⟨36, 0, 69, 1⟩ : rectT), some (nodeT.mk 0 [((⟨36, 0, 37, 1⟩ : rectT), none, 9), ((⟨40, 0, 41, 1⟩ : rectT), none, 10), ((⟨44, 0, 45, 1⟩ : rectT), none, 11), ((⟨48, 0, 49, 1⟩ : rectT), none, 12), ((⟨52, 0, 53, 1⟩ : rectT), none, 13), ((⟨56, 0, 57, 1⟩ : rectT), none, 14), ((⟨60, 0, 61, 1⟩ : rectT), none, 15), ((⟨64, 0, 65, 1⟩ : rectT), none, 16), ((⟨68, 0, 69, 1⟩ : rectT), none, 17)]), 0), ((⟨72, 0, 105, 1⟩ : rectT), some (nodeT.mk 0 [((⟨72, 0, 73, 1⟩ : rectT), none, 18), ((⟨76, 0, 77, 1⟩ : rectT), none, 19), ((⟨80, 0, 81, 1⟩ : rectT), none, 20), ((⟨84, 0, 85, 1⟩ : rectT), none, 21), ((⟨88, 0, 89, 1⟩ : rectT), none, 22), ((⟨92, 0, 93, 1⟩ : rectT), none, 23), ((⟨96, 0, 97, 1⟩ : rectT), none, 24), ((⟨100, 0, 101, 1⟩ : rectT), none, 25), ((⟨104, 0, 105, 1⟩ : rectT), none, 26)]), 0), ((⟨108, 0, 141, 1⟩ : rectT), some (nodeT.mk 0 [((⟨108, 0, 109, 1⟩ : rectT), none, 27), ((⟨112, 0, 113, 1⟩ : rectT), none, 28), ((⟨116, 0, 117, 1⟩ : rectT), none, 29), ((⟨120, 0, 121, 1⟩ : rectT), none, 30), ((⟨124, 0, 125, 1⟩ : rectT), none, 31), ((⟨128, 0, 129, 1⟩ : rectT), none, 32), ((⟨132, 0, 133, 1⟩ : rectT), none, 33), ((⟨136, 0, 137, 1⟩ : rectT), none, 34), ((⟨140, 0, 141, 1⟩ : rectT), none, 35)]), 0), ((⟨144, 0, 177, 1⟩ : rectT), some (nodeT.mk 0 [((⟨144, 0, 145, 1⟩ : rectT), none, 36), ((⟨148, 0, 149, 1⟩ : rectT), none, 37), ((⟨152, 0, 153, 1⟩ : rectT), none, 38), ((⟨156, 0, 157, 1⟩ : rectT), none, 39), ((⟨160, 0, 161, 1⟩ : rectT), none, 40), ((⟨164, 0, 165, 1⟩ : rectT), none, 41), ((⟨168, 0, 169, 1⟩ : rectT), none, 42), ((⟨172, 0, 173, 1⟩ : rectT), none, 43), ((⟨176, 0, 177, 1⟩ : rectT), none, 44)]), 0), ((⟨180, 0, 213, 1⟩ : rectT), some (nodeT.mk 0 [((⟨180, 0, 181, 1⟩ : rectT), none, 45), ((⟨184, 0, 185, 1⟩ : rectT), none, 46), ((⟨188, 0, 189, 1⟩ : rectT), none, 47), ((⟨192, 0, 193, 1⟩ : rectT), none, 48), ((⟨196, 0, 197, 1⟩ : rectT), none, 49), ((⟨200, 0, 201, 1⟩ : rectT), none, 50), ((⟨204, 0, 205, 1⟩ : rectT), none, 51), ((⟨208, 0, 209, 1⟩ : rectT), none, 52), ((⟨212, 0, 213, 1⟩ : rectT), none, 53)]), 0), ((⟨216, 0, 249, 1⟩ : rectT), some (nodeT.mk 0 [((⟨216, 0, 217, 1⟩ : rectT), none, 54), ((⟨220, 0, 221, 1⟩ : rectT), none, 55), ((⟨224, 0, 225, 1⟩ : rectT), none, 56), ((⟨228, 0, 229, 1⟩ : rectT), none, 57), ((⟨232, 0, 233, 1⟩ : rectT), none, 58), ((⟨236, 0, 237, 1⟩ : rectT), none, 59), ((⟨240, 0, 241, 1⟩ : rectT), none, 60), ((⟨244, 0, 245, 1⟩ : rectT), none, 61), ((⟨248, 0, 249, 1⟩ : rectT), none, 62)]), 0), ((⟨252, 0, 285, 1⟩ : rectT), some (nodeT.mk 0 [((⟨252, 0, 253, 1⟩ : rectT), none, 63), ((⟨256, 0, 257, 1⟩ : rectT), none, 64), ((⟨260, 0, 261, 1⟩ : rectT), none, 65), ((⟨264, 0, 265, 1⟩ : rectT), none, 66), ((⟨268, 0, 269, 1⟩ : rectT), none, 67), ((⟨272, 0, 273, 1⟩ : rectT), none, 68), ((⟨276, 0, 277, 1⟩ : rectT), none, 69), ((⟨280, 0, 281, 1⟩ : rectT), none, 70), ((⟨284, 0, 285, 1⟩ : rectT), none, 71)]), 0), ((⟨288, 0, 321, 1⟩ : rectT), some (nodeT.mk 0 [((⟨288, 0, 289, 1⟩ : rectT), none, 72), ((⟨292, 0, 293, 1⟩ : rectT), none, 73), ((⟨296, 0, 297, 1⟩ : rectT), none, 74), ((⟨300, 0, 301, 1⟩ : rectT), none, 75), ((⟨304, 0, 305, 1⟩ : rectT), none, 76), ((⟨308, 0, 309, 1⟩ : rectT), none, 77), ((⟨312, 0, 313, 1⟩ : rectT), none, 78), ((⟨316, 0, 317, 1⟩ : rectT), none, 79), ((⟨320, 0, 321, 1⟩ : rectT), none, 80)]), 0), ((⟨324, 0, 357, 1⟩ : rectT), some (nodeT.mk 0 [((⟨324, 0, 325, 1⟩ : rectT), none, 81), ((⟨328, 0, 329, 1⟩ : rectT), none, 82), ((⟨332, 0, 333, 1⟩ : rectT), none, 83), ((⟨336, 0, 337, 1⟩ : rectT), none, 84), ((⟨340, 0, 341, 1⟩ : rectT), none, 85), ((⟨344, 0, 345, 1⟩ : rectT), none, 86), ((⟨348, 0, 349, 1⟩ : rectT), none, 87), ((⟨352, 0, 353, 1⟩ : rectT), none, 88), ((⟨356, 0, 357, 1⟩ : rectT), none, 89)]), 0), ((⟨360, 0, 393, 1⟩ : rectT), some (nodeT.mk 0 [((⟨360, 0, 361, 1⟩ : rectT), none, 90), ((⟨364, 0, 365, 1⟩ : rectT), none, 91), ((⟨368, 0, 369, 1⟩ : rectT), none, 92), ((⟨372, 0, 373, 1⟩ : rectT), none, 93), ((⟨376, 0, 377, 1⟩ : rectT), none, 94), ((⟨380, 0, 381, 1⟩ : rectT), none, 95), ((⟨384, 0, 385, 1⟩ : rectT), none, 96), ((⟨388, 0, 389, 1⟩ : rectT), none, 97), ((⟨392, 0, 393, 1⟩ : rectT), none, 98)]), 0), ((⟨396, 0, 429, 1⟩ : rectT), some (nodeT.mk 0 [((⟨396, 0, 397, 1⟩ : rectT), none, 99), ((⟨400, 0, 401, 1⟩ : rectT), none, 100), ((⟨404, 0, 405, 1⟩ : rectT), none, 101), ((⟨408, 0, 409, 1⟩ : rectT), none, 102), ((⟨412, 0, 413, 1⟩ : rectT), none, 103), ((⟨416, 0, 417, 1⟩ : rectT), none, 104), ((⟨420, 0, 421, 1⟩ : rectT), none, 105), ((⟨424, 0, 425, 1⟩ : rectT), none, 106), ((⟨428, 0, 429, 1⟩ : rectT), none, 107)]), 0), ((⟨432, 0, 465, 1⟩ : rectT), some (nodeT.mk 0 [((⟨432, 0, 433, 1⟩ : rectT), none, 108), ((⟨436, 0, 437, 1⟩ : rectT), none, 109), ((⟨440, 0, 441, 1⟩ : rectT), none, 110), ((⟨444, 0, 445, 1⟩ : rectT), none, 111), ((⟨448, 0, 449, 1⟩ : rectT), none, 112), ((⟨452, 0, 453, 1⟩ : rectT), none, 113), ((⟨456, 0, 457, 1⟩ : rectT), none, 114), ((⟨460, 0, 461, 1⟩ : rectT), none, 115), ((⟨464, 0, 465, 1⟩ : rectT), none, 116)]), 0), ((⟨468, 0, 501, 1⟩ : rectT), some (nodeT.mk 0 [((⟨468, 0, 469, 1⟩ : rectT), none, 117), ((⟨472, 0, 473, 1⟩ : rectT), none, 118), ((⟨476, 0, 477, 1⟩ : rectT), none, 119), ((⟨480, 0, 481, 1⟩ : rectT), none, 120), ((⟨484, 0, 485, 1⟩ : rectT), none, 121), ((⟨488, 0, 489, 1⟩ : rectT), none, 122), ((⟨492, 0, 493, 1⟩ : rectT), none, 123), ((⟨496, 0, 497, 1⟩ : rectT), none, 124), ((⟨500, 0, 501, 1⟩ : rectT), none, 125)]), 0), ((⟨504, 0, 557, 1⟩ : rectT), some (nodeT.mk 0 [((⟨504, 0, 505, 1⟩ : rectT), none, 126), ((⟨508, 0, 509, 1⟩ : rectT), none, 127), ((⟨512, 0, 513, 1⟩ : rectT), none, 128), ((⟨516, 0, 517, 1⟩ : rectT), none, 129), ((⟨520, 0, 521, 1⟩ : rectT), none, 130), ((⟨524, 0, 525, 1⟩ : rectT), none, 131), ((⟨528, 0, 529, 1⟩ : rectT), none, 132), ((⟨532, 0, 533, 1⟩ : rectT), none, 133), ((⟨536, 0, 537, 1⟩ : rectT), none, 134), ((⟨540, 0, 541, 1⟩ : rectT), none, 135), ((⟨544, 0, 545, 1⟩ : rectT), none, 136), ((⟨548, 0, 549, 1⟩ : rectT), none, 137), ((⟨552, 0, 553, 1⟩ : rectT), none, 138), ((⟨556, 0, 557, 1⟩ : rectT), none, 139)]), 0)]

/-- The tree after the first 144 inserts of the scenario. -/
def state144 : nodeT :=
  nodeT.mk 1 [((⟨0, 0, 33, 1⟩ : rectT), some (nodeT.mk 0 [((⟨0, 0, 1, 1⟩ : rectT), none, 0), ((⟨4, 0, 5, 1⟩ : rectT), none, 1), ((⟨8, 0, 9, 1⟩ : rectT), none, 2), ((⟨12, 0, 13, 1⟩ : rectT), none, 3), ((⟨16, 0, 17, 1⟩ : rectT), none, 4), ((⟨20, 0, 21, 1⟩ : rectT), none, 5), ((⟨24, 0, 25, 1⟩ : rectT), none, 6), ((⟨28, 0, 29, 1⟩ : rectT), none, 7), ((⟨32, 0, 33, 1⟩ : rectT), none, 8)]), 0), ((⟨36, 0, 69, 1⟩ : rectT), some (nodeT.mk 0 [((⟨36, 0, 37, 1⟩ : rectT), none, 9), ((⟨40, 0, 41, 1⟩ : rectT), none, 10), ((⟨44, 0, 45, 1⟩ : rectT), none, 11), ((⟨48, 0, 49, 1⟩ : rectT), none, 12), ((⟨52, 0, 53, 1⟩ : rectT), none, 13), ((⟨56, 0, 57, 1⟩ : rectT), none, 14), ((⟨60, 0, 61, 1⟩ : rectT), none, 15), ((⟨64, 0, 65, 1⟩ : rectT), none, 16), ((⟨68, 0, 69, 1⟩ : rectT), none, 17)]), 0), ((⟨72, 0, 105, 1⟩ : rectT), some (nodeT.mk 0 [((⟨72, 0, 73, 1⟩ : rectT), none, 18), ((⟨76, 0, 77, 1⟩ : rectT), none, 19), ((⟨80, 0, 81, 1⟩ : rectT), none, 20), ((⟨84, 0, 85, 1⟩ : rectT), none, 21), ((⟨88, 0, 89, 1⟩ : rectT), none, 22), ((⟨92, 0, 93, 1⟩ : rectT), none, 23), ((⟨96, 0, 97, 1⟩ : rectT), none, 24), ((⟨100, 0, 101, 1⟩ : rectT), none, 25), ((⟨104, 0, 105, 1⟩ : rectT), none, 26)]), 0), ((⟨108, 0, 141, 1⟩ : rectT), some (nodeT.mk 0 [((⟨108, 0, 109, 1⟩ : rectT), none, 27), ((⟨112, 0, 113, 1⟩ : rectT), none, 28), ((⟨116, 0, 117, 1⟩ : rectT), none, 29), ((⟨120, 0, 121, 1⟩ : rectT), none, 30), ((⟨124, 0, 125, 1⟩ : rectT), none, 31), ((⟨128, 0, 129, 1⟩ : rectT), none, 32), ((⟨132, 0, 133, 1⟩ : rectT), none, 33), ((⟨136, 0, 137, 1⟩ : rectT), none, 34), ((⟨140, 0, 141, 1⟩ : rectT), none, 35)]), 0), ((⟨144, 0, 177, 1⟩ : rectT), some (nodeT.mk 0 [((⟨144, 0, 145, 1⟩ : rectT), none, 36), ((⟨148, 0, 149, 1⟩ : rectT), none, 37), ((⟨152, 0, 153, 1⟩ : rectT), none, 38), ((⟨156, 0, 157, 1⟩ : rectT), none, 39), ((⟨160, 0, 161, 1⟩ : rectT), none, 40), ((⟨164, 0, 165, 1⟩ : rectT), none, 41), ((⟨168, 0, 169, 1⟩ : rectT), none, 42), ((⟨172, 0, 173, 1⟩ : rectT), none, 43), ((⟨176, 0, 177, 1⟩ : rectT), none, 44)]), 0), ((⟨180, 0, 213, 1⟩ : rectT), some (nodeT.mk 0 [((⟨180, 0, 181, 1⟩ : rectT), none, 45), ((⟨184, 0, 185, 1⟩ : rectT), none, 46), ((⟨188, 0, 189, 1⟩ : rectT), none, 47), ((⟨192, 0, 193, 1⟩ : rectT), none, 48), ((⟨196, 0, 197, 1⟩ : rectT), none, 49), ((⟨200, 0, 201, 1⟩ : rectT), none, 50), ((⟨204, 0, 205, 1⟩ : rectT), none, 51), ((⟨208, 0, 209, 1⟩ : rectT), none, 52), ((⟨212, 0, 213, 1⟩ : rectT), none, 53)]), 0), ((⟨216, 0, 249, 1⟩ : rectT), some (nodeT.mk 0 [((⟨216, 0, 217, 1⟩ : rectT), none, 54), ((⟨220, 0, 221, 1⟩ : rectT), none, 55), ((⟨224, 0, 225, 1⟩ : rectT), none, 56), ((⟨228, 0, 229, 1⟩ : rectT), none, 57), ((⟨232, 0, 233, 1⟩ : rectT), none, 58), ((⟨236, 0, 237, 1⟩ : rectT), none, 59), ((⟨240, 0, 241, 1⟩ : rectT), none, 60), ((⟨244, 0, 245, 1⟩ : rectT), none, 61), ((⟨248, 0, 249, 1⟩ : rectT), none, 62)]), 0), ((⟨252, 0, 285, 1⟩ : rectT), some (nodeT.mk 0 [((⟨252, 0, 253, 1⟩ : rectT), none, 63), ((⟨256, 0, 257, 1⟩ : rectT), none, 64), ((⟨260, 0, 261, 1⟩ : rectT), none, 65), ((⟨264, 0, 265, 1⟩ : rectT), none, 66), ((⟨268, 0, 269, 1⟩ : rectT), none, 67), ((⟨272, 0, 273, 1⟩ : rectT), none, 68), ((⟨276, 0, 277, 1⟩ : rectT), none, 69), ((⟨280, 0, 281, 1⟩ : rectT), none, 70), ((⟨284, 0, 285, 1⟩ : rectT), none, 71)]), 0), ((⟨288, 0, 321, 1⟩ : rectT), some (nodeT.mk 0 [((⟨288, 0, 289, 1⟩ : rectT), none, 72), ((⟨292, 0, 293, 1⟩ : rectT), none, 73), ((⟨296, 0, 297, 1⟩ : rectT), none, 74), ((⟨300, 0, 301, 1⟩ : rectT), none, 75), ((⟨304, 0, 305, 1⟩ : rectT), none, 76), ((⟨308, 0, 309, 1⟩ : rectT), none, 77), ((⟨312, 0, 313, 1⟩ : rectT), none, 78), ((⟨316, 0, 317, 1⟩ : rectT), none, 79), ((⟨320, 0, 321, 1⟩ : rectT), none, 80)]), 0), ((⟨324, 0, 357, 1⟩ : rectT), some (nodeT.mk 0 [((⟨324, 0, 325, 1⟩ : rectT), none, 81), ((⟨328, 0, 329, 1⟩ : rectT), none, 82), ((⟨332, 0, 333, 1⟩ : rectT), none, 83), ((⟨336, 0, 337, 1⟩ : rectT), none, 84), ((⟨340, 0, 341, 1⟩ : rectT), none, 85), ((⟨344, 0, 345, 1⟩ : rectT), none, 86), ((⟨348, 0, 349, 1⟩ : rectT), none, 87), ((⟨352, 0, 353, 1⟩ : rectT), none, 88), ((⟨356, 0, 357, 1⟩ : rectT), none, 89)]), 0), ((⟨360, 0, 393, 1⟩ : rectT), some (nodeT.mk 0 [((⟨360, 0, 361, 1⟩ : rectT), none, 90), ((⟨364, 0, 365, 1⟩ : rectT), none, 91), ((⟨368, 0, 369, 1⟩ : rectT), none, 92), ((⟨372, 0, 373, 1⟩ : rectT), none, 93), ((⟨376, 0, 377, 1⟩ : rectT), none, 94), ((⟨380, 0, 381, 1⟩ : rectT), none, 95), ((⟨384, 0, 385, 1⟩ : rectT), none, 96), ((⟨388, 0, 389, 1⟩ : rectT), none, 97), ((⟨392, 0, 393, 1⟩ : rectT), none, 98)]), 0), ((⟨396, 0, 429, 1⟩ : rectT), some (nodeT.mk 0 [((⟨396, 0, 397, 1⟩ : rectT), none, 99), ((⟨400, 0, 401, 1⟩ : rectT), none, 100), ((⟨404, 0, 405, 1⟩ : rectT), none, 101), ((⟨408, 0, 409, 1⟩ : rectT), none, 102), ((⟨412, 0, 413, 1⟩ : rectT), none, 103), ((⟨416, 0, 417, 1⟩ : rectT), none, 104), ((⟨420, 0, 421, 1⟩ : rectT), none, 105), ((⟨424, 0, 425, 1⟩ : rectT), none, 106), ((⟨428, 0, 429, 1⟩ : rectT), none, 107)]), 0), ((⟨432, 0, 465, 1⟩ : rectT), some (nodeT.mk 0 [((⟨432, 0, 433, 1⟩ : rectT), none, 108), ((⟨436, 0, 437, 1⟩ : rectT), none, 109), ((⟨440, 0, 441, 1⟩ : rectT), none, 110), ((⟨444, 0, 445, 1⟩ : rectT), none, 111), ((⟨448, 0, 449, 1⟩ : rectT), none, 112), ((⟨452, 0, 453, 1⟩ : rectT), none, 113), ((⟨456, 0, 457, 1⟩ : rectT), none, 114), ((⟨460, 0, 461, 1⟩ : rectT), none, 115), ((⟨464, 0, 465, 1⟩ : rectT), none, 116)]), 0), ((⟨468, 0, 501, 1⟩ : rectT), some (nodeT.mk 0 [((⟨468, 0, 469, 1⟩ : rectT), none, 117), ((⟨472, 0, 473, 1⟩ : rectT), none, 118), ((⟨476, 0, 477, 1⟩ : rectT), none, 119), ((⟨480, 0, 481, 1⟩ : rectT), none, 120), ((⟨484, 0, 485, 1⟩ : rectT), none, 121), ((⟨488, 0, 489, 1⟩ : rectT), none, 122), ((⟨492, 0, 493, 1⟩ : rectT), none, 123), ((⟨496, 0, 497, 1⟩ : rectT), none, 124), ((⟨500, 0, 501, 1⟩ : rectT), none, 125)]), 0), ((⟨504, 0, 537, 1⟩ : rectT), some (nodeT.mk 0 [((⟨504, 0, 505, 1⟩ : rectT), none, 126), ((⟨508, 0, 509, 1⟩ : rectT), none, 127), ((⟨512, 0, 513, 1⟩ : rectT), none, 128), ((⟨516, 0, 517, 1⟩ : rectT), none, 129), ((⟨520, 0, 521, 1⟩ : rectT), none, 130), ((⟨524, 0, 525, 1⟩ : rectT), none, 131), ((⟨528, 0, 529, 1⟩ : rectT), none, 132), ((⟨532, 0, 533, 1⟩ : rectT), none, 133), ((⟨536, 0, 537, 1⟩ : rectT), none, 134)]), 0), ((⟨540, 0, 573, 1⟩ : rectT), some (nodeT.mk 0 [((⟨540, 0, 541, 1⟩ : rectT), none, 135), ((⟨544, 0, 545, 1⟩ : rectT), none, 136), ((⟨548, 0, 549, 1⟩ : rectT), none, 137), ((⟨552, 0, 553, 1⟩ : rectT), none, 138), ((⟨556, 0, 557, 1⟩ : rectT), none, 139), ((⟨560, 0, 561, 1⟩ : rectT), none, 140), ((⟨564, 0, 565, 1⟩ : rectT), none, 141), ((⟨568, 0, 569, 1⟩ : rectT), none, 142), ((⟨572, 0, 573, 1⟩ : rectT), none, 143)]), 0)]

/-- The tree after the first 148 inserts of the scenario. -/
def state148 : nodeT :=
  nodeT.mk 1 [((⟨0, 0, 33, 1⟩ : rectT), some (nodeT.mk 0 [((⟨0, 0, 1, 1⟩ : rectT), none, 0), ((⟨4, 0, 5, 1⟩ : rectT), none, 1), ((⟨8, 0, 9, 1⟩ : rectT), none, 2), ((⟨12, 0, 13, 1⟩ : rectT), none, 3), ((⟨16, 0, 17, 1⟩ : rectT), none, 4), ((⟨20, 0, 21, 1⟩ : rectT), none, 5), ((⟨24, 0, 25, 1⟩ : rectT), none, 6), ((⟨28, 0, 29, 1⟩ : rectT), none, 7), ((⟨32, 0, 33, 1⟩ : rectT), none, 8)]), 0), ((⟨36, 0, 69, 1⟩ : rectT), some (nodeT.mk 0 [((⟨36, 0, 37, 1⟩ : rectT), none, 9), ((⟨40, 0, 41, 1⟩ : rectT), none, 10), ((⟨44, 0, 45, 1⟩ : rectT), none, 11), ((⟨48, 0, 49, 1⟩ : rectT), none, 12), ((⟨52, 0, 53, 1⟩ : rectT), none, 13), ((⟨56, 0, 57, 1⟩ : rectT), none, 14), ((⟨60, 0, 61, 1⟩ : rectT), none, 15), ((⟨64, 0, 65, 1⟩ : rectT), none, 16), ((⟨68, 0, 69, 1⟩ : rectT), none, 17)]), 0), ((⟨72, 0, 105, 1⟩ : rectT), some (nodeT.mk 0 [((⟨72, 0, 73, 1⟩ : rectT), none, 18), ((⟨76, 0, 77, 1⟩ : rectT), none, 19), ((⟨80, 0, 81, 1⟩ : rectT), none, 20), ((⟨84, 0, 85, 1⟩ : rectT), none, 21), ((⟨88, 0, 89, 1⟩ : rectT), none, 22), ((⟨92, 0, 93, 1⟩ : rectT), none, 23), ((⟨96, 0, 97, 1⟩ : rectT), none, 24), ((⟨100, 0, 101, 1⟩ : rectT), none, 25), ((⟨104, 0, 105, 1⟩ : rectT), none, 26)]), 0), ((⟨108, 0, 141, 1⟩ : rectT), some (nodeT.mk 0 [((⟨108, 0, 109, 1⟩ : rectT), none, 27), ((⟨112, 0, 113, 1⟩ : rectT), none, 28), ((⟨116, 0, 117, 1⟩ : rectT), none, 29), ((⟨120, 0, 121, 1⟩ : rectT), none, 30), ((⟨124, 0, 125, 1⟩ : rectT), none, 31), ((⟨128, 0, 129, 1⟩ : rectT), none, 32), ((⟨132, 0, 133, 1⟩ : rectT), none, 33), ((⟨136, 0, 137, 1⟩ : rectT), none, 34), ((⟨140, 0, 141, 1⟩ : rectT), none, 35)]), 0), ((⟨144, 0, 177, 1⟩ : rectT), some (nodeT.mk 0 [((⟨144, 0, 145, 1⟩ : rectT), none, 36), ((⟨148, 0, 149, 1⟩ : rectT), none, 37), ((⟨152, 0, 153, 1⟩ : rectT), none, 38), ((⟨156, 0, 157, 1⟩ : rectT), none, 39), ((⟨160, 0, 161, 1⟩ : rectT), none, 40), ((⟨164, 0, 165, 1⟩ : rectT), none, 41), ((⟨168, 0, 169, 1⟩ : rectT), none, 42), ((⟨172, 0, 173, 1⟩ : rectT), none, 43), ((⟨176, 0, 177, 1⟩ : rectT), none, 44)]), 0), ((⟨180, 0, 213, 1⟩ : rectT), some (nodeT.mk 0 [((⟨180, 0, 181, 1⟩ : rectT), none, 45), ((⟨184, 0, 185, 1⟩ : rectT), none, 46), ((⟨188, 0, 189, 1⟩ : rectT), none, 47), ((⟨192, 0, 193, 1⟩ : rectT), none, 48), ((⟨196, 0, 197, 1⟩ : rectT), none, 49), ((⟨200, 0, 201, 1⟩ : rectT), none, 50), ((⟨204, 0, 205, 1⟩ : rectT), none, 51), ((⟨208, 0, 209, 1⟩ : rectT), none, 52), ((⟨212, 0, 213, 1⟩ : rectT), none, 53)]), 0), ((⟨216, 0, 249, 1⟩ : rectT), some (nodeT.mk 0 [((⟨216, 0, 217, 1⟩ : rectT), none, 54), ((⟨220, 0, 221, 1⟩ : rectT), none, 55), ((⟨224, 0, 225, 1⟩ : rectT), none, 56), ((⟨228, 0, 229, 1⟩ : rectT), none, 57), ((⟨232, 0, 233, 1⟩ : rectT), none, 58), ((⟨236, 0, 237, 1⟩ : rectT), none, 59), ((⟨240, 0, 241, 1⟩ : rectT), none, 60), ((⟨244, 0, 245, 1⟩ : rectT), none, 61), ((⟨248, 0, 249, 1⟩ : rectT), none, 62)]), 0), ((⟨252, 0, 285, 1⟩ : rectT), some (nodeT.mk 0 [((⟨252, 0, 253, 1⟩ : rectT), none, 63), ((⟨256, 0, 257, 1⟩ : rectT), none, 64), ((⟨260, 0, 261, 1⟩ : rectT), none, 65), ((⟨264, 0, 265, 1⟩ : rectT), none, 66), ((⟨268, 0, 269, 1⟩ : rectT), none, 67), ((⟨272, 0, 273, 1⟩ : rectT), none, 68), ((⟨276, 0, 277, 1⟩ : rectT), none, 69), ((⟨280, 0, 281, 1⟩ : rectT), none, 70), ((⟨284, 0, 285, 1⟩ : rectT), none, 71)]), 0), ((⟨288, 0, 321, 1⟩ : rectT), some (nodeT.mk 0 [((⟨288, 0, 289, 1⟩ : rectT), none, 72), ((⟨292, 0, 293, 1⟩ : rectT), none, 73), ((⟨296, 0, 297, 1⟩ : rectT), none, 74), ((⟨300, 0, 301, 1⟩ : rectT), none, 75), ((⟨304, 0, 305, 1⟩ : rectT), none, 76), ((⟨308, 0, 309, 1⟩ : rectT), none, 77), ((⟨312, 0, 313, 1⟩ : rectT), none, 78), ((⟨316, 0, 317, 1⟩ : rectT), none, 79), ((⟨320, 0, 321, 1⟩ : rectT), none, 80)]), 0), ((⟨324, 0, 357, 1⟩ : rectT), some (nodeT.mk 0 [((⟨324, 0, 325, 1⟩ : rectT), none, 81), ((⟨328, 0, 329, 1⟩ : rectT), none, 82), ((⟨332, 0, 333, 1⟩ : rectT), none, 83), ((⟨336, 0, 337, 1⟩ : rectT), none, 84), ((⟨340, 0, 341, 1⟩ : rectT), none, 85), ((⟨344, 0, 345, 1⟩ : rectT), none, 86), ((⟨348, 0, 349, 1⟩ : rectT), none, 87), ((⟨352, 0, 353, 1⟩ : rectT), none, 88), ((⟨356, 0, 357, 1⟩ : rectT), none, 89)]), 0), ((⟨360, 0, 393, 1⟩ : rectT), some (nodeT.mk 0 [((⟨360, 0, 361, 1⟩ : rectT), none, 90), ((⟨364, 0, 365, 1⟩ : rectT), none, 91), ((⟨368, 0, 369, 1⟩ : rectT), none, 92), ((⟨372, 0, 373, 1⟩ : rectT), none, 93), ((⟨376, 0, 377, 1⟩ : rectT), none, 94), ((⟨380, 0, 381, 1⟩ : rectT), none, 95), ((⟨384, 0, 385, 1⟩ : rectT), none, 96), ((⟨388, 0, 389, 1⟩ : rectT), none, 97), ((⟨392, 0, 393, 1⟩ : rectT), none, 98)]), 0), ((⟨396, 0, 429, 1⟩ : rectT), some (nodeT.mk 0 [((⟨396, 0, 397, 1⟩ : rectT), none, 99), ((⟨400, 0, 401, 1⟩ : rectT), none, 100), ((⟨404, 0, 405, 1⟩ : rectT), none, 101), ((⟨408, 0, 409, 1⟩ : rectT), none, 102), ((⟨412, 0, 413, 1⟩ : rectT), none, 103), ((⟨416, 0, 417, 1⟩ : rectT), none, 104), ((⟨420, 0, 421, 1⟩ : rectT), none, 105), ((⟨424, 0, 425, 1⟩ : rectT), none, 106), ((⟨428, 0, 429, 1⟩ : rectT), none, 107)]), 0), ((⟨432, 0, 465, 1⟩ : rectT), some (nodeT.mk 0 [((⟨432, 0, 433, 1⟩ : rectT), none, 108), ((⟨436, 0, 437, 1⟩ : rectT), none, 109), ((⟨440, 0, 441, 1⟩ : rectT), none, 110), ((⟨444, 0, 445, 1⟩ : rectT), none, 111), ((⟨448, 0, 449, 1⟩ : rectT), none, 112), ((⟨452, 0, 453, 1⟩ : rectT), none, 113), ((⟨456, 0, 457, 1⟩ : rectT), none, 114), ((⟨460, 0, 461, 1⟩ : rectT), none, 115), ((⟨464, 0, 465, 1⟩ : rectT), none, 116)]), 0), ((⟨468, 0, 501, 1⟩ : rectT), some (nodeT.mk 0 [((⟨468, 0, 469, 1⟩ : rectT), none, 117), ((⟨472, 0, 473, 1⟩ : rectT), none, 118), ((⟨476, 0, 477, 1⟩ : rectT), none, 119), ((⟨480, 0, 481, 1⟩ : rectT), none, 120), ((⟨484, 0, 485, 1⟩ : rectT), none, 121), ((⟨488, 0, 489, 1⟩ : rectT), none, 122), ((⟨492, 0, 493, 1⟩ : rectT), none, 123), ((⟨496, 0, 497, 1⟩ : rectT), none, 124), ((⟨500, 0, 501, 1⟩ : rectT), none, 125)]), 0), ((⟨504, 0, 537, 1⟩ : rectT), some (nodeT.mk 0 [((⟨504, 0, 505, 1⟩ : rectT), none, 126), ((⟨508, 0, 509, 1⟩ : rectT), none, 127), ((⟨512, 0, 513, 1⟩ : rectT), none, 128), ((⟨516, 0, 517, 1⟩ : rectT), none, 129), ((⟨520, 0, 521, 1⟩ : rectT), none, 130), ((⟨524, 0, 525, 1⟩ : rectT), none, 131), ((⟨528, 0, 529, 1⟩ : rectT), none, 132), ((⟨532, 0, 533, 1⟩ : rectT), none, 133), ((⟨536, 0, 537, 1⟩ : rectT), none, 134)]), 0), ((⟨540, 0, 589, 1⟩ : rectT), some (nodeT.mk 0 [((⟨540, 0, 541, 1⟩ : rectT), none, 135), ((⟨544, 0, 545, 1⟩ : rectT), none, 136), ((⟨548, 0, 549, 1⟩ : rectT), none, 137), ((⟨552, 0, 553, 1⟩ : rectT), none, 138), ((⟨556, 0, 557, 1⟩ : rectT), none, 139), ((⟨560, 0, 561, 1⟩ : rectT), none, 140), ((⟨564, 0, 565, 1⟩ : rectT), none, 141), ((⟨568, 0, 569, 1⟩ : rectT), none, 142), ((⟨572, 0, 573, 1⟩ : rectT), none, 143), ((⟨576, 0, 577, 1⟩ : rectT), none, 144), ((⟨580, 0, 581, 1⟩ : rectT), none, 145), ((⟨584, 0, 585, 1⟩ : rectT), none, 146), ((⟨588, 0, 589, 1⟩ : rectT), none, 147)]), 0)]

/-- The branches of the tree after 151 inserts (level-1 root, full). -/
def bs150 : List branchT :=
  [((⟨0, 0, 33, 1⟩ : rectT), some (nodeT.mk 0 [((⟨0, 0, 1, 1⟩ : rectT), none, 0), ((⟨4, 0, 5, 1⟩ : rectT), none, 1), ((⟨8, 0, 9, 1⟩ : rectT), none, 2), ((⟨12, 0, 13, 1⟩ : rectT), none, 3), ((⟨16, 0, 17, 1⟩ : rectT), none, 4), ((⟨20, 0, 21, 1⟩ : rectT), none, 5), ((⟨24, 0, 25, 1⟩ : rectT), none, 6), ((⟨28, 0, 29, 1⟩ : rectT), none, 7), ((⟨32, 0, 33, 1⟩ : rectT), none, 8)]), 0), ((⟨36, 0, 69, 1⟩ : rectT), some (nodeT.mk 0 [((⟨36, 0, 37, 1⟩ : rectT), none, 9), ((⟨40, 0, 41, 1⟩ : rectT), none, 10), ((⟨44, 0, 45, 1⟩ : rectT), none, 11), ((⟨48, 0, 49, 1⟩ : rectT), none, 12), ((⟨52, 0, 53, 1⟩ : rectT), none, 13), ((⟨56, 0, 57, 1⟩ : rectT), none, 14), ((⟨60, 0, 61, 1⟩ : rectT), none, 15), ((⟨64, 0, 65, 1⟩ : rectT), none, 16), ((⟨68, 0, 69, 1⟩ : rectT), none, 17)]), 0), ((⟨72, 0, 105, 1⟩ : rectT), some (nodeT.mk 0 [((⟨72, 0, 73, 1⟩ : rectT), none, 18), ((⟨76, 0, 77, 1⟩ : rectT), none, 19), ((⟨80, 0, 81, 1⟩ : rectT), none, 20), ((⟨84, 0, 85, 1⟩ : rectT), none, 21), ((⟨88, 0, 89, 1⟩ : rectT), none, 22), ((⟨92, 0, 93, 1⟩ : rectT), none, 23), ((⟨96, 0, 97, 1⟩ : rectT), none, 24), ((⟨100, 0, 101, 1⟩ : rectT), none, 25), ((⟨104, 0, 105, 1⟩ : rectT), none, 26)]), 0), ((⟨108, 0, 141, 1⟩ : rectT), some (nodeT.mk 0 [((⟨108, 0, 109, 1⟩ : rectT), none, 27), ((⟨112, 0, 113, 1⟩ : rectT), none, 28), ((⟨116, 0, 117, 1⟩ : rectT), none, 29), ((⟨120, 0, 121, 1⟩ : rectT), none, 30), ((⟨124, 0, 125, 1⟩ : rectT), none, 31), ((⟨128, 0, 129, 1⟩ : rectT), none, 32), ((⟨132, 0, 133, 1⟩ : rectT), none, 33), ((⟨136, 0, 137, 1⟩ : rectT), none, 34), ((⟨140, 0, 141, 1⟩ : rectT), none, 35)]), 0), ((⟨144, 0, 177, 1⟩ : rectT), some (nodeT.mk 0 [((⟨144, 0, 145, 1⟩ : rectT), none, 36), ((⟨148, 0, 149, 1⟩ : rectT), none, 37), ((⟨152, 0, 153, 1⟩ : rectT), none, 38), ((⟨156, 0, 157, 1⟩ : rectT), none, 39), ((⟨160, 0, 161, 1⟩ : rectT), none, 40), ((⟨164, 0, 165, 1⟩ : rectT), none, 41), ((⟨168, 0, 169, 1⟩ : rectT), none, 42), ((⟨172, 0, 173, 1⟩ : rectT), none, 43), ((⟨176, 0, 177, 1⟩ : rectT), none, 44)]), 0), ((⟨180, 0, 213, 1⟩ : rectT), some (nodeT.mk 0 [((⟨180, 0, 181, 1⟩ : rectT), none, 45), ((⟨184, 0, 185, 1⟩ : rectT), none, 46), ((⟨188, 0, 189, 1⟩ : rectT), none, 47), ((⟨192, 0, 193, 1⟩ : rectT), none, 48), ((⟨196, 0, 197, 1⟩ : rectT), none, 49), ((⟨200, 0, 201, 1⟩ : rectT), none, 50), ((⟨204, 0, 205, 1⟩ : rectT), none, 51), ((⟨208, 0, 209, 1⟩ : rectT), none, 52), ((⟨212, 0, 213, 1⟩ : rectT), none, 53)]), 0), ((⟨216, 0, 249, 1⟩ : rectT), some (nodeT.mk 0 [((⟨216, 0, 217, 1⟩ : rectT), none, 54), ((⟨220, 0, 221, 1⟩ : rectT), none, 55), ((⟨224, 0, 225, 1⟩ : rectT), none, 56), ((⟨228, 0, 229, 1⟩ : rectT), none, 57), ((⟨232, 0, 233, 1⟩ : rectT), none, 58), ((⟨236, 0, 237, 1⟩ : rectT), none, 59), ((⟨240, 0, 241, 1⟩ : rectT), none, 60), ((⟨244, 0, 245, 1⟩ : rectT), none, 61), ((⟨248, 0, 249, 1⟩ : rectT), none, 62)]), 0), ((⟨252, 0, 285, 1⟩ : rectT), some (nodeT.mk 0 [((⟨252, 0, 253, 1⟩ : rectT), none, 63), ((⟨256, 0, 257, 1⟩ : rectT), none, 64), ((⟨260, 0, 261, 1⟩ : rectT), none, 65), ((⟨264, 0, 265, 1⟩ : rectT), none, 66), ((⟨268, 0, 269, 1⟩ : rectT), none, 67), ((⟨272, 0, 273, 1⟩ : rectT), none, 68), ((⟨276, 0, 277, 1⟩ : rectT), none, 69), ((⟨280, 0, 281, 1⟩ : rectT), none, 70), ((⟨284, 0, 285, 1⟩ : rectT), none, 71)]), 0), ((⟨288, 0, 321, 1⟩ : rectT), some (nodeT.mk 0 [((⟨288, 0, 289, 1⟩ : rectT), none, 72), ((⟨292, 0, 293, 1⟩ : rectT), none, 73), ((⟨296, 0, 297, 1⟩ : rectT), none, 74), ((⟨300, 0, 301, 1⟩ : rectT), none, 75), ((⟨304, 0, 305, 1⟩ : rectT), none, 76), ((⟨308, 0, 309, 1⟩ : rectT), none, 77), ((⟨312, 0, 313, 1⟩ : rectT), none, 78), ((⟨316, 0, 317, 1⟩ : rectT), none, 79), ((⟨320, 0, 321, 1⟩ : rectT), none, 80)]), 0), ((⟨324, 0, 357, 1⟩ : rectT), some (nodeT.mk 0 [((⟨324, 0, 325, 1⟩ : rectT), none, 81), ((⟨328, 0, 329, 1⟩ : rectT), none, 82), ((⟨332, 0, 333, 1⟩ : rectT), none, 83), ((⟨336, 0, 337, 1⟩ : rectT), none, 84), ((⟨340, 0, 341, 1⟩ : rectT), none, 85), ((⟨344, 0, 345, 1⟩ : rectT), none, 86), ((⟨348, 0, 349, 1⟩ : rectT), none, 87), ((⟨352, 0, 353, 1⟩ : rectT), none, 88), ((⟨356, 0, 357, 1⟩ : rectT), none, 89)]), 0), ((⟨360, 0, 393, 1⟩ : rectT), some (nodeT.mk 0 [((⟨360, 0, 361, 1⟩ : rectT), none, 90), ((⟨364, 0, 365, 1⟩ : rectT), none, 91), ((⟨368, 0, 369, 1⟩ : rectT), none, 92), ((⟨372, 0, 373, 1⟩ : rectT), none, 93), ((⟨376, 0, 377, 1⟩ : rectT), none, 94), ((⟨380, 0, 381, 1⟩ : rectT), none, 95), ((⟨384, 0, 385, 1⟩ : rectT), none, 96), ((⟨388, 0, 389, 1⟩ : rectT), none, 97), ((⟨392, 0, 393, 1⟩ : rectT), none, 98)]), 0), ((⟨396, 0, 429, 1⟩ : rectT), some (nodeT.mk 0 [((⟨396, 0, 397, 1⟩ : rectT), none, 99), ((⟨400, 0, 401, 1⟩ : rectT), none, 100), ((⟨404, 0, 405, 1⟩ : rectT), none, 101), ((⟨408, 0, 409, 1⟩ : rectT), none, 102), ((⟨412, 0, 413, 1⟩ : rectT), none, 103), ((⟨416, 0, 417, 1⟩ : rectT), none, 104), ((⟨420, 0, 421, 1⟩ : rectT), none, 105), ((⟨424, 0, 425, 1⟩ : rectT), none, 106), ((⟨428, 0, 429, 1⟩ : rectT), none, 107)]), 0), ((⟨432, 0, 465, 1⟩ : rectT), some (nodeT.mk 0 [((⟨432, 0, 433, 1⟩ : rectT), none, 108), ((⟨436, 0, 437, 1⟩ : rectT), none, 109), ((⟨440, 0, 441, 1⟩ : rectT), none, 110), ((⟨444, 0, 445, 1⟩ : rectT), none, 111), ((⟨448, 0, 449, 1⟩ : rectT), none, 112), ((⟨452, 0, 453, 1⟩ : rectT), none, 113), ((⟨456, 0, 457, 1⟩ : rectT), none, 114), ((⟨460, 0, 461, 1⟩ : rectT), none, 115), ((⟨464, 0, 465, 1⟩ : rectT), none, 116)]), 0), ((⟨468, 0, 501, 1⟩ : rectT), some (nodeT.mk 0 [((⟨468, 0, 469, 1⟩ : rectT), none, 117), ((⟨472, 0, 473, 1⟩ : rectT), none, 118), ((⟨476, 0, 477, 1⟩ : rectT), none, 119), ((⟨480, 0, 481, 1⟩ : rectT), none, 120), ((⟨484, 0, 485, 1⟩ : rectT), none, 121), ((⟨488, 0, 489, 1⟩ : rectT), none, 122), ((⟨492, 0, 493, 1⟩ : rectT), none, 123), ((⟨496, 0, 497, 1⟩ : rectT), none, 124), ((⟨500, 0, 501, 1⟩ : rectT), none, 125)]), 0), ((⟨504, 0, 537, 1⟩ : rectT), some (nodeT.mk 0 [((⟨504, 0, 505, 1⟩ : rectT), none, 126), ((⟨508, 0, 509, 1⟩ : rectT), none, 127), ((⟨512, 0, 513, 1⟩ : rectT), none, 128), ((⟨516, 0, 517, 1⟩ : rectT), none, 129), ((⟨520, 0, 521, 1⟩ : rectT), none, 130), ((⟨524, 0, 525, 1⟩ : rectT), none, 131), ((⟨528, 0, 529, 1⟩ : rectT), none, 132), ((⟨532, 0, 533, 1⟩ : rectT), none, 133), ((⟨536, 0, 537, 1⟩ : rectT), none, 134)]), 0), ((⟨540, 0, 601, 1⟩ : rectT), some (nodeT.mk 0 [((⟨540, 0, 541, 1⟩ : rectT), none, 135), ((⟨544, 0, 545, 1⟩ : rectT), none, 136), ((⟨548, 0, 549, 1⟩ : rectT), none, 137), ((⟨552, 0, 553, 1⟩ : rectT), none, 138), ((⟨556, 0, 557, 1⟩ : rectT), none, 139), ((⟨560, 0, 561, 1⟩ : rectT), none, 140), ((⟨564, 0, 565, 1⟩ : rectT), none, 141), ((⟨568, 0, 569, 1⟩ : rectT), none, 142), ((⟨572, 0, 573, 1⟩ : rectT), none, 143), ((⟨576, 0, 577, 1⟩ : rectT), none, 144), ((⟨580, 0, 581, 1⟩ : rectT), none, 145), ((⟨584, 0, 585, 1⟩ : rectT), none, 146), ((⟨588, 0, 589, 1⟩ : rectT), none, 147), ((⟨592, 0, 593, 1⟩ : rectT), none, 148), ((⟨596, 0, 597, 1⟩ : rectT), none, 149), ((⟨600, 0, 601, 1⟩ : rectT), none, 150)]), 0)]

/-- The full leaf that insert 151 descends into. -/
def leaf15 : nodeT :=
  nodeT.mk 0 [((⟨540, 0, 541, 1⟩ : rectT), none, 135), ((⟨544, 0, 545, 1⟩ : rectT), none, 136), ((⟨548, 0, 549, 1⟩ : rectT), none, 137), ((⟨552, 0, 553, 1⟩ : rectT), none, 138), ((⟨556, 0, 557, 1⟩ : rectT), none, 139), ((⟨560, 0, 561, 1⟩ : rectT), none, 140), ((⟨564, 0, 565, 1⟩ : rectT), none, 141), ((⟨568, 0, 569, 1⟩ : rectT), none, 142), ((⟨572, 0, 573, 1⟩ : rectT), none, 143), ((⟨576, 0, 577, 1⟩ : rectT), none, 144), ((⟨580, 0, 581, 1⟩ : rectT), none, 145), ((⟨584, 0, 585, 1⟩ : rectT), none, 146), ((⟨588, 0, 589, 1⟩ : rectT), none, 147), ((⟨592, 0, 593, 1⟩ : rectT), none, 148), ((⟨596, 0, 597, 1⟩ : rectT), none, 149), ((⟨600, 0, 601, 1⟩ : rectT), none, 150)]

/-- The reused half of the split of that leaf. -/
def leafA : nodeT :=
  nodeT.mk 0 [((⟨540, 0, 541, 1⟩ : rectT), none, 135), ((⟨544, 0, 545, 1⟩ : rectT), none, 136), ((⟨548, 0, 549, 1⟩ : rectT), none, 137), ((⟨552, 0, 553, 1⟩ : rectT), none, 138), ((⟨556, 0, 557, 1⟩ : rectT), none, 139), ((⟨560, 0, 561, 1⟩ : rectT), none, 140), ((⟨564, 0, 565, 1⟩ : rectT), none, 141), ((⟨568, 0, 569, 1⟩ : rectT), none, 142), ((⟨572, 0, 573, 1⟩ : rectT), none, 143)]

/-- The new sibling from the split of that leaf. -/
def leafB : nodeT :=
  nodeT.mk 0 [((⟨576, 0, 577, 1⟩ : rectT), none, 144), ((⟨580, 0, 581, 1⟩ : rectT), none, 145), ((⟨584, 0, 585, 1⟩ : rectT), none, 146), ((⟨588, 0, 589, 1⟩ : rectT), none, 147), ((⟨592, 0, 593, 1⟩ : rectT), none, 148), ((⟨596, 0, 597, 1⟩ : rectT), none, 149), ((⟨600, 0, 601, 1⟩ : rectT), none, 150), ((⟨604, 0, 605, 1⟩ : rectT), none, 151)]

/-- The reused half of the root split caused by insert 151. -/
def rootA : nodeT :=
  nodeT.mk 1 [((⟨0, 0, 33, 1⟩ : rectT), some (nodeT.mk 0 [((⟨0, 0, 1, 1⟩ : rectT), none, 0), ((⟨4, 0, 5, 1⟩ : rectT), none, 1), ((⟨8, 0, 9, 1⟩ : rectT), none, 2), ((⟨12, 0, 13, 1⟩ : rectT), none, 3), ((⟨16, 0, 17, 1⟩ : rectT), none, 4), ((⟨20, 0, 21, 1⟩ : rectT), none, 5), ((⟨24, 0, 25, 1⟩ : rectT), none, 6), ((⟨28, 0, 29, 1⟩ : rectT), none, 7), ((⟨32, 0, 33, 1⟩ : rectT), none, 8)]), 0), ((⟨36, 0, 69, 1⟩ : rectT), some (nodeT.mk 0 [((⟨36, 0, 37, 1⟩ : rectT), none, 9), ((⟨40, 0, 41, 1⟩ : rectT), none, 10), ((⟨44, 0, 45, 1⟩ : rectT), none, 11), ((⟨48, 0, 49, 1⟩ : rectT), none, 12), ((⟨52, 0, 53, 1⟩ : rectT), none, 13), ((⟨56, 0, 57, 1⟩ : rectT), none, 14), ((⟨60, 0, 61, 1⟩ : rectT), none, 15), ((⟨64, 0, 65, 1⟩ : rectT), none, 16), ((⟨68, 0, 69, 1⟩ : rectT), none, 17)]), 0), ((⟨72, 0, 105, 1⟩ : rectT), some (nodeT.mk 0 [((⟨72, 0, 73, 1⟩ : rectT), none, 18), ((⟨76, 0, 77, 1⟩ : rectT), none, 19), ((⟨80, 0, 81, 1⟩ : rectT), none, 20), ((⟨84, 0, 85, 1⟩ : rectT), none, 21), ((⟨88, 0, 89, 1⟩ : rectT), none, 22), ((⟨92, 0, 93, 1⟩ : rectT), none, 23), ((⟨96, 0, 97, 1⟩ : rectT), none, 24), ((⟨100, 0, 101, 1⟩ : rectT), none, 25), ((⟨104, 0, 105, 1⟩ : rectT), none, 26)]), 0), ((⟨108, 0, 141, 1⟩ : rectT), some (nodeT.mk 0 [((⟨108, 0, 109, 1⟩ : rectT), none, 27), ((⟨112, 0, 113, 1⟩ : rectT), none, 28), ((⟨116, 0, 117, 1⟩ : rectT), none, 29), ((⟨120, 0, 121, 1⟩ : rectT), none, 30), ((⟨124, 0, 125, 1⟩ : rectT), none, 31), ((⟨128, 0, 129, 1⟩ : rectT), none, 32), ((⟨132, 0, 133, 1⟩ : rectT), none, 33), ((⟨136, 0, 137, 1⟩ : rectT), none, 34), ((⟨140, 0, 141, 1⟩ : rectT), none, 35)]), 0), ((⟨144, 0, 177, 1⟩ : rectT), some (nodeT.mk 0 [((⟨144, 0, 145, 1⟩ : rectT), none, 36), ((⟨148, 0, 149, 1⟩ : rectT), none, 37), ((⟨152, 0, 153, 1⟩ : rectT), none, 38), ((⟨156, 0, 157, 1⟩ : rectT), none, 39), ((⟨160, 0, 161, 1⟩ : rectT), none, 40), ((⟨164, 0, 165, 1⟩ : rectT), none, 41), ((⟨168, 0, 169, 1⟩ : rectT), none, 42), ((⟨172, 0, 173, 1⟩ : rectT), none, 43), ((⟨176, 0, 177, 1⟩ : rectT), none, 44)]), 0), ((⟨180, 0, 213, 1⟩ : rectT), some (nodeT.mk 0 [((⟨180, 0, 181, 1⟩ : rectT), none, 45), ((⟨184, 0, 185, 1⟩ : rectT), none, 46), ((⟨188, 0, 189, 1⟩ : rectT), none, 47), ((⟨192, 0, 193, 1⟩ : rectT), none, 48), ((⟨196, 0, 197, 1⟩ : rectT), none, 49), ((⟨200, 0, 201, 1⟩ : rectT), none, 50), ((⟨204, 0, 205, 1⟩ : rectT), none, 51), ((⟨208, 0, 209, 1⟩ : rectT), none, 52), ((⟨212, 0, 213, 1⟩ : rectT), none, 53)]), 0), ((⟨216, 0, 249, 1⟩ : rectT), some (nodeT.mk 0 [((⟨216, 0, 217, 1⟩ : rectT), none, 54), ((⟨220, 0, 221, 1⟩ : rectT), none, 55), ((⟨224, 0, 225, 1⟩ : rectT), none, 56), ((⟨228, 0, 229, 1⟩ : rectT), none, 57), ((⟨232, 0, 233, 1⟩ : rectT), none, 58), ((⟨236, 0, 237, 1⟩ : rectT), none, 59), ((⟨240, 0, 241, 1⟩ : rectT), none, 60), ((⟨244, 0, 245, 1⟩ : rectT), none, 61), ((⟨248, 0, 249, 1⟩ : rectT), none, 62)]), 0), ((⟨252, 0, 285, 1⟩ : rectT), some (nodeT.mk 0 [((⟨252, 0, 253, 1⟩ : rectT), none, 63), ((⟨256, 0, 257, 1⟩ : rectT), none, 64), ((⟨260, 0, 261, 1⟩ : rectT), none, 65), ((⟨264, 0, 265, 1⟩ : rectT), none, 66), ((⟨268, 0, 269, 1⟩ : rectT), none, 67), ((⟨272, 0, 273, 1⟩ : rectT), none, 68), ((⟨276, 0, 277, 1⟩ : rectT), none, 69), ((⟨280, 0, 281, 1⟩ : rectT), none, 70), ((⟨284, 0, 285, 1⟩ : rectT), none, 71)]), 0)]

/-- The new sibling from the root split caused by insert 151. -/
def rootB : nodeT :=
  nodeT.mk 1 [((⟨288, 0, 321, 1⟩ : rectT), some (nodeT.mk 0 [((⟨288, 0, 289, 1⟩ : rectT), none, 72), ((⟨292, 0, 293, 1⟩ : rectT), none, 73), ((⟨296, 0, 297, 1⟩ : rectT), none, 74), ((⟨300, 0, 301, 1⟩ : rectT), none, 75), ((⟨304, 0, 305, 1⟩ : rectT), none, 76), ((⟨308, 0, 309, 1⟩ : rectT), none, 77), ((⟨312, 0, 313, 1⟩ : rectT), none, 78), ((⟨316, 0, 317, 1⟩ : rectT), none, 79), ((⟨320, 0, 321, 1⟩ : rectT), none, 80)]), 0), ((⟨324, 0, 357, 1⟩ : rectT), some (nodeT.mk 0 [((⟨324, 0, 325, 1⟩ : rectT), none, 81), ((⟨328, 0, 329, 1⟩ : rectT), none, 82), ((⟨332, 0, 333, 1⟩ : rectT), none, 83), ((⟨336, 0, 337, 1⟩ : rectT), none, 84), ((⟨340, 0, 341, 1⟩ : rectT), none, 85), ((⟨344, 0, 345, 1⟩ : rectT), none, 86), ((⟨348, 0, 349, 1⟩ : rectT), none, 87), ((⟨352, 0, 353, 1⟩ : rectT), none, 88), ((⟨356, 0, 357, 1⟩ : rectT), none, 89)]), 0), ((⟨360, 0, 393, 1⟩ : rectT), some (nodeT.mk 0 [((⟨360, 0, 361, 1⟩ : rectT), none, 90), ((⟨364, 0, 365, 1⟩ : rectT), none, 91), ((⟨368, 0, 369, 1⟩ : rectT), none, 92), ((⟨372, 0, 373, 1⟩ : rectT), none, 93), ((⟨376, 0, 377, 1⟩ : rectT), none, 94), ((⟨380, 0, 381, 1⟩ : rectT), none, 95), ((⟨384, 0, 385, 1⟩ : rectT), none, 96), ((⟨388, 0, 389, 1⟩ : rectT), none, 97), ((⟨392, 0, 393, 1⟩ : rectT), none, 98)]), 0), ((⟨396, 0, 429, 1⟩ : rectT), some (nodeT.mk 0 [((⟨396, 0, 397, 1⟩ : rectT), none, 99), ((⟨400, 0, 401, 1⟩ : rectT), none, 100), ((⟨404, 0, 405, 1⟩ : rectT), none, 101), ((⟨408, 0, 409, 1⟩ : rectT), none, 102), ((⟨412, 0, 413, 1⟩ : rectT), none, 103), ((⟨416, 0, 417, 1⟩ : rectT), none, 104), ((⟨420, 0, 421, 1⟩ : rectT), none, 105), ((⟨424, 0, 425, 1⟩ : rectT), none, 106), ((⟨428, 0, 429, 1⟩ : rectT), none, 107)]), 0), ((⟨432, 0, 465, 1⟩ : rectT), some (nodeT.mk 0 [((⟨432, 0, 433, 1⟩ : rectT), none, 108), ((⟨436, 0, 437, 1⟩ : rectT), none, 109), ((⟨440, 0, 441, 1⟩ : rectT), none, 110), ((⟨444, 0, 445, 1⟩ : rectT), none, 111), ((⟨448, 0, 449, 1⟩ : rectT), none, 112), ((⟨452, 0, 453, 1⟩ : rectT), none, 113), ((⟨456, 0, 457, 1⟩ : rectT), none, 114), ((⟨460, 0, 461, 1⟩ : rectT), none, 115), ((⟨464, 0, 465, 1⟩ : rectT), none, 116)]), 0), ((⟨468, 0, 501, 1⟩ : rectT), some (nodeT.mk 0 [((⟨468, 0, 469, 1⟩ : rectT), none, 117), ((⟨472, 0, 473, 1⟩ : rectT), none, 118), ((⟨476, 0, 477, 1⟩ : rectT), none, 119), ((⟨480, 0, 481, 1⟩ : rectT), none, 120), ((⟨484, 0, 485, 1⟩ : rectT), none, 121), ((⟨488, 0, 489, 1⟩ : rectT), none, 122), ((⟨492, 0, 493, 1⟩ : rectT), none, 123), ((⟨496, 0, 497, 1⟩ : rectT), none, 124), ((⟨500, 0, 501, 1⟩ : rectT), none, 125)]), 0), ((⟨504, 0, 537, 1⟩ : rectT), some (nodeT.mk 0 [((⟨504, 0, 505, 1⟩ : rectT), none, 126), ((⟨508, 0, 509, 1⟩ : rectT), none, 127), ((⟨512, 0, 513, 1⟩ : rectT), none, 128), ((⟨516, 0, 517, 1⟩ : rectT), none, 129), ((⟨520, 0, 521, 1⟩ : rectT), none, 130), ((⟨524, 0, 525, 1⟩ : rectT), none, 131), ((⟨528, 0, 529, 1⟩ : rectT), none, 132), ((⟨532, 0, 533, 1⟩ : rectT), none, 133), ((⟨536, 0, 537, 1⟩ : rectT), none, 134)]), 0), ((⟨540, 0, 573, 1⟩ : rectT), some (nodeT.mk 0 [((⟨540, 0, 541, 1⟩ : rectT), none, 135), ((⟨544, 0, 545, 1⟩ : rectT), none, 136), ((⟨548, 0, 549, 1⟩ : rectT), none, 137), ((⟨552, 0, 553, 1⟩ : rectT), none, 138), ((⟨556, 0, 557, 1⟩ : rectT), none, 139), ((⟨560, 0, 561, 1⟩ : rectT), none, 140), ((⟨564, 0, 565, 1⟩ : rectT), none, 141), ((⟨568, 0, 569, 1⟩ : rectT), none, 142), ((⟨572, 0, 573, 1⟩ : rectT), none, 143)]), 0), ((⟨576, 0, 605, 1⟩ : rectT), some (nodeT.mk 0 [((⟨576, 0, 577, 1⟩ : rectT), none, 144), ((⟨580, 0, 581, 1⟩ : rectT), none, 145), ((⟨584, 0, 585, 1⟩ : rectT), none, 146), ((⟨588, 0, 589, 1⟩ : rectT), none, 147), ((⟨592, 0, 593, 1⟩ : rectT), none, 148), ((⟨596, 0, 597, 1⟩ : rectT), none, 149), ((⟨600, 0, 601, 1⟩ : rectT), none, 150), ((⟨604, 0, 605, 1⟩ : rectT), none, 151)]), 0)]

/-- The level-2 tree after all 152 inserts. -/
def state152 : nodeT :=
  nodeT.mk 2 [((⟨0, 0, 285, 1⟩ : rectT), some (nodeT.mk 1 [((⟨0, 0, 33, 1⟩ : rectT), some (nodeT.mk 0 [((⟨0, 0, 1, 1⟩ : rectT), none, 0), ((⟨4, 0, 5, 1⟩ : rectT), none, 1), ((⟨8, 0, 9, 1⟩ : rectT), none, 2), ((⟨12, 0, 13, 1⟩ : rectT), none, 3), ((⟨16, 0, 17, 1⟩ : rectT), none, 4), ((⟨20, 0, 21, 1⟩ : rectT), none, 5), ((⟨24, 0, 25, 1⟩ : rectT), none, 6), ((⟨28, 0, 29, 1⟩ : rectT), none, 7), ((⟨32, 0, 33, 1⟩ : rectT), none, 8)]), 0), ((⟨36, 0, 69, 1⟩ : rectT), some (nodeT.mk 0 [((⟨36, 0, 37, 1⟩ : rectT), none, 9), ((⟨40, 0, 41, 1⟩ : rectT), none, 10), ((⟨44, 0, 45, 1⟩ : rectT), none, 11), ((⟨48, 0, 49, 1⟩ : rectT), none, 12), ((⟨52, 0, 53, 1⟩ : rectT), none, 13), ((⟨56, 0, 57, 1⟩ : rectT), none, 14), ((⟨60, 0, 61, 1⟩ : rectT), none, 15), ((⟨64, 0, 65, 1⟩ : rectT), none, 16), ((⟨68, 0, 69, 1⟩ : rectT), none, 17)]), 0), ((⟨72, 0, 105, 1⟩ : rectT), some (nodeT.mk 0 [((⟨72, 0, 73, 1⟩ : rectT), none, 18), ((⟨76, 0, 77, 1⟩ : rectT), none, 19), ((⟨80, 0, 81, 1⟩ : rectT), none, 20), ((⟨84, 0, 85, 1⟩ : rectT), none, 21), ((⟨88, 0, 89, 1⟩ : rectT), none, 22), ((⟨92, 0, 93, 1⟩ : rectT), none, 23), ((⟨96, 0, 97, 1⟩ : rectT), none, 24), ((⟨100, 0, 101, 1⟩ : rectT), none, 25), ((⟨104, 0, 105, 1⟩ : rectT), none, 26)]), 0), ((⟨108, 0, 141, 1⟩ : rectT), some (nodeT.mk 0 [((⟨108, 0, 109, 1⟩ : rectT), none, 27), ((⟨112, 0, 113, 1⟩ : rectT), none, 28), ((⟨116, 0, 117, 1⟩ : rectT), none, 29), ((⟨120, 0, 121, 1⟩ : rectT), none, 30), ((⟨124, 0, 125, 1⟩ : rectT), none, 31), ((⟨128, 0, 129, 1⟩ : rectT), none, 32), ((⟨132, 0, 133, 1⟩ : rectT), none, 33), ((⟨136, 0, 137, 1⟩ : rectT), none, 34), ((⟨140, 0, 141, 1⟩ : rectT), none, 35)]), 0), ((⟨144, 0, 177, 1⟩ : rectT), some (nodeT.mk 0 [((⟨144, 0, 145, 1⟩ : rectT), none, 36), ((⟨148, 0, 149, 1⟩ : rectT), none, 37), ((⟨152, 0, 153, 1⟩ : rectT), none, 38), ((⟨156, 0, 157, 1⟩ : rectT), none, 39), ((⟨160, 0, 161, 1⟩ : rectT), none, 40), ((⟨164, 0, 165, 1⟩ : rectT), none, 41), ((⟨168, 0, 169, 1⟩ : rectT), none, 42), ((⟨172, 0, 173, 1⟩ : rectT), none, 43), ((⟨176, 0, 177, 1⟩ : rectT), none, 44)]), 0), ((⟨180, 0, 213, 1⟩ : rectT), some (nodeT.mk 0 [((⟨180, 0, 181, 1⟩ : rectT), none, 45), ((⟨184, 0, 185, 1⟩ : rectT), none, 46), ((⟨188, 0, 189, 1⟩ : rectT), none, 47), ((⟨192, 0, 193, 1⟩ : rectT), none, 48), ((⟨196, 0, 197, 1⟩ : rectT), none, 49), ((⟨200, 0, 201, 1⟩ : rectT), none, 50), ((⟨204, 0, 205, 1⟩ : rectT), none, 51), ((⟨208, 0, 209, 1⟩ : rectT), none, 52), ((⟨212, 0, 213, 1⟩ : rectT), none, 53)]), 0), ((⟨216, 0, 249, 1⟩ : rectT), some (nodeT.mk 0 [((⟨216, 0, 217, 1⟩ : rectT), none, 54), ((⟨220, 0, 221, 1⟩ : rectT), none, 55), ((⟨224, 0, 225, 1⟩ : rectT), none, 56), ((⟨228, 0, 229, 1⟩ : rectT), none, 57), ((⟨232, 0, 233, 1⟩ : rectT), none, 58), ((⟨236, 0, 237, 1⟩ : rectT), none, 59), ((⟨240, 0, 241, 1⟩ : rectT), none, 60), ((⟨244, 0, 245, 1⟩ : rectT), none, 61), ((⟨248, 0, 249, 1⟩ : rectT), none, 62)]), 0), ((⟨252, 0, 285, 1⟩ : rectT), some (nodeT.mk 0 [((⟨252, 0, 253, 1⟩ : rectT), none, 63), ((⟨256, 0, 257, 1⟩ : rectT), none, 64), ((⟨260, 0, 261, 1⟩ : rectT), none, 65), ((⟨264, 0, 265, 1⟩ : rectT), none, 66), ((⟨268, 0, 269, 1⟩ : rectT), none, 67), ((⟨272, 0, 273, 1⟩ : rectT), none, 68), ((⟨276, 0, 277, 1⟩ : rectT), none, 69), ((⟨280, 0, 281, 1⟩ : rectT), none, 70), ((⟨284, 0, 285, 1⟩ : rectT), none, 71)]), 0)]), 0), ((⟨288, 0, 605, 1⟩ : rectT), some (nodeT.mk 1 [((⟨288, 0, 321, 1⟩ : rectT), some (nodeT.mk 0 [((⟨288, 0, 289, 1⟩ : rectT), none, 72), ((⟨292, 0, 293, 1⟩ : rectT), none, 73), ((⟨296, 0, 297, 1⟩ : rectT), none, 74), ((⟨300, 0, 301, 1⟩ : rectT), none, 75), ((⟨304, 0, 305, 1⟩ : rectT), none, 76), ((⟨308, 0, 309, 1⟩ : rectT), none, 77), ((⟨312, 0, 313, 1⟩ : rectT), none, 78), ((⟨316, 0, 317, 1⟩ : rectT), none, 79), ((⟨320, 0, 321, 1⟩ : rectT), none, 80)]), 0), ((⟨324, 0, 357, 1⟩ : rectT), some (nodeT.mk 0 [((⟨324, 0, 325, 1⟩ : rectT), none, 81), ((⟨328, 0, 329, 1⟩ : rectT), none, 82), ((⟨332, 0, 333, 1⟩ : rectT), none, 83), ((⟨336, 0, 337, 1⟩ : rectT), none, 84), ((⟨340, 0, 341, 1⟩ : rectT), none, 85), ((⟨344, 0, 345, 1⟩ : rectT), none, 86), ((⟨348, 0, 349, 1⟩ : rectT), none, 87), ((⟨352, 0, 353, 1⟩ : rectT), none, 88), ((⟨356, 0, 357, 1⟩ : rectT), none, 89)]), 0), ((⟨360, 0, 393, 1⟩ : rectT), some (nodeT.mk 0 [((⟨360, 0, 361, 1⟩ : rectT), none, 90), ((⟨364, 0, 365, 1⟩ : rectT), none, 91), ((⟨368, 0, 369, 1⟩ : rectT), none, 92), ((⟨372, 0, 373, 1⟩ : rectT), none, 93), ((⟨376, 0, 377, 1⟩ : rectT), none, 94), ((⟨380, 0, 381, 1⟩ : rectT), none, 95), ((⟨384, 0, 385, 1⟩ : rectT), none, 96), ((⟨388, 0, 389, 1⟩ : rectT), none, 97), ((⟨392, 0, 393, 1⟩ : rectT), none, 98)]), 0), ((⟨396, 0, 429, 1⟩ : rectT), some (nodeT.mk 0 [((⟨396, 0, 397, 1⟩ : rectT), none, 99), ((⟨400, 0, 401, 1⟩ : rectT), none, 100), ((⟨404, 0, 405, 1⟩ : rectT), none, 101), ((⟨408, 0, 409, 1⟩ : rectT), none, 102), ((⟨412, 0, 413, 1⟩ : rectT), none, 103), ((⟨416, 0, 417, 1⟩ : rectT), none, 104), ((⟨420, 0, 421, 1⟩ : rectT), none, 105), ((⟨424, 0, 425, 1⟩ : rectT), none, 106), ((⟨428, 0, 429, 1⟩ : rectT), none, 107)]), 0), ((⟨432, 0, 465, 1⟩ : rectT), some (nodeT.mk 0 [((⟨432, 0, 433, 1⟩ : rectT), none, 108), ((⟨436, 0, 437, 1⟩ : rectT), none, 109), ((⟨440, 0, 441, 1⟩ : rectT), none, 110), ((⟨444, 0, 445, 1⟩ : rectT), none, 111), ((⟨448, 0, 449, 1⟩ : rectT), none, 112), ((⟨452, 0, 453, 1⟩ : rectT), none, 113), ((⟨456, 0, 457, 1⟩ : rectT), none, 114), ((⟨460, 0, 461, 1⟩ : rectT), none, 115), ((⟨464, 0, 465, 1⟩ : rectT), none, 116)]), 0), ((⟨468, 0, 501, 1⟩ : rectT), some (nodeT.mk 0 [((⟨468, 0, 469, 1⟩ : rectT), none, 117), ((⟨472, 0, 473, 1⟩ : rectT), none, 118), ((⟨476, 0, 477, 1⟩ : rectT), none, 119), ((⟨480, 0, 481, 1⟩ : rectT), none, 120), ((⟨484, 0, 485, 1⟩ : rectT), none, 121), ((⟨488, 0, 489, 1⟩ : rectT), none, 122), ((⟨492, 0, 493, 1⟩ : rectT), none, 123), ((⟨496, 0, 497, 1⟩ : rectT), none, 124), ((⟨500, 0, 501, 1⟩ : rectT), none, 125)]), 0), ((⟨504, 0, 537, 1⟩ : rectT), some (nodeT.mk 0 [((⟨504, 0, 505, 1⟩ : rectT), none, 126), ((⟨508, 0, 509, 1⟩ : rectT), none, 127), ((⟨512, 0, 513, 1⟩ : rectT), none, 128), ((⟨516, 0, 517, 1⟩ : rectT), none, 129), ((⟨520, 0, 521, 1⟩ : rectT), none, 130), ((⟨524, 0, 525, 1⟩ : rectT), none, 131), ((⟨528, 0, 529, 1⟩ : rectT), none, 132), ((⟨532, 0, 533, 1⟩ : rectT), none, 133), ((⟨536, 0, 537, 1⟩ : rectT), none, 134)]), 0), ((⟨540, 0, 573, 1⟩ : rectT), some (nodeT.mk 0 [((⟨540, 0, 541, 1⟩ : rectT), none, 135), ((⟨544, 0, 545, 1⟩ : rectT), none, 136), ((⟨548, 0, 549, 1⟩ : rectT), none, 137), ((⟨552, 0, 553, 1⟩ : rectT), none, 138), ((⟨556, 0, 557, 1⟩ : rectT), none, 139), ((⟨560, 0, 561, 1⟩ : rectT), none, 140), ((⟨564, 0, 565, 1⟩ : rectT), none, 141), ((⟨568, 0, 569, 1⟩ : rectT), none, 142), ((⟨572, 0, 573, 1⟩ : rectT), none, 143)]), 0), ((⟨576, 0, 605, 1⟩ : rectT), some (nodeT.mk 0 [((⟨576, 0, 577, 1⟩ : rectT), none, 144), ((⟨580, 0, 581, 1⟩ : rectT), none, 145), ((⟨584, 0, 585, 1⟩ : rectT), none, 146), ((⟨588, 0, 589, 1⟩ : rectT), none, 147), ((⟨592, 0, 593, 1⟩ : rectT), none, 148), ((⟨596, 0, 597, 1⟩ : rectT), none, 149), ((⟨600, 0, 601, 1⟩ : rectT), none, 150), ((⟨604, 0, 605, 1⟩ : rectT), none, 151)]), 0)]), 0)]

/-- The tree after deleting item 0 (a plain leaf removal). -/
def state151del : nodeT :=
  nodeT.mk 2 [((⟨4, 0, 285, 1⟩ : rectT), some (nodeT.mk 1 [((⟨4, 0, 33, 1⟩ : rectT), some (nodeT.mk 0 [((⟨32, 0, 33, 1⟩ : rectT), none, 8), ((⟨4, 0, 5, 1⟩ : rectT), none, 1), ((⟨8, 0, 9, 1⟩ : rectT), none, 2), ((⟨12, 0, 13, 1⟩ : rectT), none, 3), ((⟨16, 0, 17, 1⟩ : rectT), none, 4), ((⟨20, 0, 21, 1⟩ : rectT), none, 5), ((⟨24, 0, 25, 1⟩ : rectT), none, 6), ((⟨28, 0, 29, 1⟩ : rectT), none, 7)]), 0), ((⟨36, 0, 69, 1⟩ : rectT), some (nodeT.mk 0 [((⟨36, 0, 37, 1⟩ : rectT), none, 9), ((⟨40, 0, 41, 1⟩ : rectT), none, 10), ((⟨44, 0, 45, 1⟩ : rectT), none, 11), ((⟨48, 0, 49, 1⟩ : rectT), none, 12), ((⟨52, 0, 53, 1⟩ : rectT), none, 13), ((⟨56, 0, 57, 1⟩ : rectT), none, 14), ((⟨60, 0, 61, 1⟩ : rectT), none, 15), ((⟨64, 0, 65, 1⟩ : rectT), none, 16), ((⟨68, 0, 69, 1⟩ : rectT), none, 17)]), 0), ((⟨72, 0, 105, 1⟩ : rectT), some (nodeT.mk 0 [((⟨72, 0, 73, 1⟩ : rectT), none, 18), ((⟨76, 0, 77, 1⟩ : rectT), none, 19), ((⟨80, 0, 81, 1⟩ : rectT), none, 20), ((⟨84, 0, 85, 1⟩ : rectT), none, 21), ((⟨88, 0, 89, 1⟩ : rectT), none, 22), ((⟨92, 0, 93, 1⟩ : rectT), none, 23), ((⟨96, 0, 97, 1⟩ : rectT), none, 24), ((⟨100, 0, 101, 1⟩ : rectT), none, 25), ((⟨104, 0, 105, 1⟩ : rectT), none, 26)]), 0), ((⟨108, 0, 141, 1⟩ : rectT), some (nodeT.mk 0 [((⟨108, 0, 109, 1⟩ : rectT), none, 27), ((⟨112, 0, 113, 1⟩ : rectT), none, 28), ((⟨116, 0, 117, 1⟩ : rectT), none, 29), ((⟨120, 0, 121, 1⟩ : rectT), none, 30), ((⟨124, 0, 125, 1⟩ : rectT), none, 31), ((⟨128, 0, 129, 1⟩ : rectT), none, 32), ((⟨132, 0, 133, 1⟩ : rectT), none, 33), ((⟨136, 0, 137, 1⟩ : rectT), none, 34), ((⟨140, 0, 141, 1⟩ : rectT), none, 35)]), 0), ((⟨144, 0, 177, 1⟩ : rectT), some (nodeT.mk 0 [((⟨144, 0, 145, 1⟩ : rectT), none, 36), ((⟨148, 0, 149, 1⟩ : rectT), none, 37), ((⟨152, 0, 153, 1⟩ : rectT), none, 38), ((⟨156, 0, 157, 1⟩ : rectT), none, 39), ((⟨160, 0, 161, 1⟩ : rectT), none, 40), ((⟨164, 0, 165, 1⟩ : rectT), none, 41), ((⟨168, 0, 169, 1⟩ : rectT), none, 42), ((⟨172, 0, 173, 1⟩ : rectT), none, 43), ((⟨176, 0, 177, 1⟩ : rectT), none, 44)]), 0), ((⟨180, 0, 213, 1⟩ : rectT), some (nodeT.mk 0 [((⟨180, 0, 181, 1⟩ : rectT), none, 45), ((⟨184, 0, 185, 1⟩ : rectT), none, 46), ((⟨188, 0, 189, 1⟩ : rectT), none, 47), ((⟨192, 0, 193, 1⟩ : rectT), none, 48), ((⟨196, 0, 197, 1⟩ : rectT), none, 49), ((⟨200, 0, 201, 1⟩ : rectT), none, 50), ((⟨204, 0, 205, 1⟩ : rectT), none, 51), ((⟨208, 0, 209, 1⟩ : rectT), none, 52), ((⟨212, 0, 213, 1⟩ : rectT), none, 53)]), 0), ((⟨216, 0, 249, 1⟩ : rectT), some (nodeT.mk 0 [((⟨216, 0, 217, 1⟩ : rectT), none, 54), ((⟨220, 0, 221, 1⟩ : rectT), none, 55), ((⟨224, 0, 225, 1⟩ : rectT), none, 56), ((⟨228, 0, 229, 1⟩ : rectT), none, 57), ((⟨232, 0, 233, 1⟩ : rectT), none, 58), ((⟨236, 0, 237, 1⟩ : rectT), none, 59), ((⟨240, 0, 241, 1⟩ : rectT), none, 60), ((⟨244, 0, 245, 1⟩ : rectT), none, 61), ((⟨248, 0, 249, 1⟩ : rectT), none, 62)]), 0), ((⟨252, 0, 285, 1⟩ : rectT), some (nodeT.mk 0 [((⟨252, 0, 253, 1⟩ : rectT), none, 63), ((⟨256, 0, 257, 1⟩ : rectT), none, 64), ((⟨260, 0, 261, 1⟩ : rectT), none, 65), ((⟨264, 0, 265, 1⟩ : rectT), none, 66), ((⟨268, 0, 269, 1⟩ : rectT), none, 67), ((⟨272, 0, 273, 1⟩ : rectT), none, 68), ((⟨276, 0, 277, 1⟩ : rectT), none, 69), ((⟨280, 0, 281, 1⟩ : rectT), none, 70), ((⟨284, 0, 285, 1⟩ : rectT), none, 71)]), 0)]), 0), ((⟨288, 0, 605, 1⟩ : rectT), some (nodeT.mk 1 [((⟨288, 0, 321, 1⟩ : rectT), some (nodeT.mk 0 [((⟨288, 0, 289, 1⟩ : rectT), none, 72), ((⟨292, 0, 293, 1⟩ : rectT), none, 73), ((⟨296, 0, 297, 1⟩ : rectT), none, 74), ((⟨300, 0, 301, 1⟩ : rectT), none, 75), ((⟨304, 0, 305, 1⟩ : rectT), none, 76), ((⟨308, 0, 309, 1⟩ : rectT), none, 77), ((⟨312, 0, 313, 1⟩ : rectT), none, 78), ((⟨316, 0, 317, 1⟩ : rectT), none, 79), ((⟨320, 0, 321, 1⟩ : rectT), none, 80)]), 0), ((⟨324, 0, 357, 1⟩ : rectT), some (nodeT.mk 0 [((⟨324, 0, 325, 1⟩ : rectT), none, 81), ((⟨328, 0, 329, 1⟩ : rectT), none, 82), ((⟨332, 0, 333, 1⟩ : rectT), none, 83), ((⟨336, 0, 337, 1⟩ : rectT), none, 84), ((⟨340, 0, 341, 1⟩ : rectT), none, 85), ((⟨344, 0, 345, 1⟩ : rectT), none, 86), ((⟨348, 0, 349, 1⟩ : rectT), none, 87), ((⟨352, 0, 353, 1⟩ : rectT), none, 88), ((⟨356, 0, 357, 1⟩ : rectT), none, 89)]), 0), ((⟨360, 0, 393, 1⟩ : rectT), some (nodeT.mk 0 [((⟨360, 0, 361, 1⟩ : rectT), none, 90), ((⟨364, 0, 365, 1⟩ : rectT), none, 91), ((⟨368, 0, 369, 1⟩ : rectT), none, 92), ((⟨372, 0, 373, 1⟩ : rectT), none, 93), ((⟨376, 0, 377, 1⟩ : rectT), none, 94), ((⟨380, 0, 381, 1⟩ : rectT), none, 95), ((⟨384, 0, 385, 1⟩ : rectT), none, 96), ((⟨388, 0, 389, 1⟩ : rectT), none, 97), ((⟨392, 0, 393, 1⟩ : rectT), none, 98)]), 0), ((⟨396, 0, 429, 1⟩ : rectT), some (nodeT.mk 0 [((⟨396, 0, 397, 1⟩ : rectT), none, 99), ((⟨400, 0, 401, 1⟩ : rectT), none, 100), ((⟨404, 0, 405, 1⟩ : rectT), none, 101), ((⟨408, 0, 409, 1⟩ : rectT), none, 102), ((⟨412, 0, 413, 1⟩ : rectT), none, 103), ((⟨416, 0, 417, 1⟩ : rectT), none, 104), ((⟨420, 0, 421, 1⟩ : rectT), none, 105), ((⟨424, 0, 425, 1⟩ : rectT), none, 106), ((⟨428, 0, 429, 1⟩ : rectT), none, 107)]), 0), ((⟨432, 0, 465, 1⟩ : rectT), some (nodeT.mk 0 [((⟨432, 0, 433, 1⟩ : rectT), none, 108), ((⟨436, 0, 437, 1⟩ : rectT), none, 109), ((⟨440, 0, 441, 1⟩ : rectT), none, 110), ((⟨444, 0, 445, 1⟩ : rectT), none, 111), ((⟨448, 0, 449, 1⟩ : rectT), none, 112), ((⟨452, 0, 453, 1⟩ : rectT), none, 113), ((⟨456, 0, 457, 1⟩ : rectT), none, 114), ((⟨460, 0, 461, 1⟩ : rectT), none, 115), ((⟨464, 0, 465, 1⟩ : rectT), none, 116)]), 0), ((⟨468, 0, 501, 1⟩ : rectT), some (nodeT.mk 0 [((⟨468, 0, 469, 1⟩ : rectT), none, 117), ((⟨472, 0, 473, 1⟩ : rectT), none, 118), ((⟨476, 0, 477, 1⟩ : rectT), none, 119), ((⟨480, 0, 481, 1⟩ : rectT), none, 120), ((⟨484, 0, 485, 1⟩ : rectT), none, 121), ((⟨488, 0, 489, 1⟩ : rectT), none, 122), ((⟨492, 0, 493, 1⟩ : rectT), none, 123), ((⟨496, 0, 497, 1⟩ : rectT), none, 124), ((⟨500, 0, 501, 1⟩ : rectT), none, 125)]), 0), ((⟨504, 0, 537, 1⟩ : rectT), some (nodeT.mk 0 [((⟨504, 0, 505, 1⟩ : rectT), none, 126), ((⟨508, 0, 509, 1⟩ : rectT), none, 127), ((⟨512, 0, 513, 1⟩ : rectT), none, 128), ((⟨516, 0, 517, 1⟩ : rectT), none, 129), ((⟨520, 0, 521, 1⟩ : rectT), none, 130), ((⟨524, 0, 525, 1⟩ : rectT), none, 131), ((⟨528, 0, 529, 1⟩ : rectT), none, 132), ((⟨532, 0, 533, 1⟩ : rectT), none, 133), ((⟨536, 0, 537, 1⟩ : rectT), none, 134)]), 0), ((⟨540, 0, 573, 1⟩ : rectT), some (nodeT.mk 0 [((⟨540, 0, 541, 1⟩ : rectT), none, 135), ((⟨544, 0, 545, 1⟩ : rectT), none, 136), ((⟨548, 0, 549, 1⟩ : rectT), none, 137), ((⟨552, 0, 553, 1⟩ : rectT), none, 138), ((⟨556, 0, 557, 1⟩ : rectT), none, 139), ((⟨560, 0, 561, 1⟩ : rectT), none, 140), ((⟨564, 0, 565, 1⟩ : rectT), none, 141), ((⟨568, 0, 569, 1⟩ : rectT), none, 142), ((⟨572, 0, 573, 1⟩ : rectT), none, 143)]), 0), ((⟨576, 0, 605, 1⟩ : rectT), some (nodeT.mk 0 [((⟨576, 0, 577, 1⟩ : rectT), none, 144), ((⟨580, 0, 581, 1⟩ : rectT), none, 145), ((⟨584, 0, 585, 1⟩ : rectT), none, 146), ((⟨588, 0, 589, 1⟩ : rectT), none, 147), ((⟨592, 0, 593, 1⟩ : rectT), none, 148), ((⟨596, 0, 597, 1⟩ : rectT), none, 149), ((⟨600, 0, 601, 1⟩ : rectT), none, 150), ((⟨604, 0, 605, 1⟩ : rectT), none, 151)]), 0)]), 0)]

/-- The tree after deleting item 1: the underflow cascade detached the
level-1 node over items 2..71 and reinserting its branches dropped their
child pointers - 70 of the remaining 150 leaf entries are gone and 7 NULL
child branches remain. -/
def stateDamaged : nodeT :=
  nodeT.mk 1 [((⟨288, 0, 321, 1⟩ : rectT), some (nodeT.mk 0 [((⟨288, 0, 289, 1⟩ : rectT), none, 72), ((⟨292, 0, 293, 1⟩ : rectT), none, 73), ((⟨296, 0, 297, 1⟩ : rectT), none, 74), ((⟨300, 0, 301, 1⟩ : rectT), none, 75), ((⟨304, 0, 305, 1⟩ : rectT), none, 76), ((⟨308, 0, 309, 1⟩ : rectT), none, 77), ((⟨312, 0, 313, 1⟩ : rectT), none, 78), ((⟨316, 0, 317, 1⟩ : rectT), none, 79), ((⟨320, 0, 321, 1⟩ : rectT), none, 80)]), 0), ((⟨324, 0, 357, 1⟩ : rectT), some (nodeT.mk 0 [((⟨324, 0, 325, 1⟩ : rectT), none, 81), ((⟨328, 0, 329, 1⟩ : rectT), none, 82), ((⟨332, 0, 333, 1⟩ : rectT), none, 83), ((⟨336, 0, 337, 1⟩ : rectT), none, 84), ((⟨340, 0, 341, 1⟩ : rectT), none, 85), ((⟨344, 0, 345, 1⟩ : rectT), none, 86), ((⟨348, 0, 349, 1⟩ : rectT), none, 87), ((⟨352, 0, 353, 1⟩ : rectT), none, 88), ((⟨356, 0, 357, 1⟩ : rectT), none, 89)]), 0), ((⟨360, 0, 393, 1⟩ : rectT), some (nodeT.mk 0 [((⟨360, 0, 361, 1⟩ : rectT), none, 90), ((⟨364, 0, 365, 1⟩ : rectT), none, 91), ((⟨368, 0, 369, 1⟩ : rectT), none, 92), ((⟨372, 0, 373, 1⟩ : rectT), none, 93), ((⟨376, 0, 377, 1⟩ : rectT), none, 94), ((⟨380, 0, 381, 1⟩ : rectT), none, 95), ((⟨384, 0, 385, 1⟩ : rectT), none, 96), ((⟨388, 0, 389, 1⟩ : rectT), none, 97), ((⟨392, 0, 393, 1⟩ : rectT), none, 98)]), 0), ((⟨396, 0, 429, 1⟩ : rectT), some (nodeT.mk 0 [((⟨396, 0, 397, 1⟩ : rectT), none, 99), ((⟨400, 0, 401, 1⟩ : rectT), none, 100), ((⟨404, 0, 405, 1⟩ : rectT), none, 101), ((⟨408, 0, 409, 1⟩ : rectT), none, 102), ((⟨412, 0, 413, 1⟩ : rectT), none, 103), ((⟨416, 0, 417, 1⟩ : rectT), none, 104), ((⟨420, 0, 421, 1⟩ : rectT), none, 105), ((⟨424, 0, 425, 1⟩ : rectT), none, 106), ((⟨428, 0, 429, 1⟩ : rectT), none, 107)]), 0), ((⟨432, 0, 465, 1⟩ : rectT), some (nodeT.mk 0 [((⟨432, 0, 433, 1⟩ : rectT), none, 108), ((⟨436, 0, 437, 1⟩ : rectT), none, 109), ((⟨440, 0, 441, 1⟩ : rectT), none, 110), ((⟨444, 0, 445, 1⟩ : rectT), none, 111), ((⟨448, 0, 449, 1⟩ : rectT), none, 112), ((⟨452, 0, 453, 1⟩ : rectT), none, 113), ((⟨456, 0, 457, 1⟩ : rectT), none, 114), ((⟨460, 0, 461, 1⟩ : rectT), none, 115), ((⟨464, 0, 465, 1⟩ : rectT), none, 116)]), 0), ((⟨468, 0, 501, 1⟩ : rectT), some (nodeT.mk 0 [((⟨468, 0, 469, 1⟩ : rectT), none, 117), ((⟨472, 0, 473, 1⟩ : rectT), none, 118), ((⟨476, 0, 477, 1⟩ : rectT), none, 119), ((⟨480, 0, 481, 1⟩ : rectT), none, 120), ((⟨484, 0, 485, 1⟩ : rectT), none, 121), ((⟨488, 0, 489, 1⟩ : rectT), none, 122), ((⟨492, 0, 493, 1⟩ : rectT), none, 123), ((⟨496, 0, 497, 1⟩ : rectT), none, 124), ((⟨500, 0, 501, 1⟩ : rectT), none, 125)]), 0), ((⟨504, 0, 537, 1⟩ : rectT), some (nodeT.mk 0 [((⟨504, 0, 505, 1⟩ : rectT), none, 126), ((⟨508, 0, 509, 1⟩ : rectT), none, 127), ((⟨512, 0, 513, 1⟩ : rectT), none, 128), ((⟨516, 0, 517, 1⟩ : rectT), none, 129), ((⟨520, 0, 521, 1⟩ : rectT), none, 130), ((⟨524, 0, 525, 1⟩ : rectT), none, 131), ((⟨528, 0, 529, 1⟩ : rectT), none, 132), ((⟨532, 0, 533, 1⟩ : rectT), none, 133), ((⟨536, 0, 537, 1⟩ : rectT), none, 134)]), 0), ((⟨540, 0, 573, 1⟩ : rectT), some (nodeT.mk 0 [((⟨540, 0, 541, 1⟩ : rectT), none, 135), ((⟨544, 0, 545, 1⟩ : rectT), none, 136), ((⟨548, 0, 549, 1⟩ : rectT), none, 137), ((⟨552, 0, 553, 1⟩ : rectT), none, 138), ((⟨556, 0, 557, 1⟩ : rectT), none, 139), ((⟨560, 0, 561, 1⟩ : rectT), none, 140), ((⟨564, 0, 565, 1⟩ : rectT), none, 141), ((⟨568, 0, 569, 1⟩ : rectT), none, 142), ((⟨572, 0, 573, 1⟩ : rectT), none, 143)]), 0), ((⟨576, 0, 605, 1⟩ : rectT), some (nodeT.mk 0 [((⟨576, 0, 577, 1⟩ : rectT), none, 144), ((⟨580, 0, 581, 1⟩ : rectT), none, 145), ((⟨584, 0, 585, 1⟩ : rectT), none, 146), ((⟨588, 0, 589, 1⟩ : rectT), none, 147), ((⟨592, 0, 593, 1⟩ : rectT), none, 148), ((⟨596, 0, 597, 1⟩ : rectT), none, 149), ((⟨600, 0, 601, 1⟩ : rectT), none, 150), ((⟨604, 0, 605, 1⟩ : rectT), none, 151)]), 0), ((⟨252, 0, 285, 1⟩ : rectT), none, 0), ((⟨8, 0, 69, 1⟩ : rectT), none, 0), ((⟨72, 0, 105, 1⟩ : rectT), none, 0), ((⟨108, 0, 141, 1⟩ : rectT), none, 0), ((⟨144, 0, 177, 1⟩ : rectT), none, 0), ((⟨180, 0, 213, 1⟩ : rectT), none, 0), ((⟨216, 0, 249, 1⟩ : rectT), none, 0)]

/-- The damaged tree after inserting item 500 at x in [10, 11]: pickBranch
chose an orphaned NULL-child branch, so nothing was stored. -/
def stateAfterLostInsert : nodeT :=
  nodeT.mk 1 [((⟨288, 0, 321, 1⟩ : rectT), some (nodeT.mk 0 [((⟨288, 0, 289, 1⟩ : rectT), none, 72), ((⟨292, 0, 293, 1⟩ : rectT), none, 73), ((⟨296, 0, 297, 1⟩ : rectT), none, 74), ((⟨300, 0, 301, 1⟩ : rectT), none, 75), ((⟨304, 0, 305, 1⟩ : rectT), none, 76), ((⟨308, 0, 309, 1⟩ : rectT), none, 77), ((⟨312, 0, 313, 1⟩ : rectT), none, 78), ((⟨316, 0, 317, 1⟩ : rectT), none, 79), ((⟨320, 0, 321, 1⟩ : rectT), none, 80)]), 0), ((⟨324, 0, 357, 1⟩ : rectT), some (nodeT.mk 0 [((⟨324, 0, 325, 1⟩ : rectT), none, 81), ((⟨328, 0, 329, 1⟩ : rectT), none, 82), ((⟨332, 0, 333, 1⟩ : rectT), none, 83), ((⟨336, 0, 337, 1⟩ : rectT), none, 84), ((⟨340, 0, 341, 1⟩ : rectT), none, 85), ((⟨344, 0, 345, 1⟩ : rectT), none, 86), ((⟨348, 0, 349, 1⟩ : rectT), none, 87), ((⟨352, 0, 353, 1⟩ : rectT), none, 88), ((⟨356, 0, 357, 1⟩ : rectT), none, 89)]), 0), ((⟨360, 0, 393, 1⟩ : rectT), some (nodeT.mk 0 [((⟨360, 0, 361, 1⟩ : rectT), none, 90), ((⟨364, 0, 365, 1⟩ : rectT), none, 91), ((⟨368, 0, 369, 1⟩ : rectT), none, 92), ((⟨372, 0, 373, 1⟩ : rectT), none, 93), ((⟨376, 0, 377, 1⟩ : rectT), none, 94), ((⟨380, 0, 381, 1⟩ : rectT), none, 95), ((⟨384, 0, 385, 1⟩ : rectT), none, 96), ((⟨388, 0, 389, 1⟩ : rectT), none, 97), ((⟨392, 0, 393, 1⟩ : rectT), none, 98)]), 0), ((⟨396, 0, 429, 1⟩ : rectT), some (nodeT.mk 0 [((⟨396, 0, 397, 1⟩ : rectT), none, 99), ((⟨400, 0, 401, 1⟩ : rectT), none, 100), ((⟨404, 0, 405, 1⟩ : rectT), none, 101), ((⟨408, 0, 409, 1⟩ : rectT), none, 102), ((⟨412, 0, 413, 1⟩ : rectT), none, 103), ((⟨416, 0, 417, 1⟩ : rectT), none, 104), ((⟨420, 0, 421, 1⟩ : rectT), none, 105), ((⟨424, 0, 425, 1⟩ : rectT), none, 106), ((⟨428, 0, 429, 1⟩ : rectT), none, 107)]), 0), ((⟨432, 0, 465, 1⟩ : rectT), some (nodeT.mk 0 [((⟨432, 0, 433, 1⟩ : rectT), none, 108), ((⟨436, 0, 437, 1⟩ : rectT), none, 109), ((⟨440, 0, 441, 1⟩ : rectT), none, 110), ((⟨444, 0, 445, 1⟩ : rectT), none, 111), ((⟨448, 0, 449, 1⟩ : rectT), none, 112), ((⟨452, 0, 453, 1⟩ : rectT), none, 113), ((⟨456, 0, 457, 1⟩ : rectT), none, 114), ((⟨460, 0, 461, 1⟩ : rectT), none, 115), ((⟨464, 0, 465, 1⟩ : rectT), none, 116)]), 0), ((⟨468, 0, 501, 1⟩ : rectT), some (nodeT.mk 0 [((⟨468, 0, 469, 1⟩ : rectT), none, 117), ((⟨472, 0, 473, 1⟩ : rectT), none, 118), ((⟨476, 0, 477, 1⟩ : rectT), none, 119), ((⟨480, 0, 481, 1⟩ : rectT), none, 120), ((⟨484, 0, 485, 1⟩ : rectT), none, 121), ((⟨488, 0, 489, 1⟩ : rectT), none, 122), ((⟨492, 0, 493, 1⟩ : rectT), none, 123), ((⟨496, 0, 497, 1⟩ : rectT), none, 124), ((⟨500, 0, 501, 1⟩ : rectT), none, 125)]), 0), ((⟨504, 0, 537, 1⟩ : rectT), some (nodeT.mk 0 [((⟨504, 0, 505, 1⟩ : rectT), none, 126), ((⟨508, 0, 509, 1⟩ : rectT), none, 127), ((⟨512, 0, 513, 1⟩ : rectT), none, 128), ((⟨516, 0, 517, 1⟩ : rectT), none, 129), ((⟨520, 0, 521, 1⟩ : rectT), none, 130), ((⟨524, 0, 525, 1⟩ : rectT), none, 131), ((⟨528, 0, 529, 1⟩ : rectT), none, 132), ((⟨532, 0, 533, 1⟩ : rectT), none, 133), ((⟨536, 0, 537, 1⟩ : rectT), none, 134)]), 0), ((⟨540, 0, 573, 1⟩ : rectT), some (nodeT.mk 0 [((⟨540, 0, 541, 1⟩ : rectT), none, 135), ((⟨544, 0, 545, 1⟩ : rectT), none, 136), ((⟨548, 0, 549, 1⟩ : rectT), none, 137), ((⟨552, 0, 553, 1⟩ : rectT), none, 138), ((⟨556, 0, 557, 1⟩ : rectT), none, 139), ((⟨560, 0, 561, 1⟩ : rectT), none, 140), ((⟨564, 0, 565, 1⟩ : rectT), none, 141), ((⟨568, 0, 569, 1⟩ : rectT), none, 142), ((⟨572, 0, 573, 1⟩ : rectT), none, 143)]), 0), ((⟨576, 0, 605, 1⟩ : rectT), some (nodeT.mk 0 [((⟨576, 0, 577, 1⟩ : rectT), none, 144), ((⟨580, 0, 581, 1⟩ : rectT), none, 145), ((⟨584, 0, 585, 1⟩ : rectT), none, 146), ((⟨588, 0, 589, 1⟩ : rectT), none, 147), ((⟨592, 0, 593, 1⟩ : rectT), none, 148), ((⟨596, 0, 597, 1⟩ : rectT), none, 149), ((⟨600, 0, 601, 1⟩ : rectT), none, 150), ((⟨604, 0, 605, 1⟩ : rectT), none, 151)]), 0), ((⟨252, 0, 285, 1⟩ : rectT), none, 0), ((⟨8, 0, 69, 1⟩ : rectT), none, 0), ((⟨72, 0, 105, 1⟩ : rectT), none, 0), ((⟨108, 0, 141, 1⟩ : rectT), none, 0), ((⟨144, 0, 177, 1⟩ : rectT), none, 0), ((⟨180, 0, 213, 1⟩ : rectT), none, 0), ((⟨216, 0, 249, 1⟩ : rectT), none, 0)]

/-- Root branch list after the first 25 inserts (op 25 splits a leaf). -/
def bs25 : List branchT :=
  [((⟨0, 0, 33, 1⟩ : rectT), some (nodeT.mk 0 [((⟨0, 0, 1, 1⟩ : rectT), none, 0), ((⟨4, 0, 5, 1⟩ : rectT), none, 1), ((⟨8, 0, 9, 1⟩ : rectT), none, 2), ((⟨12, 0, 13, 1⟩ : rectT), none, 3), ((⟨16, 0, 17, 1⟩ : rectT), none, 4), ((⟨20, 0, 21, 1⟩ : rectT), none, 5), ((⟨24, 0, 25, 1⟩ : rectT), none, 6), ((⟨28, 0, 29, 1⟩ : rectT), none, 7), ((⟨32, 0, 33, 1⟩ : rectT), none, 8)]), 0), ((⟨36, 0, 97, 1⟩ : rectT), some (nodeT.mk 0 [((⟨36, 0, 37, 1⟩ : rectT), none, 9), ((⟨40, 0, 41, 1⟩ : rectT), none, 10), ((⟨44, 0, 45, 1⟩ : rectT), none, 11), ((⟨48, 0, 49, 1⟩ : rectT), none, 12), ((⟨52, 0, 53, 1⟩ : rectT), none, 13), ((⟨56, 0, 57, 1⟩ : rectT), none, 14), ((⟨60, 0, 61, 1⟩ : rectT), none, 15), ((⟨64, 0, 65, 1⟩ : rectT), none, 16), ((⟨68, 0, 69, 1⟩ : rectT), none, 17), ((⟨72, 0, 73, 1⟩ : rectT), none, 18), ((⟨76, 0, 77, 1⟩ : rectT), none, 19), ((⟨80, 0, 81, 1⟩ : rectT), none, 20), ((⟨84, 0, 85, 1⟩ : rectT), none, 21), ((⟨88, 0, 89, 1⟩ : rectT), none, 22), ((⟨92, 0, 93, 1⟩ : rectT), none, 23), ((⟨96, 0, 97, 1⟩ : rectT), none, 24)]), 0)]

def leaf25 : nodeT :=
  nodeT.mk 0 [((⟨36, 0, 37, 1⟩ : rectT), none, 9), ((⟨40, 0, 41, 1⟩ : rectT), none, 10), ((⟨44, 0, 45, 1⟩ : rectT), none, 11), ((⟨48, 0, 49, 1⟩ : rectT), none, 12), ((⟨52, 0, 53, 1⟩ : rectT), none, 13), ((⟨56, 0, 57, 1⟩ : rectT), none, 14), ((⟨60, 0, 61, 1⟩ : rectT), none, 15), ((⟨64, 0, 65, 1⟩ : rectT), none, 16), ((⟨68, 0, 69, 1⟩ : rectT), none, 17), ((⟨72, 0, 73, 1⟩ : rectT), none, 18), ((⟨76, 0, 77, 1⟩ : rectT), none, 19), ((⟨80, 0, 81, 1⟩ : rectT), none, 20), ((⟨84, 0, 85, 1⟩ : rectT), none, 21), ((⟨88, 0, 89, 1⟩ : rectT), none, 22), ((⟨92, 0, 93, 1⟩ : rectT), none, 23), ((⟨96, 0, 97, 1⟩ : rectT), none, 24)]

def leaf25a : nodeT :=
  nodeT.mk 0 [((⟨36, 0, 37, 1⟩ : rectT), none, 9), ((⟨40, 0, 41, 1⟩ : rectT), none, 10), ((⟨44, 0, 45, 1⟩ : rectT), none, 11), ((⟨48, 0, 49, 1⟩ : rectT), none, 12), ((⟨52, 0, 53, 1⟩ : rectT), none, 13), ((⟨56, 0, 57, 1⟩ : rectT), none, 14), ((⟨60, 0, 61, 1⟩ : rectT), none, 15), ((⟨64, 0, 65, 1⟩ : rectT), none, 16), ((⟨68, 0, 69, 1⟩ : rectT), none, 17)]

def leaf25b : nodeT :=
  nodeT.mk 0 [((⟨72, 0, 73, 1⟩ : rectT), none, 18), ((⟨76, 0, 77, 1⟩ : rectT), none, 19), ((⟨80, 0, 81, 1⟩ : rectT), none, 20), ((⟨84, 0, 85, 1⟩ : rectT), none, 21), ((⟨88, 0, 89, 1⟩ : rectT), none, 22), ((⟨92, 0, 93, 1⟩ : rectT), none, 23), ((⟨96, 0, 97, 1⟩ : rectT), none, 24), ((⟨100, 0, 101, 1⟩ : rectT), none, 25)]

def state26 : nodeT :=
  nodeT.mk 1 [((⟨0, 0, 33, 1⟩ : rectT), some (nodeT.mk 0 [((⟨0, 0, 1, 1⟩ : rectT), none, 0), ((⟨4, 0, 5, 1⟩ : rectT), none, 1), ((⟨8, 0, 9, 1⟩ : rectT), none, 2), ((⟨12, 0, 13, 1⟩ : rectT), none, 3), ((⟨16, 0, 17, 1⟩ : rectT), none, 4), ((⟨20, 0, 21, 1⟩ : rectT), none, 5), ((⟨24, 0, 25, 1⟩ : rectT), none, 6), ((⟨28, 0, 29, 1⟩ : rectT), none, 7), ((⟨32, 0, 33, 1⟩ : rectT), none, 8)]), 0), ((⟨36, 0, 69, 1⟩ : rectT), some (nodeT.mk 0 [((⟨36, 0, 37, 1⟩ : rectT), none, 9), ((⟨40, 0, 41, 1⟩ : rectT), none, 10), ((⟨44, 0, 45, 1⟩ : rectT), none, 11), ((⟨48, 0, 49, 1⟩ : rectT), none, 12), ((⟨52, 0, 53, 1⟩ : rectT), none, 13), ((⟨56, 0, 57, 1⟩ : rectT), none, 14), ((⟨60, 0, 61, 1⟩ : rectT), none, 15), ((⟨64, 0, 65, 1⟩ : rectT), none, 16), ((⟨68, 0, 69, 1⟩ : rectT), none, 17)]), 0), ((⟨72, 0, 101, 1⟩ : rectT), some (nodeT.mk 0 [((⟨72, 0, 73, 1⟩ : rectT), none, 18), ((⟨76, 0, 77, 1⟩ : rectT), none, 19), ((⟨80, 0, 81, 1⟩ : rectT), none, 20), ((⟨84, 0, 85, 1⟩ : rectT), none, 21), ((⟨88, 0, 89, 1⟩ : rectT), none, 22), ((⟨92, 0, 93, 1⟩ : rectT), none, 23), ((⟨96, 0, 97, 1⟩ : rectT), none, 24), ((⟨100, 0, 101, 1⟩ : rectT), none, 25)]), 0)]

/-- Root branch list after the first 34 inserts (op 34 splits a leaf). -/
def bs34 : List branchT :=
  [((⟨0, 0, 33, 1⟩ : rectT), some (nodeT.mk 0 [((⟨0, 0, 1, 1⟩ : rectT), none, 0), ((⟨4, 0, 5, 1⟩ : rectT), none, 1), ((⟨8, 0, 9, 1⟩ : rectT), none, 2), ((⟨12, 0, 13, 1⟩ : rectT), none, 3), ((⟨16, 0, 17, 1⟩ : rectT), none, 4), ((⟨20, 0, 21, 1⟩ : rectT), none, 5), ((⟨24, 0, 25, 1⟩ : rectT), none, 6), ((⟨28, 0, 29, 1⟩ : rectT), none, 7), ((⟨32, 0, 33, 1⟩ : rectT), none, 8)]), 0), ((⟨36, 0, 69, 1⟩ : rectT), some (nodeT.mk 0 [((⟨36, 0, 37, 1⟩ : rectT), none, 9), ((⟨40, 0, 41, 1⟩ : rectT), none, 10), ((⟨44, 0, 45, 1⟩ : rectT), none, 11), ((⟨48, 0, 49, 1⟩ : rectT), none, 12), ((⟨52, 0, 53, 1⟩ : rectT), none, 13), ((⟨56, 0, 57, 1⟩ : rectT), none, 14), ((⟨60, 0, 61, 1⟩ : rectT), none, 15), ((⟨64, 0, 65, 1⟩ : rectT), none, 16), ((⟨68, 0, 69, 1⟩ : rectT), none, 17)]), 0), ((⟨72, 0, 133, 1⟩ : rectT), some (nodeT.mk 0 [((⟨72, 0, 73, 1⟩ : rectT), none, 18), ((⟨76, 0, 77, 1⟩ : rectT), none, 19), ((⟨80, 0, 81, 1⟩ : rectT), none, 20), ((⟨84, 0, 85, 1⟩ : rectT), none, 21), ((⟨88, 0, 89, 1⟩ : rectT), none, 22), ((⟨92, 0, 93, 1⟩ : rectT), none, 23), ((⟨96, 0, 97, 1⟩ : rectT), none, 24), ((⟨100, 0, 101, 1⟩ : rectT), none, 25), ((⟨104, 0, 105, 1⟩ : rectT), none, 26), ((⟨108, 0, 109, 1⟩ : rectT), none, 27), ((⟨112, 0, 113, 1⟩ : rectT), none, 28), ((⟨116, 0, 117, 1⟩ : rectT), none, 29), ((⟨120, 0, 121, 1⟩ : rectT), none, 30), ((⟨124, 0, 125, 1⟩ : rectT), none, 31), ((⟨128, 0, 129, 1⟩ : rectT), none, 32), ((⟨132, 0, 133, 1⟩ : rectT), none, 33)]), 0)]

def leaf34 : nodeT :=
  nodeT.mk 0 [((⟨72, 0, 73, 1⟩ : rectT), none, 18), ((⟨76, 0, 77, 1⟩ : rectT), none, 19), ((⟨80, 0, 81, 1⟩ : rectT), none, 20), ((⟨84, 0, 85, 1⟩ : rectT), none, 21), ((⟨88, 0, 89, 1⟩ : rectT), none, 22), ((⟨92, 0, 93, 1⟩ : rectT), none, 23), ((⟨96, 0, 97, 1⟩ : rectT), none, 24), ((⟨100, 0, 101, 1⟩ : rectT), none, 25), ((⟨104, 0, 105, 1⟩ : rectT), none, 26), ((⟨108, 0, 109, 1⟩ : rectT), none, 27), ((⟨112, 0, 113, 1⟩ : rectT), none, 28), ((⟨116, 0, 117, 1⟩ : rectT), none, 29), ((⟨120, 0, 121, 1⟩ : rectT), none, 30), ((⟨124, 0, 125, 1⟩ : rectT), none, 31), ((⟨128, 0, 129, 1⟩ : rectT), none, 32), ((⟨132, 0, 133, 1⟩ : rectT), none, 33)]

def leaf34a : nodeT :=
  nodeT.mk 0 [((⟨72, 0, 73, 1⟩ : rectT), none, 18), ((⟨76, 0, 77, 1⟩ : rectT), none, 19), ((⟨80, 0, 81, 1⟩ : rectT), none, 20), ((⟨84, 0, 85, 1⟩ : rectT), none, 21), ((⟨88, 0, 89, 1⟩ : rectT), none, 22), ((⟨92, 0, 93, 1⟩ : rectT), none, 23), ((⟨96, 0, 97, 1⟩ : rectT), none, 24), ((⟨100, 0, 101, 1⟩ : rectT), none, 25), ((⟨104, 0, 105, 1⟩ : rectT), none, 26)]

def leaf34b : nodeT :=
  nodeT.mk 0 [((⟨108, 0, 109, 1⟩ : rectT), none, 27), ((⟨112, 0, 113, 1⟩ : rectT), none, 28), ((⟨116, 0, 117, 1⟩ : rectT), none, 29), ((⟨120, 0, 121, 1⟩ : rectT), none, 30), ((⟨124, 0, 125, 1⟩ : rectT), none, 31), ((⟨128, 0, 129, 1⟩ : rectT), none, 32), ((⟨132, 0, 133, 1⟩ : rectT), none, 33), ((⟨136, 0, 137, 1⟩ : rectT), none, 34)]

def state35 : nodeT :=
  nodeT.mk 1 [((⟨0, 0, 33, 1⟩ : rectT), some (nodeT.mk 0 [((⟨0, 0, 1, 1⟩ : rectT), none, 0), ((⟨4, 0, 5, 1⟩ : rectT), none, 1), ((⟨8, 0, 9, 1⟩ : rectT), none, 2), ((⟨12, 0, 13, 1⟩ : rectT), none, 3), ((⟨16, 0, 17, 1⟩ : rectT), none, 4), ((⟨20, 0, 21, 1⟩ : rectT), none, 5), ((⟨24, 0, 25, 1⟩ : rectT), none, 6), ((⟨28, 0, 29, 1⟩ : rectT), none, 7), ((⟨32, 0, 33, 1⟩ : rectT), none, 8)]), 0), ((⟨36, 0, 69, 1⟩ : rectT), some (nodeT.mk 0 [((⟨36, 0, 37, 1⟩ : rectT), none, 9), ((⟨40, 0, 41, 1⟩ : rectT), none, 10), ((⟨44, 0, 45, 1⟩ : rectT), none, 11), ((⟨48, 0, 49, 1⟩ : rectT), none, 12), ((⟨52, 0, 53, 1⟩ : rectT), none, 13), ((⟨56, 0, 57, 1⟩ : rectT), none, 14), ((⟨60, 0, 61, 1⟩ : rectT), none, 15), ((⟨64, 0, 65, 1⟩ : rectT), none, 16), ((⟨68, 0, 69, 1⟩ : rectT), none, 17)]), 0), ((⟨72, 0, 105, 1⟩ : rectT), some (nodeT.mk 0 [((⟨72, 0, 73, 1⟩ : rectT), none, 18), ((⟨76, 0, 77, 1⟩ : rectT), none, 19), ((⟨80, 0, 81, 1⟩ : rectT), none, 20), ((⟨84, 0, 85, 1⟩ : rectT), none, 21), ((⟨88, 0, 89, 1⟩ : rectT), none, 22), ((⟨92, 0, 93, 1⟩ : rectT), none, 23), ((⟨96, 0, 97, 1⟩ : rectT), none, 24), ((⟨100, 0, 101, 1⟩ : rectT), none, 25), ((⟨104, 0, 105, 1⟩ : rectT), none, 26)]), 0), ((⟨108, 0, 137, 1⟩ : rectT), some (nodeT.mk 0 [((⟨108, 0, 109, 1⟩ : rectT), none, 27), ((⟨112, 0, 113, 1⟩ : rectT), none, 28), ((⟨116, 0, 117, 1⟩ : rectT), none, 29), ((⟨120, 0, 121, 1⟩ : rectT), none, 30), ((⟨124, 0, 125, 1⟩ : rectT), none, 31), ((⟨128, 0, 129, 1⟩ : rectT), none, 32), ((⟨132, 0, 133, 1⟩ : rectT), none, 33), ((⟨136, 0, 137, 1⟩ : rectT), none, 34)]), 0)]

/-- Root branch list after the first 43 inserts (op 43 splits a leaf). -/
def bs43 : List branchT :=
  [((⟨0, 0, 33, 1⟩ : rectT), some (nodeT.mk 0 [((⟨0, 0, 1, 1⟩ : rectT), none, 0), ((⟨4, 0, 5, 1⟩ : rectT), none, 1), ((⟨8, 0, 9, 1⟩ : rectT), none, 2), ((⟨12, 0, 13, 1⟩ : rectT), none, 3), ((⟨16, 0, 17, 1⟩ : rectT), none, 4), ((⟨20, 0, 21, 1⟩ : rectT), none, 5), ((⟨24, 0, 25, 1⟩ : rectT), none, 6), ((⟨28, 0, 29, 1⟩ : rectT), none, 7), ((⟨32, 0, 33, 1⟩ : rectT), none, 8)]), 0), ((⟨36, 0, 69, 1⟩ : rectT), some (nodeT.mk 0 [((⟨36, 0, 37, 1⟩ : rectT), none, 9), ((⟨40, 0, 41, 1⟩ : rectT), none, 10), ((⟨44, 0, 45, 1⟩ : rectT), none, 11), ((⟨48, 0, 49, 1⟩ : rectT), none, 12), ((⟨52, 0, 53, 1⟩ : rectT), none, 13), ((⟨56, 0, 57, 1⟩ : rectT), none, 14), ((⟨60, 0, 61, 1⟩ : rectT), none, 15), ((⟨64, 0, 65, 1⟩ : rectT), none, 16), ((⟨68, 0, 69, 1⟩ : rectT), none, 17)]), 0), ((⟨72, 0, 105, 1⟩ : rectT), some (nodeT.mk 0 [((⟨72, 0, 73, 1⟩ : rectT), none, 18), ((⟨76, 0, 77, 1⟩ : rectT), none, 19), ((⟨80, 0, 81, 1⟩ : rectT), none, 20), ((⟨84, 0, 85, 1⟩ : rectT), none, 21), ((⟨88, 0, 89, 1⟩ : rectT), none, 22), ((⟨92, 0, 93, 1⟩ : rectT), none, 23), ((⟨96, 0, 97, 1⟩ : rectT), none, 24), ((⟨100, 0, 101, 1⟩ : rectT), none, 25), ((⟨104, 0, 105, 1⟩ : rectT), none, 26)]), 0), ((⟨108, 0, 169, 1⟩ : rectT), some (nodeT.mk 0 [((⟨108, 0, 109, 1⟩ : rectT), none, 27), ((⟨112, 0, 113, 1⟩ : rectT), none, 28), ((⟨116, 0, 117, 1⟩ : rectT), none, 29), ((⟨120, 0, 121, 1⟩ : rectT), none, 30), ((⟨124, 0, 125, 1⟩ : rectT), none, 31), ((⟨128, 0, 129, 1⟩ : rectT), none, 32), ((⟨132, 0, 133, 1⟩ : rectT), none, 33), ((⟨136, 0, 137, 1⟩ : rectT), none, 34), ((⟨140, 0, 141, 1⟩ : rectT), none, 35), ((⟨144, 0, 145, 1⟩ : rectT), none, 36), ((⟨148, 0, 149, 1⟩ : rectT), none, 37), ((⟨152, 0, 153, 1⟩ : rectT), none, 38), ((⟨156, 0, 157, 1⟩ : rectT), none, 39), ((⟨160, 0, 161, 1⟩ : rectT), none, 40), ((⟨164, 0, 165, 1⟩ : rectT), none, 41), ((⟨168, 0, 169, 1⟩ : rectT), none, 42)]), 0)]

def leaf43 : nodeT :=
  nodeT.mk 0 [((⟨108, 0, 109, 1⟩ : rectT), none, 27), ((⟨112, 0, 113, 1⟩ : rectT), none, 28), ((⟨116, 0, 117, 1⟩ : rectT), none, 29), ((⟨120, 0, 121, 1⟩ : rectT), none, 30), ((⟨124, 0, 125, 1⟩ : rectT), none, 31), ((⟨128, 0, 129, 1⟩ : rectT), none, 32), ((⟨132, 0, 133, 1⟩ : rectT), none, 33), ((⟨136, 0, 137, 1⟩ : rectT), none, 34), ((⟨140, 0, 141, 1⟩ : rectT), none, 35), ((⟨144, 0, 145, 1⟩ : rectT), none, 36), ((⟨148, 0, 149, 1⟩ : rectT), none, 37), ((⟨152, 0, 153, 1⟩ : rectT), none, 38), ((⟨156, 0, 157, 1⟩ : rectT), none, 39), ((⟨160, 0, 161, 1⟩ : rectT), none, 40), ((⟨164, 0, 165, 1⟩ : rectT), none, 41), ((⟨168, 0, 169, 1⟩ : rectT), none, 42)]

def leaf43a : nodeT :=
  nodeT.mk 0 [((⟨108, 0, 109, 1⟩ : rectT), none, 27), ((⟨112, 0, 113, 1⟩ : rectT), none, 28), ((⟨116, 0, 117, 1⟩ : rectT), none, 29), ((⟨120, 0, 121, 1⟩ : rectT), none, 30), ((⟨124, 0, 125, 1⟩ : rectT), none, 31), ((⟨128, 0, 129, 1⟩ : rectT), none, 32), ((⟨132, 0, 133, 1⟩ : rectT), none, 33), ((⟨136, 0, 137, 1⟩ : rectT), none, 34), ((⟨140, 0, 141, 1⟩ : rectT), none, 35)]

def leaf43b : nodeT :=
  nodeT.mk 0 [((⟨144, 0, 145, 1⟩ : rectT), none, 36), ((⟨148, 0, 149, 1⟩ : rectT), none, 37), ((⟨152, 0, 153, 1⟩ : rectT), none, 38), ((⟨156, 0, 157, 1⟩ : rectT), none, 39), ((⟨160, 0, 161, 1⟩ : rectT), none, 40), ((⟨164, 0, 165, 1⟩ : rectT), none, 41), ((⟨168, 0, 169, 1⟩ : rectT), none, 42), ((⟨172, 0, 173, 1⟩ : rectT), none, 43)]

/-- Root branch list after the first 52 inserts (op 52 splits a leaf). -/
def bs52 : List branchT :=
  [((⟨0, 0, 33, 1⟩ : rectT), some (nodeT.mk 0 [((⟨0, 0, 1, 1⟩ : rectT), none, 0), ((⟨4, 0, 5, 1⟩ : rectT), none, 1), ((⟨8, 0, 9, 1⟩ : rectT), none, 2), ((⟨12, 0, 13, 1⟩ : rectT), none, 3), ((⟨16, 0, 17, 1⟩ : rectT), none, 4), ((⟨20, 0, 21, 1⟩ : rectT), none, 5), ((⟨24, 0, 25, 1⟩ : rectT), none, 6), ((⟨28, 0, 29, 1⟩ : rectT), none, 7), ((⟨32, 0, 33, 1⟩ : rectT), none, 8)]), 0), ((⟨36, 0, 69, 1⟩ : rectT), some (nodeT.mk 0 [((⟨36, 0, 37, 1⟩ : rectT), none, 9), ((⟨40, 0, 41, 1⟩ : rectT), none, 10), ((⟨44, 0, 45, 1⟩ : rectT), none, 11), ((⟨48, 0, 49, 1⟩ : rectT), none, 12), ((⟨52, 0, 53, 1⟩ : rectT), none, 13), ((⟨56, 0, 57, 1⟩ : rectT), none, 14), ((⟨60, 0, 61, 1⟩ : rectT), none, 15), ((⟨64, 0, 65, 1⟩ : rectT), none, 16), ((⟨68, 0, 69, 1⟩ : rectT), none, 17)]), 0), ((⟨72, 0, 105, 1⟩ : rectT), some (nodeT.mk 0 [((⟨72, 0, 73, 1⟩ : rectT), none, 18), ((⟨76, 0, 77, 1⟩ : rectT), none, 19), ((⟨80, 0, 81, 1⟩ : rectT), none, 20), ((⟨84, 0, 85, 1⟩ : rectT), none, 21), ((⟨88, 0, 89, 1⟩ : rectT), none, 22), ((⟨92, 0, 93, 1⟩ : rectT), none, 23), ((⟨96, 0, 97, 1⟩ : rectT), none, 24), ((⟨100, 0, 101, 1⟩ : rectT), none, 25), ((⟨104, 0, 105, 1⟩ : rectT), none, 26)]), 0), ((⟨108, 0, 141, 1⟩ : rectT), some (nodeT.mk 0 [((⟨108, 0, 109, 1⟩ : rectT), none, 27), ((⟨112, 0, 113, 1⟩ : rectT), none, 28), ((⟨116, 0, 117, 1⟩ : rectT), none, 29), ((⟨120, 0, 121, 1⟩ : rectT), none, 30), ((⟨124, 0, 125, 1⟩ : rectT), none, 31), ((⟨128, 0, 129, 1⟩ : rectT), none, 32), ((⟨132, 0, 133, 1⟩ : rectT), none, 33), ((⟨136, 0, 137, 1⟩ : rectT), none, 34), ((⟨140, 0, 141, 1⟩ : rectT), none, 35)]), 0), ((⟨144, 0, 205, 1⟩ : rectT), some (nodeT.mk 0 [((⟨144, 0, 145, 1⟩ : rectT), none, 36), ((⟨148, 0, 149, 1⟩ : rectT), none, 37), ((⟨152, 0, 153, 1⟩ : rectT), none, 38), ((⟨156, 0, 157, 1⟩ : rectT), none, 39), ((⟨160, 0, 161, 1⟩ : rectT), none, 40), ((⟨164, 0, 165, 1⟩ : rectT), none, 41), ((⟨168, 0, 169, 1⟩ : rectT), none, 42), ((⟨172, 0, 173, 1⟩ : rectT), none, 43), ((⟨176, 0, 177, 1⟩ : rectT), none, 44), ((⟨180, 0, 181, 1⟩ : rectT), none, 45), ((⟨184, 0, 185, 1⟩ : rectT), none, 46), ((⟨188, 0, 189, 1⟩ : rectT), none, 47), ((⟨192, 0, 193, 1⟩ : rectT), none, 48), ((⟨196, 0, 197, 1⟩ : rectT), none, 49), ((⟨200, 0, 201, 1⟩ : rectT), none, 50), ((⟨204, 0, 205, 1⟩ : rectT), none, 51)]), 0)]

def leaf52 : nodeT :=
  nodeT.mk 0 [((⟨144, 0, 145, 1⟩ : rectT), none, 36), ((⟨148, 0, 149, 1⟩ : rectT), none, 37), ((⟨152, 0, 153, 1⟩ : rectT), none, 38), ((⟨156, 0, 157, 1⟩ : rectT), none, 39), ((⟨160, 0, 161, 1⟩ : rectT), none, 40), ((⟨164, 0, 165, 1⟩ : rectT), none, 41), ((⟨168, 0, 169, 1⟩ : rectT), none, 42), ((⟨172, 0, 173, 1⟩ : rectT), none, 43), ((⟨176, 0, 177, 1⟩ : rectT), none, 44), ((⟨180, 0, 181, 1⟩ : rectT), none, 45), ((⟨184, 0, 185, 1⟩ : rectT), none, 46), ((⟨188, 0, 189, 1⟩ : rectT), none, 47), ((⟨192, 0, 193, 1⟩ : rectT), none, 48), ((⟨196, 0, 197, 1⟩ : rectT), none, 49), ((⟨200, 0, 201, 1⟩ : rectT), none, 50), ((⟨204, 0, 205, 1⟩ : rectT), none, 51)]

def leaf52a : nodeT :=
  nodeT.mk 0 [((⟨144, 0, 145, 1⟩ : rectT), none, 36), ((⟨148, 0, 149, 1⟩ : rectT), none, 37), ((⟨152, 0, 153, 1⟩ : rectT), none, 38), ((⟨156, 0, 157, 1⟩ : rectT), none, 39), ((⟨160, 0, 161, 1⟩ : rectT), none, 40), ((⟨164, 0, 165, 1⟩ : rectT), none, 41), ((⟨168, 0, 169, 1⟩ : rectT), none, 42), ((⟨172, 0, 173, 1⟩ : rectT), none, 43), ((⟨176, 0, 177, 1⟩ : rectT), none, 44)]

def leaf52b : nodeT :=
  nodeT.mk 0 [((⟨180, 0, 181, 1⟩ : rectT), none, 45), ((⟨184, 0, 185, 1⟩ : rectT), none, 46), ((⟨188, 0, 189, 1⟩ : rectT), none, 47), ((⟨192, 0, 193, 1⟩ : rectT), none, 48), ((⟨196, 0, 197, 1⟩ : rectT), none, 49), ((⟨200, 0, 201, 1⟩ : rectT), none, 50), ((⟨204, 0, 205, 1⟩ : rectT), none, 51), ((⟨208, 0, 209, 1⟩ : rectT), none, 52)]

def state53 : nodeT :=
  nodeT.mk 1 [((⟨0, 0, 33, 1⟩ : rectT), some (nodeT.mk 0 [((⟨0, 0, 1, 1⟩ : rectT), none, 0), ((⟨4, 0, 5, 1⟩ : rectT), none, 1), ((⟨8, 0, 9, 1⟩ : rectT), none, 2), ((⟨12, 0, 13, 1⟩ : rectT), none, 3), ((⟨16, 0, 17, 1⟩ : rectT), none, 4), ((⟨20, 0, 21, 1⟩ : rectT), none, 5), ((⟨24, 0, 25, 1⟩ : rectT), none, 6), ((⟨28, 0, 29, 1⟩ : rectT), none, 7), ((⟨32, 0, 33, 1⟩ : rectT), none, 8)]), 0), ((⟨36, 0, 69, 1⟩ : rectT), some (nodeT.mk 0 [((⟨36, 0, 37, 1⟩ : rectT), none, 9), ((⟨40, 0, 41, 1⟩ : rectT), none, 10), ((⟨44, 0, 45, 1⟩ : rectT), none, 11), ((⟨48, 0, 49, 1⟩ : rectT), none, 12), ((⟨52, 0, 53, 1⟩ : rectT), none, 13), ((⟨56, 0, 57, 1⟩ : rectT), none, 14), ((⟨60, 0, 61, 1⟩ : rectT), none, 15), ((⟨64, 0, 65, 1⟩ : rectT), none, 16), ((⟨68, 0, 69, 1⟩ : rectT), none, 17)]), 0), ((⟨72, 0, 105, 1⟩ : rectT), some (nodeT.mk 0 [((⟨72, 0, 73, 1⟩ : rectT), none, 18), ((⟨76, 0, 77, 1⟩ : rectT), none, 19), ((⟨80, 0, 81, 1⟩ : rectT), none, 20), ((⟨84, 0, 85, 1⟩ : rectT), none, 21), ((⟨88, 0, 89, 1⟩ : rectT), none, 22), ((⟨92, 0, 93, 1⟩ : rectT), none, 23), ((⟨96, 0, 97, 1⟩ : rectT), none, 24), ((⟨100, 0, 101, 1⟩ : rectT), none, 25), ((⟨104, 0, 105, 1⟩ : rectT), none, 26)]), 0), ((⟨108, 0, 141, 1⟩ : rectT), some (nodeT.mk 0 [((⟨108, 0, 109, 1⟩ : rectT), none, 27), ((⟨112, 0, 113, 1⟩ : rectT), none, 28), ((⟨116, 0, 117, 1⟩ : rectT), none, 29), ((⟨120, 0, 121, 1⟩ : rectT), none, 30), ((⟨124, 0, 125, 1⟩ : rectT), none, 31), ((⟨128, 0, 129, 1⟩ : rectT), none, 32), ((⟨132, 0, 133, 1⟩ : rectT), none, 33), ((⟨136, 0, 137, 1⟩ : rectT), none, 34), ((⟨140, 0, 141, 1⟩ : rectT), none, 35)]), 0), ((⟨144, 0, 177, 1⟩ : rectT), some (nodeT.mk 0 [((⟨144, 0, 145, 1⟩ : rectT), none, 36), ((⟨148, 0, 149, 1⟩ : rectT), none, 37), ((⟨152, 0, 153, 1⟩ : rectT), none, 38), ((⟨156, 0, 157, 1⟩ : rectT), none, 39), ((⟨160, 0, 161, 1⟩ : rectT), none, 40), ((⟨164, 0, 165, 1⟩ : rectT), none, 41), ((⟨168, 0, 169, 1⟩ : rectT), none, 42), ((⟨172, 0, 173, 1⟩ : rectT), none, 43), ((⟨176, 0, 177, 1⟩ : rectT), none, 44)]), 0), ((⟨180, 0, 209, 1⟩ : rectT), some (nodeT.mk 0 [((⟨180, 0, 181, 1⟩ : rectT), none, 45), ((⟨184, 0, 185, 1⟩ : rectT), none, 46), ((⟨188, 0, 189, 1⟩ : rectT), none, 47), ((⟨192, 0, 193, 1⟩ : rectT), none, 48), ((⟨196, 0, 197, 1⟩ : rectT), none, 49), ((⟨200, 0, 201, 1⟩ : rectT), none, 50), ((⟨204, 0, 205, 1⟩ : rectT), none, 51), ((⟨208, 0, 209, 1⟩ : rectT), none, 52)]), 0)]

/-- Root branch list after the first 61 inserts (op 61 splits a leaf). -/
def bs61 : List branchT :=
  [((⟨0, 0, 33, 1⟩ : rectT), some (nodeT.mk 0 [((⟨0, 0, 1, 1⟩ : rectT), none, 0), ((⟨4, 0, 5, 1⟩ : rectT), none, 1), ((⟨8, 0, 9, 1⟩ : rectT), none, 2), ((⟨12, 0, 13, 1⟩ : rectT), none, 3), ((⟨16, 0, 17, 1⟩ : rectT), none, 4), ((⟨20, 0, 21, 1⟩ : rectT), none, 5), ((⟨24, 0, 25, 1⟩ : rectT), none, 6), ((⟨28, 0, 29, 1⟩ : rectT), none, 7), ((⟨32, 0, 33, 1⟩ : rectT), none, 8)]), 0), ((⟨36, 0, 69, 1⟩ : rectT), some (nodeT.mk 0 [((⟨36, 0, 37, 1⟩ : rectT), none, 9), ((⟨40, 0, 41, 1⟩ : rectT), none, 10), ((⟨44, 0, 45, 1⟩ : rectT), none, 11), ((⟨48, 0, 49, 1⟩ : rectT), none, 12), ((⟨52, 0, 53, 1⟩ : rectT), none, 13), ((⟨56, 0, 57, 1⟩ : rectT), none, 14), ((⟨60, 0, 61, 1⟩ : rectT), none, 15), ((⟨64, 0, 65, 1⟩ : rectT), none, 16), ((⟨68, 0, 69, 1⟩ : rectT), none, 17)]), 0), ((⟨72, 0, 105, 1⟩ : rectT), some (nodeT.mk 0 [((⟨72, 0, 73, 1⟩ : rectT), none, 18), ((⟨76, 0, 77, 1⟩ : rectT), none, 19), ((⟨80, 0, 81, 1⟩ : rectT), none, 20), ((⟨84, 0, 85, 1⟩ : rectT), none, 21), ((⟨88, 0, 89, 1⟩ : rectT), none, 22), ((⟨92, 0, 93, 1⟩ : rectT), none, 23), ((⟨96, 0, 97, 1⟩ : rectT), none, 24), ((⟨100, 0, 101, 1⟩ : rectT), none, 25), ((⟨104, 0, 105, 1⟩ : rectT), none, 26)]), 0), ((⟨108, 0, 141, 1⟩ : rectT), some (nodeT.mk 0 [((⟨108, 0, 109, 1⟩ : rectT), none, 27), ((⟨112, 0, 113, 1⟩ : rectT), none, 28), ((⟨116, 0, 117, 1⟩ : rectT), none, 29), ((⟨120, 0, 121, 1⟩ : rectT), none, 30), ((⟨124, 0, 125, 1⟩ : rectT), none, 31), ((⟨128, 0, 129, 1⟩ : rectT), none, 32), ((⟨132, 0, 133, 1⟩ : rectT), none, 33), ((⟨136, 0, 137, 1⟩ : rectT), none, 34), ((⟨140, 0, 141, 1⟩ : rectT), none, 35)]), 0), ((⟨144, 0, 177, 1⟩ : rectT), some (nodeT.mk 0 [((⟨144, 0, 145, 1⟩ : rectT), none, 36), ((⟨148, 0, 149, 1⟩ : rectT), none, 37), ((⟨152, 0, 153, 1⟩ : rectT), none, 38), ((⟨156, 0, 157, 1⟩ : rectT), none, 39), ((⟨160, 0, 161, 1⟩ : rectT), none, 40), ((⟨164, 0, 165, 1⟩ : rectT), none, 41), ((⟨168, 0, 169, 1⟩ : rectT), none, 42), ((⟨172, 0, 173, 1⟩ : rectT), none, 43), ((⟨176, 0, 177, 1⟩ : rectT), none, 44)]), 0), ((⟨180, 0, 241, 1⟩ : rectT), some (nodeT.mk 0 [((⟨180, 0, 181, 1⟩ : rectT), none, 45), ((⟨184, 0, 185, 1⟩ : rectT), none, 46), ((⟨188, 0, 189, 1⟩ : rectT), none, 47), ((⟨192, 0, 193, 1⟩ : rectT), none, 48), ((⟨196, 0, 197, 1⟩ : rectT), none, 49), ((⟨200, 0, 201, 1⟩ : rectT), none, 50), ((⟨204, 0, 205, 1⟩ : rectT), none, 51), ((⟨208, 0, 209, 1⟩ : rectT), none, 52), ((⟨212, 0, 213, 1⟩ : rectT), none, 53), ((⟨216, 0, 217, 1⟩ : rectT), none, 54), ((⟨220, 0, 221, 1⟩ : rectT), none, 55), ((⟨224, 0, 225, 1⟩ : rectT), none, 56), ((⟨228, 0, 229, 1⟩ : rectT), none, 57), ((⟨232, 0, 233, 1⟩ : rectT), none, 58), ((⟨236, 0, 237, 1⟩ : rectT), none, 59), ((⟨240, 0, 241, 1⟩ : rectT), none, 60)]), 0)]

def leaf61 : nodeT :=
  nodeT.mk 0 [((⟨180, 0, 181, 1⟩ : rectT), none, 45), ((⟨184, 0, 185, 1⟩ : rectT), none, 46), ((⟨188, 0, 189, 1⟩ : rectT), none, 47), ((⟨192, 0, 193, 1⟩ : rectT), none, 48), ((⟨196, 0, 197, 1⟩ : rectT), none, 49), ((⟨200, 0, 201, 1⟩ : rectT), none, 50), ((⟨204, 0, 205, 1⟩ : rectT), none, 51), ((⟨208, 0, 209, 1⟩ : rectT), none, 52), ((⟨212, 0, 213, 1⟩ : rectT), none, 53), ((⟨216, 0, 217, 1⟩ : rectT), none, 54), ((⟨220, 0, 221, 1⟩ : rectT), none, 55), ((⟨224, 0, 225, 1⟩ : rectT), none, 56), ((⟨228, 0, 229, 1⟩ : rectT), none, 57), ((⟨232, 0, 233, 1⟩ : rectT), none, 58), ((⟨236, 0, 237, 1⟩ : rectT), none, 59), ((⟨240, 0, 241, 1⟩ : rectT), none, 60)]

def leaf61a : nodeT :=
  nodeT.mk 0 [((⟨180, 0, 181, 1⟩ : rectT), none, 45), ((⟨184, 0, 185, 1⟩ : rectT), none, 46), ((⟨188, 0, 189, 1⟩ : rectT), none, 47), ((⟨192, 0, 193, 1⟩ : rectT), none, 48), ((⟨196, 0, 197, 1⟩ : rectT), none, 49), ((⟨200, 0, 201, 1⟩ : rectT), none, 50), ((⟨204, 0, 205, 1⟩ : rectT), none, 51), ((⟨208, 0, 209, 1⟩ : rectT), none, 52), ((⟨212, 0, 213, 1⟩ : rectT), none, 53)]

def leaf61b : nodeT :=
  nodeT.mk 0 [((⟨216, 0, 217, 1⟩ : rectT), none, 54), ((⟨220, 0, 221, 1⟩ : rectT), none, 55), ((⟨224, 0, 225, 1⟩ : rectT), none, 56), ((⟨228, 0, 229, 1⟩ : rectT), none, 57), ((⟨232, 0, 233, 1⟩ : rectT), none, 58), ((⟨236, 0, 237, 1⟩ : rectT), none, 59), ((⟨240, 0, 241, 1⟩ : rectT), none, 60), ((⟨244, 0, 245, 1⟩ : rectT), none, 61)]

def state62 : nodeT :=
  nodeT.mk 1 [((⟨0, 0, 33, 1⟩ : rectT), some (nodeT.mk 0 [((⟨0, 0, 1, 1⟩ : rectT), none, 0), ((⟨4, 0, 5, 1⟩ : rectT), none, 1), ((⟨8, 0, 9, 1⟩ : rectT), none, 2), ((⟨12, 0, 13, 1⟩ : rectT), none, 3), ((⟨16, 0, 17, 1⟩ : rectT), none, 4), ((⟨20, 0, 21, 1⟩ : rectT), none, 5), ((⟨24, 0, 25, 1⟩ : rectT), none, 6), ((⟨28, 0, 29, 1⟩ : rectT), none, 7), ((⟨32, 0, 33, 1⟩ : rectT), none, 8)]), 0), ((⟨36, 0, 69, 1⟩ : rectT), some (nodeT.mk 0 [((⟨36, 0, 37, 1⟩ : rectT), none, 9), ((⟨40, 0, 41, 1⟩ : rectT), none, 10), ((⟨44, 0, 45, 1⟩ : rectT), none, 11), ((⟨48, 0, 49, 1⟩ : rectT), none, 12), ((⟨52, 0, 53, 1⟩ : rectT), none, 13), ((⟨56, 0, 57, 1⟩ : rectT), none, 14), ((⟨60, 0, 61, 1⟩ : rectT), none, 15), ((⟨64, 0, 65, 1⟩ : rectT), none, 16), ((⟨68, 0, 69, 1⟩ : rectT), none, 17)]), 0), ((⟨72, 0, 105, 1⟩ : rectT), some (nodeT.mk 0 [((⟨72, 0, 73, 1⟩ : rectT), none, 18), ((⟨76, 0, 77, 1⟩ : rectT), none, 19), ((⟨80, 0, 81, 1⟩ : rectT), none, 20), ((⟨84, 0, 85, 1⟩ : rectT), none, 21), ((⟨88, 0, 89, 1⟩ : rectT), none, 22), ((⟨92, 0, 93, 1⟩ : rectT), none, 23), ((⟨96, 0, 97, 1⟩ : rectT), none, 24), ((⟨100, 0, 101, 1⟩ : rectT), none, 25), ((⟨104, 0, 105, 1⟩ : rectT), none, 26)]), 0), ((⟨108, 0, 141, 1⟩ : rectT), some (nodeT.mk 0 [((⟨108, 0, 109, 1⟩ : rectT), none, 27), ((⟨112, 0, 113, 1⟩ : rectT), none, 28), ((⟨116, 0, 117, 1⟩ : rectT), none, 29), ((⟨120, 0, 121, 1⟩ : rectT), none, 30), ((⟨124, 0, 125, 1⟩ : rectT), none, 31), ((⟨128, 0, 129, 1⟩ : rectT), none, 32), ((⟨132, 0, 133, 1⟩ : rectT), none, 33), ((⟨136, 0, 137, 1⟩ : rectT), none, 34), ((⟨140, 0, 141, 1⟩ : rectT), none, 35)]), 0), ((⟨144, 0, 177, 1⟩ : rectT), some (nodeT.mk 0 [((⟨144, 0, 145, 1⟩ : rectT), none, 36), ((⟨148, 0, 149, 1⟩ : rectT), none, 37), ((⟨152, 0, 153, 1⟩ : rectT), none, 38), ((⟨156, 0, 157, 1⟩ : rectT), none, 39), ((⟨160, 0, 161, 1⟩ : rectT), none, 40), ((⟨164, 0, 165, 1⟩ : rectT), none, 41), ((⟨168, 0, 169, 1⟩ : rectT), none, 42), ((⟨172, 0, 173, 1⟩ : rectT), none, 43), ((⟨176, 0, 177, 1⟩ : rectT), none, 44)]), 0), ((⟨180, 0, 213, 1⟩ : rectT), some (nodeT.mk 0 [((⟨180, 0, 181, 1⟩ : rectT), none, 45), ((⟨184, 0, 185, 1⟩ : rectT), none, 46), ((⟨188, 0, 189, 1⟩ : rectT), none, 47), ((⟨192, 0, 193, 1⟩ : rectT), none, 48), ((⟨196, 0, 197, 1⟩ : rectT), none, 49), ((⟨200, 0, 201, 1⟩ : rectT), none, 50), ((⟨204, 0, 205, 1⟩ : rectT), none, 51), ((⟨208, 0, 209, 1⟩ : rectT), none, 52), ((⟨212, 0, 213, 1⟩ : rectT), none, 53)]), 0), ((⟨216, 0, 245, 1⟩ : rectT), some (nodeT.mk 0 [((⟨216, 0, 217, 1⟩ : rectT), none, 54), ((⟨220, 0, 221, 1⟩ : rectT), none, 55), ((⟨224, 0, 225, 1⟩ : rectT), none, 56), ((⟨228, 0, 229, 1⟩ : rectT), none, 57), ((⟨232, 0, 233, 1⟩ : rectT), none, 58), ((⟨236, 0, 237, 1⟩ : rectT), none, 59), ((⟨240, 0, 241, 1⟩ : rectT), none, 60), ((⟨244, 0, 245, 1⟩ : rectT), none, 61)]), 0)]

/-- Root branch list after the first 70 inserts (op 70 splits a leaf). -/
def bs70 : List branchT :=
  [((⟨0, 0, 33, 1⟩ : rectT), some (nodeT.mk 0 [((⟨0, 0, 1, 1⟩ : rectT), none, 0), ((⟨4, 0, 5, 1⟩ : rectT), none, 1), ((⟨8, 0, 9, 1⟩ : rectT), none, 2), ((⟨12, 0, 13, 1⟩ : rectT), none, 3), ((⟨16, 0, 17, 1⟩ : rectT), none, 4), ((⟨20, 0, 21, 1⟩ : rectT), none, 5), ((⟨24, 0, 25, 1⟩ : rectT), none, 6), ((⟨28, 0, 29, 1⟩ : rectT), none, 7), ((⟨32, 0, 33, 1⟩ : rectT), none, 8)]), 0), ((⟨36, 0, 69, 1⟩ : rectT), some (nodeT.mk 0 [((⟨36, 0, 37, 1⟩ : rectT), none, 9), ((⟨40, 0, 41, 1⟩ : rectT), none, 10), ((⟨44, 0, 45, 1⟩ : rectT), none, 11), ((⟨48, 0, 49, 1⟩ : rectT), none, 12), ((⟨52, 0, 53, 1⟩ : rectT), none, 13), ((⟨56, 0, 57, 1⟩ : rectT), none, 14), ((⟨60, 0, 61, 1⟩ : rectT), none, 15), ((⟨64, 0, 65, 1⟩ : rectT), none, 16), ((⟨68, 0, 69, 1⟩ : rectT), none, 17)]), 0), ((⟨72, 0, 105, 1⟩ : rectT), some (nodeT.mk 0 [((⟨72, 0, 73, 1⟩ : rectT), none, 18), ((⟨76, 0, 77, 1⟩ : rectT), none, 19), ((⟨80, 0, 81, 1⟩ : rectT), none, 20), ((⟨84, 0, 85, 1⟩ : rectT), none, 21), ((⟨88, 0, 89, 1⟩ : rectT), none, 22), ((⟨92, 0, 93, 1⟩ : rectT), none, 23), ((⟨96, 0, 97, 1⟩ : rectT), none, 24), ((⟨100, 0, 101, 1⟩ : rectT), none, 25), ((⟨104, 0, 105, 1⟩ : rectT), none, 26)]), 0), ((⟨108, 0, 141, 1⟩ : rectT), some (nodeT.mk 0 [((⟨108, 0, 109, 1⟩ : rectT), none, 27), ((⟨112, 0, 113, 1⟩ : rectT), none, 28), ((⟨116, 0, 117, 1⟩ : rectT), none, 29), ((⟨120, 0, 121, 1⟩ : rectT), none, 30), ((⟨124, 0, 125, 1⟩ : rectT), none, 31), ((⟨128, 0, 129, 1⟩ : rectT), none, 32), ((⟨132, 0, 133, 1⟩ : rectT), none, 33), ((⟨136, 0, 137, 1⟩ : rectT), none, 34), ((⟨140, 0, 141, 1⟩ : rectT), none, 35)]), 0), ((⟨144, 0, 177, 1⟩ : rectT), some (nodeT.mk 0 [((⟨144, 0, 145, 1⟩ : rectT), none, 36), ((⟨148, 0, 149, 1⟩ : rectT), none, 37), ((⟨152, 0, 153, 1⟩ : rectT), none, 38), ((⟨156, 0, 157, 1⟩ : rectT), none, 39), ((⟨160, 0, 161, 1⟩ : rectT), none, 40), ((⟨164, 0, 165, 1⟩ : rectT), none, 41), ((⟨168, 0, 169, 1⟩ : rectT), none, 42), ((⟨172, 0, 173, 1⟩ : rectT), none, 43), ((⟨176, 0, 177, 1⟩ : rectT), none, 44)]), 0), ((⟨180, 0, 213, 1⟩ : rectT), some (nodeT.mk 0 [((⟨180, 0, 181, 1⟩ : rectT), none, 45), ((⟨184, 0, 185, 1⟩ : rectT), none, 46), ((⟨188, 0, 189, 1⟩ : rectT), none, 47), ((⟨192, 0, 193, 1⟩ : rectT), none, 48), ((⟨196, 0, 197, 1⟩ : rectT), none, 49), ((⟨200, 0, 201, 1⟩ : rectT), none, 50), ((⟨204, 0, 205, 1⟩ : rectT), none, 51), ((⟨208, 0, 209, 1⟩ : rectT), none, 52), ((⟨212, 0, 213, 1⟩ : rectT), none, 53)]), 0), ((⟨216, 0, 277, 1⟩ : rectT), some (nodeT.mk 0 [((⟨216, 0, 217, 1⟩ : rectT), none, 54), ((⟨220, 0, 221, 1⟩ : rectT), none, 55), ((⟨224, 0, 225, 1⟩ : rectT), none, 56), ((⟨228, 0, 229, 1⟩ : rectT), none, 57), ((⟨232, 0, 233, 1⟩ : rectT), none, 58), ((⟨236, 0, 237, 1⟩ : rectT), none, 59), ((⟨240, 0, 241, 1⟩ : rectT), none, 60), ((⟨244, 0, 245, 1⟩ : rectT), none, 61), ((⟨248, 0, 249, 1⟩ : rectT), none, 62), ((⟨252, 0, 253, 1⟩ : rectT), none, 63), ((⟨256, 0, 257, 1⟩ : rectT), none, 64), ((⟨260, 0, 261, 1⟩ : rectT), none, 65), ((⟨264, 0, 265, 1⟩ : rectT), none, 66), ((⟨268, 0, 269, 1⟩ : rectT), none, 67), ((⟨272, 0, 273, 1⟩ : rectT), none, 68), ((⟨276, 0, 277, 1⟩ : rectT), none, 69)]), 0)]

def leaf70 : nodeT :=
  nodeT.mk 0 [((⟨216, 0, 217, 1⟩ : rectT), none, 54), ((⟨220, 0, 221, 1⟩ : rectT), none, 55), ((⟨224, 0, 225, 1⟩ : rectT), none, 56), ((⟨228, 0, 229, 1⟩ : rectT), none, 57), ((⟨232, 0, 233, 1⟩ : rectT), none, 58), ((⟨236, 0, 237, 1⟩ : rectT), none, 59), ((⟨240, 0, 241, 1⟩ : rectT), none, 60), ((⟨244, 0, 245, 1⟩ : rectT), none, 61), ((⟨248, 0, 249, 1⟩ : rectT), none, 62), ((⟨252, 0, 253, 1⟩ : rectT), none, 63), ((⟨256, 0, 257, 1⟩ : rectT), none, 64), ((⟨260, 0, 261, 1⟩ : rectT), none, 65), ((⟨264, 0, 265, 1⟩ : rectT), none, 66), ((⟨268, 0, 269, 1⟩ : rectT), none, 67), ((⟨272, 0, 273, 1⟩ : rectT), none, 68), ((⟨276, 0, 277, 1⟩ : rectT), none, 69)]

def leaf70a : nodeT :=
  nodeT.mk 0 [((⟨216, 0, 217, 1⟩ : rectT), none, 54), ((⟨220, 0, 221, 1⟩ : rectT), none, 55), ((⟨224, 0, 225, 1⟩ : rectT), none, 56), ((⟨228, 0, 229, 1⟩ : rectT), none, 57), ((⟨232, 0, 233, 1⟩ : rectT), none, 58), ((⟨236, 0, 237, 1⟩ : rectT), none, 59), ((⟨240, 0, 241, 1⟩ : rectT), none, 60), ((⟨244, 0, 245, 1⟩ : rectT), none, 61), ((⟨248, 0, 249, 1⟩ : rectT), none, 62)]

def leaf70b : nodeT :=
  nodeT.mk 0 [((⟨252, 0, 253, 1⟩ : rectT), none, 63), ((⟨256, 0, 257, 1⟩ : rectT), none, 64), ((⟨260, 0, 261, 1⟩ : rectT), none, 65), ((⟨264, 0, 265, 1⟩ : rectT), none, 66), ((⟨268, 0, 269, 1⟩ : rectT), none, 67), ((⟨272, 0, 273, 1⟩ : rectT), none, 68), ((⟨276, 0, 277, 1⟩ : rectT), none, 69), ((⟨280, 0, 281, 1⟩ : rectT), none, 70)]

def state71 : nodeT :=
  nodeT.mk 1 [((⟨0, 0, 33, 1⟩ : rectT), some (nodeT.mk 0 [((⟨0, 0, 1, 1⟩ : rectT), none, 0), ((⟨4, 0, 5, 1⟩ : rectT), none, 1), ((⟨8, 0, 9, 1⟩ : rectT), none, 2), ((⟨12, 0, 13, 1⟩ : rectT), none, 3), ((⟨16, 0, 17, 1⟩ : rectT), none, 4), ((⟨20, 0, 21, 1⟩ : rectT), none, 5), ((⟨24, 0, 25, 1⟩ : rectT), none, 6), ((⟨28, 0, 29, 1⟩ : rectT), none, 7), ((⟨32, 0, 33, 1⟩ : rectT), none, 8)]), 0), ((⟨36, 0, 69, 1⟩ : rectT), some (nodeT.mk 0 [((⟨36, 0, 37, 1⟩ : rectT), none, 9), ((⟨40, 0, 41, 1⟩ : rectT), none, 10), ((⟨44, 0, 45, 1⟩ : rectT), none, 11), ((⟨48, 0, 49, 1⟩ : rectT), none, 12), ((⟨52, 0, 53, 1⟩ : rectT), none, 13), ((⟨56, 0, 57, 1⟩ : rectT), none, 14), ((⟨60, 0, 61, 1⟩ : rectT), none, 15), ((⟨64, 0, 65, 1⟩ : rectT), none, 16), ((⟨68, 0, 69, 1⟩ : rectT), none, 17)]), 0), ((⟨72, 0, 105, 1⟩ : rectT), some (nodeT.mk 0 [((⟨72, 0, 73, 1⟩ : rectT), none, 18), ((⟨76, 0, 77, 1⟩ : rectT), none, 19), ((⟨80, 0, 81, 1⟩ : rectT), none, 20), ((⟨84, 0, 85, 1⟩ : rectT), none, 21), ((⟨88, 0, 89, 1⟩ : rectT), none, 22), ((⟨92, 0, 93, 1⟩ : rectT), none, 23), ((⟨96, 0, 97, 1⟩ : rectT), none, 24), ((⟨100, 0, 101, 1⟩ : rectT), none, 25), ((⟨104, 0, 105, 1⟩ : rectT), none, 26)]), 0), ((⟨108, 0, 141, 1⟩ : rectT), some (nodeT.mk 0 [((⟨108, 0, 109, 1⟩ : rectT), none, 27), ((⟨112, 0, 113, 1⟩ : rectT), none, 28), ((⟨116, 0, 117, 1⟩ : rectT), none, 29), ((⟨120, 0, 121, 1⟩ : rectT), none, 30), ((⟨124, 0, 125, 1⟩ : rectT), none, 31), ((⟨128, 0, 129, 1⟩ : rectT), none, 32), ((⟨132, 0, 133, 1⟩ : rectT), none, 33), ((⟨136, 0, 137, 1⟩ : rectT), none, 34), ((⟨140, 0, 141, 1⟩ : rectT), none, 35)]), 0), ((⟨144, 0, 177, 1⟩ : rectT), some (nodeT.mk 0 [((⟨144, 0, 145, 1⟩ : rectT), none, 36), ((⟨148, 0, 149, 1⟩ : rectT), none, 37), ((⟨152, 0, 153, 1⟩ : rectT), none, 38), ((⟨156, 0, 157, 1⟩ : rectT), none, 39), ((⟨160, 0, 161, 1⟩ : rectT), none, 40), ((⟨164, 0, 165, 1⟩ : rectT), none, 41), ((⟨168, 0, 169, 1⟩ : rectT), none, 42), ((⟨172, 0, 173, 1⟩ : rectT), none, 43), ((⟨176, 0, 177, 1⟩ : rectT), none, 44)]), 0), ((⟨180, 0, 213, 1⟩ : rectT), some (nodeT.mk 0 [((⟨180, 0, 181, 1⟩ : rectT), none, 45), ((⟨184, 0, 185, 1⟩ : rectT), none, 46), ((⟨188, 0, 189, 1⟩ : rectT), none, 47), ((⟨192, 0, 193, 1⟩ : rectT), none, 48), ((⟨196, 0, 197, 1⟩ : rectT), none, 49), ((⟨200, 0, 201, 1⟩ : rectT), none, 50), ((⟨204, 0, 205, 1⟩ : rectT), none, 51), ((⟨208, 0, 209, 1⟩ : rectT), none, 52), ((⟨212, 0, 213, 1⟩ : rectT), none, 53)]), 0), ((⟨216, 0, 249, 1⟩ : rectT), some (nodeT.mk 0 [((⟨216, 0, 217, 1⟩ : rectT), none, 54), ((⟨220, 0, 221, 1⟩ : rectT), none, 55), ((⟨224, 0, 225, 1⟩ : rectT), none, 56), ((⟨228, 0, 229, 1⟩ : rectT), none, 57), ((⟨232, 0, 233, 1⟩ : rectT), none, 58), ((⟨236, 0, 237, 1⟩ : rectT), none, 59), ((⟨240, 0, 241, 1⟩ : rectT), none, 60), ((⟨244, 0, 245, 1⟩ : rectT), none, 61), ((⟨248, 0, 249, 1⟩ : rectT), none, 62)]), 0), ((⟨252, 0, 281, 1⟩ : rectT), some (nodeT.mk 0 [((⟨252, 0, 253, 1⟩ : rectT), none, 63), ((⟨256, 0, 257, 1⟩ : rectT), none, 64), ((⟨260, 0, 261, 1⟩ : rectT), none, 65), ((⟨264, 0, 265, 1⟩ : rectT), none, 66), ((⟨268, 0, 269, 1⟩ : rectT), none, 67), ((⟨272, 0, 273, 1⟩ : rectT), none, 68), ((⟨276, 0, 277, 1⟩ : rectT), none, 69), ((⟨280, 0, 281, 1⟩ : rectT), none, 70)]), 0)]

/-- Root branch list after the first 79 inserts (op 79 splits a leaf). -/
def bs79 : List branchT :=
  [((⟨0, 0, 33, 1⟩ : rectT), some (nodeT.mk 0 [((⟨0, 0, 1, 1⟩ : rectT), none, 0), ((⟨4, 0, 5, 1⟩ : rectT), none, 1), ((⟨8, 0, 9, 1⟩ : rectT), none, 2), ((⟨12, 0, 13, 1⟩ : rectT), none, 3), ((⟨16, 0, 17, 1⟩ : rectT), none, 4), ((⟨20, 0, 21, 1⟩ : rectT), none, 5), ((⟨24, 0, 25, 1⟩ : rectT), none, 6), ((⟨28, 0, 29, 1⟩ : rectT), none, 7), ((⟨32, 0, 33, 1⟩ : rectT), none, 8)]), 0), ((⟨36, 0, 69, 1⟩ : rectT), some (nodeT.mk 0 [((⟨36, 0, 37, 1⟩ : rectT), none, 9), ((⟨40, 0, 41, 1⟩ : rectT), none, 10), ((⟨44, 0, 45, 1⟩ : rectT), none, 11), ((⟨48, 0, 49, 1⟩ : rectT), none, 12), ((⟨52, 0, 53, 1⟩ : rectT), none, 13), ((⟨56, 0, 57, 1⟩ : rectT), none, 14), ((⟨60, 0, 61, 1⟩ : rectT), none, 15), ((⟨64, 0, 65, 1⟩ : rectT), none, 16), ((⟨68, 0, 69, 1⟩ : rectT), none, 17)]), 0), ((⟨72, 0, 105, 1⟩ : rectT), some (nodeT.mk 0 [((⟨72, 0, 73, 1⟩ : rectT), none, 18), ((⟨76, 0, 77, 1⟩ : rectT), none, 19), ((⟨80, 0, 81, 1⟩ : rectT), none, 20), ((⟨84, 0, 85, 1⟩ : rectT), none, 21), ((⟨88, 0, 89, 1⟩ : rectT), none, 22), ((⟨92, 0, 93, 1⟩ : rectT), none, 23), ((⟨96, 0, 97, 1⟩ : rectT), none, 24), ((⟨100, 0, 101, 1⟩ : rectT), none, 25), ((⟨104, 0, 105, 1⟩ : rectT), none, 26)]), 0), ((⟨108, 0, 141, 1⟩ : rectT), some (nodeT.mk 0 [((⟨108, 0, 109, 1⟩ : rectT), none, 27), ((⟨112, 0, 113, 1⟩ : rectT), none, 28), ((⟨116, 0, 117, 1⟩ : rectT), none, 29), ((⟨120, 0, 121, 1⟩ : rectT), none, 30), ((⟨124, 0, 125, 1⟩ : rectT), none, 31), ((⟨128, 0, 129, 1⟩ : rectT), none, 32), ((⟨132, 0, 133, 1⟩ : rectT), none, 33), ((⟨136, 0, 137, 1⟩ : rectT), none, 34), ((⟨140, 0, 141, 1⟩ : rectT), none, 35)]), 0), ((⟨144, 0, 177, 1⟩ : rectT), some (nodeT.mk 0 [((⟨144, 0, 145, 1⟩ : rectT), none, 36), ((⟨148, 0, 149, 1⟩ : rectT), none, 37), ((⟨152, 0, 153, 1⟩ : rectT), none, 38), ((⟨156, 0, 157, 1⟩ : rectT), none, 39), ((⟨160, 0, 161, 1⟩ : rectT), none, 40), ((⟨164, 0, 165, 1⟩ : rectT), none, 41), ((⟨168, 0, 169, 1⟩ : rectT), none, 42), ((⟨172, 0, 173, 1⟩ : rectT), none, 43), ((⟨176, 0, 177, 1⟩ : rectT), none, 44)]), 0), ((⟨180, 0, 213, 1⟩ : rectT), some (nodeT.mk 0 [((⟨180, 0, 181, 1⟩ : rectT), none, 45), ((⟨184, 0, 185, 1⟩ : rectT), none, 46), ((⟨188, 0, 189, 1⟩ : rectT), none, 47), ((⟨192, 0, 193, 1⟩ : rectT), none, 48), ((⟨196, 0, 197, 1⟩ : rectT), none, 49), ((⟨200, 0, 201, 1⟩ : rectT), none, 50), ((⟨204, 0, 205, 1⟩ : rectT), none, 51), ((⟨208, 0, 209, 1⟩ : rectT), none, 52), ((⟨212, 0, 213, 1⟩ : rectT), none, 53)]), 0), ((⟨216, 0, 249, 1⟩ : rectT), some (nodeT.mk 0 [((⟨216, 0, 217, 1⟩ : rectT), none, 54), ((⟨220, 0, 221, 1⟩ : rectT), none, 55), ((⟨224, 0, 225, 1⟩ : rectT), none, 56), ((⟨228, 0, 229, 1⟩ : rectT), none, 57), ((⟨232, 0, 233, 1⟩ : rectT), none, 58), ((⟨236, 0, 237, 1⟩ : rectT), none, 59), ((⟨240, 0, 241, 1⟩ : rectT), none, 60), ((⟨244, 0, 245, 1⟩ : rectT), none, 61), ((⟨248, 0, 249, 1⟩ : rectT), none, 62)]), 0), ((⟨252, 0, 313, 1⟩ : rectT), some (nodeT.mk 0 [((⟨252, 0, 253, 1⟩ : rectT), none, 63), ((⟨256, 0, 257, 1⟩ : rectT), none, 64), ((⟨260, 0, 261, 1⟩ : rectT), none, 65), ((⟨264, 0, 265, 1⟩ : rectT), none, 66), ((⟨268, 0, 269, 1⟩ : rectT), none, 67), ((⟨272, 0, 273, 1⟩ : rectT), none, 68), ((⟨276, 0, 277, 1⟩ : rectT), none, 69), ((⟨280, 0, 281, 1⟩ : rectT), none, 70), ((⟨284, 0, 285, 1⟩ : rectT), none, 71), ((⟨288, 0, 289, 1⟩ : rectT), none, 72), ((⟨292, 0, 293, 1⟩ : rectT), none, 73), ((⟨296, 0, 297, 1⟩ : rectT), none, 74), ((⟨300, 0, 301, 1⟩ : rectT), none, 75), ((⟨304, 0, 305, 1⟩ : rectT), none, 76), ((⟨308, 0, 309, 1⟩ : rectT), none, 77), ((⟨312, 0, 313, 1⟩ : rectT), none, 78)]), 0)]

def leaf79 : nodeT :=
  nodeT.mk 0 [((⟨252, 0, 253, 1⟩ : rectT), none, 63), ((⟨256, 0, 257, 1⟩ : rectT), none, 64), ((⟨260, 0, 261, 1⟩ : rectT), none, 65), ((⟨264, 0, 265, 1⟩ : rectT), none, 66), ((⟨268, 0, 269, 1⟩ : rectT), none, 67), ((⟨272, 0, 273, 1⟩ : rectT), none, 68), ((⟨276, 0, 277, 1⟩ : rectT), none, 69), ((⟨280, 0, 281, 1⟩ : rectT), none, 70), ((⟨284, 0, 285, 1⟩ : rectT), none, 71), ((⟨288, 0, 289, 1⟩ : rectT), none, 72), ((⟨292, 0, 293, 1⟩ : rectT), none, 73), ((⟨296, 0, 297, 1⟩ : rectT), none, 74), ((⟨300, 0, 301, 1⟩ : rectT), none, 75), ((⟨304, 0, 305, 1⟩ : rectT), none, 76), ((⟨308, 0, 309, 1⟩ : rectT), none, 77), ((⟨312, 0, 313, 1⟩ : rectT), none, 78)]

def leaf79a : nodeT :=
  nodeT.mk 0 [((⟨252, 0, 253, 1⟩ : rectT), none, 63), ((⟨256, 0, 257, 1⟩ : rectT), none, 64), ((⟨260, 0, 261, 1⟩ : rectT), none, 65), ((⟨264, 0, 265, 1⟩ : rectT), none, 66), ((⟨268, 0, 269, 1⟩ : rectT), none, 67), ((⟨272, 0, 273, 1⟩ : rectT), none, 68), ((⟨276, 0, 277, 1⟩ : rectT), none, 69), ((⟨280, 0, 281, 1⟩ : rectT), none, 70), ((⟨284, 0, 285, 1⟩ : rectT), none, 71)]

def leaf79b : nodeT :=
  nodeT.mk 0 [((⟨288, 0, 289, 1⟩ : rectT), none, 72), ((⟨292, 0, 293, 1⟩ : rectT), none, 73), ((⟨296, 0, 297, 1⟩ : rectT), none, 74), ((⟨300, 0, 301, 1⟩ : rectT), none, 75), ((⟨304, 0, 305, 1⟩ : rectT), none, 76), ((⟨308, 0, 309, 1⟩ : rectT), none, 77), ((⟨312, 0, 313, 1⟩ : rectT), none, 78), ((⟨316, 0, 317, 1⟩ : rectT), none, 79)]

/-- Root branch list after the first 88 inserts (op 88 splits a leaf). -/
def bs88 : List branchT :=
  [((⟨0, 0, 33, 1⟩ : rectT), some (nodeT.mk 0 [((⟨0, 0, 1, 1⟩ : rectT), none, 0), ((⟨4, 0, 5, 1⟩ : rectT), none, 1), ((⟨8, 0, 9, 1⟩ : rectT), none, 2), ((⟨12, 0, 13, 1⟩ : rectT), none, 3), ((⟨16, 0, 17, 1⟩ : rectT), none, 4), ((⟨20, 0, 21, 1⟩ : rectT), none, 5), ((⟨24, 0, 25, 1⟩ : rectT), none, 6), ((⟨28, 0, 29, 1⟩ : rectT), none, 7), ((⟨32, 0, 33, 1⟩ : rectT), none, 8)]), 0), ((⟨36, 0, 69, 1⟩ : rectT), some (nodeT.mk 0 [((⟨36, 0, 37, 1⟩ : rectT), none, 9), ((⟨40, 0, 41, 1⟩ : rectT), none, 10), ((⟨44, 0, 45, 1⟩ : rectT), none, 11), ((⟨48, 0, 49, 1⟩ : rectT), none, 12), ((⟨52, 0, 53, 1⟩ : rectT), none, 13), ((⟨56, 0, 57, 1⟩ : rectT), none, 14), ((⟨60, 0, 61, 1⟩ : rectT), none, 15), ((⟨64, 0, 65, 1⟩ : rectT), none, 16), ((⟨68, 0, 69, 1⟩ : rectT), none, 17)]), 0), ((⟨72, 0, 105, 1⟩ : rectT), some (nodeT.mk 0 [((⟨72, 0, 73, 1⟩ : rectT), none, 18), ((⟨76, 0, 77, 1⟩ : rectT), none, 19), ((⟨80, 0, 81, 1⟩ : rectT), none, 20), ((⟨84, 0, 85, 1⟩ : rectT), none, 21), ((⟨88, 0, 89, 1⟩ : rectT), none, 22), ((⟨92, 0, 93, 1⟩ : rectT), none, 23), ((⟨96, 0, 97, 1⟩ : rectT), none, 24), ((⟨100, 0, 101, 1⟩ : rectT), none, 25), ((⟨104, 0, 105, 1⟩ : rectT), none, 26)]), 0), ((⟨108, 0, 141, 1⟩ : rectT), some (nodeT.mk 0 [((⟨108, 0, 109, 1⟩ : rectT), none, 27), ((⟨112, 0, 113, 1⟩ : rectT), none, 28), ((⟨116, 0, 117, 1⟩ : rectT), none, 29), ((⟨120, 0, 121, 1⟩ : rectT), none, 30), ((⟨124, 0, 125, 1⟩ : rectT), none, 31), ((⟨128, 0, 129, 1⟩ : rectT), none, 32), ((⟨132, 0, 133, 1⟩ : rectT), none, 33), ((⟨136, 0, 137, 1⟩ : rectT), none, 34), ((⟨140, 0, 141, 1⟩ : rectT), none, 35)]), 0), ((⟨144, 0, 177, 1⟩ : rectT), some (nodeT.mk 0 [((⟨144, 0, 145, 1⟩ : rectT), none, 36), ((⟨148, 0, 149, 1⟩ : rectT), none, 37), ((⟨152, 0, 153, 1⟩ : rectT), none, 38), ((⟨156, 0, 157, 1⟩ : rectT), none, 39), ((⟨160, 0, 161, 1⟩ : rectT), none, 40), ((⟨164, 0, 165, 1⟩ : rectT), none, 41), ((⟨168, 0, 169, 1⟩ : rectT), none, 42), ((⟨172, 0, 173, 1⟩ : rectT), none, 43), ((⟨176, 0, 177, 1⟩ : rectT), none, 44)]), 0), ((⟨180, 0, 213, 1⟩ : rectT), some (nodeT.mk 0 [((⟨180, 0, 181, 1⟩ : rectT), none, 45), ((⟨184, 0, 185, 1⟩ : rectT), none, 46), ((⟨188, 0, 189, 1⟩ : rectT), none, 47), ((⟨192, 0, 193, 1⟩ : rectT), none, 48), ((⟨196, 0, 197, 1⟩ : rectT), none, 49), ((⟨200, 0, 201, 1⟩ : rectT), none, 50), ((⟨204, 0, 205, 1⟩ : rectT), none, 51), ((⟨208, 0, 209, 1⟩ : rectT), none, 52), ((⟨212, 0, 213, 1⟩ : rectT), none, 53)]), 0), ((⟨216, 0, 249, 1⟩ : rectT), some (nodeT.mk 0 [((⟨216, 0, 217, 1⟩ : rectT), none, 54), ((⟨220, 0, 221, 1⟩ : rectT), none, 55), ((⟨224, 0, 225, 1⟩ : rectT), none, 56), ((⟨228, 0, 229, 1⟩ : rectT), none, 57), ((⟨232, 0, 233, 1⟩ : rectT), none, 58), ((⟨236, 0, 237, 1⟩ : rectT), none, 59), ((⟨240, 0, 241, 1⟩ : rectT), none, 60), ((⟨244, 0, 245, 1⟩ : rectT), none, 61), ((⟨248, 0, 249, 1⟩ : rectT), none, 62)]), 0), ((⟨252, 0, 285, 1⟩ : rectT), some (nodeT.mk 0 [((⟨252, 0, 253, 1⟩ : rectT), none, 63), ((⟨256, 0, 257, 1⟩ : rectT), none, 64), ((⟨260, 0, 261, 1⟩ : rectT), none, 65), ((⟨264, 0, 265, 1⟩ : rectT), none, 66), ((⟨268, 0, 269, 1⟩ : rectT), none, 67), ((⟨272, 0, 273, 1⟩ : rectT), none, 68), ((⟨276, 0, 277, 1⟩ : rectT), none, 69), ((⟨280, 0, 281, 1⟩ : rectT), none, 70), ((⟨284, 0, 285, 1⟩ : rectT), none, 71)]), 0), ((⟨288, 0, 349, 1⟩ : rectT), some (nodeT.mk 0 [((⟨288, 0, 289, 1⟩ : rectT), none, 72), ((⟨292, 0, 293, 1⟩ : rectT), none, 73), ((⟨296, 0, 297, 1⟩ : rectT), none, 74), ((⟨300, 0, 301, 1⟩ : rectT), none, 75), ((⟨304, 0, 305, 1⟩ : rectT), none, 76), ((⟨308, 0, 309, 1⟩ : rectT), none, 77), ((⟨312, 0, 313, 1⟩ : rectT), none, 78), ((⟨316, 0, 317, 1⟩ : rectT), none, 79), ((⟨320, 0, 321, 1⟩ : rectT), none, 80), ((⟨324, 0, 325, 1⟩ : rectT), none, 81), ((⟨328, 0, 329, 1⟩ : rectT), none, 82), ((⟨332, 0, 333, 1⟩ : rectT), none, 83), ((⟨336, 0, 337, 1⟩ : rectT), none, 84), ((⟨340, 0, 341, 1⟩ : rectT), none, 85), ((⟨344, 0, 345, 1⟩ : rectT), none, 86), ((⟨348, 0, 349, 1⟩ : rectT), none, 87)]), 0)]

def leaf88 : nodeT :=
  nodeT.mk 0 [((⟨288, 0, 289, 1⟩ : rectT), none, 72), ((⟨292, 0, 293, 1⟩ : rectT), none, 73), ((⟨296, 0, 297, 1⟩ : rectT), none, 74), ((⟨300, 0, 301, 1⟩ : rectT), none, 75), ((⟨304, 0, 305, 1⟩ : rectT), none, 76), ((⟨308, 0, 309, 1⟩ : rectT), none, 77), ((⟨312, 0, 313, 1⟩ : rectT), none, 78), ((⟨316, 0, 317, 1⟩ : rectT), none, 79), ((⟨320, 0, 321, 1⟩ : rectT), none, 80), ((⟨324, 0, 325, 1⟩ : rectT), none, 81), ((⟨328, 0, 329, 1⟩ : rectT), none, 82), ((⟨332, 0, 333, 1⟩ : rectT), none, 83), ((⟨336, 0, 337, 1⟩ : rectT), none, 84), ((⟨340, 0, 341, 1⟩ : rectT), none, 85), ((⟨344, 0, 345, 1⟩ : rectT), none, 86), ((⟨348, 0, 349, 1⟩ : rectT), none, 87)]

def leaf88a : nodeT :=
  nodeT.mk 0 [((⟨288, 0, 289, 1⟩ : rectT), none, 72), ((⟨292, 0, 293, 1⟩ : rectT), none, 73), ((⟨296, 0, 297, 1⟩ : rectT), none, 74), ((⟨300, 0, 301, 1⟩ : rectT), none, 75), ((⟨304, 0, 305, 1⟩ : rectT), none, 76), ((⟨308, 0, 309, 1⟩ : rectT), none, 77), ((⟨312, 0, 313, 1⟩ : rectT), none, 78), ((⟨316, 0, 317, 1⟩ : rectT), none, 79), ((⟨320, 0, 321, 1⟩ : rectT), none, 80)]

def leaf88b : nodeT :=
  nodeT.mk 0 [((⟨324, 0, 325, 1⟩ : rectT), none, 81), ((⟨328, 0, 329, 1⟩ : rectT), none, 82), ((⟨332, 0, 333, 1⟩ : rectT), none, 83), ((⟨336, 0, 337, 1⟩ : rectT), none, 84), ((⟨340, 0, 341, 1⟩ : rectT), none, 85), ((⟨344, 0, 345, 1⟩ : rectT), none, 86), ((⟨348, 0, 349, 1⟩ : rectT), none, 87), ((⟨352, 0, 353, 1⟩ : rectT), none, 88)]

def state89 : nodeT :=
  nodeT.mk 1 [((⟨0, 0, 33, 1⟩ : rectT), some (nodeT.mk 0 [((⟨0, 0, 1, 1⟩ : rectT), none, 0), ((⟨4, 0, 5, 1⟩ : rectT), none, 1), ((⟨8, 0, 9, 1⟩ : rectT), none, 2), ((⟨12, 0, 13, 1⟩ : rectT), none, 3), ((⟨16, 0, 17, 1⟩ : rectT), none, 4), ((⟨20, 0, 21, 1⟩ : rectT), none, 5), ((⟨24, 0, 25, 1⟩ : rectT), none, 6), ((⟨28, 0, 29, 1⟩ : rectT), none, 7), ((⟨32, 0, 33, 1⟩ : rectT), none, 8)]), 0), ((⟨36, 0, 69, 1⟩ : rectT), some (nodeT.mk 0 [((⟨36, 0, 37, 1⟩ : rectT), none, 9), ((⟨40, 0, 41, 1⟩ : rectT), none, 10), ((⟨44, 0, 45, 1⟩ : rectT), none, 11), ((⟨48, 0, 49, 1⟩ : rectT), none, 12), ((⟨52, 0, 53, 1⟩ : rectT), none, 13), ((⟨56, 0, 57, 1⟩ : rectT), none, 14), ((⟨60, 0, 61, 1⟩ : rectT), none, 15), ((⟨64, 0, 65, 1⟩ : rectT), none, 16), ((⟨68, 0, 69, 1⟩ : rectT), none, 17)]), 0), ((⟨72, 0, 105, 1⟩ : rectT), some (nodeT.mk 0 [((⟨72, 0, 73, 1⟩ : rectT), none, 18), ((⟨76, 0, 77, 1⟩ : rectT), none, 19), ((⟨80, 0, 81, 1⟩ : rectT), none, 20), ((⟨84, 0, 85, 1⟩ : rectT), none, 21), ((⟨88, 0, 89, 1⟩ : rectT), none, 22), ((⟨92, 0, 93, 1⟩ : rectT), none, 23), ((⟨96, 0, 97, 1⟩ : rectT), none, 24), ((⟨100, 0, 101, 1⟩ : rectT), none, 25), ((⟨104, 0, 105, 1⟩ : rectT), none, 26)]), 0), ((⟨108, 0, 141, 1⟩ : rectT), some (nodeT.mk 0 [((⟨108, 0, 109, 1⟩ : rectT), none, 27), ((⟨112, 0, 113, 1⟩ : rectT), none, 28), ((⟨116, 0, 117, 1⟩ : rectT), none, 29), ((⟨120, 0, 121, 1⟩ : rectT), none, 30), ((⟨124, 0, 125, 1⟩ : rectT), none, 31), ((⟨128, 0, 129, 1⟩ : rectT), none, 32), ((⟨132, 0, 133, 1⟩ : rectT), none, 33), ((⟨136, 0, 137, 1⟩ : rectT), none, 34), ((⟨140, 0, 141, 1⟩ : rectT), none, 35)]), 0), ((⟨144, 0, 177, 1⟩ : rectT), some (nodeT.mk 0 [((⟨144, 0, 145, 1⟩ : rectT), none, 36), ((⟨148, 0, 149, 1⟩ : rectT), none, 37), ((⟨152, 0, 153, 1⟩ : rectT), none, 38), ((⟨156, 0, 157, 1⟩ : rectT), none, 39), ((⟨160, 0, 161, 1⟩ : rectT), none, 40), ((⟨164, 0, 165, 1⟩ : rectT), none, 41), ((⟨168, 0, 169, 1⟩ : rectT), none, 42), ((⟨172, 0, 173, 1⟩ : rectT), none, 43), ((⟨176, 0, 177, 1⟩ : rectT), none, 44)]), 0), ((⟨180, 0, 213, 1⟩ : rectT), some (nodeT.mk 0 [((⟨180, 0, 181, 1⟩ : rectT), none, 45), ((⟨184, 0, 185, 1⟩ : rectT), none, 46), ((⟨188, 0, 189, 1⟩ : rectT), none, 47), ((⟨192, 0, 193, 1⟩ : rectT), none, 48), ((⟨196, 0, 197, 1⟩ : rectT), none, 49), ((⟨200, 0, 201, 1⟩ : rectT), none, 50), ((⟨204, 0, 205, 1⟩ : rectT), none, 51), ((⟨208, 0, 209, 1⟩ : rectT), none, 52), ((⟨212, 0, 213, 1⟩ : rectT), none, 53)]), 0), ((⟨216, 0, 249, 1⟩ : rectT), some (nodeT.mk 0 [((⟨216, 0, 217, 1⟩ : rectT), none, 54), ((⟨220, 0, 221, 1⟩ : rectT), none, 55), ((⟨224, 0, 225, 1⟩ : rectT), none, 56), ((⟨228, 0, 229, 1⟩ : rectT), none, 57), ((⟨232, 0, 233, 1⟩ : rectT), none, 58), ((⟨236, 0, 237, 1⟩ : rectT), none, 59), ((⟨240, 0, 241, 1⟩ : rectT), none, 60), ((⟨244, 0, 245, 1⟩ : rectT), none, 61), ((⟨248, 0, 249, 1⟩ : rectT), none, 62)]), 0), ((⟨252, 0, 285, 1⟩ : rectT), some (nodeT.mk 0 [((⟨252, 0, 253, 1⟩ : rectT), none, 63), ((⟨256, 0, 257, 1⟩ : rectT), none, 64), ((⟨260, 0, 261, 1⟩ : rectT), none, 65), ((⟨264, 0, 265, 1⟩ : rectT), none, 66), ((⟨268, 0, 269, 1⟩ : rectT), none, 67), ((⟨272, 0, 273, 1⟩ : rectT), none, 68), ((⟨276, 0, 277, 1⟩ : rectT), none, 69), ((⟨280, 0, 281, 1⟩ : rectT), none, 70), ((⟨284, 0, 285, 1⟩ : rectT), none, 71)]), 0), ((⟨288, 0, 321, 1⟩ : rectT), some (nodeT.mk 0 [((⟨288, 0, 289, 1⟩ : rectT), none, 72), ((⟨292, 0, 293, 1⟩ : rectT), none, 73), ((⟨296, 0, 297, 1⟩ : rectT), none, 74), ((⟨300, 0, 301, 1⟩ : rectT), none, 75), ((⟨304, 0, 305, 1⟩ : rectT), none, 76), ((⟨308, 0, 309, 1⟩ : rectT), none, 77), ((⟨312, 0, 313, 1⟩ : rectT), none, 78), ((⟨316, 0, 317, 1⟩ : rectT), none, 79), ((⟨320, 0, 321, 1⟩ : rectT), none, 80)]), 0), ((⟨324, 0, 353, 1⟩ : rectT), some (nodeT.mk 0 [((⟨324, 0, 325, 1⟩ : rectT), none, 81), ((⟨328, 0, 329, 1⟩ : rectT), none, 82), ((⟨332, 0, 333, 1⟩ : rectT), none, 83), ((⟨336, 0, 337, 1⟩ : rectT), none, 84), ((⟨340, 0, 341, 1⟩ : rectT), none, 85), ((⟨344, 0, 345, 1⟩ : rectT), none, 86), ((⟨348, 0, 349, 1⟩ : rectT), none, 87), ((⟨352, 0, 353, 1⟩ : rectT), none, 88)]), 0)]

/-- Root branch list after the first 97 inserts (op 97 splits a leaf). -/
def bs97 : List branchT :=
  [((⟨0, 0, 33, 1⟩ : rectT), some (nodeT.mk 0 [((⟨0, 0, 1, 1⟩ : rectT), none, 0), ((⟨4, 0, 5, 1⟩ : rectT), none, 1), ((⟨8, 0, 9, 1⟩ : rectT), none, 2), ((⟨12, 0, 13, 1⟩ : rectT), none, 3), ((⟨16, 0, 17, 1⟩ : rectT), none, 4), ((⟨20, 0, 21, 1⟩ : rectT), none, 5), ((⟨24, 0, 25, 1⟩ : rectT), none, 6), ((⟨28, 0, 29, 1⟩ : rectT), none, 7), ((⟨32, 0, 33, 1⟩ : rectT), none, 8)]), 0), ((⟨36, 0, 69, 1⟩ : rectT), some (nodeT.mk 0 [((⟨36, 0, 37, 1⟩ : rectT), none, 9), ((⟨40, 0, 41, 1⟩ : rectT), none, 10), ((⟨44, 0, 45, 1⟩ : rectT), none, 11), ((⟨48, 0, 49, 1⟩ : rectT), none, 12), ((⟨52, 0, 53, 1⟩ : rectT), none, 13), ((⟨56, 0, 57, 1⟩ : rectT), none, 14), ((⟨60, 0, 61, 1⟩ : rectT), none, 15), ((⟨64, 0, 65, 1⟩ : rectT), none, 16), ((⟨68, 0, 69, 1⟩ : rectT), none, 17)]), 0), ((⟨72, 0, 105, 1⟩ : rectT), some (nodeT.mk 0 [((⟨72, 0, 73, 1⟩ : rectT), none, 18), ((⟨76, 0, 77, 1⟩ : rectT), none, 19), ((⟨80, 0, 81, 1⟩ : rectT), none, 20), ((⟨84, 0, 85, 1⟩ : rectT), none, 21), ((⟨88, 0, 89, 1⟩ : rectT), none, 22), ((⟨92, 0, 93, 1⟩ : rectT), none, 23), ((⟨96, 0, 97, 1⟩ : rectT), none, 24), ((⟨100, 0, 101, 1⟩ : rectT), none, 25), ((⟨104, 0, 105, 1⟩ : rectT), none, 26)]), 0), ((⟨108, 0, 141, 1⟩ : rectT), some (nodeT.mk 0 [((⟨108, 0, 109, 1⟩ : rectT), none, 27), ((⟨112, 0, 113, 1⟩ : rectT), none, 28), ((⟨116, 0, 117, 1⟩ : rectT), none, 29), ((⟨120, 0, 121, 1⟩ : rectT), none, 30), ((⟨124, 0, 125, 1⟩ : rectT), none, 31), ((⟨128, 0, 129, 1⟩ : rectT), none, 32), ((⟨132, 0, 133, 1⟩ : rectT), none, 33), ((⟨136, 0, 137, 1⟩ : rectT), none, 34), ((⟨140, 0, 141, 1⟩ : rectT), none, 35)]), 0), ((⟨144, 0, 177, 1⟩ : rectT), some (nodeT.mk 0 [((⟨144, 0, 145, 1⟩ : rectT), none, 36), ((⟨148, 0, 149, 1⟩ : rectT), none, 37), ((⟨152, 0, 153, 1⟩ : rectT), none, 38), ((⟨156, 0, 157, 1⟩ : rectT), none, 39), ((⟨160, 0, 161, 1⟩ : rectT), none, 40), ((⟨164, 0, 165, 1⟩ : rectT), none, 41), ((⟨168, 0, 169, 1⟩ : rectT), none, 42), ((⟨172, 0, 173, 1⟩ : rectT), none, 43), ((⟨176, 0, 177, 1⟩ : rectT), none, 44)]), 0), ((⟨180, 0, 213, 1⟩ : rectT), some (nodeT.mk 0 [((⟨180, 0, 181, 1⟩ : rectT), none, 45), ((⟨184, 0, 185, 1⟩ : rectT), none, 46), ((⟨188, 0, 189, 1⟩ : rectT), none, 47), ((⟨192, 0, 193, 1⟩ : rectT), none, 48), ((⟨196, 0, 197, 1⟩ : rectT), none, 49), ((⟨200, 0, 201, 1⟩ : rectT), none, 50), ((⟨204, 0, 205, 1⟩ : rectT), none, 51), ((⟨208, 0, 209, 1⟩ : rectT), none, 52), ((⟨212, 0, 213, 1⟩ : rectT), none, 53)]), 0), ((⟨216, 0, 249, 1⟩ : rectT), some (nodeT.mk 0 [((⟨216, 0, 217, 1⟩ : rectT), none, 54), ((⟨220, 0, 221, 1⟩ : rectT), none, 55), ((⟨224, 0, 225, 1⟩ : rectT), none, 56), ((⟨228, 0, 229, 1⟩ : rectT), none, 57), ((⟨232, 0, 233, 1⟩ : rectT), none, 58), ((⟨236, 0, 237, 1⟩ : rectT), none, 59), ((⟨240, 0, 241, 1⟩ : rectT), none, 60), ((⟨244, 0, 245, 1⟩ : rectT), none, 61), ((⟨248, 0, 249, 1⟩ : rectT), none, 62)]), 0), ((⟨252, 0, 285, 1⟩ : rectT), some (nodeT.mk 0 [((⟨252, 0, 253, 1⟩ : rectT), none, 63), ((⟨256, 0, 257, 1⟩ : rectT), none, 64), ((⟨260, 0, 261, 1⟩ : rectT), none, 65), ((⟨264, 0, 265, 1⟩ : rectT), none, 66), ((⟨268, 0, 269, 1⟩ : rectT), none, 67), ((⟨272, 0, 273, 1⟩ : rectT), none, 68), ((⟨276, 0, 277, 1⟩ : rectT), none, 69), ((⟨280, 0, 281, 1⟩ : rectT), none, 70), ((⟨284, 0, 285, 1⟩ : rectT), none, 71)]), 0), ((⟨288, 0, 321, 1⟩ : rectT), some (nodeT.mk 0 [((⟨288, 0, 289, 1⟩ : rectT), none, 72), ((⟨292, 0, 293, 1⟩ : rectT), none, 73), ((⟨296, 0, 297, 1⟩ : rectT), none, 74), ((⟨300, 0, 301, 1⟩ : rectT), none, 75), ((⟨304, 0, 305, 1⟩ : rectT), none, 76), ((⟨308, 0, 309, 1⟩ : rectT), none, 77), ((⟨312, 0, 313, 1⟩ : rectT), none, 78), ((⟨316, 0, 317, 1⟩ : rectT), none, 79), ((⟨320, 0, 321, 1⟩ : rectT), none, 80)]), 0), ((⟨324, 0, 385, 1⟩ : rectT), some (nodeT.mk 0 [((⟨324, 0, 325, 1⟩ : rectT), none, 81), ((⟨328, 0, 329, 1⟩ : rectT), none, 82), ((⟨332, 0, 333, 1⟩ : rectT), none, 83), ((⟨336, 0, 337, 1⟩ : rectT), none, 84), ((⟨340, 0, 341, 1⟩ : rectT), none, 85), ((⟨344, 0, 345, 1⟩ : rectT), none, 86), ((⟨348, 0, 349, 1⟩ : rectT), none, 87), ((⟨352, 0, 353, 1⟩ : rectT), none, 88), ((⟨356, 0, 357, 1⟩ : rectT), none, 89), ((⟨360, 0, 361, 1⟩ : rectT), none, 90), ((⟨364, 0, 365, 1⟩ : rectT), none, 91), ((⟨368, 0, 369, 1⟩ : rectT), none, 92), ((⟨372, 0, 373, 1⟩ : rectT), none, 93), ((⟨376, 0, 377, 1⟩ : rectT), none, 94), ((⟨380, 0, 381, 1⟩ : rectT), none, 95), ((⟨384, 0, 385, 1⟩ : rectT), none, 96)]), 0)]

def leaf97 : nodeT :=
  nodeT.mk 0 [((⟨324, 0, 325, 1⟩ : rectT), none, 81), ((⟨328, 0, 329, 1⟩ : rectT), none, 82), ((⟨332, 0, 333, 1⟩ : rectT), none, 83), ((⟨336, 0, 337, 1⟩ : rectT), none, 84), ((⟨340, 0, 341, 1⟩ : rectT), none, 85), ((⟨344, 0, 345, 1⟩ : rectT), none, 86), ((⟨348, 0, 349, 1⟩ : rectT), none, 87), ((⟨352, 0, 353, 1⟩ : rectT), none, 88), ((⟨356, 0, 357, 1⟩ : rectT), none, 89), ((⟨360, 0, 361, 1⟩ : rectT), none, 90), ((⟨364, 0, 365, 1⟩ : rectT), none, 91), ((⟨368, 0, 369, 1⟩ : rectT), none, 92), ((⟨372, 0, 373, 1⟩ : rectT), none, 93), ((⟨376, 0, 377, 1⟩ : rectT), none, 94), ((⟨380, 0, 381, 1⟩ : rectT), none, 95), ((⟨384, 0, 385, 1⟩ : rectT), none, 96)]

def leaf97a : nodeT :=
  nodeT.mk 0 [((⟨324, 0, 325, 1⟩ : rectT), none, 81), ((⟨328, 0, 329, 1⟩ : rectT), none, 82), ((⟨332, 0, 333, 1⟩ : rectT), none, 83), ((⟨336, 0, 337, 1⟩ : rectT), none, 84), ((⟨340, 0, 341, 1⟩ : rectT), none, 85), ((⟨344, 0, 345, 1⟩ : rectT), none, 86), ((⟨348, 0, 349, 1⟩ : rectT), none, 87), ((⟨352, 0, 353, 1⟩ : rectT), none, 88), ((⟨356, 0, 357, 1⟩ : rectT), none, 89)]

def leaf97b : nodeT :=
  nodeT.mk 0 [((⟨360, 0, 361, 1⟩ : rectT), none, 90), ((⟨364, 0, 365, 1⟩ : rectT), none, 91), ((⟨368, 0, 369, 1⟩ : rectT), none, 92), ((⟨372, 0, 373, 1⟩ : rectT), none, 93), ((⟨376, 0, 377, 1⟩ : rectT), none, 94), ((⟨380, 0, 381, 1⟩ : rectT), none, 95), ((⟨384, 0, 385, 1⟩ : rectT), none, 96), ((⟨388, 0, 389, 1⟩ : rectT), none, 97)]

def state98 : nodeT :=
  nodeT.mk 1 [((⟨0, 0, 33, 1⟩ : rectT), some (nodeT.mk 0 [((⟨0, 0, 1, 1⟩ : rectT), none, 0), ((⟨4, 0, 5, 1⟩ : rectT), none, 1), ((⟨8, 0, 9, 1⟩ : rectT), none, 2), ((⟨12, 0, 13, 1⟩ : rectT), none, 3), ((⟨16, 0, 17, 1⟩ : rectT), none, 4), ((⟨20, 0, 21, 1⟩ : rectT), none, 5), ((⟨24, 0, 25, 1⟩ : rectT), none, 6), ((⟨28, 0, 29, 1⟩ : rectT), none, 7), ((⟨32, 0, 33, 1⟩ : rectT), none, 8)]), 0), ((⟨36, 0, 69, 1⟩ : rectT), some (nodeT.mk 0 [((⟨36, 0, 37, 1⟩ : rectT), none, 9), ((⟨40, 0, 41, 1⟩ : rectT), none, 10), ((⟨44, 0, 45, 1⟩ : rectT), none, 11), ((⟨48, 0, 49, 1⟩ : rectT), none, 12), ((⟨52, 0, 53, 1⟩ : rectT), none, 13), ((⟨56, 0, 57, 1⟩ : rectT), none, 14), ((⟨60, 0, 61, 1⟩ : rectT), none, 15), ((⟨64, 0, 65, 1⟩ : rectT), none, 16), ((⟨68, 0, 69, 1⟩ : rectT), none, 17)]), 0), ((⟨72, 0, 105, 1⟩ : rectT), some (nodeT.mk 0 [((⟨72, 0, 73, 1⟩ : rectT), none, 18), ((⟨76, 0, 77, 1⟩ : rectT), none, 19), ((⟨80, 0, 81, 1⟩ : rectT), none, 20), ((⟨84, 0, 85, 1⟩ : rectT), none, 21), ((⟨88, 0, 89, 1⟩ : rectT), none, 22), ((⟨92, 0, 93, 1⟩ : rectT), none, 23), ((⟨96, 0, 97, 1⟩ : rectT), none, 24), ((⟨100, 0, 101, 1⟩ : rectT), none, 25), ((⟨104, 0, 105, 1⟩ : rectT), none, 26)]), 0), ((⟨108, 0, 141, 1⟩ : rectT), some (nodeT.mk 0 [((⟨108, 0, 109, 1⟩ : rectT), none, 27), ((⟨112, 0, 113, 1⟩ : rectT), none, 28), ((⟨116, 0, 117, 1⟩ : rectT), none, 29), ((⟨120, 0, 121, 1⟩ : rectT), none, 30), ((⟨124, 0, 125, 1⟩ : rectT), none, 31), ((⟨128, 0, 129, 1⟩ : rectT), none, 32), ((⟨132, 0, 133, 1⟩ : rectT), none, 33), ((⟨136, 0, 137, 1⟩ : rectT), none, 34), ((⟨140, 0, 141, 1⟩ : rectT), none, 35)]), 0), ((⟨144, 0, 177, 1⟩ : rectT), some (nodeT.mk 0 [((⟨144, 0, 145, 1⟩ : rectT), none, 36), ((⟨148, 0, 149, 1⟩ : rectT), none, 37), ((⟨152, 0, 153, 1⟩ : rectT), none, 38), ((⟨156, 0, 157, 1⟩ : rectT), none, 39), ((⟨160, 0, 161, 1⟩ : rectT), none, 40), ((⟨164, 0, 165, 1⟩ : rectT), none, 41), ((⟨168, 0, 169, 1⟩ : rectT), none, 42), ((⟨172, 0, 173, 1⟩ : rectT), none, 43), ((⟨176, 0, 177, 1⟩ : rectT), none, 44)]), 0), ((⟨180, 0, 213, 1⟩ : rectT), some (nodeT.mk 0 [((⟨180, 0, 181, 1⟩ : rectT), none, 45), ((⟨184, 0, 185, 1⟩ : rectT), none, 46), ((⟨188, 0, 189, 1⟩ : rectT), none, 47), ((⟨192, 0, 193, 1⟩ : rectT), none, 48), ((⟨196, 0, 197, 1⟩ : rectT), none, 49), ((⟨200, 0, 201, 1⟩ : rectT), none, 50), ((⟨204, 0, 205, 1⟩ : rectT), none, 51), ((⟨208, 0, 209, 1⟩ : rectT), none, 52), ((⟨212, 0, 213, 1⟩ : rectT), none, 53)]), 0), ((⟨216, 0, 249, 1⟩ : rectT), some (nodeT.mk 0 [((⟨216, 0, 217, 1⟩ : rectT), none, 54), ((⟨220, 0, 221, 1⟩ : rectT), none, 55), ((⟨224, 0, 225, 1⟩ : rectT), none, 56), ((⟨228, 0, 229, 1⟩ : rectT), none, 57), ((⟨232, 0, 233, 1⟩ : rectT), none, 58), ((⟨236, 0, 237, 1⟩ : rectT), none, 59), ((⟨240, 0, 241, 1⟩ : rectT), none, 60), ((⟨244, 0, 245, 1⟩ : rectT), none, 61), ((⟨248, 0, 249, 1⟩ : rectT), none, 62)]), 0), ((⟨252, 0, 285, 1⟩ : rectT), some (nodeT.mk 0 [((⟨252, 0, 253, 1⟩ : rectT), none, 63), ((⟨256, 0, 257, 1⟩ : rectT), none, 64), ((⟨260, 0, 261, 1⟩ : rectT), none, 65), ((⟨264, 0, 265, 1⟩ : rectT), none, 66), ((⟨268, 0, 269, 1⟩ : rectT), none, 67), ((⟨272, 0, 273, 1⟩ : rectT), none, 68), ((⟨276, 0, 277, 1⟩ : rectT), none, 69), ((⟨280, 0, 281, 1⟩ : rectT), none, 70), ((⟨284, 0, 285, 1⟩ : rectT), none, 71)]), 0), ((⟨288, 0, 321, 1⟩ : rectT), some (nodeT.mk 0 [((⟨288, 0, 289, 1⟩ : rectT), none, 72), ((⟨292, 0, 293, 1⟩ : rectT), none, 73), ((⟨296, 0, 297, 1⟩ : rectT), none, 74), ((⟨300, 0, 301, 1⟩ : rectT), none, 75), ((⟨304, 0, 305, 1⟩ : rectT), none, 76), ((⟨308, 0, 309, 1⟩ : rectT), none, 77), ((⟨312, 0, 313, 1⟩ : rectT), none, 78), ((⟨316, 0, 317, 1⟩ : rectT), none, 79), ((⟨320, 0, 321, 1⟩ : rectT), none, 80)]), 0), ((⟨324, 0, 357, 1⟩ : rectT), some (nodeT.mk 0 [((⟨324, 0, 325, 1⟩ : rectT), none, 81), ((⟨328, 0, 329, 1⟩ : rectT), none, 82), ((⟨332, 0, 333, 1⟩ : rectT), none, 83), ((⟨336, 0, 337, 1⟩ : rectT), none, 84), ((⟨340, 0, 341, 1⟩ : rectT), none, 85), ((⟨344, 0, 345, 1⟩ : rectT), none, 86), ((⟨348, 0, 349, 1⟩ : rectT), none, 87), ((⟨352, 0, 353, 1⟩ : rectT), none, 88), ((⟨356, 0, 357, 1⟩ : rectT), none, 89)]), 0), ((⟨360, 0, 389, 1⟩ : rectT), some (nodeT.mk 0 [((⟨360, 0, 361, 1⟩ : rectT), none, 90), ((⟨364, 0, 365, 1⟩ : rectT), none, 91), ((⟨368, 0, 369, 1⟩ : rectT), none, 92), ((⟨372, 0, 373, 1⟩ : rectT), none, 93), ((⟨376, 0, 377, 1⟩ : rectT), none, 94), ((⟨380, 0, 381, 1⟩ : rectT), none, 95), ((⟨384, 0, 385, 1⟩ : rectT), none, 96), ((⟨388, 0, 389, 1⟩ : rectT), none, 97)]), 0)]

/-- Root branch list after the first 106 inserts (op 106 splits a leaf). -/
def bs106 : List branchT :=
  [((⟨0, 0, 33, 1⟩ : rectT), some (nodeT.mk 0 [((⟨0, 0, 1, 1⟩ : rectT), none, 0), ((⟨4, 0, 5, 1⟩ : rectT), none, 1), ((⟨8, 0, 9, 1⟩ : rectT), none, 2), ((⟨12, 0, 13, 1⟩ : rectT), none, 3), ((⟨16, 0, 17, 1⟩ : rectT), none, 4), ((⟨20, 0, 21, 1⟩ : rectT), none, 5), ((⟨24, 0, 25, 1⟩ : rectT), none, 6), ((⟨28, 0, 29, 1⟩ : rectT), none, 7), ((⟨32, 0, 33, 1⟩ : rectT), none, 8)]), 0), ((⟨36, 0, 69, 1⟩ : rectT), some (nodeT.mk 0 [((⟨36, 0, 37, 1⟩ : rectT), none, 9), ((⟨40, 0, 41, 1⟩ : rectT), none, 10), ((⟨44, 0, 45, 1⟩ : rectT), none, 11), ((⟨48, 0, 49, 1⟩ : rectT), none, 12), ((⟨52, 0, 53, 1⟩ : rectT), none, 13), ((⟨56, 0, 57, 1⟩ : rectT), none, 14), ((⟨60, 0, 61, 1⟩ : rectT), none, 15), ((⟨64, 0, 65, 1⟩ : rectT), none, 16), ((⟨68, 0, 69, 1⟩ : rectT), none, 17)]), 0), ((⟨72, 0, 105, 1⟩ : rectT), some (nodeT.mk 0 [((⟨72, 0, 73, 1⟩ : rectT), none, 18), ((⟨76, 0, 77, 1⟩ : rectT), none, 19), ((⟨80, 0, 81, 1⟩ : rectT), none, 20), ((⟨84, 0, 85, 1⟩ : rectT), none, 21), ((⟨88, 0, 89, 1⟩ : rectT), none, 22), ((⟨92, 0, 93, 1⟩ : rectT), none, 23), ((⟨96, 0, 97, 1⟩ : rectT), none, 24), ((⟨100, 0, 101, 1⟩ : rectT), none, 25), ((⟨104, 0, 105, 1⟩ : rectT), none, 26)]), 0), ((⟨108, 0, 141, 1⟩ : rectT), some (nodeT.mk 0 [((⟨108, 0, 109, 1⟩ : rectT), none, 27), ((⟨112, 0, 113, 1⟩ : rectT), none, 28), ((⟨116, 0, 117, 1⟩ : rectT), none, 29), ((⟨120, 0, 121, 1⟩ : rectT), none, 30), ((⟨124, 0, 125, 1⟩ : rectT), none, 31), ((⟨128, 0, 129, 1⟩ : rectT), none, 32), ((⟨132, 0, 133, 1⟩ : rectT), none, 33), ((⟨136, 0, 137, 1⟩ : rectT), none, 34), ((⟨140, 0, 141, 1⟩ : rectT), none, 35)]), 0), ((⟨144, 0, 177, 1⟩ : rectT), some (nodeT.mk 0 [((⟨144, 0, 145, 1⟩ : rectT), none, 36), ((⟨148, 0, 149, 1⟩ : rectT), none, 37), ((⟨152, 0, 153, 1⟩ : rectT), none, 38), ((⟨156, 0, 157, 1⟩ : rectT), none, 39), ((⟨160, 0, 161, 1⟩ : rectT), none, 40), ((⟨164, 0, 165, 1⟩ : rectT), none, 41), ((⟨168, 0, 169, 1⟩ : rectT), none, 42), ((⟨172, 0, 173, 1⟩ : rectT), none, 43), ((⟨176, 0, 177, 1⟩ : rectT), none, 44)]), 0), ((⟨180, 0, 213, 1⟩ : rectT), some (nodeT.mk 0 [((⟨180, 0, 181, 1⟩ : rectT), none, 45), ((⟨184, 0, 185, 1⟩ : rectT), none, 46), ((⟨188, 0, 189, 1⟩ : rectT), none, 47), ((⟨192, 0, 193, 1⟩ : rectT), none, 48), ((⟨196, 0, 197, 1⟩ : rectT), none, 49), ((⟨200, 0, 201, 1⟩ : rectT), none, 50), ((⟨204, 0, 205, 1⟩ : rectT), none, 51), ((⟨208, 0, 209, 1⟩ : rectT), none, 52), ((⟨212, 0, 213, 1⟩ : rectT), none, 53)]), 0), ((⟨216, 0, 249, 1⟩ : rectT), some (nodeT.mk 0 [((⟨216, 0, 217, 1⟩ : rectT), none, 54), ((⟨220, 0, 221, 1⟩ : rectT), none, 55), ((⟨224, 0, 225, 1⟩ : rectT), none, 56), ((⟨228, 0, 229, 1⟩ : rectT), none, 57), ((⟨232, 0, 233, 1⟩ : rectT), none, 58), ((⟨236, 0, 237, 1⟩ : rectT), none, 59), ((⟨240, 0, 241, 1⟩ : rectT), none, 60), ((⟨244, 0, 245, 1⟩ : rectT), none, 61), ((⟨248, 0, 249, 1⟩ : rectT), none, 62)]), 0), ((⟨252, 0, 285, 1⟩ : rectT), some (nodeT.mk 0 [((⟨252, 0, 253, 1⟩ : rectT), none, 63), ((⟨256, 0, 257, 1⟩ : rectT), none, 64), ((⟨260, 0, 261, 1⟩ : rectT), none, 65), ((⟨264, 0, 265, 1⟩ : rectT), none, 66), ((⟨268, 0, 269, 1⟩ : rectT), none, 67), ((⟨272, 0, 273, 1⟩ : rectT), none, 68), ((⟨276, 0, 277, 1⟩ : rectT), none, 69), ((⟨280, 0, 281, 1⟩ : rectT), none, 70), ((⟨284, 0, 285, 1⟩ : rectT), none, 71)]), 0), ((⟨288, 0, 321, 1⟩ : rectT), some (nodeT.mk 0 [((⟨288, 0, 289, 1⟩ : rectT), none, 72), ((⟨292, 0, 293, 1⟩ : rectT), none, 73), ((⟨296, 0, 297, 1⟩ : rectT), none, 74), ((⟨300, 0, 301, 1⟩ : rectT), none, 75), ((⟨304, 0, 305, 1⟩ : rectT), none, 76), ((⟨308, 0, 309, 1⟩ : rectT), none, 77), ((⟨312, 0, 313, 1⟩ : rectT), none, 78), ((⟨316, 0, 317, 1⟩ : rectT), none, 79), ((⟨320, 0, 321, 1⟩ : rectT), none, 80)]), 0), ((⟨324, 0, 357, 1⟩ : rectT), some (nodeT.mk 0 [((⟨324, 0, 325, 1⟩ : rectT), none, 81), ((⟨328, 0, 329, 1⟩ : rectT), none, 82), ((⟨332, 0, 333, 1⟩ : rectT), none, 83), ((⟨336, 0, 337, 1⟩ : rectT), none, 84), ((⟨340, 0, 341, 1⟩ : rectT), none, 85), ((⟨344, 0, 345, 1⟩ : rectT), none, 86), ((⟨348, 0, 349, 1⟩ : rectT), none, 87), ((⟨352, 0, 353, 1⟩ : rectT), none, 88), ((⟨356, 0, 357, 1⟩ : rectT), none, 89)]), 0), ((⟨360, 0, 421, 1⟩ : rectT), some (nodeT.mk 0 [((⟨360, 0, 361, 1⟩ : rectT), none, 90), ((⟨364, 0, 365, 1⟩ : rectT), none, 91), ((⟨368, 0, 369, 1⟩ : rectT), none, 92), ((⟨372, 0, 373, 1⟩ : rectT), none, 93), ((⟨376, 0, 377, 1⟩ : rectT), none, 94), ((⟨380, 0, 381, 1⟩ : rectT), none, 95), ((⟨384, 0, 385, 1⟩ : rectT), none, 96), ((⟨388, 0, 389, 1⟩ : rectT), none, 97), ((⟨392, 0, 393, 1⟩ : rectT), none, 98), ((⟨396, 0, 397, 1⟩ : rectT), none, 99), ((⟨400, 0, 401, 1⟩ : rectT), none, 100), ((⟨404, 0, 405, 1⟩ : rectT), none, 101), ((⟨408, 0, 409, 1⟩ : rectT), none, 102), ((⟨412, 0, 413, 1⟩ : rectT), none, 103), ((⟨416, 0, 417, 1⟩ : rectT), none, 104), ((⟨420, 0, 421, 1⟩ : rectT), none, 105)]), 0)]

def leaf106 : nodeT :=
  nodeT.mk 0 [((⟨360, 0, 361, 1⟩ : rectT), none, 90), ((⟨364, 0, 365, 1⟩ : rectT), none, 91), ((⟨368, 0, 369, 1⟩ : rectT), none, 92), ((⟨372, 0, 373, 1⟩ : rectT), none, 93), ((⟨376, 0, 377, 1⟩ : rectT), none, 94), ((⟨380, 0, 381, 1⟩ : rectT), none, 95), ((⟨384, 0, 385, 1⟩ : rectT), none, 96), ((⟨388, 0, 389, 1⟩ : rectT), none, 97), ((⟨392, 0, 393, 1⟩ : rectT), none, 98), ((⟨396, 0, 397, 1⟩ : rectT), none, 99), ((⟨400, 0, 401, 1⟩ : rectT), none, 100), ((⟨404, 0, 405, 1⟩ : rectT), none, 101), ((⟨408, 0, 409, 1⟩ : rectT), none, 102), ((⟨412, 0, 413, 1⟩ : rectT), none, 103), ((⟨416, 0, 417, 1⟩ : rectT), none, 104), ((⟨420, 0, 421, 1⟩ : rectT), none, 105)]

def leaf106a : nodeT :=
  nodeT.mk 0 [((⟨360, 0, 361, 1⟩ : rectT), none, 90), ((⟨364, 0, 365, 1⟩ : rectT), none, 91), ((⟨368, 0, 369, 1⟩ : rectT), none, 92), ((⟨372, 0, 373, 1⟩ : rectT), none, 93), ((⟨376, 0, 377, 1⟩ : rectT), none, 94), ((⟨380, 0, 381, 1⟩ : rectT), none, 95), ((⟨384, 0, 385, 1⟩ : rectT), none, 96), ((⟨388, 0, 389, 1⟩ : rectT), none, 97), ((⟨392, 0, 393, 1⟩ : rectT), none, 98)]

def leaf106b : nodeT :=
  nodeT.mk 0 [((⟨396, 0, 397, 1⟩ : rectT), none, 99), ((⟨400, 0, 401, 1⟩ : rectT), none, 100), ((⟨404, 0, 405, 1⟩ : rectT), none, 101), ((⟨408, 0, 409, 1⟩ : rectT), none, 102), ((⟨412, 0, 413, 1⟩ : rectT), none, 103), ((⟨416, 0, 417, 1⟩ : rectT), none, 104), ((⟨420, 0, 421, 1⟩ : rectT), none, 105), ((⟨424, 0, 425, 1⟩ : rectT), none, 106)]

def state107 : nodeT :=
  nodeT.mk 1 [((⟨0, 0, 33, 1⟩ : rectT), some (nodeT.mk 0 [((⟨0, 0, 1, 1⟩ : rectT), none, 0), ((⟨4, 0, 5, 1⟩ : rectT), none, 1), ((⟨8, 0, 9, 1⟩ : rectT), none, 2), ((⟨12, 0, 13, 1⟩ : rectT), none, 3), ((⟨16, 0, 17, 1⟩ : rectT), none, 4), ((⟨20, 0, 21, 1⟩ : rectT), none, 5), ((⟨24, 0, 25, 1⟩ : rectT), none, 6), ((⟨28, 0, 29, 1⟩ : rectT), none, 7), ((⟨32, 0, 33, 1⟩ : rectT), none, 8)]), 0), ((⟨36, 0, 69, 1⟩ : rectT), some (nodeT.mk 0 [((⟨36, 0, 37, 1⟩ : rectT), none, 9), ((⟨40, 0, 41, 1⟩ : rectT), none, 10), ((⟨44, 0, 45, 1⟩ : rectT), none, 11), ((⟨48, 0, 49, 1⟩ : rectT), none, 12), ((⟨52, 0, 53, 1⟩ : rectT), none, 13), ((⟨56, 0, 57, 1⟩ : rectT), none, 14), ((⟨60, 0, 61, 1⟩ : rectT), none, 15), ((⟨64, 0, 65, 1⟩ : rectT), none, 16), ((⟨68, 0, 69, 1⟩ : rectT), none, 17)]), 0), ((⟨72, 0, 105, 1⟩ : rectT), some (nodeT.mk 0 [((⟨72, 0, 73, 1⟩ : rectT), none, 18), ((⟨76, 0, 77, 1⟩ : rectT), none, 19), ((⟨80, 0, 81, 1⟩ : rectT), none, 20), ((⟨84, 0, 85, 1⟩ : rectT), none, 21), ((⟨88, 0, 89, 1⟩ : rectT), none, 22), ((⟨92, 0, 93, 1⟩ : rectT), none, 23), ((⟨96, 0, 97, 1⟩ : rectT), none, 24), ((⟨100, 0, 101, 1⟩ : rectT), none, 25), ((⟨104, 0, 105, 1⟩ : rectT), none, 26)]), 0), ((⟨108, 0, 141, 1⟩ : rectT), some (nodeT.mk 0 [((⟨108, 0, 109, 1⟩ : rectT), none, 27), ((⟨112, 0, 113, 1⟩ : rectT), none, 28), ((⟨116, 0, 117, 1⟩ : rectT), none, 29), ((⟨120, 0, 121, 1⟩ : rectT), none, 30), ((⟨124, 0, 125, 1⟩ : rectT), none, 31), ((⟨128, 0, 129, 1⟩ : rectT), none, 32), ((⟨132, 0, 133, 1⟩ : rectT), none, 33), ((⟨136, 0, 137, 1⟩ : rectT), none, 34), ((⟨140, 0, 141, 1⟩ : rectT), none, 35)]), 0), ((⟨144, 0, 177, 1⟩ : rectT), some (nodeT.mk 0 [((⟨144, 0, 145, 1⟩ : rectT), none, 36), ((⟨148, 0, 149, 1⟩ : rectT), none, 37), ((⟨152, 0, 153, 1⟩ : rectT), none, 38), ((⟨156, 0, 157, 1⟩ : rectT), none, 39), ((⟨160, 0, 161, 1⟩ : rectT), none, 40), ((⟨164, 0, 165, 1⟩ : rectT), none, 41), ((⟨168, 0, 169, 1⟩ : rectT), none, 42), ((⟨172, 0, 173, 1⟩ : rectT), none, 43), ((⟨176, 0, 177, 1⟩ : rectT), none, 44)]), 0), ((⟨180, 0, 213, 1⟩ : rectT), some (nodeT.mk 0 [((⟨180, 0, 181, 1⟩ : rectT), none, 45), ((⟨184, 0, 185, 1⟩ : rectT), none, 46), ((⟨188, 0, 189, 1⟩ : rectT), none, 47), ((⟨192, 0, 193, 1⟩ : rectT), none, 48), ((⟨196, 0, 197, 1⟩ : rectT), none, 49), ((⟨200, 0, 201, 1⟩ : rectT), none, 50), ((⟨204, 0, 205, 1⟩ : rectT), none, 51), ((⟨208, 0, 209, 1⟩ : rectT), none, 52), ((⟨212, 0, 213, 1⟩ : rectT), none, 53)]), 0), ((⟨216, 0, 249, 1⟩ : rectT), some (nodeT.mk 0 [((⟨216, 0, 217, 1⟩ : rectT), none, 54), ((⟨220, 0, 221, 1⟩ : rectT), none, 55), ((⟨224, 0, 225, 1⟩ : rectT), none, 56), ((⟨228, 0, 229, 1⟩ : rectT), none, 57), ((⟨232, 0, 233, 1⟩ : rectT), none, 58), ((⟨236, 0, 237, 1⟩ : rectT), none, 59), ((⟨240, 0, 241, 1⟩ : rectT), none, 60), ((⟨244, 0, 245, 1⟩ : rectT), none, 61), ((⟨248, 0, 249, 1⟩ : rectT), none, 62)]), 0), ((⟨252, 0, 285, 1⟩ : rectT), some (nodeT.mk 0 [((⟨252, 0, 253, 1⟩ : rectT), none, 63), ((⟨256, 0, 257, 1⟩ : rectT), none, 64), ((⟨260, 0, 261, 1⟩ : rectT), none, 65), ((⟨264, 0, 265, 1⟩ : rectT), none, 66), ((⟨268, 0, 269, 1⟩ : rectT), none, 67), ((⟨272, 0, 273, 1⟩ : rectT), none, 68), ((⟨276, 0, 277, 1⟩ : rectT), none, 69), ((⟨280, 0, 281, 1⟩ : rectT), none, 70), ((⟨284, 0, 285, 1⟩ : rectT), none, 71)]), 0), ((⟨288, 0, 321, 1⟩ : rectT), some (nodeT.mk 0 [((⟨288, 0, 289, 1⟩ : rectT), none, 72), ((⟨292, 0, 293, 1⟩ : rectT), none, 73), ((⟨296, 0, 297, 1⟩ : rectT), none, 74), ((⟨300, 0, 301, 1⟩ : rectT), none, 75), ((⟨304, 0, 305, 1⟩ : rectT), none, 76), ((⟨308, 0, 309, 1⟩ : rectT), none, 77), ((⟨312, 0, 313, 1⟩ : rectT), none, 78), ((⟨316, 0, 317, 1⟩ : rectT), none, 79), ((⟨320, 0, 321, 1⟩ : rectT), none, 80)]), 0), ((⟨324, 0, 357, 1⟩ : rectT), some (nodeT.mk 0 [((⟨324, 0, 325, 1⟩ : rectT), none, 81), ((⟨328, 0, 329, 1⟩ : rectT), none, 82), ((⟨332, 0, 333, 1⟩ : rectT), none, 83), ((⟨336, 0, 337, 1⟩ : rectT), none, 84), ((⟨340, 0, 341, 1⟩ : rectT), none, 85), ((⟨344, 0, 345, 1⟩ : rectT), none, 86), ((⟨348, 0, 349, 1⟩ : rectT), none, 87), ((⟨352, 0, 353, 1⟩ : rectT), none, 88), ((⟨356, 0, 357, 1⟩ : rectT), none, 89)]), 0), ((⟨360, 0, 393, 1⟩ : rectT), some (nodeT.mk 0 [((⟨360, 0, 361, 1⟩ : rectT), none, 90), ((⟨364, 0, 365, 1⟩ : rectT), none, 91), ((⟨368, 0, 369, 1⟩ : rectT), none, 92), ((⟨372, 0, 373, 1⟩ : rectT), none, 93), ((⟨376, 0, 377, 1⟩ : rectT), none, 94), ((⟨380, 0, 381, 1⟩ : rectT), none, 95), ((⟨384, 0, 385, 1⟩ : rectT), none, 96), ((⟨388, 0, 389, 1⟩ : rectT), none, 97), ((⟨392, 0, 393, 1⟩ : rectT), none, 98)]), 0), ((⟨396, 0, 425, 1⟩ : rectT), some (nodeT.mk 0 [((⟨396, 0, 397, 1⟩ : rectT), none, 99), ((⟨400, 0, 401, 1⟩ : rectT), none, 100), ((⟨404, 0, 405, 1⟩ : rectT), none, 101), ((⟨408, 0, 409, 1⟩ : rectT), none, 102), ((⟨412, 0, 413, 1⟩ : rectT), none, 103), ((⟨416, 0, 417, 1⟩ : rectT), none, 104), ((⟨420, 0, 421, 1⟩ : rectT), none, 105), ((⟨424, 0, 425, 1⟩ : rectT), none, 106)]), 0)]

/-- Root branch list after the first 115 inserts (op 115 splits a leaf). -/
def bs115 : List branchT :=
  [((⟨0, 0, 33, 1⟩ : rectT), some (nodeT.mk 0 [((⟨0, 0, 1, 1⟩ : rectT), none, 0), ((⟨4, 0, 5, 1⟩ : rectT), none, 1), ((⟨8, 0, 9, 1⟩ : rectT), none, 2), ((⟨12, 0, 13, 1⟩ : rectT), none, 3), ((⟨16, 0, 17, 1⟩ : rectT), none, 4), ((⟨20, 0, 21, 1⟩ : rectT), none, 5), ((⟨24, 0, 25, 1⟩ : rectT), none, 6), ((⟨28, 0, 29, 1⟩ : rectT), none, 7), ((⟨32, 0, 33, 1⟩ : rectT), none, 8)]), 0), ((⟨36, 0, 69, 1⟩ : rectT), some (nodeT.mk 0 [((⟨36, 0, 37, 1⟩ : rectT), none, 9), ((⟨40, 0, 41, 1⟩ : rectT), none, 10), ((⟨44, 0, 45, 1⟩ : rectT), none, 11), ((⟨48, 0, 49, 1⟩ : rectT), none, 12), ((⟨52, 0, 53, 1⟩ : rectT), none, 13), ((⟨56, 0, 57, 1⟩ : rectT), none, 14), ((⟨60, 0, 61, 1⟩ : rectT), none, 15), ((⟨64, 0, 65, 1⟩ : rectT), none, 16), ((⟨68, 0, 69, 1⟩ : rectT), none, 17)]), 0), ((⟨72, 0, 105, 1⟩ : rectT), some (nodeT.mk 0 [((⟨72, 0, 73, 1⟩ : rectT), none, 18), ((⟨76, 0, 77, 1⟩ : rectT), none, 19), ((⟨80, 0, 81, 1⟩ : rectT), none, 20), ((⟨84, 0, 85, 1⟩ : rectT), none, 21), ((⟨88, 0, 89, 1⟩ : rectT), none, 22), ((⟨92, 0, 93, 1⟩ : rectT), none, 23), ((⟨96, 0, 97, 1⟩ : rectT), none, 24), ((⟨100, 0, 101, 1⟩ : rectT), none, 25), ((⟨104, 0, 105, 1⟩ : rectT), none, 26)]), 0), ((⟨108, 0, 141, 1⟩ : rectT), some (nodeT.mk 0 [((⟨108, 0, 109, 1⟩ : rectT), none, 27), ((⟨112, 0, 113, 1⟩ : rectT), none, 28), ((⟨116, 0, 117, 1⟩ : rectT), none, 29), ((⟨120, 0, 121, 1⟩ : rectT), none, 30), ((⟨124, 0, 125, 1⟩ : rectT), none, 31), ((⟨128, 0, 129, 1⟩ : rectT), none, 32), ((⟨132, 0, 133, 1⟩ : rectT), none, 33), ((⟨136, 0, 137, 1⟩ : rectT), none, 34), ((⟨140, 0, 141, 1⟩ : rectT), none, 35)]), 0), ((⟨144, 0, 177, 1⟩ : rectT), some (nodeT.mk 0 [((⟨144, 0, 145, 1⟩ : rectT), none, 36), ((⟨148, 0, 149, 1⟩ : rectT), none, 37), ((⟨152, 0, 153, 1⟩ : rectT), none, 38), ((⟨156, 0, 157, 1⟩ : rectT), none, 39), ((⟨160, 0, 161, 1⟩ : rectT), none, 40), ((⟨164, 0, 165, 1⟩ : rectT), none, 41), ((⟨168, 0, 169, 1⟩ : rectT), none, 42), ((⟨172, 0, 173, 1⟩ : rectT), none, 43), ((⟨176, 0, 177, 1⟩ : rectT), none, 44)]), 0), ((⟨180, 0, 213, 1⟩ : rectT), some (nodeT.mk 0 [((⟨180, 0, 181, 1⟩ : rectT), none, 45), ((⟨184, 0, 185, 1⟩ : rectT), none, 46), ((⟨188, 0, 189, 1⟩ : rectT), none, 47), ((⟨192, 0, 193, 1⟩ : rectT), none, 48), ((⟨196, 0, 197, 1⟩ : rectT), none, 49), ((⟨200, 0, 201, 1⟩ : rectT), none, 50), ((⟨204, 0, 205, 1⟩ : rectT), none, 51), ((⟨208, 0, 209, 1⟩ : rectT), none, 52), ((⟨212, 0, 213, 1⟩ : rectT), none, 53)]), 0), ((⟨216, 0, 249, 1⟩ : rectT), some (nodeT.mk 0 [((⟨216, 0, 217, 1⟩ : rectT), none, 54), ((⟨220, 0, 221, 1⟩ : rectT), none, 55), ((⟨224, 0, 225, 1⟩ : rectT), none, 56), ((⟨228, 0, 229, 1⟩ : rectT), none, 57), ((⟨232, 0, 233, 1⟩ : rectT), none, 58), ((⟨236, 0, 237, 1⟩ : rectT), none, 59), ((⟨240, 0, 241, 1⟩ : rectT), none, 60), ((⟨244, 0, 245, 1⟩ : rectT), none, 61), ((⟨248, 0, 249, 1⟩ : rectT), none, 62)]), 0), ((⟨252, 0, 285, 1⟩ : rectT), some (nodeT.mk 0 [((⟨252, 0, 253, 1⟩ : rectT), none, 63), ((⟨256, 0, 257, 1⟩ : rectT), none, 64), ((⟨260, 0, 261, 1⟩ : rectT), none, 65), ((⟨264, 0, 265, 1⟩ : rectT), none, 66), ((⟨268, 0, 269, 1⟩ : rectT), none, 67), ((⟨272, 0, 273, 1⟩ : rectT), none, 68), ((⟨276, 0, 277, 1⟩ : rectT), none, 69), ((⟨280, 0, 281, 1⟩ : rectT), none, 70), ((⟨284, 0, 285, 1⟩ : rectT), none, 71)]), 0), ((⟨288, 0, 321, 1⟩ : rectT), some (nodeT.mk 0 [((⟨288, 0, 289, 1⟩ : rectT), none, 72), ((⟨292, 0, 293, 1⟩ : rectT), none, 73), ((⟨296, 0, 297, 1⟩ : rectT), none, 74), ((⟨300, 0, 301, 1⟩ : rectT), none, 75), ((⟨304, 0, 305, 1⟩ : rectT), none, 76), ((⟨308, 0, 309, 1⟩ : rectT), none, 77), ((⟨312, 0, 313, 1⟩ : rectT), none, 78), ((⟨316, 0, 317, 1⟩ : rectT), none, 79), ((⟨320, 0, 321, 1⟩ : rectT), none, 80)]), 0), ((⟨324, 0, 357, 1⟩ : rectT), some (nodeT.mk 0 [((⟨324, 0, 325, 1⟩ : rectT), none, 81), ((⟨328, 0, 329, 1⟩ : rectT), none, 82), ((⟨332, 0, 333, 1⟩ : rectT), none, 83), ((⟨336, 0, 337, 1⟩ : rectT), none, 84), ((⟨340, 0, 341, 1⟩ : rectT), none, 85), ((⟨344, 0, 345, 1⟩ : rectT), none, 86), ((⟨348, 0, 349, 1⟩ : rectT), none, 87), ((⟨352, 0, 353, 1⟩ : rectT), none, 88), ((⟨356, 0, 357, 1⟩ : rectT), none, 89)]), 0), ((⟨360, 0, 393, 1⟩ : rectT), some (nodeT.mk 0 [((⟨360, 0, 361, 1⟩ : rectT), none, 90), ((⟨364, 0, 365, 1⟩ : rectT), none, 91), ((⟨368, 0, 369, 1⟩ : rectT), none, 92), ((⟨372, 0, 373, 1⟩ : rectT), none, 93), ((⟨376, 0, 377, 1⟩ : rectT), none, 94), ((⟨380, 0, 381, 1⟩ : rectT), none, 95), ((⟨384, 0, 385, 1⟩ : rectT), none, 96), ((⟨388, 0, 389, 1⟩ : rectT), none, 97), ((⟨392, 0, 393, 1⟩ : rectT), none, 98)]), 0), ((⟨396, 0, 457, 1⟩ : rectT), some (nodeT.mk 0 [((⟨396, 0, 397, 1⟩ : rectT), none, 99), ((⟨400, 0, 401, 1⟩ : rectT), none, 100), ((⟨404, 0, 405, 1⟩ : rectT), none, 101), ((⟨408, 0, 409, 1⟩ : rectT), none, 102), ((⟨412, 0, 413, 1⟩ : rectT), none, 103), ((⟨416, 0, 417, 1⟩ : rectT), none, 104), ((⟨420, 0, 421, 1⟩ : rectT), none, 105), ((⟨424, 0, 425, 1⟩ : rectT), none, 106), ((⟨428, 0, 429, 1⟩ : rectT), none, 107), ((⟨432, 0, 433, 1⟩ : rectT), none, 108), ((⟨436, 0, 437, 1⟩ : rectT), none, 109), ((⟨440, 0, 441, 1⟩ : rectT), none, 110), ((⟨444, 0, 445, 1⟩ : rectT), none, 111), ((⟨448, 0, 449, 1⟩ : rectT), none, 112), ((⟨452, 0, 453, 1⟩ : rectT), none, 113), ((⟨456, 0, 457, 1⟩ : rectT), none, 114)]), 0)]

def leaf115 : nodeT :=
  nodeT.mk 0 [((⟨396, 0, 397, 1⟩ : rectT), none, 99), ((⟨400, 0, 401, 1⟩ : rectT), none, 100), ((⟨404, 0, 405, 1⟩ : rectT), none, 101), ((⟨408, 0, 409, 1⟩ : rectT), none, 102), ((⟨412, 0, 413, 1⟩ : rectT), none, 103), ((⟨416, 0, 417, 1⟩ : rectT), none, 104), ((⟨420, 0, 421, 1⟩ : rectT), none, 105), ((⟨424, 0, 425, 1⟩ : rectT), none, 106), ((⟨428, 0, 429, 1⟩ : rectT), none, 107), ((⟨432, 0, 433, 1⟩ : rectT), none, 108), ((⟨436, 0, 437, 1⟩ : rectT), none, 109), ((⟨440, 0, 441, 1⟩ : rectT), none, 110), ((⟨444, 0, 445, 1⟩ : rectT), none, 111), ((⟨448, 0, 449, 1⟩ : rectT), none, 112), ((⟨452, 0, 453, 1⟩ : rectT), none, 113), ((⟨456, 0, 457, 1⟩ : rectT), none, 114)]

def leaf115a : nodeT :=
  nodeT.mk 0 [((⟨396, 0, 397, 1⟩ : rectT), none, 99), ((⟨400, 0, 401, 1⟩ : rectT), none, 100), ((⟨404, 0, 405, 1⟩ : rectT), none, 101), ((⟨408, 0, 409, 1⟩ : rectT), none, 102), ((⟨412, 0, 413, 1⟩ : rectT), none, 103), ((⟨416, 0, 417, 1⟩ : rectT), none, 104), ((⟨420, 0, 421, 1⟩ : rectT), none, 105), ((⟨424, 0, 425, 1⟩ : rectT), none, 106), ((⟨428, 0, 429, 1⟩ : rectT), none, 107)]

def leaf115b : nodeT :=
  nodeT.mk 0 [((⟨432, 0, 433, 1⟩ : rectT), none, 108), ((⟨436, 0, 437, 1⟩ : rectT), none, 109), ((⟨440, 0, 441, 1⟩ : rectT), none, 110), ((⟨444, 0, 445, 1⟩ : rectT), none, 111), ((⟨448, 0, 449, 1⟩ : rectT), none, 112), ((⟨452, 0, 453, 1⟩ : rectT), none, 113), ((⟨456, 0, 457, 1⟩ : rectT), none, 114), ((⟨460, 0, 461, 1⟩ : rectT), none, 115)]

/-- Root branch list after the first 124 inserts (op 124 splits a leaf). -/
def bs124 : List branchT :=
  [((⟨0, 0, 33, 1⟩ : rectT), some (nodeT.mk 0 [((⟨0, 0, 1, 1⟩ : rectT), none, 0), ((⟨4, 0, 5, 1⟩ : rectT), none, 1), ((⟨8, 0, 9, 1⟩ : rectT), none, 2), ((⟨12, 0, 13, 1⟩ : rectT), none, 3), ((⟨16, 0, 17, 1⟩ : rectT), none, 4), ((⟨20, 0, 21, 1⟩ : rectT), none, 5), ((⟨24, 0, 25, 1⟩ : rectT), none, 6), ((⟨28, 0, 29, 1⟩ : rectT), none, 7), ((⟨32, 0, 33, 1⟩ : rectT), none, 8)]), 0), ((⟨36, 0, 69, 1⟩ : rectT), some (nodeT.mk 0 [((⟨36, 0, 37, 1⟩ : rectT), none, 9), ((⟨40, 0, 41, 1⟩ : rectT), none, 10), ((⟨44, 0, 45, 1⟩ : rectT), none, 11), ((⟨48, 0, 49, 1⟩ : rectT), none, 12), ((⟨52, 0, 53, 1⟩ : rectT), none, 13), ((⟨56, 0, 57, 1⟩ : rectT), none, 14), ((⟨60, 0, 61, 1⟩ : rectT), none, 15), ((⟨64, 0, 65, 1⟩ : rectT), none, 16), ((⟨68, 0, 69, 1⟩ : rectT), none, 17)]), 0), ((⟨72, 0, 105, 1⟩ : rectT), some (nodeT.mk 0 [((⟨72, 0, 73, 1⟩ : rectT), none, 18), ((⟨76, 0, 77, 1⟩ : rectT), none, 19), ((⟨80, 0, 81, 1⟩ : rectT), none, 20), ((⟨84, 0, 85, 1⟩ : rectT), none, 21), ((⟨88, 0, 89, 1⟩ : rectT), none, 22), ((⟨92, 0, 93, 1⟩ : rectT), none, 23), ((⟨96, 0, 97, 1⟩ : rectT), none, 24), ((⟨100, 0, 101, 1⟩ : rectT), none, 25), ((⟨104, 0, 105, 1⟩ : rectT), none, 26)]), 0), ((⟨108, 0, 141, 1⟩ : rectT), some (nodeT.mk 0 [((⟨108, 0, 109, 1⟩ : rectT), none, 27), ((⟨112, 0, 113, 1⟩ : rectT), none, 28), ((⟨116, 0, 117, 1⟩ : rectT), none, 29), ((⟨120, 0, 121, 1⟩ : rectT), none, 30), ((⟨124, 0, 125, 1⟩ : rectT), none, 31), ((⟨128, 0, 129, 1⟩ : rectT), none, 32), ((⟨132, 0, 133, 1⟩ : rectT), none, 33), ((⟨136, 0, 137, 1⟩ : rectT), none, 34), ((⟨140, 0, 141, 1⟩ : rectT), none, 35)]), 0), ((⟨144, 0, 177, 1⟩ : rectT), some (nodeT.mk 0 [((⟨144, 0, 145, 1⟩ : rectT), none, 36), ((⟨148, 0, 149, 1⟩ : rectT), none, 37), ((⟨152, 0, 153, 1⟩ : rectT), none, 38), ((⟨156, 0, 157, 1⟩ : rectT), none, 39), ((⟨160, 0, 161, 1⟩ : rectT), none, 40), ((⟨164, 0, 165, 1⟩ : rectT), none, 41), ((⟨168, 0, 169, 1⟩ : rectT), none, 42), ((⟨172, 0, 173, 1⟩ : rectT), none, 43), ((⟨176, 0, 177, 1⟩ : rectT), none, 44)]), 0), ((⟨180, 0, 213, 1⟩ : rectT), some (nodeT.mk 0 [((⟨180, 0, 181, 1⟩ : rectT), none, 45), ((⟨184, 0, 185, 1⟩ : rectT), none, 46), ((⟨188, 0, 189, 1⟩ : rectT), none, 47), ((⟨192, 0, 193, 1⟩ : rectT), none, 48), ((⟨196, 0, 197, 1⟩ : rectT), none, 49), ((⟨200, 0, 201, 1⟩ : rectT), none, 50), ((⟨204, 0, 205, 1⟩ : rectT), none, 51), ((⟨208, 0, 209, 1⟩ : rectT), none, 52), ((⟨212, 0, 213, 1⟩ : rectT), none, 53)]), 0), ((⟨216, 0, 249, 1⟩ : rectT), some (nodeT.mk 0 [((⟨216, 0, 217, 1⟩ : rectT), none, 54), ((⟨220, 0, 221, 1⟩ : rectT), none, 55), ((⟨224, 0, 225, 1⟩ : rectT), none, 56), ((⟨228, 0, 229, 1⟩ : rectT), none, 57), ((⟨232, 0, 233, 1⟩ : rectT), none, 58), ((⟨236, 0, 237, 1⟩ : rectT), none, 59), ((⟨240, 0, 241, 1⟩ : rectT), none, 60), ((⟨244, 0, 245, 1⟩ : rectT), none, 61), ((⟨248, 0, 249, 1⟩ : rectT), none, 62)]), 0), ((⟨252, 0, 285, 1⟩ : rectT), some (nodeT.mk 0 [((⟨252, 0, 253, 1⟩ : rectT), none, 63), ((⟨256, 0, 257, 1⟩ : rectT), none, 64), ((⟨260, 0, 261, 1⟩ : rectT), none, 65), ((⟨264, 0, 265, 1⟩ : rectT), none, 66), ((⟨268, 0, 269, 1⟩ : rectT), none, 67), ((⟨272, 0, 273, 1⟩ : rectT), none, 68), ((⟨276, 0, 277, 1⟩ : rectT), none, 69), ((⟨280, 0, 281, 1⟩ : rectT), none, 70), ((⟨284, 0, 285, 1⟩ : rectT), none, 71)]), 0), ((⟨288, 0, 321, 1⟩ : rectT), some (nodeT.mk 0 [((⟨288, 0, 289, 1⟩ : rectT), none, 72), ((⟨292, 0, 293, 1⟩ : rectT), none, 73), ((⟨296, 0, 297, 1⟩ : rectT), none, 74), ((⟨300, 0, 301, 1⟩ : rectT), none, 75), ((⟨304, 0, 305, 1⟩ : rectT), none, 76), ((⟨308, 0, 309, 1⟩ : rectT), none, 77), ((⟨312, 0, 313, 1⟩ : rectT), none, 78), ((⟨316, 0, 317, 1⟩ : rectT), none, 79), ((⟨320, 0, 321, 1⟩ : rectT), none, 80)]), 0), ((⟨324, 0, 357, 1⟩ : rectT), some (nodeT.mk 0 [((⟨324, 0, 325, 1⟩ : rectT), none, 81), ((⟨328, 0, 329, 1⟩ : rectT), none, 82), ((⟨332, 0, 333, 1⟩ : rectT), none, 83), ((⟨336, 0, 337, 1⟩ : rectT), none, 84), ((⟨340, 0, 341, 1⟩ : rectT), none, 85), ((⟨344, 0, 345, 1⟩ : rectT), none, 86), ((⟨348, 0, 349, 1⟩ : rectT), none, 87), ((⟨352, 0, 353, 1⟩ : rectT), none, 88), ((⟨356, 0, 357, 1⟩ : rectT), none, 89)]), 0), ((⟨360, 0, 393, 1⟩ : rectT), some (nodeT.mk 0 [((⟨360, 0, 361, 1⟩ : rectT), none, 90), ((⟨364, 0, 365, 1⟩ : rectT), none, 91), ((⟨368, 0, 369, 1⟩ : rectT), none, 92), ((⟨372, 0, 373, 1⟩ : rectT), none, 93), ((⟨376, 0, 377, 1⟩ : rectT), none, 94), ((⟨380, 0, 381, 1⟩ : rectT), none, 95), ((⟨384, 0, 385, 1⟩ : rectT), none, 96), ((⟨388, 0, 389, 1⟩ : rectT), none, 97), ((⟨392, 0, 393, 1⟩ : rectT), none, 98)]), 0), ((⟨396, 0, 429, 1⟩ : rectT), some (nodeT.mk 0 [((⟨396, 0, 397, 1⟩ : rectT), none, 99), ((⟨400, 0, 401, 1⟩ : rectT), none, 100), ((⟨404, 0, 405, 1⟩ : rectT), none, 101), ((⟨408, 0, 409, 1⟩ : rectT), none, 102), ((⟨412, 0, 413, 1⟩ : rectT), none, 103), ((⟨416, 0, 417, 1⟩ : rectT), none, 104), ((⟨420, 0, 421, 1⟩ : rectT), none, 105), ((⟨424, 0, 425, 1⟩ : rectT), none, 106), ((⟨428, 0, 429, 1⟩ : rectT), none, 107)]), 0), ((⟨432, 0, 493, 1⟩ : rectT), some (nodeT.mk 0 [((⟨432, 0, 433, 1⟩ : rectT), none, 108), ((⟨436, 0, 437, 1⟩ : rectT), none, 109), ((⟨440, 0, 441, 1⟩ : rectT), none, 110), ((⟨444, 0, 445, 1⟩ : rectT), none, 111), ((⟨448, 0, 449, 1⟩ : rectT), none, 112), ((⟨452, 0, 453, 1⟩ : rectT), none, 113), ((⟨456, 0, 457, 1⟩ : rectT), none, 114), ((⟨460, 0, 461, 1⟩ : rectT), none, 115), ((⟨464, 0, 465, 1⟩ : rectT), none, 116), ((⟨468, 0, 469, 1⟩ : rectT), none, 117), ((⟨472, 0, 473, 1⟩ : rectT), none, 118), ((⟨476, 0, 477, 1⟩ : rectT), none, 119), ((⟨480, 0, 481, 1⟩ : rectT), none, 120), ((⟨484, 0, 485, 1⟩ : rectT), none, 121), ((⟨488, 0, 489, 1⟩ : rectT), none, 122), ((⟨492, 0, 493, 1⟩ : rectT), none, 123)]), 0)]

def leaf124 : nodeT :=
  nodeT.mk 0 [((⟨432, 0, 433, 1⟩ : rectT), none, 108), ((⟨436, 0, 437, 1⟩ : rectT), none, 109), ((⟨440, 0, 441, 1⟩ : rectT), none, 110), ((⟨444, 0, 445, 1⟩ : rectT), none, 111), ((⟨448, 0, 449, 1⟩ : rectT), none, 112), ((⟨452, 0, 453, 1⟩ : rectT), none, 113), ((⟨456, 0, 457, 1⟩ : rectT), none, 114), ((⟨460, 0, 461, 1⟩ : rectT), none, 115), ((⟨464, 0, 465, 1⟩ : rectT), none, 116), ((⟨468, 0, 469, 1⟩ : rectT), none, 117), ((⟨472, 0, 473, 1⟩ : rectT), none, 118), ((⟨476, 0, 477, 1⟩ : rectT), none, 119), ((⟨480, 0, 481, 1⟩ : rectT), none, 120), ((⟨484, 0, 485, 1⟩ : rectT), none, 121), ((⟨488, 0, 489, 1⟩ : rectT), none, 122), ((⟨492, 0, 493, 1⟩ : rectT), none, 123)]

def leaf124a : nodeT :=
  nodeT.mk 0 [((⟨432, 0, 433, 1⟩ : rectT), none, 108), ((⟨436, 0, 437, 1⟩ : rectT), none, 109), ((⟨440, 0, 441, 1⟩ : rectT), none, 110), ((⟨444, 0, 445, 1⟩ : rectT), none, 111), ((⟨448, 0, 449, 1⟩ : rectT), none, 112), ((⟨452, 0, 453, 1⟩ : rectT), none, 113), ((⟨456, 0, 457, 1⟩ : rectT), none, 114), ((⟨460, 0, 461, 1⟩ : rectT), none, 115), ((⟨464, 0, 465, 1⟩ : rectT), none, 116)]

def leaf124b : nodeT :=
  nodeT.mk 0 [((⟨468, 0, 469, 1⟩ : rectT), none, 117), ((⟨472, 0, 473, 1⟩ : rectT), none, 118), ((⟨476, 0, 477, 1⟩ : rectT), none, 119), ((⟨480, 0, 481, 1⟩ : rectT), none, 120), ((⟨484, 0, 485, 1⟩ : rectT), none, 121), ((⟨488, 0, 489, 1⟩ : rectT), none, 122), ((⟨492, 0, 493, 1⟩ : rectT), none, 123), ((⟨496, 0, 497, 1⟩ : rectT), none, 124)]

def state125 : nodeT :=
  nodeT.mk 1 [((⟨0, 0, 33, 1⟩ : rectT), some (nodeT.mk 0 [((⟨0, 0, 1, 1⟩ : rectT), none, 0), ((⟨4, 0, 5, 1⟩ : rectT), none, 1), ((⟨8, 0, 9, 1⟩ : rectT), none, 2), ((⟨12, 0, 13, 1⟩ : rectT), none, 3), ((⟨16, 0, 17, 1⟩ : rectT), none, 4), ((⟨20, 0, 21, 1⟩ : rectT), none, 5), ((⟨24, 0, 25, 1⟩ : rectT), none, 6), ((⟨28, 0, 29, 1⟩ : rectT), none, 7), ((⟨32, 0, 33, 1⟩ : rectT), none, 8)]), 0), ((⟨36, 0, 69, 1⟩ : rectT), some (nodeT.mk 0 [((⟨36, 0, 37, 1⟩ : rectT), none, 9), ((⟨40, 0, 41, 1⟩ : rectT), none, 10), ((⟨44, 0, 45, 1⟩ : rectT), none, 11), ((⟨48, 0, 49, 1⟩ : rectT), none, 12), ((⟨52, 0, 53, 1⟩ : rectT), none, 13), ((⟨56, 0, 57, 1⟩ : rectT), none, 14), ((⟨60, 0, 61, 1⟩ : rectT), none, 15), ((⟨64, 0, 65, 1⟩ : rectT), none, 16), ((⟨68, 0, 69, 1⟩ : rectT), none, 17)]), 0), ((⟨72, 0, 105, 1⟩ : rectT), some (nodeT.mk 0 [((⟨72, 0, 73, 1⟩ : rectT), none, 18), ((⟨76, 0, 77, 1⟩ : rectT), none, 19), ((⟨80, 0, 81, 1⟩ : rectT), none, 20), ((⟨84, 0, 85, 1⟩ : rectT), none, 21), ((⟨88, 0, 89, 1⟩ : rectT), none, 22), ((⟨92, 0, 93, 1⟩ : rectT), none, 23), ((⟨96, 0, 97, 1⟩ : rectT), none, 24), ((⟨100, 0, 101, 1⟩ : rectT), none, 25), ((⟨104, 0, 105, 1⟩ : rectT), none, 26)]), 0), ((⟨108, 0, 141, 1⟩ : rectT), some (nodeT.mk 0 [((⟨108, 0, 109, 1⟩ : rectT), none, 27), ((⟨112, 0, 113, 1⟩ : rectT), none, 28), ((⟨116, 0, 117, 1⟩ : rectT), none, 29), ((⟨120, 0, 121, 1⟩ : rectT), none, 30), ((⟨124, 0, 125, 1⟩ : rectT), none, 31), ((⟨128, 0, 129, 1⟩ : rectT), none, 32), ((⟨132, 0, 133, 1⟩ : rectT), none, 33), ((⟨136, 0, 137, 1⟩ : rectT), none, 34), ((⟨140, 0, 141, 1⟩ : rectT), none, 35)]), 0), ((⟨144, 0, 177, 1⟩ : rectT), some (nodeT.mk 0 [((⟨144, 0, 145, 1⟩ : rectT), none, 36), ((⟨148, 0, 149, 1⟩ : rectT), none, 37), ((⟨152, 0, 153, 1⟩ : rectT), none, 38), ((⟨156, 0, 157, 1⟩ : rectT), none, 39), ((⟨160, 0, 161, 1⟩ : rectT), none, 40), ((⟨164, 0, 165, 1⟩ : rectT), none, 41), ((⟨168, 0, 169, 1⟩ : rectT), none, 42), ((⟨172, 0, 173, 1⟩ : rectT), none, 43), ((⟨176, 0, 177, 1⟩ : rectT), none, 44)]), 0), ((⟨180, 0, 213, 1⟩ : rectT), some (nodeT.mk 0 [((⟨180, 0, 181, 1⟩ : rectT), none, 45), ((⟨184, 0, 185, 1⟩ : rectT), none, 46), ((⟨188, 0, 189, 1⟩ : rectT), none, 47), ((⟨192, 0, 193, 1⟩ : rectT), none, 48), ((⟨196, 0, 197, 1⟩ : rectT), none, 49), ((⟨200, 0, 201, 1⟩ : rectT), none, 50), ((⟨204, 0, 205, 1⟩ : rectT), none, 51), ((⟨208, 0, 209, 1⟩ : rectT), none, 52), ((⟨212, 0, 213, 1⟩ : rectT), none, 53)]), 0), ((⟨216, 0, 249, 1⟩ : rectT), some (nodeT.mk 0 [((⟨216, 0, 217, 1⟩ : rectT), none, 54), ((⟨220, 0, 221, 1⟩ : rectT), none, 55), ((⟨224, 0, 225, 1⟩ : rectT), none, 56), ((⟨228, 0, 229, 1⟩ : rectT), none, 57), ((⟨232, 0, 233, 1⟩ : rectT), none, 58), ((⟨236, 0, 237, 1⟩ : rectT), none, 59), ((⟨240, 0, 241, 1⟩ : rectT), none, 60), ((⟨244, 0, 245, 1⟩ : rectT), none, 61), ((⟨248, 0, 249, 1⟩ : rectT), none, 62)]), 0), ((⟨252, 0, 285, 1⟩ : rectT), some (nodeT.mk 0 [((⟨252, 0, 253, 1⟩ : rectT), none, 63), ((⟨256, 0, 257, 1⟩ : rectT), none, 64), ((⟨260, 0, 261, 1⟩ : rectT), none, 65), ((⟨264, 0, 265, 1⟩ : rectT), none, 66), ((⟨268, 0, 269, 1⟩ : rectT), none, 67), ((⟨272, 0, 273, 1⟩ : rectT), none, 68), ((⟨276, 0, 277, 1⟩ : rectT), none, 69), ((⟨280, 0, 281, 1⟩ : rectT), none, 70), ((⟨284, 0, 285, 1⟩ : rectT), none, 71)]), 0), ((⟨288, 0, 321, 1⟩ : rectT), some (nodeT.mk 0 [((⟨288, 0, 289, 1⟩ : rectT), none, 72), ((⟨292, 0, 293, 1⟩ : rectT), none, 73), ((⟨296, 0, 297, 1⟩ : rectT), none, 74), ((⟨300, 0, 301, 1⟩ : rectT), none, 75), ((⟨304, 0, 305, 1⟩ : rectT), none, 76), ((⟨308, 0, 309, 1⟩ : rectT), none, 77), ((⟨312, 0, 313, 1⟩ : rectT), none, 78), ((⟨316, 0, 317, 1⟩ : rectT), none, 79), ((⟨320, 0, 321, 1⟩ : rectT), none, 80)]), 0), ((⟨324, 0, 357, 1⟩ : rectT), some (nodeT.mk 0 [((⟨324, 0, 325, 1⟩ : rectT), none, 81), ((⟨328, 0, 329, 1⟩ : rectT), none, 82), ((⟨332, 0, 333, 1⟩ : rectT), none, 83), ((⟨336, 0, 337, 1⟩ : rectT), none, 84), ((⟨340, 0, 341, 1⟩ : rectT), none, 85), ((⟨344, 0, 345, 1⟩ : rectT), none, 86), ((⟨348, 0, 349, 1⟩ : rectT), none, 87), ((⟨352, 0, 353, 1⟩ : rectT), none, 88), ((⟨356, 0, 357, 1⟩ : rectT), none, 89)]), 0), ((⟨360, 0, 393, 1⟩ : rectT), some (nodeT.mk 0 [((⟨360, 0, 361, 1⟩ : rectT), none, 90), ((⟨364, 0, 365, 1⟩ : rectT), none, 91), ((⟨368, 0, 369, 1⟩ : rectT), none, 92), ((⟨372, 0, 373, 1⟩ : rectT), none, 93), ((⟨376, 0, 377, 1⟩ : rectT), none, 94), ((⟨380, 0, 381, 1⟩ : rectT), none, 95), ((⟨384, 0, 385, 1⟩ : rectT), none, 96), ((⟨388, 0, 389, 1⟩ : rectT), none, 97), ((⟨392, 0, 393, 1⟩ : rectT), none, 98)]), 0), ((⟨396, 0, 429, 1⟩ : rectT), some (nodeT.mk 0 [((⟨396, 0, 397, 1⟩ : rectT), none, 99), ((⟨400, 0, 401, 1⟩ : rectT), none, 100), ((⟨404, 0, 405, 1⟩ : rectT), none, 101), ((⟨408, 0, 409, 1⟩ : rectT), none, 102), ((⟨412, 0, 413, 1⟩ : rectT), none, 103), ((⟨416, 0, 417, 1⟩ : rectT), none, 104), ((⟨420, 0, 421, 1⟩ : rectT), none, 105), ((⟨424, 0, 425, 1⟩ : rectT), none, 106), ((⟨428, 0, 429, 1⟩ : rectT), none, 107)]), 0), ((⟨432, 0, 465, 1⟩ : rectT), some (nodeT.mk 0 [((⟨432, 0, 433, 1⟩ : rectT), none, 108), ((⟨436, 0, 437, 1⟩ : rectT), none, 109), ((⟨440, 0, 441, 1⟩ : rectT), none, 110), ((⟨444, 0, 445, 1⟩ : rectT), none, 111), ((⟨448, 0, 449, 1⟩ : rectT), none, 112), ((⟨452, 0, 453, 1⟩ : rectT), none, 113), ((⟨456, 0, 457, 1⟩ : rectT), none, 114), ((⟨460, 0, 461, 1⟩ : rectT), none, 115), ((⟨464, 0, 465, 1⟩ : rectT), none, 116)]), 0), ((⟨468, 0, 497, 1⟩ : rectT), some (nodeT.mk 0 [((⟨468, 0, 469, 1⟩ : rectT), none, 117), ((⟨472, 0, 473, 1⟩ : rectT), none, 118), ((⟨476, 0, 477, 1⟩ : rectT), none, 119), ((⟨480, 0, 481, 1⟩ : rectT), none, 120), ((⟨484, 0, 485, 1⟩ : rectT), none, 121), ((⟨488, 0, 489, 1⟩ : rectT), none, 122), ((⟨492, 0, 493, 1⟩ : rectT), none, 123), ((⟨496, 0, 497, 1⟩ : rectT), none, 124)]), 0)]

/-- Root branch list after the first 133 inserts (op 133 splits a leaf). -/
def bs133 : List branchT :=
  [((⟨0, 0, 33, 1⟩ : rectT), some (nodeT.mk 0 [((⟨0, 0, 1, 1⟩ : rectT), none, 0), ((⟨4, 0, 5, 1⟩ : rectT), none, 1), ((⟨8, 0, 9, 1⟩ : rectT), none, 2), ((⟨12, 0, 13, 1⟩ : rectT), none, 3), ((⟨16, 0, 17, 1⟩ : rectT), none, 4), ((⟨20, 0, 21, 1⟩ : rectT), none, 5), ((⟨24, 0, 25, 1⟩ : rectT), none, 6), ((⟨28, 0, 29, 1⟩ : rectT), none, 7), ((⟨32, 0, 33, 1⟩ : rectT), none, 8)]), 0), ((⟨36, 0, 69, 1⟩ : rectT), some (nodeT.mk 0 [((⟨36, 0, 37, 1⟩ : rectT), none, 9), ((⟨40, 0, 41, 1⟩ : rectT), none, 10), ((⟨44, 0, 45, 1⟩ : rectT), none, 11), ((⟨48, 0, 49, 1⟩ : rectT), none, 12), ((⟨52, 0, 53, 1⟩ : rectT), none, 13), ((⟨56, 0, 57, 1⟩ : rectT), none, 14), ((⟨60, 0, 61, 1⟩ : rectT), none, 15), ((⟨64, 0, 65, 1⟩ : rectT), none, 16), ((⟨68, 0, 69, 1⟩ : rectT), none, 17)]), 0), ((⟨72, 0, 105, 1⟩ : rectT), some (nodeT.mk 0 [((⟨72, 0, 73, 1⟩ : rectT), none, 18), ((⟨76, 0, 77, 1⟩ : rectT), none, 19), ((⟨80, 0, 81, 1⟩ : rectT), none, 20), ((⟨84, 0, 85, 1⟩ : rectT), none, 21), ((⟨88, 0, 89, 1⟩ : rectT), none, 22), ((⟨92, 0, 93, 1⟩ : rectT), none, 23), ((⟨96, 0, 97, 1⟩ : rectT), none, 24), ((⟨100, 0, 101, 1⟩ : rectT), none, 25), ((⟨104, 0, 105, 1⟩ : rectT), none, 26)]), 0), ((⟨108, 0, 141, 1⟩ : rectT), some (nodeT.mk 0 [((⟨108, 0, 109, 1⟩ : rectT), none, 27), ((⟨112, 0, 113, 1⟩ : rectT), none, 28), ((⟨116, 0, 117, 1⟩ : rectT), none, 29), ((⟨120, 0, 121, 1⟩ : rectT), none, 30), ((⟨124, 0, 125, 1⟩ : rectT), none, 31), ((⟨128, 0, 129, 1⟩ : rectT), none, 32), ((⟨132, 0, 133, 1⟩ : rectT), none, 33), ((⟨136, 0, 137, 1⟩ : rectT), none, 34), ((⟨140, 0, 141, 1⟩ : rectT), none, 35)]), 0), ((⟨144, 0, 177, 1⟩ : rectT), some (nodeT.mk 0 [((⟨144, 0, 145, 1⟩ : rectT), none, 36), ((⟨148, 0, 149, 1⟩ : rectT), none, 37), ((⟨152, 0, 153, 1⟩ : rectT), none, 38), ((⟨156, 0, 157, 1⟩ : rectT), none, 39), ((⟨160, 0, 161, 1⟩ : rectT), none, 40), ((⟨164, 0, 165, 1⟩ : rectT), none, 41), ((⟨168, 0, 169, 1⟩ : rectT), none, 42), ((⟨172, 0, 173, 1⟩ : rectT), none, 43), ((⟨176, 0, 177, 1⟩ : rectT), none, 44)]), 0), ((⟨180, 0, 213, 1⟩ : rectT), some (nodeT.mk 0 [((⟨180, 0, 181, 1⟩ : rectT), none, 45), ((⟨184, 0, 185, 1⟩ : rectT), none, 46), ((⟨188, 0, 189, 1⟩ : rectT), none, 47), ((⟨192, 0, 193, 1⟩ : rectT), none, 48), ((⟨196, 0, 197, 1⟩ : rectT), none, 49), ((⟨200, 0, 201, 1⟩ : rectT), none, 50), ((⟨204, 0, 205, 1⟩ : rectT), none, 51), ((⟨208, 0, 209, 1⟩ : rectT), none, 52), ((⟨212, 0, 213, 1⟩ : rectT), none, 53)]), 0), ((⟨216, 0, 249, 1⟩ : rectT), some (nodeT.mk 0 [((⟨216, 0, 217, 1⟩ : rectT), none, 54), ((⟨220, 0, 221, 1⟩ : rectT), none, 55), ((⟨224, 0, 225, 1⟩ : rectT), none, 56), ((⟨228, 0, 229, 1⟩ : rectT), none, 57), ((⟨232, 0, 233, 1⟩ : rectT), none, 58), ((⟨236, 0, 237, 1⟩ : rectT), none, 59), ((⟨240, 0, 241, 1⟩ : rectT), none, 60), ((⟨244, 0, 245, 1⟩ : rectT), none, 61), ((⟨248, 0, 249, 1⟩ : rectT), none, 62)]), 0), ((⟨252, 0, 285, 1⟩ : rectT), some (nodeT.mk 0 [((⟨252, 0, 253, 1⟩ : rectT), none, 63), ((⟨256, 0, 257, 1⟩ : rectT), none, 64), ((⟨260, 0, 261, 1⟩ : rectT), none, 65), ((⟨264, 0, 265, 1⟩ : rectT), none, 66), ((⟨268, 0, 269, 1⟩ : rectT), none, 67), ((⟨272, 0, 273, 1⟩ : rectT), none, 68), ((⟨276, 0, 277, 1⟩ : rectT), none, 69), ((⟨280, 0, 281, 1⟩ : rectT), none, 70), ((⟨284, 0, 285, 1⟩ : rectT), none, 71)]), 0), ((⟨288, 0, 321, 1⟩ : rectT), some (nodeT.mk 0 [((⟨288, 0, 289, 1⟩ : rectT), none, 72), ((⟨292, 0, 293, 1⟩ : rectT), none, 73), ((⟨296, 0, 297, 1⟩ : rectT), none, 74), ((⟨300, 0, 301, 1⟩ : rectT), none, 75), ((⟨304, 0, 305, 1⟩ : rectT), none, 76), ((⟨308, 0, 309, 1⟩ : rectT), none, 77), ((⟨312, 0, 313, 1⟩ : rectT), none, 78), ((⟨316, 0, 317, 1⟩ : rectT), none, 79), ((⟨320, 0, 321, 1⟩ : rectT), none, 80)]), 0), ((⟨324, 0, 357, 1⟩ : rectT), some (nodeT.mk 0 [((⟨324, 0, 325, 1⟩ : rectT), none, 81), ((⟨328, 0, 329, 1⟩ : rectT), none, 82), ((⟨332, 0, 333, 1⟩ : rectT), none, 83), ((⟨336, 0, 337, 1⟩ : rectT), none, 84), ((⟨340, 0, 341, 1⟩ : rectT), none, 85), ((⟨344, 0, 345, 1⟩ : rectT), none, 86), ((⟨348, 0, 349, 1⟩ : rectT), none, 87), ((⟨352, 0, 353, 1⟩ : rectT), none, 88), ((⟨356, 0, 357, 1⟩ : rectT), none, 89)]), 0), ((⟨360, 0, 393, 1⟩ : rectT), some (nodeT.mk 0 [((⟨360, 0, 361, 1⟩ : rectT), none, 90), ((⟨364, 0, 365, 1⟩ : rectT), none, 91), ((⟨368, 0, 369, 1⟩ : rectT), none, 92), ((⟨372, 0, 373, 1⟩ : rectT), none, 93), ((⟨376, 0, 377, 1⟩ : rectT), none, 94), ((⟨380, 0, 381, 1⟩ : rectT), none, 95), ((⟨384, 0, 385, 1⟩ : rectT), none, 96), ((⟨388, 0, 389, 1⟩ : rectT), none, 97), ((⟨392, 0, 393, 1⟩ : rectT), none, 98)]), 0), ((⟨396, 0, 429, 1⟩ : rectT), some (nodeT.mk 0 [((⟨396, 0, 397, 1⟩ : rectT), none, 99), ((⟨400, 0, 401, 1⟩ : rectT), none, 100), ((⟨404, 0, 405, 1⟩ : rectT), none, 101), ((⟨408, 0, 409, 1⟩ : rectT), none, 102), ((⟨412, 0, 413, 1⟩ : rectT), none, 103), ((⟨416, 0, 417, 1⟩ : rectT), none, 104), ((⟨420, 0, 421, 1⟩ : rectT), none, 105), ((⟨424, 0, 425, 1⟩ : rectT), none, 106), ((⟨428, 0, 429, 1⟩ : rectT), none, 107)]), 0), ((⟨432, 0, 465, 1⟩ : rectT), some (nodeT.mk 0 [((⟨432, 0, 433, 1⟩ : rectT), none, 108), ((⟨436, 0, 437, 1⟩ : rectT), none, 109), ((⟨440, 0, 441, 1⟩ : rectT), none, 110), ((⟨444, 0, 445, 1⟩ : rectT), none, 111), ((⟨448, 0, 449, 1⟩ : rectT), none, 112), ((⟨452, 0, 453, 1⟩ : rectT), none, 113), ((⟨456, 0, 457, 1⟩ : rectT), none, 114), ((⟨460, 0, 461, 1⟩ : rectT), none, 115), ((⟨464, 0, 465, 1⟩ : rectT), none, 116)]), 0), ((⟨468, 0, 529, 1⟩ : rectT), some (nodeT.mk 0 [((⟨468, 0, 469, 1⟩ : rectT), none, 117), ((⟨472, 0, 473, 1⟩ : rectT), none, 118), ((⟨476, 0, 477, 1⟩ : rectT), none, 119), ((⟨480, 0, 481, 1⟩ : rectT), none, 120), ((⟨484, 0, 485, 1⟩ : rectT), none, 121), ((⟨488, 0, 489, 1⟩ : rectT), none, 122), ((⟨492, 0, 493, 1⟩ : rectT), none, 123), ((⟨496, 0, 497, 1⟩ : rectT), none, 124), ((⟨500, 0, 501, 1⟩ : rectT), none, 125), ((⟨504, 0, 505, 1⟩ : rectT), none, 126), ((⟨508, 0, 509, 1⟩ : rectT), none, 127), ((⟨512, 0, 513, 1⟩ : rectT), none, 128), ((⟨516, 0, 517, 1⟩ : rectT), none, 129), ((⟨520, 0, 521, 1⟩ : rectT), none, 130), ((⟨524, 0, 525, 1⟩ : rectT), none, 131), ((⟨528, 0, 529, 1⟩ : rectT), none, 132)]), 0)]

def leaf133 : nodeT :=
  nodeT.mk 0 [((⟨468, 0, 469, 1⟩ : rectT), none, 117), ((⟨472, 0, 473, 1⟩ : rectT), none, 118), ((⟨476, 0, 477, 1⟩ : rectT), none, 119), ((⟨480, 0, 481, 1⟩ : rectT), none, 120), ((⟨484, 0, 485, 1⟩ : rectT), none, 121), ((⟨488, 0, 489, 1⟩ : rectT), none, 122), ((⟨492, 0, 493, 1⟩ : rectT), none, 123), ((⟨496, 0, 497, 1⟩ : rectT), none, 124), ((⟨500, 0, 501, 1⟩ : rectT), none, 125), ((⟨504, 0, 505, 1⟩ : rectT), none, 126), ((⟨508, 0, 509, 1⟩ : rectT), none, 127), ((⟨512, 0, 513, 1⟩ : rectT), none, 128), ((⟨516, 0, 517, 1⟩ : rectT), none, 129), ((⟨520, 0, 521, 1⟩ : rectT), none, 130), ((⟨524, 0, 525, 1⟩ : rectT), none, 131), ((⟨528, 0, 529, 1⟩ : rectT), none, 132)]

def leaf133a : nodeT :=
  nodeT.mk 0 [((⟨468, 0, 469, 1⟩ : rectT), none, 117), ((⟨472, 0, 473, 1⟩ : rectT), none, 118), ((⟨476, 0, 477, 1⟩ : rectT), none, 119), ((⟨480, 0, 481, 1⟩ : rectT), none, 120), ((⟨484, 0, 485, 1⟩ : rectT), none, 121), ((⟨488, 0, 489, 1⟩ : rectT), none, 122), ((⟨492, 0, 493, 1⟩ : rectT), none, 123), ((⟨496, 0, 497, 1⟩ : rectT), none, 124), ((⟨500, 0, 501, 1⟩ : rectT), none, 125)]

def leaf133b : nodeT :=
  nodeT.mk 0 [((⟨504, 0, 505, 1⟩ : rectT), none, 126), ((⟨508, 0, 509, 1⟩ : rectT), none, 127), ((⟨512, 0, 513, 1⟩ : rectT), none, 128), ((⟨516, 0, 517, 1⟩ : rectT), none, 129), ((⟨520, 0, 521, 1⟩ : rectT), none, 130), ((⟨524, 0, 525, 1⟩ : rectT), none, 131), ((⟨528, 0, 529, 1⟩ : rectT), none, 132), ((⟨532, 0, 533, 1⟩ : rectT), none, 133)]

def state134 : nodeT :=
  nodeT.mk 1 [((⟨0, 0, 33, 1⟩ : rectT), some (nodeT.mk 0 [((⟨0, 0, 1, 1⟩ : rectT), none, 0), ((⟨4, 0, 5, 1⟩ : rectT), none, 1), ((⟨8, 0, 9, 1⟩ : rectT), none, 2), ((⟨12, 0, 13, 1⟩ : rectT), none, 3), ((⟨16, 0, 17, 1⟩ : rectT), none, 4), ((⟨20, 0, 21, 1⟩ : rectT), none, 5), ((⟨24, 0, 25, 1⟩ : rectT), none, 6), ((⟨28, 0, 29, 1⟩ : rectT), none, 7), ((⟨32, 0, 33, 1⟩ : rectT), none, 8)]), 0), ((⟨36, 0, 69, 1⟩ : rectT), some (nodeT.mk 0 [((⟨36, 0, 37, 1⟩ : rectT), none, 9), ((⟨40, 0, 41, 1⟩ : rectT), none, 10), ((⟨44, 0, 45, 1⟩ : rectT), none, 11), ((⟨48, 0, 49, 1⟩ : rectT), none, 12), ((⟨52, 0, 53, 1⟩ : rectT), none, 13), ((⟨56, 0, 57, 1⟩ : rectT), none, 14), ((⟨60, 0, 61, 1⟩ : rectT), none, 15), ((⟨64, 0, 65, 1⟩ : rectT), none, 16), ((⟨68, 0, 69, 1⟩ : rectT), none, 17)]), 0), ((⟨72, 0, 105, 1⟩ : rectT), some (nodeT.mk 0 [((⟨72, 0, 73, 1⟩ : rectT), none, 18), ((⟨76, 0, 77, 1⟩ : rectT), none, 19), ((⟨80, 0, 81, 1⟩ : rectT), none, 20), ((⟨84, 0, 85, 1⟩ : rectT), none, 21), ((⟨88, 0, 89, 1⟩ : rectT), none, 22), ((⟨92, 0, 93, 1⟩ : rectT), none, 23), ((⟨96, 0, 97, 1⟩ : rectT), none, 24), ((⟨100, 0, 101, 1⟩ : rectT), none, 25), ((⟨104, 0, 105, 1⟩ : rectT), none, 26)]), 0), ((⟨108, 0, 141, 1⟩ : rectT), some (nodeT.mk 0 [((⟨108, 0, 109, 1⟩ : rectT), none, 27), ((⟨112, 0, 113, 1⟩ : rectT), none, 28), ((⟨116, 0, 117, 1⟩ : rectT), none, 29), ((⟨120, 0, 121, 1⟩ : rectT), none, 30), ((⟨124, 0, 125, 1⟩ : rectT), none, 31), ((⟨128, 0, 129, 1⟩ : rectT), none, 32), ((⟨132, 0, 133, 1⟩ : rectT), none, 33), ((⟨136, 0, 137, 1⟩ : rectT), none, 34), ((⟨140, 0, 141, 1⟩ : rectT), none, 35)]), 0), ((⟨144, 0, 177, 1⟩ : rectT), some (nodeT.mk 0 [((⟨144, 0, 145, 1⟩ : rectT), none, 36), ((⟨148, 0, 149, 1⟩ : rectT), none, 37), ((⟨152, 0, 153, 1⟩ : rectT), none, 38), ((⟨156, 0, 157, 1⟩ : rectT), none, 39), ((⟨160, 0, 161, 1⟩ : rectT), none, 40), ((⟨164, 0, 165, 1⟩ : rectT), none, 41), ((⟨168, 0, 169, 1⟩ : rectT), none, 42), ((⟨172, 0, 173, 1⟩ : rectT), none, 43), ((⟨176, 0, 177, 1⟩ : rectT), none, 44)]), 0), ((⟨180, 0, 213, 1⟩ : rectT), some (nodeT.mk 0 [((⟨180, 0, 181, 1⟩ : rectT), none, 45), ((⟨184, 0, 185, 1⟩ : rectT), none, 46), ((⟨188, 0, 189, 1⟩ : rectT), none, 47), ((⟨192, 0, 193, 1⟩ : rectT), none, 48), ((⟨196, 0, 197, 1⟩ : rectT), none, 49), ((⟨200, 0, 201, 1⟩ : rectT), none, 50), ((⟨204, 0, 205, 1⟩ : rectT), none, 51), ((⟨208, 0, 209, 1⟩ : rectT), none, 52), ((⟨212, 0, 213, 1⟩ : rectT), none, 53)]), 0), ((⟨216, 0, 249, 1⟩ : rectT), some (nodeT.mk 0 [((⟨216, 0, 217, 1⟩ : rectT), none, 54), ((⟨220, 0, 221, 1⟩ : rectT), none, 55), ((⟨224, 0, 225, 1⟩ : rectT), none, 56), ((⟨228, 0, 229, 1⟩ : rectT), none, 57), ((⟨232, 0, 233, 1⟩ : rectT), none, 58), ((⟨236, 0, 237, 1⟩ : rectT), none, 59), ((⟨240, 0, 241, 1⟩ : rectT), none, 60), ((⟨244, 0, 245, 1⟩ : rectT), none, 61), ((⟨248, 0, 249, 1⟩ : rectT), none, 62)]), 0), ((⟨252, 0, 285, 1⟩ : rectT), some (nodeT.mk 0 [((⟨252, 0, 253, 1⟩ : rectT), none, 63), ((⟨256, 0, 257, 1⟩ : rectT), none, 64), ((⟨260, 0, 261, 1⟩ : rectT), none, 65), ((⟨264, 0, 265, 1⟩ : rectT), none, 66), ((⟨268, 0, 269, 1⟩ : rectT), none, 67), ((⟨272, 0, 273, 1⟩ : rectT), none, 68), ((⟨276, 0, 277, 1⟩ : rectT), none, 69), ((⟨280, 0, 281, 1⟩ : rectT), none, 70), ((⟨284, 0, 285, 1⟩ : rectT), none, 71)]), 0), ((⟨288, 0, 321, 1⟩ : rectT), some (nodeT.mk 0 [((⟨288, 0, 289, 1⟩ : rectT), none, 72), ((⟨292, 0, 293, 1⟩ : rectT), none, 73), ((⟨296, 0, 297, 1⟩ : rectT), none, 74), ((⟨300, 0, 301, 1⟩ : rectT), none, 75), ((⟨304, 0, 305, 1⟩ : rectT), none, 76), ((⟨308, 0, 309, 1⟩ : rectT), none, 77), ((⟨312, 0, 313, 1⟩ : rectT), none, 78), ((⟨316, 0, 317, 1⟩ : rectT), none, 79), ((⟨320, 0, 321, 1⟩ : rectT), none, 80)]), 0), ((⟨324, 0, 357, 1⟩ : rectT), some (nodeT.mk 0 [((⟨324, 0, 325, 1⟩ : rectT), none, 81), ((⟨328, 0, 329, 1⟩ : rectT), none, 82), ((⟨332, 0, 333, 1⟩ : rectT), none, 83), ((⟨336, 0, 337, 1⟩ : rectT), none, 84), ((⟨340, 0, 341, 1⟩ : rectT), none, 85), ((⟨344, 0, 345, 1⟩ : rectT), none, 86), ((⟨348, 0, 349, 1⟩ : rectT), none, 87), ((⟨352, 0, 353, 1⟩ : rectT), none, 88), ((⟨356, 0, 357, 1⟩ : rectT), none, 89)]), 0), ((⟨360, 0, 393, 1⟩ : rectT), some (nodeT.mk 0 [((⟨360, 0, 361, 1⟩ : rectT), none, 90), ((⟨364, 0, 365, 1⟩ : rectT), none, 91), ((⟨368, 0, 369, 1⟩ : rectT), none, 92), ((⟨372, 0, 373, 1⟩ : rectT), none, 93), ((⟨376, 0, 377, 1⟩ : rectT), none, 94), ((⟨380, 0, 381, 1⟩ : rectT), none, 95), ((⟨384, 0, 385, 1⟩ : rectT), none, 96), ((⟨388, 0, 389, 1⟩ : rectT), none, 97), ((⟨392, 0, 393, 1⟩ : rectT), none, 98)]), 0), ((⟨396, 0, 429, 1⟩ : rectT), some (nodeT.mk 0 [((⟨396, 0, 397, 1⟩ : rectT), none, 99), ((⟨400, 0, 401, 1⟩ : rectT), none, 100), ((⟨404, 0, 405, 1⟩ : rectT), none, 101), ((⟨408, 0, 409, 1⟩ : rectT), none, 102), ((⟨412, 0, 413, 1⟩ : rectT), none, 103), ((⟨416, 0, 417, 1⟩ : rectT), none, 104), ((⟨420, 0, 421, 1⟩ : rectT), none, 105), ((⟨424, 0, 425, 1⟩ : rectT), none, 106), ((⟨428, 0, 429, 1⟩ : rectT), none, 107)]), 0), ((⟨432, 0, 465, 1⟩ : rectT), some (nodeT.mk 0 [((⟨432, 0, 433, 1⟩ : rectT), none, 108), ((⟨436, 0, 437, 1⟩ : rectT), none, 109), ((⟨440, 0, 441, 1⟩ : rectT), none, 110), ((⟨444, 0, 445, 1⟩ : rectT), none, 111), ((⟨448, 0, 449, 1⟩ : rectT), none, 112), ((⟨452, 0, 453, 1⟩ : rectT), none, 113), ((⟨456, 0, 457, 1⟩ : rectT), none, 114), ((⟨460, 0, 461, 1⟩ : rectT), none, 115), ((⟨464, 0, 465, 1⟩ : rectT), none, 116)]), 0), ((⟨468, 0, 501, 1⟩ : rectT), some (nodeT.mk 0 [((⟨468, 0, 469, 1⟩ : rectT), none, 117), ((⟨472, 0, 473, 1⟩ : rectT), none, 118), ((⟨476, 0, 477, 1⟩ : rectT), none, 119), ((⟨480, 0, 481, 1⟩ : rectT), none, 120), ((⟨484, 0, 485, 1⟩ : rectT), none, 121), ((⟨488, 0, 489, 1⟩ : rectT), none, 122), ((⟨492, 0, 493, 1⟩ : rectT), none, 123), ((⟨496, 0, 497, 1⟩ : rectT), none, 124), ((⟨500, 0, 501, 1⟩ : rectT), none, 125)]), 0), ((⟨504, 0, 533, 1⟩ : rectT), some (nodeT.mk 0 [((⟨504, 0, 505, 1⟩ : rectT), none, 126), ((⟨508, 0, 509, 1⟩ : rectT), none, 127), ((⟨512, 0, 513, 1⟩ : rectT), none, 128), ((⟨516, 0, 517, 1⟩ : rectT), none, 129), ((⟨520, 0, 521, 1⟩ : rectT), none, 130), ((⟨524, 0, 525, 1⟩ : rectT), none, 131), ((⟨528, 0, 529, 1⟩ : rectT), none, 132), ((⟨532, 0, 533, 1⟩ : rectT), none, 133)]), 0)]

/-- Root branch list after the first 142 inserts (op 142 splits a leaf). -/
def bs142 : List branchT :=
  [((⟨0, 0, 33, 1⟩ : rectT), some (nodeT.mk 0 [((⟨0, 0, 1, 1⟩ : rectT), none, 0), ((⟨4, 0, 5, 1⟩ : rectT), none, 1), ((⟨8, 0, 9, 1⟩ : rectT), none, 2), ((⟨12, 0, 13, 1⟩ : rectT), none, 3), ((⟨16, 0, 17, 1⟩ : rectT), none, 4), ((⟨20, 0, 21, 1⟩ : rectT), none, 5), ((⟨24, 0, 25, 1⟩ : rectT), none, 6), ((⟨28, 0, 29, 1⟩ : rectT), none, 7), ((⟨32, 0, 33, 1⟩ : rectT), none, 8)]), 0), ((⟨36, 0, 69, 1⟩ : rectT), some (nodeT.mk 0 [((⟨36, 0, 37, 1⟩ : rectT), none, 9), ((⟨40, 0, 41, 1⟩ : rectT), none, 10), ((⟨44, 0, 45, 1⟩ : rectT), none, 11), ((⟨48, 0, 49, 1⟩ : rectT), none, 12), ((⟨52, 0, 53, 1⟩ : rectT), none, 13), ((⟨56, 0, 57, 1⟩ : rectT), none, 14), ((⟨60, 0, 61, 1⟩ : rectT), none, 15), ((⟨64, 0, 65, 1⟩ : rectT), none, 16), ((⟨68, 0, 69, 1⟩ : rectT), none, 17)]), 0), ((⟨72, 0, 105, 1⟩ : rectT), some (nodeT.mk 0 [((⟨72, 0, 73, 1⟩ : rectT), none, 18), ((⟨76, 0, 77, 1⟩ : rectT), none, 19), ((⟨80, 0, 81, 1⟩ : rectT), none, 20), ((⟨84, 0, 85, 1⟩ : rectT), none, 21), ((⟨88, 0, 89, 1⟩ : rectT), none, 22), ((⟨92, 0, 93, 1⟩ : rectT), none, 23), ((⟨96, 0, 97, 1⟩ : rectT), none, 24), ((⟨100, 0, 101, 1⟩ : rectT), none, 25), ((⟨104, 0, 105, 1⟩ : rectT), none, 26)]), 0), ((⟨108, 0, 141, 1⟩ : rectT), some (nodeT.mk 0 [((⟨108, 0, 109, 1⟩ : rectT), none, 27), ((⟨112, 0, 113, 1⟩ : rectT), none, 28), ((⟨116, 0, 117, 1⟩ : rectT), none, 29), ((⟨120, 0, 121, 1⟩ : rectT), none, 30), ((⟨124, 0, 125, 1⟩ : rectT), none, 31), ((⟨128, 0, 129, 1⟩ : rectT), none, 32), ((⟨132, 0, 133, 1⟩ : rectT), none, 33), ((⟨136, 0, 137, 1⟩ : rectT), none, 34), ((⟨140, 0, 141, 1⟩ : rectT), none, 35)]), 0), ((⟨144, 0, 177, 1⟩ : rectT), some (nodeT.mk 0 [((⟨144, 0, 145, 1⟩ : rectT), none, 36), ((⟨148, 0, 149, 1⟩ : rectT), none, 37), ((⟨152, 0, 153, 1⟩ : rectT), none, 38), ((⟨156, 0, 157, 1⟩ : rectT), none, 39), ((⟨160, 0, 161, 1⟩ : rectT), none, 40), ((⟨164, 0, 165, 1⟩ : rectT), none, 41), ((⟨168, 0, 169, 1⟩ : rectT), none, 42), ((⟨172, 0, 173, 1⟩ : rectT), none, 43), ((⟨176, 0, 177, 1⟩ : rectT), none, 44)]), 0), ((⟨180, 0, 213, 1⟩ : rectT), some (nodeT.mk 0 [((⟨180, 0, 181, 1⟩ : rectT), none, 45), ((⟨184, 0, 185, 1⟩ : rectT), none, 46), ((⟨188, 0, 189, 1⟩ : rectT), none, 47), ((⟨192, 0, 193, 1⟩ : rectT), none, 48), ((⟨196, 0, 197, 1⟩ : rectT), none, 49), ((⟨200, 0, 201, 1⟩ : rectT), none, 50), ((⟨204, 0, 205, 1⟩ : rectT), none, 51), ((⟨208, 0, 209, 1⟩ : rectT), none, 52), ((⟨212, 0, 213, 1⟩ : rectT), none, 53)]), 0), ((⟨216, 0, 249, 1⟩ : rectT), some (nodeT.mk 0 [((⟨216, 0, 217, 1⟩ : rectT), none, 54), ((⟨220, 0, 221, 1⟩ : rectT), none, 55), ((⟨224, 0, 225, 1⟩ : rectT), none, 56), ((⟨228, 0, 229, 1⟩ : rectT), none, 57), ((⟨232, 0, 233, 1⟩ : rectT), none, 58), ((⟨236, 0, 237, 1⟩ : rectT), none, 59), ((⟨240, 0, 241, 1⟩ : rectT), none, 60), ((⟨244, 0, 245, 1⟩ : rectT), none, 61), ((⟨248, 0, 249, 1⟩ : rectT), none, 62)]), 0), ((⟨252, 0, 285, 1⟩ : rectT), some (nodeT.mk 0 [((⟨252, 0, 253, 1⟩ : rectT), none, 63), ((⟨256, 0, 257, 1⟩ : rectT), none, 64), ((⟨260, 0, 261, 1⟩ : rectT), none, 65), ((⟨264, 0, 265, 1⟩ : rectT), none, 66), ((⟨268, 0, 269, 1⟩ : rectT), none, 67), ((⟨272, 0, 273, 1⟩ : rectT), none, 68), ((⟨276, 0, 277, 1⟩ : rectT), none, 69), ((⟨280, 0, 281, 1⟩ : rectT), none, 70), ((⟨284, 0, 285, 1⟩ : rectT), none, 71)]), 0), ((⟨288, 0, 321, 1⟩ : rectT), some (nodeT.mk 0 [((⟨288, 0, 289, 1⟩ : rectT), none, 72), ((⟨292, 0, 293, 1⟩ : rectT), none, 73), ((⟨296, 0, 297, 1⟩ : rectT), none, 74), ((⟨300, 0, 301, 1⟩ : rectT), none, 75), ((⟨304, 0, 305, 1⟩ : rectT), none, 76), ((⟨308, 0, 309, 1⟩ : rectT), none, 77), ((⟨312, 0, 313, 1⟩ : rectT), none, 78), ((⟨316, 0, 317, 1⟩ : rectT), none, 79), ((⟨320, 0, 321, 1⟩ : rectT), none, 80)]), 0), ((⟨324, 0, 357, 1⟩ : rectT), some (nodeT.mk 0 [((⟨324, 0, 325, 1⟩ : rectT), none, 81), ((⟨328, 0, 329, 1⟩ : rectT), none, 82), ((⟨332, 0, 333, 1⟩ : rectT), none, 83), ((⟨336, 0, 337, 1⟩ : rectT), none, 84), ((⟨340, 0, 341, 1⟩ : rectT), none, 85), ((⟨344, 0, 345, 1⟩ : rectT), none, 86), ((⟨348, 0, 349, 1⟩ : rectT), none, 87), ((⟨352, 0, 353, 1⟩ : rectT), none, 88), ((⟨356, 0, 357, 1⟩ : rectT), none, 89)]), 0), ((⟨360, 0, 393, 1⟩ : rectT), some (nodeT.mk 0 [((⟨360, 0, 361, 1⟩ : rectT), none, 90), ((⟨364, 0, 365, 1⟩ : rectT), none, 91), ((⟨368, 0, 369, 1⟩ : rectT), none, 92), ((⟨372, 0, 373, 1⟩ : rectT), none, 93), ((⟨376, 0, 377, 1⟩ : rectT), none, 94), ((⟨380, 0, 381, 1⟩ : rectT), none, 95), ((⟨384, 0, 385, 1⟩ : rectT), none, 96), ((⟨388, 0, 389, 1⟩ : rectT), none, 97), ((⟨392, 0, 393, 1⟩ : rectT), none, 98)]), 0), ((⟨396, 0, 429, 1⟩ : rectT), some (nodeT.mk 0 [((⟨396, 0, 397, 1⟩ : rectT), none, 99), ((⟨400, 0, 401, 1⟩ : rectT), none, 100), ((⟨404, 0, 405, 1⟩ : rectT), none, 101), ((⟨408, 0, 409, 1⟩ : rectT), none, 102), ((⟨412, 0, 413, 1⟩ : rectT), none, 103), ((⟨416, 0, 417, 1⟩ : rectT), none, 104), ((⟨420, 0, 421, 1⟩ : rectT), none, 105), ((⟨424, 0, 425, 1⟩ : rectT), none, 106), ((⟨428, 0, 429, 1⟩ : rectT), none, 107)]), 0), ((⟨432, 0, 465, 1⟩ : rectT), some (nodeT.mk 0 [((⟨432, 0, 433, 1⟩ : rectT), none, 108), ((⟨436, 0, 437, 1⟩ : rectT), none, 109), ((⟨440, 0, 441, 1⟩ : rectT), none, 110), ((⟨444, 0, 445, 1⟩ : rectT), none, 111), ((⟨448, 0, 449, 1⟩ : rectT), none, 112), ((⟨452, 0, 453, 1⟩ : rectT), none, 113), ((⟨456, 0, 457, 1⟩ : rectT), none, 114), ((⟨460, 0, 461, 1⟩ : rectT), none, 115), ((⟨464, 0, 465, 1⟩ : rectT), none, 116)]), 0), ((⟨468, 0, 501, 1⟩ : rectT), some (nodeT.mk 0 [((⟨468, 0, 469, 1⟩ : rectT), none, 117), ((⟨472, 0, 473, 1⟩ : rectT), none, 118), ((⟨476, 0, 477, 1⟩ : rectT), none, 119), ((⟨480, 0, 481, 1⟩ : rectT), none, 120), ((⟨484, 0, 485, 1⟩ : rectT), none, 121), ((⟨488, 0, 489, 1⟩ : rectT), none, 122), ((⟨492, 0, 493, 1⟩ : rectT), none, 123), ((⟨496, 0, 497, 1⟩ : rectT), none, 124), ((⟨500, 0, 501, 1⟩ : rectT), none, 125)]), 0), ((⟨504, 0, 565, 1⟩ : rectT), some (nodeT.mk 0 [((⟨504, 0, 505, 1⟩ : rectT), none, 126), ((⟨508, 0, 509, 1⟩ : rectT), none, 127), ((⟨512, 0, 513, 1⟩ : rectT), none, 128), ((⟨516, 0, 517, 1⟩ : rectT), none, 129), ((⟨520, 0, 521, 1⟩ : rectT), none, 130), ((⟨524, 0, 525, 1⟩ : rectT), none, 131), ((⟨528, 0, 529, 1⟩ : rectT), none, 132), ((⟨532, 0, 533, 1⟩ : rectT), none, 133), ((⟨536, 0, 537, 1⟩ : rectT), none, 134), ((⟨540, 0, 541, 1⟩ : rectT), none, 135), ((⟨544, 0, 545, 1⟩ : rectT), none, 136), ((⟨548, 0, 549, 1⟩ : rectT), none, 137), ((⟨552, 0, 553, 1⟩ : rectT), none, 138), ((⟨556, 0, 557, 1⟩ : rectT), none, 139), ((⟨560, 0, 561, 1⟩ : rectT), none, 140), ((⟨564, 0, 565, 1⟩ : rectT), none, 141)]), 0)]

def leaf142 : nodeT :=
  nodeT.mk 0 [((⟨504, 0, 505, 1⟩ : rectT), none, 126), ((⟨508, 0, 509, 1⟩ : rectT), none, 127), ((⟨512, 0, 513, 1⟩ : rectT), none, 128), ((⟨516, 0, 517, 1⟩ : rectT), none, 129), ((⟨520, 0, 521, 1⟩ : rectT), none, 130), ((⟨524, 0, 525, 1⟩ : rectT), none, 131), ((⟨528, 0, 529, 1⟩ : rectT), none, 132), ((⟨532, 0, 533, 1⟩ : rectT), none, 133), ((⟨536, 0, 537, 1⟩ : rectT), none, 134), ((⟨540, 0, 541, 1⟩ : rectT), none, 135), ((⟨544, 0, 545, 1⟩ : rectT), none, 136), ((⟨548, 0, 549, 1⟩ : rectT), none, 137), ((⟨552, 0, 553, 1⟩ : rectT), none, 138), ((⟨556, 0, 557, 1⟩ : rectT), none, 139), ((⟨560, 0, 561, 1⟩ : rectT), none, 140), ((⟨564, 0, 565, 1⟩ : rectT), none, 141)]

def leaf142a : nodeT :=
  nodeT.mk 0 [((⟨504, 0, 505, 1⟩ : rectT), none, 126), ((⟨508, 0, 509, 1⟩ : rectT), none, 127), ((⟨512, 0, 513, 1⟩ : rectT), none, 128), ((⟨516, 0, 517, 1⟩ : rectT), none, 129), ((⟨520, 0, 521, 1⟩ : rectT), none, 130), ((⟨524, 0, 525, 1⟩ : rectT), none, 131), ((⟨528, 0, 529, 1⟩ : rectT), none, 132), ((⟨532, 0, 533, 1⟩ : rectT), none, 133), ((⟨536, 0, 537, 1⟩ : rectT), none, 134)]

def leaf142b : nodeT :=
  nodeT.mk 0 [((⟨540, 0, 541, 1⟩ : rectT), none, 135), ((⟨544, 0, 545, 1⟩ : rectT), none, 136), ((⟨548, 0, 549, 1⟩ : rectT), none, 137), ((⟨552, 0, 553, 1⟩ : rectT), none, 138), ((⟨556, 0, 557, 1⟩ : rectT), none, 139), ((⟨560, 0, 561, 1⟩ : rectT), none, 140), ((⟨564, 0, 565, 1⟩ : rectT), none, 141), ((⟨568, 0, 569, 1⟩ : rectT), none, 142)]

def state143 : nodeT :=
  nodeT.mk 1 [((⟨0, 0, 33, 1⟩ : rectT), some (nodeT.mk 0 [((⟨0, 0, 1, 1⟩ : rectT), none, 0), ((⟨4, 0, 5, 1⟩ : rectT), none, 1), ((⟨8, 0, 9, 1⟩ : rectT), none, 2), ((⟨12, 0, 13, 1⟩ : rectT), none, 3), ((⟨16, 0, 17, 1⟩ : rectT), none, 4), ((⟨20, 0, 21, 1⟩ : rectT), none, 5), ((⟨24, 0, 25, 1⟩ : rectT), none, 6), ((⟨28, 0, 29, 1⟩ : rectT), none, 7), ((⟨32, 0, 33, 1⟩ : rectT), none, 8)]), 0), ((⟨36, 0, 69, 1⟩ : rectT), some (nodeT.mk 0 [((⟨36, 0, 37, 1⟩ : rectT), none, 9), ((⟨40, 0, 41, 1⟩ : rectT), none, 10), ((⟨44, 0, 45, 1⟩ : rectT), none, 11), ((⟨48, 0, 49, 1⟩ : rectT), none, 12), ((⟨52, 0, 53, 1⟩ : rectT), none, 13), ((⟨56, 0, 57, 1⟩ : rectT), none, 14), ((⟨60, 0, 61, 1⟩ : rectT), none, 15), ((⟨64, 0, 65, 1⟩ : rectT), none, 16), ((⟨68, 0, 69, 1⟩ : rectT), none, 17)]), 0), ((⟨72, 0, 105, 1⟩ : rectT), some (nodeT.mk 0 [((⟨72, 0, 73, 1⟩ : rectT), none, 18), ((⟨76, 0, 77, 1⟩ : rectT), none, 19), ((⟨80, 0, 81, 1⟩ : rectT), none, 20), ((⟨84, 0, 85, 1⟩ : rectT), none, 21), ((⟨88, 0, 89, 1⟩ : rectT), none, 22), ((⟨92, 0, 93, 1⟩ : rectT), none, 23), ((⟨96, 0, 97, 1⟩ : rectT), none, 24), ((⟨100, 0, 101, 1⟩ : rectT), none, 25), ((⟨104, 0, 105, 1⟩ : rectT), none, 26)]), 0), ((⟨108, 0, 141, 1⟩ : rectT), some (nodeT.mk 0 [((⟨108, 0, 109, 1⟩ : rectT), none, 27), ((⟨112, 0, 113, 1⟩ : rectT), none, 28), ((⟨116, 0, 117, 1⟩ : rectT), none, 29), ((⟨120, 0, 121, 1⟩ : rectT), none, 30), ((⟨124, 0, 125, 1⟩ : rectT), none, 31), ((⟨128, 0, 129, 1⟩ : rectT), none, 32), ((⟨132, 0, 133, 1⟩ : rectT), none, 33), ((⟨136, 0, 137, 1⟩ : rectT), none, 34), ((⟨140, 0, 141, 1⟩ : rectT), none, 35)]), 0), ((⟨144, 0, 177, 1⟩ : rectT), some (nodeT.mk 0 [((⟨144, 0, 145, 1⟩ : rectT), none, 36), ((⟨148, 0, 149, 1⟩ : rectT), none, 37), ((⟨152, 0, 153, 1⟩ : rectT), none, 38), ((⟨156, 0, 157, 1⟩ : rectT), none, 39), ((⟨160, 0, 161, 1⟩ : rectT), none, 40), ((⟨164, 0, 165, 1⟩ : rectT), none, 41), ((⟨168, 0, 169, 1⟩ : rectT), none, 42), ((⟨172, 0, 173, 1⟩ : rectT), none, 43), ((⟨176, 0, 177, 1⟩ : rectT), none, 44)]), 0), ((⟨180, 0, 213, 1⟩ : rectT), some (nodeT.mk 0 [((⟨180, 0, 181, 1⟩ : rectT), none, 45), ((⟨184, 0, 185, 1⟩ : rectT), none, 46), ((⟨188, 0, 189, 1⟩ : rectT), none, 47), ((⟨192, 0, 193, 1⟩ : rectT), none, 48), ((⟨196, 0, 197, 1⟩ : rectT), none, 49), ((⟨200, 0, 201, 1⟩ : rectT), none, 50), ((⟨204, 0, 205, 1⟩ : rectT), none, 51), ((⟨208, 0, 209, 1⟩ : rectT), none, 52), ((⟨212, 0, 213, 1⟩ : rectT), none, 53)]), 0), ((⟨216, 0, 249, 1⟩ : rectT), some (nodeT.mk 0 [((⟨216, 0, 217, 1⟩ : rectT), none, 54), ((⟨220, 0, 221, 1⟩ : rectT), none, 55), ((⟨224, 0, 225, 1⟩ : rectT), none, 56), ((⟨228, 0, 229, 1⟩ : rectT), none, 57), ((⟨232, 0, 233, 1⟩ : rectT), none, 58), ((⟨236, 0, 237, 1⟩ : rectT), none, 59), ((⟨240, 0, 241, 1⟩ : rectT), none, 60), ((⟨244, 0, 245, 1⟩ : rectT), none, 61), ((⟨248, 0, 249, 1⟩ : rectT), none, 62)]), 0), ((⟨252, 0, 285, 1⟩ : rectT), some (nodeT.mk 0 [((⟨252, 0, 253, 1⟩ : rectT), none, 63), ((⟨256, 0, 257, 1⟩ : rectT), none, 64), ((⟨260, 0, 261, 1⟩ : rectT), none, 65), ((⟨264, 0, 265, 1⟩ : rectT), none, 66), ((⟨268, 0, 269, 1⟩ : rectT), none, 67), ((⟨272, 0, 273, 1⟩ : rectT), none, 68), ((⟨276, 0, 277, 1⟩ : rectT), none, 69), ((⟨280, 0, 281, 1⟩ : rectT), none, 70), ((⟨284, 0, 285, 1⟩ : rectT), none, 71)]), 0), ((⟨288, 0, 321, 1⟩ : rectT), some (nodeT.mk 0 [((⟨288, 0, 289, 1⟩ : rectT), none, 72), ((⟨292, 0, 293, 1⟩ : rectT), none, 73), ((⟨296, 0, 297, 1⟩ : rectT), none, 74), ((⟨300, 0, 301, 1⟩ : rectT), none, 75), ((⟨304, 0, 305, 1⟩ : rectT), none, 76), ((⟨308, 0, 309, 1⟩ : rectT), none, 77), ((⟨312, 0, 313, 1⟩ : rectT), none, 78), ((⟨316, 0, 317, 1⟩ : rectT), none, 79), ((⟨320, 0, 321, 1⟩ : rectT), none, 80)]), 0), ((⟨324, 0, 357, 1⟩ : rectT), some (nodeT.mk 0 [((⟨324, 0, 325, 1⟩ : rectT), none, 81), ((⟨328, 0, 329, 1⟩ : rectT), none, 82), ((⟨332, 0, 333, 1⟩ : rectT), none, 83), ((⟨336, 0, 337, 1⟩ : rectT), none, 84), ((⟨340, 0, 341, 1⟩ : rectT), none, 85), ((⟨344, 0, 345, 1⟩ : rectT), none, 86), ((⟨348, 0, 349, 1⟩ : rectT), none, 87), ((⟨352, 0, 353, 1⟩ : rectT), none, 88), ((⟨356, 0, 357, 1⟩ : rectT), none, 89)]), 0), ((⟨360, 0, 393, 1⟩ : rectT), some (nodeT.mk 0 [((⟨360, 0, 361, 1⟩ : rectT), none, 90), ((⟨364, 0, 365, 1⟩ : rectT), none, 91), ((⟨368, 0, 369, 1⟩ : rectT), none, 92), ((⟨372, 0, 373, 1⟩ : rectT), none, 93), ((⟨376, 0, 377, 1⟩ : rectT), none, 94), ((⟨380, 0, 381, 1⟩ : rectT), none, 95), ((⟨384, 0, 385, 1⟩ : rectT), none, 96), ((⟨388, 0, 389, 1⟩ : rectT), none, 97), ((⟨392, 0, 393, 1⟩ : rectT), none, 98)]), 0), ((⟨396, 0, 429, 1⟩ : rectT), some (nodeT.mk 0 [((⟨396, 0, 397, 1⟩ : rectT), none, 99), ((⟨400, 0, 401, 1⟩ : rectT), none, 100), ((⟨404, 0, 405, 1⟩ : rectT), none, 101), ((⟨408, 0, 409, 1⟩ : rectT), none, 102), ((⟨412, 0, 413, 1⟩ : rectT), none, 103), ((⟨416, 0, 417, 1⟩ : rectT), none, 104), ((⟨420, 0, 421, 1⟩ : rectT), none, 105), ((⟨424, 0, 425, 1⟩ : rectT), none, 106), ((⟨428, 0, 429, 1⟩ : rectT), none, 107)]), 0), ((⟨432, 0, 465, 1⟩ : rectT), some (nodeT.mk 0 [((⟨432, 0, 433, 1⟩ : rectT), none, 108), ((⟨436, 0, 437, 1⟩ : rectT), none, 109), ((⟨440, 0, 441, 1⟩ : rectT), none, 110), ((⟨444, 0, 445, 1⟩ : rectT), none, 111), ((⟨448, 0, 449, 1⟩ : rectT), none, 112), ((⟨452, 0, 453, 1⟩ : rectT), none, 113), ((⟨456, 0, 457, 1⟩ : rectT), none, 114), ((⟨460, 0, 461, 1⟩ : rectT), none, 115), ((⟨464, 0, 465, 1⟩ : rectT), none, 116)]), 0), ((⟨468, 0, 501, 1⟩ : rectT), some (nodeT.mk 0 [((⟨468, 0, 469, 1⟩ : rectT), none, 117), ((⟨472, 0, 473, 1⟩ : rectT), none, 118), ((⟨476, 0, 477, 1⟩ : rectT), none, 119), ((⟨480, 0, 481, 1⟩ : rectT), none, 120), ((⟨484, 0, 485, 1⟩ : rectT), none, 121), ((⟨488, 0, 489, 1⟩ : rectT), none, 122), ((⟨492, 0, 493, 1⟩ : rectT), none, 123), ((⟨496, 0, 497, 1⟩ : rectT), none, 124), ((⟨500, 0, 501, 1⟩ : rectT), none, 125)]), 0), ((⟨504, 0, 537, 1⟩ : rectT), some (nodeT.mk 0 [((⟨504, 0, 505, 1⟩ : rectT), none, 126), ((⟨508, 0, 509, 1⟩ : rectT), none, 127), ((⟨512, 0, 513, 1⟩ : rectT), none, 128), ((⟨516, 0, 517, 1⟩ : rectT), none, 129), ((⟨520, 0, 521, 1⟩ : rectT), none, 130), ((⟨524, 0, 525, 1⟩ : rectT), none, 131), ((⟨528, 0, 529, 1⟩ : rectT), none, 132), ((⟨532, 0, 533, 1⟩ : rectT), none, 133), ((⟨536, 0, 537, 1⟩ : rectT), none, 134)]), 0), ((⟨540, 0, 569, 1⟩ : rectT), some (nodeT.mk 0 [((⟨540, 0, 541, 1⟩ : rectT), none, 135), ((⟨544, 0, 545, 1⟩ : rectT), none, 136), ((⟨548, 0, 549, 1⟩ : rectT), none, 137), ((⟨552, 0, 553, 1⟩ : rectT), none, 138), ((⟨556, 0, 557, 1⟩ : rectT), none, 139), ((⟨560, 0, 561, 1⟩ : rectT), none, 140), ((⟨564, 0, 565, 1⟩ : rectT), none, 141), ((⟨568, 0, 569, 1⟩ : rectT), none, 142)]), 0)]

-- THEOREMS
-- ===================================================================

instance (d : ℕ) (r : rectD) : Decidable (wfRectD d r) := by
  unfold wfRectD; infer_instance

set_option maxRecDepth 4000000
set_option maxHeartbeats 64000000

/-- C8: for well-formed rectangles, overlap(A, B) returns true exactly when
A.min[i] ≤ B.max[i] and B.min[i] ≤ A.max[i] hold for every dimension i of the
configured dimensionality; touching boundaries therefore count as overlap and
any positive gap on a dimension refutes it. -/
theorem overlap_iff_every_dimension_meets (d : ℕ) (A B : rectD)
    (_hA : wfRectD d A) (_hB : wfRectD d B) :
    overlapD d A B = true ↔
      ∀ i < d, A.min.getD i 0 ≤ B.max.getD i 0 ∧ B.min.getD i 0 ≤ A.max.getD i 0 := by
  simp only [overlapD, List.all_eq_true, List.mem_range]
  constructor
  · intro h i hi
    by_cases hP : A.min.getD i 0 > B.max.getD i 0 ∨ B.min.getD i 0 > A.max.getD i 0
    · exact absurd (h i hi) (by rw [if_pos hP]; simp)
    · push_neg at hP
      exact hP
  · intro h i hi
    rw [if_neg (by push_neg; exact h i hi)]

/-- Witness for C8: two well-formed rectangles touching only at the corner
(1,1) do overlap. -/
theorem overlap_iff_every_dimension_meets_witness :
    overlapD 2 (rectD.mk [0, 0] [1, 1]) (rectD.mk [1, 1] [2, 2]) = true :=
  (overlap_iff_every_dimension_meets 2 _ _ (by decide) (by decide)).mpr (by decide)

/-- C9: evaluation of the code at the failing input.  With NUM_DIMS = 3 the
union of A = ([0,0,5],[1,1,6]) and B = ([0,0,7],[1,1,9]) keeps the
zero-initialized third dimension (the loop of combineRect runs over the
literal 2, not NUM_DIMS), instead of the required min of mins 5 and max of
maxes 9. -/
theorem combineRect_third_dimension_zeroed :
    (combineRectD 3 (rectD.mk [0, 0, 5] [1, 1, 6]) (rectD.mk [0, 0, 7] [1, 1, 9])).min.getD 2 0
        = 0 ∧
    dmin ((rectD.mk [0, 0, 5] [1, 1, 6]).min.getD 2 0)
        ((rectD.mk [0, 0, 7] [1, 1, 9]).min.getD 2 0) = 5 ∧
    (combineRectD 3 (rectD.mk [0, 0, 5] [1, 1, 6]) (rectD.mk [0, 0, 7] [1, 1, 9])).max.getD 2 0
        = 0 ∧
    dmax ((rectD.mk [0, 0, 5] [1, 1, 6]).max.getD 2 0)
        ((rectD.mk [0, 0, 7] [1, 1, 9]).max.getD 2 0) = 9 := by
  decide

/-- Counterexample to C1: in the leaf root
[(rect (0,0)-(1,1), payload 1), (rect (100,100)-(101,101), payload 5)],
deleting (rect (0,0)-(2,2), payload 5) removes the entry with payload 5 and
reports found, although that entry's stored rectangle does not overlap the
given rectangle — C1 says such an entry is not removed. -/
theorem delete_removes_entry_despite_disjoint_rect :
    overlap ⟨0, 0, 2, 2⟩ ⟨100, 100, 101, 101⟩ = false ∧
    (removeRect ⟨0, 0, 2, 2⟩ 5
      (nodeT.mk 0 [(⟨0, 0, 1, 1⟩, none, 1), (⟨100, 100, 101, 101⟩, none, 5)])).1 = true ∧
    (removeRect ⟨0, 0, 2, 2⟩ 5
      (nodeT.mk 0 [(⟨0, 0, 1, 1⟩, none, 1), (⟨100, 100, 101, 101⟩, none, 5)])).2.map itemsOf =
      some [1] := by
  decide

/-- Counterexample to C7: the leaf root [(rect (50,50)-(51,51), payload 9)]
holds no leaf entry whose stored rectangle overlaps (0,0)-(1,1) and whose
payload is 9 in the sense of C7 (the stored rectangle is disjoint from the
query), yet Delete returns found and changes the tree. -/
theorem delete_finds_nonmatching_pair_and_mutates :
    overlap ⟨0, 0, 1, 1⟩ ⟨50, 50, 51, 51⟩ = false ∧
    (removeRect ⟨0, 0, 1, 1⟩ 9 (nodeT.mk 0 [(⟨50, 50, 51, 51⟩, none, 9)])).1 = true ∧
    (removeRect ⟨0, 0, 1, 1⟩ 9 (nodeT.mk 0 [(⟨50, 50, 51, 51⟩, none, 9)])).2 ≠
      some (nodeT.mk 0 [(⟨50, 50, 51, 51⟩, none, 9)]) := by
  decide

-- Lemmas about the split engine --------------------------------------

-- basic rect lemmas
theorem dmin_eq (a b : ℤ) : dmin a b = min a b := by unfold dmin; split <;> omega

theorem dmax_eq (a b : ℤ) : dmax a b = max a b := by unfold dmax; split <;> omega

theorem rectSub_refl (a : rectT) : rectSub a a := by unfold rectSub; omega

theorem rectSub_trans {a b c : rectT} (h1 : rectSub a b) (h2 : rectSub b c) : rectSub a c := by
  unfold rectSub at *; omega

theorem rectSub_combine_left (a b : rectT) : rectSub a (combineRect a b) := by
  simp only [rectSub, combineRect, dmin_eq, dmax_eq]
  constructor
  · exact min_le_left _ _
  refine ⟨le_max_left _ _, min_le_left _ _, le_max_left _ _⟩

theorem rectSub_combine_right (a b : rectT) : rectSub b (combineRect a b) := by
  simp only [rectSub, combineRect, dmin_eq, dmax_eq]
  exact ⟨min_le_right _ _, le_max_right _ _, min_le_right _ _, le_max_right _ _⟩

theorem combine_rectSub {a b c : rectT} (ha : rectSub a c) (hb : rectSub b c) :
    rectSub (combineRect a b) c := by
  simp only [rectSub, combineRect, dmin_eq, dmax_eq] at *
  omega

theorem wfRect_combine_left {a : rectT} (b : rectT) (ha : wfRect a) :
    wfRect (combineRect a b) := by
  simp only [wfRect, combineRect, dmin_eq, dmax_eq] at *
  omega

theorem vol_mono {a b : rectT} (ha : wfRect a) (hs : rectSub a b) :
    calcRectVolume a ≤ calcRectVolume b := by
  simp only [calcRectVolume, rectSphericalVolume]
  unfold wfRect at ha
  unfold rectSub at hs
  have h0 : (a.max0 - a.min0) ^ 2 ≤ (b.max0 - b.min0) ^ 2 := by nlinarith
  have h1 : (a.max1 - a.min1) ^ 2 ≤ (b.max1 - b.min1) ^ 2 := by nlinarith
  nlinarith

-- generic foldl helpers
theorem foldl_preserve {α β : Type} (P : β → Prop) (f : β → α → β) :
    ∀ (l : List α) (init : β),
      (∀ b a, a ∈ l → P b → P (f b a)) → P init → P (l.foldl f init)
  | [], init, _, hinit => hinit
  | a :: t, init, hpres, hinit =>
    foldl_preserve P f t (f init a)
      (fun b x hx hb => hpres b x (List.mem_cons_of_mem a hx) hb)
      (hpres init a (List.mem_cons_self a t) hinit)

/-- If some element a0 of the list turns any invariant state into a P state,
and P is preserved, the fold ends in P. -/
theorem foldl_fire {α β : Type} (P Q : β → Prop) (f : β → α → β) :
    ∀ (l : List α) (init : β) (a0 : α), a0 ∈ l →
      (∀ b a, a ∈ l → Q b → Q (f b a)) →
      (∀ b a, a ∈ l → P b → P (f b a)) →
      (∀ b, Q b → P (f b a0)) →
      Q init → P (l.foldl f init)
  | a :: t, init, a0, ha0, hQ, hP, hfire, hinit => by
    rcases List.mem_cons.mp ha0 with rfl | hmem
    · exact foldl_preserve P f t (f init a0)
        (fun b x hx hb => hP b x (List.mem_cons_of_mem _ hx) hb)
        (hfire init hinit)
    · exact foldl_fire P Q f t (f init a) a0 hmem
        (fun b x hx hb => hQ b x (List.mem_cons_of_mem _ hx) hb)
        (fun b x hx hb => hP b x (List.mem_cons_of_mem _ hx) hb)
        hfire
        (hQ init a (List.mem_cons_self a t) hinit)

-- list helper lemmas
theorem getD_set_self {α : Type} {l : List α} {i : ℕ} (hi : i < l.length) (a d : α) :
    (l.set i a).getD i d = a := by
  rw [List.getD_eq_getElem _ _ (by simpa using hi)]
  simp [List.getElem_set, hi]

theorem getD_set_ne {α : Type} {l : List α} {i j : ℕ} (h : i ≠ j) (a d : α) :
    (l.set i a).getD j d = l.getD j d := by
  by_cases hj : j < l.length
  · rw [List.getD_eq_getElem _ _ (by simpa using hj), List.getD_eq_getElem _ _ hj]
    simp [List.getElem_set, h]
  · rw [List.getD_eq_default _ _ (by simpa using Nat.le_of_not_lt hj),
      List.getD_eq_default _ _ (Nat.le_of_not_lt hj)]

theorem count_set_add {l : List ℤ} : ∀ {i : ℕ}, i < l.length → ∀ (a b : ℤ),
    (l.set i a).count b + (if l.getD i 0 = b then 1 else 0) =
      l.count b + (if a = b then 1 else 0) := by
  induction l with
  | nil => intro i hi; simp at hi
  | cons x t ih =>
    intro i hi a b
    cases i with
    | zero =>
      simp only [List.set_cons_zero, List.count_cons, List.getD_cons_zero]
      by_cases hx : x = b <;> by_cases ha : a = b <;> simp [hx, ha] <;> omega
    | succ n =>
      have h2 := ih (Nat.lt_of_succ_lt_succ hi) a b
      simp only [List.set_cons_succ, List.count_cons, List.getD_cons_succ]
      omega

theorem mem_of_getD {α : Type} {l : List α} {i : ℕ} (hi : i < l.length) (d : α) :
    l.getD i d ∈ l := by
  rw [List.getD_eq_getElem _ _ hi]
  exact List.getElem_mem _

theorem count_three_split : ∀ {l : List ℤ}, (∀ x ∈ l, x = -1 ∨ x = 0 ∨ x = 1) →
    l.count (-1) + l.count 0 + l.count 1 = l.length := by
  intro l
  induction l with
  | nil => simp
  | cons x t ih =>
    intro h
    have hx := h x (List.mem_cons_self x t)
    have ht := ih (fun y hy => h y (List.mem_cons_of_mem x hy))
    simp only [List.count_cons, List.length_cons]
    rcases hx with rfl | rfl | rfl <;> simp <;> omega

theorem count_mem_set {l : List ℤ} {i : ℕ} (hi : i < l.length) (a : ℤ)
    (h : ∀ x ∈ l, x = -1 ∨ x = 0 ∨ x = 1) (ha : a = -1 ∨ a = 0 ∨ a = 1) :
    ∀ x ∈ l.set i a, x = -1 ∨ x = 0 ∨ x = 1 := by
  intro x hx
  rcases List.mem_or_eq_of_mem_set hx with hmem | rfl
  · exact h x hmem
  · exact ha

theorem classify_partition (index : ℕ) (group : ℤ) (pv : partitionVarsT) :
    (classify index group pv).partition = pv.partition.set index group ∧
    (classify index group pv).taken = pv.taken.set index true ∧
    (classify index group pv).total = pv.total ∧
    (classify index group pv).minFill = pv.minFill ∧
    (classify index group pv).branchBuf = pv.branchBuf ∧
    (classify index group pv).count0 = pv.count0 + (if group = 0 then 1 else 0) ∧
    (classify index group pv).count1 = pv.count1 + (if group = 0 then 0 else 1) := by
  unfold classify
  by_cases hg : group = 0 <;> simp [hg]

theorem classify_PInv {pv : partitionVarsT} (hP : PInv pv) {index : ℕ} {group : ℤ}
    (hi : index < 17) (hunt : pv.partition.getD index (-1) = -1)
    (hg : group = 0 ∨ group = 1) :
    PInv (classify index group pv) := by
  obtain ⟨hp, ht, htot, hmf, hbuf, hcc0, hcc1⟩ := classify_partition index group pv
  have hilen : index < pv.partition.length := by rw [hP.hplen]; exact hi
  have hitlen : index < pv.taken.length := by rw [hP.htlen]; exact hi
  have hcount := count_set_add hilen group
  constructor
  · rw [htot, hP.htotal]
  · rw [hmf, hP.hminFill]
  · rw [hp, List.length_set, hP.hplen]
  · rw [ht, List.length_set, hP.htlen]
  · rw [hp]
    exact count_mem_set hilen group hP.hvals (by tauto)
  · intro j hj
    rw [hp, ht]
    rcases eq_or_ne index j with rfl | hne
    · rw [getD_set_self hilen, getD_set_self hitlen]
      simp only [iff_true]
      rcases hg with rfl | rfl <;> decide
    · rw [getD_set_ne hne, getD_set_ne hne]
      exact hP.htaken j hj
  all_goals
    have hunt2 : pv.partition.getD index 0 = -1 := by
      rw [List.getD_eq_getElem _ _ hilen]
      rw [List.getD_eq_getElem _ _ hilen] at hunt
      exact hunt
  · rw [hcc0, hp, hP.hc0]
    have h2 := hcount 0
    rw [hunt2] at h2
    simp only [show ¬((-1:ℤ) = 0) by decide, if_false] at h2
    omega
  · rw [hcc1, hp, hP.hc1]
    have h2 := hcount 1
    rw [hunt2] at h2
    simp only [show ¬((-1:ℤ) = 1) by decide, if_false] at h2
    rcases hg with rfl | rfl <;> simp at h2 ⊢ <;> omega

theorem getD_replicate {α : Type} {n i : ℕ} (hi : i < n) (a d : α) :
    (List.replicate n a).getD i d = a := by
  rw [List.getD_eq_getElem _ _ (by simpa using hi)]
  simp

-- the iterated combine cover contains the seed and every element
theorem sub_foldl_combine_seed : ∀ (rest : List branchT) (r : rectT),
    rectSub r (rest.foldl (fun a x => combineRect a x.rect) r)
  | [], r => rectSub_refl r
  | b :: t, r =>
    rectSub_trans (rectSub_combine_left r b.rect) (sub_foldl_combine_seed t _)

theorem sub_foldl_combine_mem : ∀ (rest : List branchT) (r : rectT),
    ∀ x ∈ rest, rectSub x.rect (rest.foldl (fun a y => combineRect a y.rect) r)
  | b :: t, r, x, hx => by
    rcases List.mem_cons.mp hx with rfl | hmem
    · exact rectSub_trans (rectSub_combine_right r x.rect) (sub_foldl_combine_seed t _)
    · exact sub_foldl_combine_mem t _ x hmem

theorem wf_foldl_combine : ∀ (rest : List branchT) (r : rectT), wfRect r →
    wfRect (rest.foldl (fun a x => combineRect a x.rect) r)
  | [], _, hr => hr
  | b :: t, r, hr => wf_foldl_combine t _ (wfRect_combine_left _ hr)

theorem initParVars_PInv (pv : partitionVarsT) :
    PInv (initParVars pv 17 8) ∧
    (initParVars pv 17 8).branchBuf = pv.branchBuf ∧
    (initParVars pv 17 8).coverSplit = pv.coverSplit ∧
    (initParVars pv 17 8).coverSplitArea = pv.coverSplitArea ∧
    (∀ i, i < 17 → (initParVars pv 17 8).partition.getD i (-1) = -1) ∧
    (initParVars pv 17 8).count0 = 0 ∧ (initParVars pv 17 8).count1 = 0 := by
  unfold initParVars
  refine ⟨⟨rfl, rfl, by simp, by simp, ?_, ?_, by simp, by simp⟩, rfl, rfl, rfl, ?_, rfl, rfl⟩
  · intro x hx
    left
    exact List.eq_of_mem_replicate hx
  · intro i hi
    rw [getD_replicate hi, getD_replicate hi]
    simp
  · intro i hi
    exact getD_replicate hi _ _

theorem map_range_getD {α : Type} {n i : ℕ} (hi : i < n) (f : ℕ → α) (d : α) :
    ((List.range n).map f).getD i d = f i := by
  rw [List.getD_eq_getElem _ _ (by simpa using hi)]
  simp

theorem pickSeedsFold_spec {pv : partitionVarsT} (htotal : pv.total = 17)
    (hbuflen : pv.branchBuf.length = 17)
    (hbufwf : ∀ b ∈ pv.branchBuf, wfRect b.rect)
    (hcsub : ∀ b ∈ pv.branchBuf, rectSub b.rect pv.coverSplit)
    (hcsa : pv.coverSplitArea = calcRectVolume pv.coverSplit) :
    (pickSeedsFold pv).1 < (pickSeedsFold pv).2.1 ∧ (pickSeedsFold pv).2.1 < 17 := by
  have hb0 : pv.branchBuf.getD 0 defaultBranch ∈ pv.branchBuf := mem_of_getD (by omega) _
  have hb1 : pv.branchBuf.getD 1 defaultBranch ∈ pv.branchBuf := mem_of_getD (by omega) _
  have hvolpos : (0:ℤ) < volUnit := by decide
  have hkey : calcRectVolume (combineRect (pv.bufRect 0) (pv.bufRect 1))
      - calcRectVolume (pv.bufRect 0) - calcRectVolume (pv.bufRect 1)
      > -pv.coverSplitArea - volUnit := by
    have h1 : calcRectVolume (pv.bufRect 0) ≤
        calcRectVolume (combineRect (pv.bufRect 0) (pv.bufRect 1)) :=
      vol_mono (hbufwf _ hb0) (rectSub_combine_left _ _)
    have h2 : calcRectVolume (pv.bufRect 1) ≤ calcRectVolume pv.coverSplit :=
      vol_mono (hbufwf _ hb1) (hcsub _ hb1)
    rw [hcsa]
    linarith
  have hP17 : (1:ℕ) < 17 := by omega
  simp only [pickSeedsFold, htotal]
  apply foldl_fire (fun st => st.1 < st.2.1 ∧ st.2.1 < 17)
    (fun st => (st.1 < st.2.1 ∧ st.2.1 < 17) ∨ st = (0, 0, -pv.coverSplitArea - volUnit))
    _ _ _ 0 (by simp)
  · intro b a _ hQb
    apply foldl_preserve
      (fun st => (st.1 < st.2.1 ∧ st.2.1 < 17) ∨ st = (0, 0, -pv.coverSplitArea - volUnit))
      _ _ b _ hQb
    intro st idxB hidxB hQst
    dsimp only
    split_ifs with h1 h2
    · exact Or.inl ⟨h1, List.mem_range.mp hidxB⟩
    · exact hQst
    · exact hQst
  · intro b a _ hPb
    apply foldl_preserve (fun st => st.1 < st.2.1 ∧ st.2.1 < 17) _ _ b _ hPb
    intro st idxB hidxB hPst
    dsimp only
    split_ifs with h1 h2
    · exact ⟨h1, List.mem_range.mp hidxB⟩
    · exact hPst
    · exact hPst
  · intro b hQb
    apply foldl_fire (fun st => st.1 < st.2.1 ∧ st.2.1 < 17)
      (fun st => (st.1 < st.2.1 ∧ st.2.1 < 17) ∨ st = (0, 0, -pv.coverSplitArea - volUnit))
      _ _ _ 1 (by simp)
    · intro st idxB hidxB hQst
      dsimp only
      split_ifs with h1 h2
      · exact Or.inl ⟨h1, List.mem_range.mp hidxB⟩
      · exact hQst
      · exact hQst
    · intro st idxB hidxB hPst
      dsimp only
      split_ifs with h1 h2
      · exact ⟨h1, List.mem_range.mp hidxB⟩
      · exact hPst
      · exact hPst
    · intro st hQst
      dsimp only
      rw [if_pos (by omega : (0:ℕ) < 1)]
      split_ifs with hw
      · exact ⟨by dsimp only; omega, by dsimp only; omega⟩
      · rcases hQst with hPst | rfl
        · exact hPst
        · exfalso
          rw [map_range_getD (by omega), map_range_getD (by omega)] at hw
          dsimp only at hw
          omega
    · exact hQb
  · exact Or.inr rfl

theorem chooseNextFold_spec {pv : partitionVarsT} (htotal : pv.total = 17)
    {j : ℕ} (hj : j < 17) (hjunt : pv.taken.getD j true = false) :
    ((chooseNextFold pv).2.1 < 17 ∧ pv.taken.getD (chooseNextFold pv).2.1 true = false) ∧
      ((chooseNextFold pv).2.2 = 0 ∨ (chooseNextFold pv).2.2 = 1) := by
  have hvolpos : (0:ℤ) < volUnit := by decide
  simp only [chooseNextFold, htotal]
  have main : (fun (st : ℤ × ℕ × ℤ) =>
      (st.2.1 < 17 ∧ pv.taken.getD st.2.1 true = false) ∧ (st.2.2 = 0 ∨ st.2.2 = 1))
      ((List.range 17).foldl
        (fun st index =>
          if pv.taken.getD index true = false then
            let curRect := pv.bufRect index
            let growth0 := calcRectVolume (combineRect curRect pv.cover0) - pv.area0
            let growth1 := calcRectVolume (combineRect curRect pv.cover1) - pv.area1
            let d0 := growth1 - growth0
            let group : ℤ := if d0 ≥ 0 then 0 else 1
            let diff := if d0 ≥ 0 then d0 else -d0
            if diff > st.1 then (diff, index, group)
            else if diff = st.1 ∧ pv.countOf group < pv.countOf st.2.2 then
              (st.1, index, group)
            else st
          else st)
        ((-volUnit, 0, 0) : ℤ × ℕ × ℤ)) := by
    apply foldl_fire
      (fun (st : ℤ × ℕ × ℤ) =>
        (st.2.1 < 17 ∧ pv.taken.getD st.2.1 true = false) ∧ (st.2.2 = 0 ∨ st.2.2 = 1))
      (fun (st : ℤ × ℕ × ℤ) =>
        ((st.2.1 < 17 ∧ pv.taken.getD st.2.1 true = false) ∧ (st.2.2 = 0 ∨ st.2.2 = 1)) ∨
          st = (-volUnit, 0, 0))
      _ _ _ j (by simpa using hj)
    · intro st idx hidx hQst
      dsimp only
      split_ifs with h1 h2 h3 h4 h5 h6
      all_goals first
        | exact hQst
        | exact Or.inl ⟨⟨List.mem_range.mp hidx, h1⟩, by simp⟩
    · intro st idx hidx hPst
      dsimp only
      split_ifs with h1 h2 h3 h4 h5 h6
      all_goals first
        | exact hPst
        | exact ⟨⟨List.mem_range.mp hidx, h1⟩, by simp⟩
    · intro st hQst
      dsimp only
      rw [if_pos hjunt]
      split_ifs with h2 h3 h4 h5 h6
      all_goals first
        | exact ⟨⟨hj, hjunt⟩, by simp⟩
        | (rcases hQst with hPst | rfl <;>
            first
              | exact hPst
              | (exfalso; dsimp only at *; omega))
    · exact Or.inr rfl
  exact main

theorem untaken_of_partition {pv : partitionVarsT} (hP : PInv pv) {i : ℕ} (hi : i < 17)
    (hneg : pv.partition.getD i (-1) = -1) : pv.taken.getD i true = false := by
  have h := hP.htaken i hi
  rcases Bool.eq_false_or_eq_true (pv.taken.getD i true) with ht | hf
  · exact absurd hneg (h.mp ht)
  · exact hf

theorem taken_of_partition {pv : partitionVarsT} (hP : PInv pv) {i : ℕ} (hi : i < 17)
    (hunt : pv.taken.getD i true = false) : pv.partition.getD i (-1) = -1 := by
  have h := hP.htaken i hi
  by_contra hne
  rw [h.mpr hne] at hunt
  exact absurd hunt (by simp)

theorem exists_untaken {pv : partitionVarsT} (hP : PInv pv)
    (hlt : pv.count0 + pv.count1 < 17) :
    ∃ i, i < 17 ∧ pv.partition.getD i (-1) = -1 := by
  have h3 := count_three_split hP.hvals
  rw [hP.hplen] at h3
  have e0 := hP.hc0
  have e1 := hP.hc1
  have hpos : 0 < pv.partition.count (-1) := by omega
  have hmem : (-1 : ℤ) ∈ pv.partition := List.count_pos_iff_mem.mp hpos
  obtain ⟨i, hilen, hget⟩ := List.mem_iff_getElem.mp hmem
  refine ⟨i, by rw [hP.hplen] at hilen; omega, ?_⟩
  rw [List.getD_eq_getElem _ _ hilen, hget]

theorem choosePartitionLoop_spec : ∀ (fuel : ℕ) (pv : partitionVarsT), PInv pv →
    pv.count0 ≤ 9 → pv.count1 ≤ 9 → 17 ≤ fuel + pv.count0 + pv.count1 →
    PInv (choosePartitionLoop fuel pv) ∧
    (choosePartitionLoop fuel pv).count0 ≤ 9 ∧
    (choosePartitionLoop fuel pv).count1 ≤ 9 ∧
    (choosePartitionLoop fuel pv).branchBuf = pv.branchBuf ∧
    ¬((choosePartitionLoop fuel pv).count0 + (choosePartitionLoop fuel pv).count1 < 17 ∧
      (choosePartitionLoop fuel pv).count0 < 9 ∧ (choosePartitionLoop fuel pv).count1 < 9)
  | 0, pv, hP, h0, h1, hfuel => by
    unfold choosePartitionLoop
    exact ⟨hP, h0, h1, rfl, by omega⟩
  | fuel + 1, pv, hP, h0, h1, hfuel => by
    unfold choosePartitionLoop
    rw [hP.htotal, hP.hminFill]
    simp only [chooseNext, show (17:ℕ) - 8 = 9 from rfl]
    by_cases hguard : pv.count0 + pv.count1 < 17 ∧ pv.count0 < 9 ∧ pv.count1 < 9
    · rw [if_pos hguard]
      obtain ⟨j, hj, hjneg⟩ := exists_untaken hP hguard.1
      have hjunt := untaken_of_partition hP hj hjneg
      obtain ⟨⟨hc17, hcunt⟩, hcg⟩ := chooseNextFold_spec hP.htotal hj hjunt
      have hcneg : pv.partition.getD (chooseNextFold pv).2.1 (-1) = -1 :=
        taken_of_partition hP hc17 hcunt
      obtain ⟨hp2, ht2, htot2, hmf2, hbuf2, hcc02, hcc12⟩ :=
        classify_partition (chooseNextFold pv).2.1 (chooseNextFold pv).2.2 pv
      have hP2 : PInv (classify (chooseNextFold pv).2.1 (chooseNextFold pv).2.2 pv) :=
        classify_PInv hP hc17 hcneg hcg
      have hrec := choosePartitionLoop_spec fuel
        (classify (chooseNextFold pv).2.1 (chooseNextFold pv).2.2 pv) hP2
        (by rw [hcc02]; rcases hcg with hg | hg <;> rw [hg] <;> simp <;> omega)
        (by rw [hcc12]; rcases hcg with hg | hg <;> rw [hg] <;> simp <;> omega)
        (by rw [hcc02, hcc12]; rcases hcg with hg | hg <;> rw [hg] <;> simp <;> omega)
      refine ⟨hrec.1, hrec.2.1, hrec.2.2.1, ?_, hrec.2.2.2.2⟩
      rw [hrec.2.2.2.1, hbuf2]
    · rw [if_neg hguard]
      exact ⟨hP, h0, h1, rfl, by omega⟩

theorem pickSeeds_spec {pv : partitionVarsT} (hP : PInv pv)
    (hall : ∀ i, i < 17 → pv.partition.getD i (-1) = -1)
    (hc0 : pv.count0 = 0) (hc1 : pv.count1 = 0)
    (hbuflen : pv.branchBuf.length = 17)
    (hbufwf : ∀ b ∈ pv.branchBuf, wfRect b.rect)
    (hcsub : ∀ b ∈ pv.branchBuf, rectSub b.rect pv.coverSplit)
    (hcsa : pv.coverSplitArea = calcRectVolume pv.coverSplit) :
    PInv (pickSeeds pv) ∧ (pickSeeds pv).count0 = 1 ∧ (pickSeeds pv).count1 = 1 ∧
    (pickSeeds pv).branchBuf = pv.branchBuf := by
  obtain ⟨hlt, hlt17⟩ := pickSeedsFold_spec hP.htotal hbuflen hbufwf hcsub hcsa
  have heq : pickSeeds pv =
      classify (pickSeedsFold pv).2.1 1 (classify (pickSeedsFold pv).1 0 pv) := rfl
  obtain ⟨hp1, ht1, htot1, hmf1, hbuf1, hcc01, hcc11⟩ :=
    classify_partition (pickSeedsFold pv).1 0 pv
  have hPI1 : PInv (classify (pickSeedsFold pv).1 0 pv) :=
    classify_PInv hP (by omega) (hall _ (by omega)) (Or.inl rfl)
  obtain ⟨hp2, ht2, htot2, hmf2, hbuf2, hcc02, hcc12⟩ :=
    classify_partition (pickSeedsFold pv).2.1 1 (classify (pickSeedsFold pv).1 0 pv)
  have hunt2 : (classify (pickSeedsFold pv).1 0 pv).partition.getD (pickSeedsFold pv).2.1
      (-1) = -1 := by
    rw [hp1, getD_set_ne (by omega)]
    exact hall _ hlt17
  have hPI2 := classify_PInv hPI1 hlt17 hunt2 (Or.inr rfl)
  rw [heq]
  refine ⟨hPI2, ?_, ?_, ?_⟩
  · rw [hcc02, hcc01, hc0]
    simp
  · rw [hcc12, hcc11, hc1]
    simp
  · rw [hbuf2, hbuf1]

theorem forcedFold_spec (g : ℤ) (hg : g = 0 ∨ g = 1) :
    ∀ (l : List ℕ) (pv : partitionVarsT), (∀ i ∈ l, i < 17) → PInv pv →
    PInv (l.foldl
      (fun pv2 index => if pv2.taken.getD index true = false then classify index g pv2 else pv2)
      pv) ∧
    (l.foldl (fun pv2 index =>
        if pv2.taken.getD index true = false then classify index g pv2 else pv2)
      pv).branchBuf = pv.branchBuf ∧
    (g = 1 → (l.foldl (fun pv2 index =>
        if pv2.taken.getD index true = false then classify index g pv2 else pv2)
      pv).count0 = pv.count0) ∧
    (g = 0 → (l.foldl (fun pv2 index =>
        if pv2.taken.getD index true = false then classify index g pv2 else pv2)
      pv).count1 = pv.count1) ∧
    (∀ i ∈ l, (l.foldl (fun pv2 index =>
        if pv2.taken.getD index true = false then classify index g pv2 else pv2)
      pv).partition.getD i (-1) ≠ -1) ∧
    (∀ i, pv.partition.getD i (-1) ≠ -1 → (l.foldl (fun pv2 index =>
        if pv2.taken.getD index true = false then classify index g pv2 else pv2)
      pv).partition.getD i (-1) ≠ -1)
  | [], pv, hl, hP => ⟨hP, rfl, fun _ => rfl, fun _ => rfl, by simp, fun i h => h⟩
  | a :: t, pv, hl, hP => by
    have ha17 : a < 17 := hl a (List.mem_cons_self a t)
    simp only [List.foldl_cons]
    by_cases hunt : pv.taken.getD a true = false
    · rw [if_pos hunt]
      have haneg := taken_of_partition hP ha17 hunt
      obtain ⟨hp2, ht2, htot2, hmf2, hbuf2, hcc02, hcc12⟩ := classify_partition a g pv
      have hP2 : PInv (classify a g pv) := classify_PInv hP ha17 haneg hg
      obtain ⟨rP, rbuf, rc0, rc1, rmem, rpres⟩ :=
        forcedFold_spec g hg t (classify a g pv) (fun i hi => hl i (List.mem_cons_of_mem a hi)) hP2
      have hkeep : ∀ i, (classify a g pv).partition.getD i (-1) ≠ -1 →
          (t.foldl (fun pv2 index =>
            if pv2.taken.getD index true = false then classify index g pv2 else pv2)
            (classify a g pv)).partition.getD i (-1) ≠ -1 := rpres
      refine ⟨rP, by rw [rbuf, hbuf2], ?_, ?_, ?_, ?_⟩
      · intro hg1
        rw [rc0 hg1, hcc02, hg1]
        simp
      · intro hg0
        rw [rc1 hg0, hcc12, hg0]
        simp
      · intro i hi
        rcases List.mem_cons.mp hi with rfl | hmem
        · refine hkeep i ?_
          rw [hp2, getD_set_self (by rw [hP.hplen]; exact ha17) _ _]
          rcases hg with rfl | rfl <;> decide
        · exact rmem i hmem
      · intro i hne
        refine hkeep i ?_
        rw [hp2]
        rcases eq_or_ne a i with rfl | hne2
        · rw [getD_set_self (by rw [hP.hplen]; exact ha17) _ _]
          rcases hg with rfl | rfl <;> decide
        · rw [getD_set_ne hne2]
          exact hne
    · rw [if_neg hunt]
      have hane : pv.partition.getD a (-1) ≠ -1 := by
        have h := hP.htaken a ha17
        rcases Bool.eq_false_or_eq_true (pv.taken.getD a true) with ht | hf
        · exact h.mp ht
        · exact absurd hf hunt
      obtain ⟨rP, rbuf, rc0, rc1, rmem, rpres⟩ :=
        forcedFold_spec g hg t pv (fun i hi => hl i (List.mem_cons_of_mem a hi)) hP
      refine ⟨rP, rbuf, rc0, rc1, ?_, rpres⟩
      intro i hi
      rcases List.mem_cons.mp hi with rfl | hmem
      · exact rpres i hane
      · exact rmem i hmem

theorem sub_coverOfList : ∀ (l : List branchT), ∀ x ∈ l, rectSub x.rect (coverOfList l)
  | b :: rest, x, hx => by
    rcases List.mem_cons.mp hx with rfl | hmem
    · exact rectSub_trans (rectSub_refl _) (sub_foldl_combine_seed rest x.rect)
    · exact sub_foldl_combine_mem rest b.rect x hmem

theorem coverOfList_sub {d : rectT} : ∀ {l : List branchT}, l ≠ [] →
    (∀ x ∈ l, rectSub x.rect d) → rectSub (coverOfList l) d := by
  intro l
  match l with
  | [] => intro h; exact absurd rfl h
  | b :: rest =>
    intro _ hall
    have hseed : rectSub b.rect d := hall b (List.mem_cons_self b rest)
    have : ∀ (t : List branchT) (r : rectT), rectSub r d → (∀ x ∈ t, rectSub x.rect d) →
        rectSub (t.foldl (fun a y => combineRect a y.rect) r) d := by
      intro t
      induction t with
      | nil => intro r hr _; exact hr
      | cons y ys ih =>
        intro r hr hall2
        exact ih _ (combine_rectSub hr (hall2 y (List.mem_cons_self y ys)))
          (fun x hx => hall2 x (List.mem_cons_of_mem y hx))
    exact this rest b.rect hseed (fun x hx => hall x (List.mem_cons_of_mem b hx))

theorem rectSub_antisymm {a b : rectT} (h1 : rectSub a b) (h2 : rectSub b a) : a = b := by
  unfold rectSub at *
  cases a
  cases b
  simp_all
  omega

theorem wf_coverOfList : ∀ {l : List branchT}, l ≠ [] → (∀ x ∈ l, wfRect x.rect) →
    wfRect (coverOfList l) := by
  intro l
  match l with
  | [] => intro h; exact absurd rfl h
  | b :: rest =>
    intro _ hall
    exact wf_foldl_combine rest b.rect (hall b (List.mem_cons_self b rest))

theorem choosePartition_spec {pv : partitionVarsT}
    (hbc : pv.branchCount = 17)
    (hbuflen : pv.branchBuf.length = 17)
    (hbufwf : ∀ b ∈ pv.branchBuf, wfRect b.rect)
    (hcsub : ∀ b ∈ pv.branchBuf, rectSub b.rect pv.coverSplit)
    (hcsa : pv.coverSplitArea = calcRectVolume pv.coverSplit) :
    (choosePartition pv MIN_NODES).partition.length = 17 ∧
    (∀ x ∈ (choosePartition pv MIN_NODES).partition, x = 0 ∨ x = 1) ∧
    8 ≤ (choosePartition pv MIN_NODES).partition.count 0 ∧
    8 ≤ (choosePartition pv MIN_NODES).partition.count 1 ∧
    (choosePartition pv MIN_NODES).partition.count 0 +
      (choosePartition pv MIN_NODES).partition.count 1 = 17 ∧
    (choosePartition pv MIN_NODES).branchBuf = pv.branchBuf ∧
    (choosePartition pv MIN_NODES).total = 17 := by
  obtain ⟨hPI1, hbuf1, hcs1, hcsa1, hall1, hc01, hc11⟩ := initParVars_PInv pv
  have hbufwf1 : ∀ b ∈ (initParVars pv 17 8).branchBuf, wfRect b.rect := by
    rw [hbuf1]; exact hbufwf
  have hcsub1 : ∀ b ∈ (initParVars pv 17 8).branchBuf,
      rectSub b.rect (initParVars pv 17 8).coverSplit := by
    rw [hbuf1, hcs1]; exact hcsub
  have hcsa1b : (initParVars pv 17 8).coverSplitArea =
      calcRectVolume (initParVars pv 17 8).coverSplit := by
    rw [hcsa1, hcs1]; exact hcsa
  obtain ⟨hPI2, hc02, hc12, hbuf2⟩ := pickSeeds_spec hPI1 hall1 hc01 hc11
    (by rw [hbuf1]; exact hbuflen) hbufwf1 hcsub1 hcsa1b
  obtain ⟨hPI3, hle03, hle13, hbuf3, hguard3⟩ :=
    choosePartitionLoop_spec 17 (pickSeeds (initParVars pv 17 8)) hPI2
      (by omega) (by omega) (by omega)
  simp only [choosePartition, hbc, show MIN_NODES = 8 from rfl, hPI2.htotal]
  set r := choosePartitionLoop 17 (pickSeeds (initParVars pv 17 8)) with hrdef
  simp only [hPI3.htotal, hPI3.hminFill, show (17:ℕ) - 8 = 9 from rfl]
  have e0 := hPI3.hc0
  have e1 := hPI3.hc1
  have h3 := count_three_split hPI3.hvals
  rw [hPI3.hplen] at h3
  by_cases hlt : r.count0 + r.count1 < 17
  · rw [if_pos hlt]
    have hor : 9 ≤ r.count0 ∨ 9 ≤ r.count1 := by omega
    by_cases hge : r.count0 ≥ 9
    · rw [if_pos hge]
      obtain ⟨fP, fbuf, fc0, fc1, fmem, fpres⟩ :=
        forcedFold_spec 1 (Or.inr rfl) (List.range 17) r (fun i hi => List.mem_range.mp hi) hPI3
      have hnoneg : ∀ x ∈ (List.foldl (fun pv2 index =>
          if pv2.taken.getD index true = false then classify index 1 pv2 else pv2) r
          (List.range 17)).partition, x = 0 ∨ x = 1 := by
        intro x hx
        rcases fP.hvals x hx with rfl | h01 | h01
        · exfalso
          obtain ⟨i, hilen, hget⟩ := List.mem_iff_getElem.mp hx
          have hi17 : i < 17 := by rw [fP.hplen] at hilen; omega
          refine fmem i (List.mem_range.mpr hi17) ?_
          rw [List.getD_eq_getElem _ _ hilen, hget]
        · exact Or.inl h01
        · exact Or.inr h01
      have h3f := count_three_split fP.hvals
      rw [fP.hplen] at h3f
      have hcnegf : (List.foldl (fun pv2 index =>
          if pv2.taken.getD index true = false then classify index 1 pv2 else pv2) r
          (List.range 17)).partition.count (-1) = 0 := by
        by_contra hne
        have hpos := Nat.pos_of_ne_zero hne
        have hmem := List.count_pos_iff_mem.mp hpos
        rcases hnoneg _ hmem with h | h <;> simp at h
      have hfc0 := fc0 rfl
      have hC0 : (List.foldl (fun pv2 index =>
          if pv2.taken.getD index true = false then classify index 1 pv2 else pv2) r
          (List.range 17)).partition.count 0 = 9 := by
        rw [← fP.hc0, hfc0]
        omega
      exact ⟨fP.hplen, hnoneg, by omega, by omega, by omega,
        by rw [fbuf, hbuf3, hbuf2, hbuf1], fP.htotal⟩
    · rw [if_neg hge]
      have hc19 : r.count1 = 9 := by omega
      obtain ⟨fP, fbuf, fc0, fc1, fmem, fpres⟩ :=
        forcedFold_spec 0 (Or.inl rfl) (List.range 17) r (fun i hi => List.mem_range.mp hi) hPI3
      have hnoneg : ∀ x ∈ (List.foldl (fun pv2 index =>
          if pv2.taken.getD index true = false then classify index 0 pv2 else pv2) r
          (List.range 17)).partition, x = 0 ∨ x = 1 := by
        intro x hx
        rcases fP.hvals x hx with rfl | h01 | h01
        · exfalso
          obtain ⟨i, hilen, hget⟩ := List.mem_iff_getElem.mp hx
          have hi17 : i < 17 := by rw [fP.hplen] at hilen; omega
          refine fmem i (List.mem_range.mpr hi17) ?_
          rw [List.getD_eq_getElem _ _ hilen, hget]
        · exact Or.inl h01
        · exact Or.inr h01
      have h3f := count_three_split fP.hvals
      rw [fP.hplen] at h3f
      have hcnegf : (List.foldl (fun pv2 index =>
          if pv2.taken.getD index true = false then classify index 0 pv2 else pv2) r
          (List.range 17)).partition.count (-1) = 0 := by
        by_contra hne
        have hpos := Nat.pos_of_ne_zero hne
        have hmem := List.count_pos_iff_mem.mp hpos
        rcases hnoneg _ hmem with h | h <;> simp at h
      have hfc1 := fc1 rfl
      have hC1 : (List.foldl (fun pv2 index =>
          if pv2.taken.getD index true = false then classify index 0 pv2 else pv2) r
          (List.range 17)).partition.count 1 = 9 := by
        rw [← fP.hc1, hfc1]
        omega
      exact ⟨fP.hplen, hnoneg, by omega, by omega, by omega,
        by rw [fbuf, hbuf3, hbuf2, hbuf1], fP.htotal⟩
  · rw [if_neg hlt]
    have hsum17 : r.count0 + r.count1 = 17 := by omega
    have hcneg0 : r.partition.count (-1) = 0 := by omega
    have hnoneg : ∀ x ∈ r.partition, x = 0 ∨ x = 1 := by
      intro x hx
      rcases hPI3.hvals x hx with rfl | h01 | h01
      · exfalso
        have hpos : 0 < r.partition.count (-1) := List.count_pos_iff_mem.mpr hx
        omega
      · exact Or.inl h01
      · exact Or.inr h01
    exact ⟨hPI3.hplen, hnoneg, by omega, by omega, by omega,
      by rw [hbuf3, hbuf2, hbuf1], hPI3.htotal⟩

theorem map_getD_range_self {α : Type} (p : List α) (d : α) :
    (List.range p.length).map (fun i => p.getD i d) = p := by
  apply List.ext_getElem
  · simp
  · intro i h1 h2
    simp only [List.getElem_map, List.getElem_range]
    rw [List.getD_eq_getElem _ _ h2]

theorem count_eq_range_filter (p : List ℤ) (g : ℤ) :
    p.count g = ((List.range p.length).filter (fun i => p.getD i (-1) == g)).length := by
  conv_lhs => rw [← map_getD_range_self p (-1)]
  rw [List.count_eq_countP, List.countP_map, List.countP_eq_length_filter]
  rfl

theorem loadNodesAux (pv : partitionVarsT) :
    ∀ (l : List ℕ) (a b : nodeT),
    a.count + ((l.filter (fun i => pv.partition.getD i (-1) == 0)).length) ≤ 16 →
    b.count + ((l.filter (fun i => pv.partition.getD i (-1) == 1)).length) ≤ 16 →
    (l.foldl (fun ab index =>
      if pv.partition.getD index (-1) = 0 then
        (addBranchNoSplit (pv.branchBuf.getD index defaultBranch) ab.1, ab.2)
      else if pv.partition.getD index (-1) = 1 then
        (ab.1, addBranchNoSplit (pv.branchBuf.getD index defaultBranch) ab.2)
      else ab) (a, b)) =
      (⟨a.level, a.branch ++ (l.filter (fun i => pv.partition.getD i (-1) == 0)).map
          (fun i => pv.branchBuf.getD i defaultBranch)⟩,
       ⟨b.level, b.branch ++ (l.filter (fun i => pv.partition.getD i (-1) == 1)).map
          (fun i => pv.branchBuf.getD i defaultBranch)⟩)
  | [], a, b, ha, hb => by
    cases a
    cases b
    simp [List.foldl_nil, nodeT.level, nodeT.branch]
  | i :: t, a, b, ha, hb => by
    have hae : a.count = a.branch.length := rfl
    have hbe : b.count = b.branch.length := rfl
    have hcnt : ∀ (lv : ℤ) (bs : List branchT), (nodeT.mk lv bs).count = bs.length :=
      fun _ _ => rfl
    by_cases h0 : pv.partition.getD i (-1) = 0
    · have h0b : pv.partition[i]?.getD (-1) = 0 := by simpa using h0
      have hfil0 : (i :: t).filter (fun j => pv.partition.getD j (-1) == 0) =
          i :: t.filter (fun j => pv.partition.getD j (-1) == 0) := by
        simp [List.filter_cons, h0b]
      have hfil1 : (i :: t).filter (fun j => pv.partition.getD j (-1) == 1) =
          t.filter (fun j => pv.partition.getD j (-1) == 1) := by
        simp [List.filter_cons, h0b]
      rw [hfil0] at ha
      rw [hfil1] at hb
      simp only [List.length_cons] at ha
      have hstep : addBranchNoSplit (pv.branchBuf.getD i defaultBranch) a =
          ⟨a.level, a.branch ++ [pv.branchBuf.getD i defaultBranch]⟩ := by
        unfold addBranchNoSplit
        rw [if_pos (by unfold MAX_NODES; omega)]
      rw [List.foldl_cons, if_pos h0]
      simp only [hstep]
      have hrec := loadNodesAux pv t ⟨a.level, a.branch ++ [pv.branchBuf.getD i defaultBranch]⟩ b
        (by rw [hcnt]
            rw [hae] at ha
            simp only [List.length_append, List.length_singleton]
            omega)
        hb
      rw [hrec, hfil0, hfil1]
      simp [nodeT.level, nodeT.branch]
    · by_cases h1 : pv.partition.getD i (-1) = 1
      · have h1b : pv.partition[i]?.getD (-1) = 1 := by simpa using h1
        have h0c : ¬(pv.partition[i]?.getD (-1) = 0) := by rw [h1b]; decide
        have hfil0 : (i :: t).filter (fun j => pv.partition.getD j (-1) == 0) =
            t.filter (fun j => pv.partition.getD j (-1) == 0) := by
          simp [List.filter_cons, h1b]
        have hfil1 : (i :: t).filter (fun j => pv.partition.getD j (-1) == 1) =
            i :: t.filter (fun j => pv.partition.getD j (-1) == 1) := by
          simp [List.filter_cons, h1b]
        rw [hfil0] at ha
        rw [hfil1] at hb
        simp only [List.length_cons] at hb
        have hstep : addBranchNoSplit (pv.branchBuf.getD i defaultBranch) b =
            ⟨b.level, b.branch ++ [pv.branchBuf.getD i defaultBranch]⟩ := by
          unfold addBranchNoSplit
          rw [if_pos (by unfold MAX_NODES; omega)]
        rw [List.foldl_cons, if_neg h0, if_pos h1]
        simp only [hstep]
        have hrec := loadNodesAux pv t a ⟨b.level, b.branch ++ [pv.branchBuf.getD i defaultBranch]⟩
          ha
          (by rw [hcnt]
              rw [hbe] at hb
              simp only [List.length_append, List.length_singleton]
              omega)
        rw [hrec, hfil0, hfil1]
        simp [nodeT.level, nodeT.branch]
      · have h0b : ¬(pv.partition[i]?.getD (-1) == 0) = true := by
          simpa using h0
        have h1b : ¬(pv.partition[i]?.getD (-1) == 1) = true := by
          simpa using h1
        have hfil0 : (i :: t).filter (fun j => pv.partition.getD j (-1) == 0) =
            t.filter (fun j => pv.partition.getD j (-1) == 0) := by
          simp [List.filter_cons, h0b]
        have hfil1 : (i :: t).filter (fun j => pv.partition.getD j (-1) == 1) =
            t.filter (fun j => pv.partition.getD j (-1) == 1) := by
          simp [List.filter_cons, h1b]
        rw [hfil0] at ha
        rw [hfil1] at hb
        rw [List.foldl_cons, if_neg h0, if_neg h1]
        rw [loadNodesAux pv t a b ha hb, hfil0, hfil1]

theorem splitNode_spec (lv : ℤ) (bs : List branchT) (br : branchT)
    (hlen : bs.length = MAX_NODES)
    (hwf : ∀ x ∈ bs, wfRect x.rect) (hwfb : wfRect br.rect) :
    (splitNode (.mk lv bs) br).1.level = lv ∧
    (splitNode (.mk lv bs) br).2.level = lv ∧
    MIN_NODES ≤ (splitNode (.mk lv bs) br).1.count ∧
    MIN_NODES ≤ (splitNode (.mk lv bs) br).2.count ∧
    (splitNode (.mk lv bs) br).1.count + (splitNode (.mk lv bs) br).2.count = MAX_NODES + 1 ∧
    ((splitNode (.mk lv bs) br).1.branch ++ (splitNode (.mk lv bs) br).2.branch).Perm
      (bs ++ [br]) := by
  have hbuflen : (bs ++ [br]).length = 17 := by
    rw [List.length_append, hlen]
    rfl
  have hbufwf : ∀ x ∈ bs ++ [br], wfRect x.rect := by
    intro x hx
    rcases List.mem_append.mp hx with h | h
    · exact hwf x h
    · rw [List.mem_singleton.mp h]
      exact hwfb
  set pv1 : partitionVarsT :=
    { emptyParVars with
      branchBuf := bs ++ [br]
      branchCount := MAX_NODES + 1
      coverSplit := coverOfList (bs ++ [br])
      coverSplitArea := calcRectVolume (coverOfList (bs ++ [br])) } with hpv1
  have hgb : getBranches (.mk lv bs) br emptyParVars = (⟨-1, []⟩, pv1) := rfl
  have hsplit : splitNode (.mk lv bs) br =
      loadNodes ⟨lv, []⟩ ⟨lv, []⟩ (choosePartition pv1 MIN_NODES) := by
    unfold splitNode
    rw [hgb]
    rfl
  obtain ⟨cplen, cpvals, cpc0, cpc1, cpsum, cpbuf, cptot⟩ :=
    @choosePartition_spec pv1 rfl hbuflen hbufwf
      (fun b hb => sub_coverOfList _ b hb) rfl
  set cp := choosePartition pv1 MIN_NODES with hcp
  have hcount0 : cp.partition.count 0 =
      ((List.range 17).filter (fun i => cp.partition.getD i (-1) == 0)).length := by
    have := count_eq_range_filter cp.partition 0
    rw [cplen] at this
    exact this
  have hcount1 : cp.partition.count 1 =
      ((List.range 17).filter (fun i => cp.partition.getD i (-1) == 1)).length := by
    have := count_eq_range_filter cp.partition 1
    rw [cplen] at this
    exact this
  have hln : loadNodes ⟨lv, []⟩ ⟨lv, []⟩ cp =
      (⟨lv, (((List.range 17).filter (fun i => cp.partition.getD i (-1) == 0)).map
          (fun i => cp.branchBuf.getD i defaultBranch))⟩,
       ⟨lv, (((List.range 17).filter (fun i => cp.partition.getD i (-1) == 1)).map
          (fun i => cp.branchBuf.getD i defaultBranch))⟩) := by
    unfold loadNodes
    rw [cptot]
    have := loadNodesAux cp (List.range 17) ⟨lv, []⟩ ⟨lv, []⟩
      (by rw [show (nodeT.mk lv []).count = 0 from rfl, ← hcount0]; omega)
      (by rw [show (nodeT.mk lv []).count = 0 from rfl, ← hcount1]; omega)
    rw [this]
    simp [nodeT.level, nodeT.branch]
  rw [hsplit, hln]
  have hq1 : ∀ i ∈ List.range 17, (cp.partition.getD i (-1) == 1) =
      !(cp.partition.getD i (-1) == 0) := by
    intro i hi
    have hi17 := List.mem_range.mp hi
    have hmem : cp.partition.getD i (-1) ∈ cp.partition :=
      mem_of_getD (by rw [cplen]; omega) _
    rcases cpvals _ hmem with h | h <;> rw [h] <;> decide
  have hfilter1 : (List.range 17).filter (fun i => cp.partition.getD i (-1) == 1) =
      (List.range 17).filter (fun i => !(cp.partition.getD i (-1) == 0)) :=
    List.filter_congr hq1
  have hperm : ((List.range 17).filter (fun i => cp.partition.getD i (-1) == 0) ++
      (List.range 17).filter (fun i => cp.partition.getD i (-1) == 1)).Perm
      (List.range 17) := by
    rw [hfilter1]
    exact List.filter_append_perm _ _
  have hmapbuf : (List.range 17).map (fun i => cp.branchBuf.getD i defaultBranch) =
      bs ++ [br] := by
    have h1 : cp.branchBuf = bs ++ [br] := cpbuf
    rw [h1]
    have := map_getD_range_self (bs ++ [br]) defaultBranch
    rw [hbuflen] at this
    exact this
  simp only [nodeT.level, nodeT.count, nodeT.branch, List.length_map]
  refine ⟨trivial, trivial, ?_, ?_, ?_, ?_⟩
  · rw [← hcount0]
    exact cpc0
  · rw [← hcount1]
    exact cpc1
  · rw [← hcount0, ← hcount1, cpsum]
    rfl
  · rw [← List.map_append, ← hmapbuf]
    exact hperm.map _

/-- C5: splitting a full node (MAX_NODES branches) with one extra incoming
branch redistributes all MAX_NODES+1 candidates between the reused original
node and the fresh sibling with none dropped and none duplicated (a
permutation), each resulting node holds at least MIN_NODES branches, and the
sibling keeps the original node level. -/
theorem splitNode_redistributes (lv : ℤ) (bs : List branchT) (br : branchT)
    (hlen : bs.length = MAX_NODES)
    (hwf : ∀ x ∈ bs, wfRect x.rect) (hwfb : wfRect br.rect) :
    ((splitNode (.mk lv bs) br).1.branch ++ (splitNode (.mk lv bs) br).2.branch).Perm
      (bs ++ [br]) ∧
    MIN_NODES ≤ (splitNode (.mk lv bs) br).1.count ∧
    MIN_NODES ≤ (splitNode (.mk lv bs) br).2.count ∧
    (splitNode (.mk lv bs) br).1.count + (splitNode (.mk lv bs) br).2.count = MAX_NODES + 1 ∧
    (splitNode (.mk lv bs) br).1.level = lv ∧
    (splitNode (.mk lv bs) br).2.level = lv := by
  obtain ⟨h1, h2, h3, h4, h5, h6⟩ := splitNode_spec lv bs br hlen hwf hwfb
  exact ⟨h6, h3, h4, h5, h1, h2⟩

/-- Witness for C5 at a concrete full node of 16 branches plus one extra. -/
theorem splitNode_redistributes_witness :
    ((splitNode (.mk 0 witBranches) witBranch).1.branch ++
      (splitNode (.mk 0 witBranches) witBranch).2.branch).Perm (witBranches ++ [witBranch]) ∧
    MIN_NODES ≤ (splitNode (.mk 0 witBranches) witBranch).1.count ∧
    MIN_NODES ≤ (splitNode (.mk 0 witBranches) witBranch).2.count ∧
    (splitNode (.mk 0 witBranches) witBranch).1.count +
      (splitNode (.mk 0 witBranches) witBranch).2.count = MAX_NODES + 1 ∧
    (splitNode (.mk 0 witBranches) witBranch).1.level = 0 ∧
    (splitNode (.mk 0 witBranches) witBranch).2.level = 0 :=
  splitNode_redistributes 0 witBranches witBranch (by decide) (by decide) (by decide)

/-- Strong induction over nodes through their child pointers. -/
theorem nodeT.inductionOn {P : nodeT → Prop}
    (h : ∀ (l : ℤ) (bs : List branchT),
      (∀ b ∈ bs, ∀ c, (b : branchT).2.1 = some c → P c) → P (.mk l bs)) :
    ∀ n, P n
  | .mk l bs => h l bs (go bs)
where
  go : ∀ (bs : List branchT), ∀ b ∈ bs, ∀ c, (b : branchT).2.1 = some c → P c
    | (r, some c, i) :: rest => by
      intro b hb c2 hc2
      rcases List.mem_cons.mp hb with rfl | hmem
      · have : c = c2 := by simpa using hc2
        exact this ▸ nodeT.inductionOn h c
      · exact go rest b hmem c2 hc2
    | (r, none, i) :: rest => by
      intro b hb c2 hc2
      rcases List.mem_cons.mp hb with rfl | hmem
      · simp at hc2
      · exact go rest b hmem c2 hc2
    | [] => by
      intro b hb
      simp at hb

theorem walkChild_eq (rect : rectT) (item : ℕ) :
    ∀ (bs : List branchT) (index : ℕ) (level : ℤ),
    insertRectRec.walkChild rect item bs index level =
      (match (bs.getD index defaultBranch).2.1 with
        | some c => (some (insertRectRec rect item c level).1, (insertRectRec rect item c level).2)
        | none => ((none : Option nodeT), (none : Option nodeT)))
  | [], index, level => by
    cases index <;> simp [insertRectRec.walkChild, defaultBranch]
  | (r, some c, i) :: rest, 0, level => by
    simp [insertRectRec.walkChild]
  | (r, none, i) :: rest, 0, level => by
    simp [insertRectRec.walkChild]
  | b :: rest, index + 1, level => by
    rw [show (b :: rest).getD (index + 1) defaultBranch = rest.getD index defaultBranch from rfl]
    rw [← walkChild_eq rect item rest index level]
    rcases b with ⟨r, c | cn, i⟩ <;> simp [insertRectRec.walkChild]


theorem good_iff (l : ℤ) (bs : List branchT) :
    Good (.mk l bs) ↔ 0 ≤ l ∧ bs.length ≤ MAX_NODES ∧ ∀ b ∈ bs, branchOk l b := by
  constructor
  · intro h
    cases h with
    | intro l bs h1 h2 h3 h4 h5 h6 h7 =>
      refine ⟨h1, h2, fun b hb => ⟨h3 b hb, fun hl => h4 hl b hb, fun c hc => ⟨h5 b hb c hc,
        h6 b hb c hc, h7 b hb c hc⟩⟩⟩
  · rintro ⟨h1, h2, h3⟩
    exact Good.intro l bs h1 h2 (fun b hb => (h3 b hb).1) (fun hl b hb => (h3 b hb).2.1 hl)
      (fun b hb c hc => ((h3 b hb).2.2 c hc).1) (fun b hb c hc => ((h3 b hb).2.2 c hc).2.1)
      (fun b hb c hc => ((h3 b hb).2.2 c hc).2.2)

theorem good_iff' (n : nodeT) :
    Good n ↔ 0 ≤ n.level ∧ n.count ≤ MAX_NODES ∧ ∀ b ∈ n.branch, branchOk n.level b := by
  cases n with
  | mk l bs => exact good_iff l bs

theorem addBranch_lt {b : branchT} {n : nodeT} (h : n.count < MAX_NODES) :
    addBranch b n = (⟨n.level, n.branch ++ [b]⟩, none) := by
  unfold addBranch
  rw [if_pos h]

theorem addBranch_full {b : branchT} {n : nodeT} (h : ¬ n.count < MAX_NODES) :
    addBranch b n = ((splitNode n b).1, some (splitNode n b).2) := by
  unfold addBranch
  rw [if_neg h]

theorem branchOk_of_perm {l : ℤ} {bs1 bs2 : List branchT} (hp : bs1.Perm bs2)
    (h : ∀ b ∈ bs1, branchOk l b) : ∀ b ∈ bs2, branchOk l b :=
  fun b hb => h b (hp.symm.mem_iff.mp hb)

/-- Adding one branch to a node, both outcomes preserve goodness. -/
theorem addBranch_good {l : ℤ} {bs : List branchT} (b : branchT)
    (hg : Good (.mk l bs)) (hb : branchOk l b) :
    ((addBranch b (.mk l bs)).1.level = l ∧ Good (addBranch b (.mk l bs)).1) ∧
    ((addBranch b (.mk l bs)).2 = none →
      (addBranch b (.mk l bs)).1.count = bs.length + 1) ∧
    (∀ o, (addBranch b (.mk l bs)).2 = some o →
      Good o ∧ o.level = l ∧ MIN_NODES ≤ (addBranch b (.mk l bs)).1.count ∧
      MIN_NODES ≤ o.count) := by
  obtain ⟨hl0, hlen, hbs⟩ := (good_iff l bs).mp hg
  by_cases hlt : (nodeT.mk l bs).count < MAX_NODES
  · rw [addBranch_lt hlt]
    have hcnt : (nodeT.mk l bs).count = bs.length := rfl
    refine ⟨⟨rfl, ?_⟩, ?_, ?_⟩
    · rw [show (nodeT.mk l bs).level = l from rfl, show (nodeT.mk l bs).branch = bs from rfl]
      rw [good_iff]
      refine ⟨hl0, ?_, ?_⟩
      · rw [List.length_append]
        unfold MAX_NODES at hlt ⊢
        rw [hcnt] at hlt
        simp
        omega
      · intro x hx
        rcases List.mem_append.mp hx with h | h
        · exact hbs x h
        · rw [List.mem_singleton.mp h]
          exact hb
    · intro _
      show (bs ++ [b]).length = bs.length + 1
      simp
    · intro o ho
      exact absurd ho (by simp)
  · have hfst : (addBranch b (nodeT.mk l bs)).1 = (splitNode (nodeT.mk l bs) b).1 := by
      rw [addBranch_full hlt]
    have hsnd : (addBranch b (nodeT.mk l bs)).2 = some (splitNode (nodeT.mk l bs) b).2 := by
      rw [addBranch_full hlt]
    rw [hfst, hsnd]
    have hcnt : (nodeT.mk l bs).count = bs.length := rfl
    have hlen16 : bs.length = MAX_NODES := by
      rw [hcnt] at hlt
      omega
    obtain ⟨s1, s2, s3, s4, s5, s6⟩ :=
      splitNode_spec l bs b hlen16 (fun x hx => (hbs x hx).1) hb.1
    have hallok : ∀ x ∈ (splitNode (.mk l bs) b).1.branch ++ (splitNode (.mk l bs) b).2.branch,
        branchOk l x := by
      apply branchOk_of_perm s6.symm
      intro x hx
      rcases List.mem_append.mp hx with h | h
      · exact hbs x h
      · rw [List.mem_singleton.mp h]
        exact hb
    have hmn : MIN_NODES = 8 := rfl
    have hmx : MAX_NODES = 16 := rfl
    rw [hmn] at s3 s4
    rw [hmx] at s5
    have hg1 : Good (splitNode (.mk l bs) b).1 := by
      rw [good_iff']
      refine ⟨?_, ?_, ?_⟩
      · rw [s1]
        exact hl0
      · rw [hmx]
        omega
      · rw [s1]
        intro x hx
        exact hallok x (List.mem_append.mpr (Or.inl hx))
    have hg2 : Good (splitNode (.mk l bs) b).2 := by
      rw [good_iff']
      refine ⟨?_, ?_, ?_⟩
      · rw [s2]
        exact hl0
      · rw [hmx]
        omega
      · rw [s2]
        intro x hx
        exact hallok x (List.mem_append.mpr (Or.inr hx))
    refine ⟨⟨s1, hg1⟩, ?_, ?_⟩
    · intro h
      exact Option.noConfusion h
    · intro o ho
      rw [← Option.some.inj ho]
      rw [hmn]
      exact ⟨hg2, s2, s3, s4⟩

theorem count_pos_branch_ne_nil {n : nodeT} (h : 0 < n.count) : n.branch ≠ [] := by
  intro hnil
  rw [nodeT.count, hnil] at h
  exact Nat.lt_irrefl 0 h

theorem defaultBranch_child : (defaultBranch).2.1 = none := rfl

/-- Goodness, level, and branch counts through recursive insertion. -/
theorem insertRectRec_good (rect : rectT) (item : ℕ) (hwfr : wfRect rect) :
    ∀ n : nodeT, Good n → ∀ level : ℤ,
    ((insertRectRec rect item n level).1.level = n.level ∧
     Good (insertRectRec rect item n level).1) ∧
    ((insertRectRec rect item n level).2 = none →
      n.count ≤ (insertRectRec rect item n level).1.count ∧
      (insertRectRec rect item n level).1.count ≤ n.count + 1) ∧
    (∀ o, (insertRectRec rect item n level).2 = some o →
      Good o ∧ o.level = n.level ∧
      MIN_NODES ≤ (insertRectRec rect item n level).1.count ∧ MIN_NODES ≤ o.count) := by
  intro n
  induction n using nodeT.inductionOn with
  | h l bs ih =>
    intro hg level
    obtain ⟨hl0, hlen, hbs⟩ := (good_iff l bs).mp hg
    by_cases hgt : l > level
    · by_cases hidxlt : pickBranch rect (nodeT.mk l bs) < bs.length
      · have hbmem : bs.getD (pickBranch rect (nodeT.mk l bs)) defaultBranch ∈ bs := by
          rw [List.getD_eq_getElem bs defaultBranch hidxlt]
          exact List.getElem_mem hidxlt
        rcases hch : (bs.getD (pickBranch rect (nodeT.mk l bs)) defaultBranch).2.1 with _ | c
        · -- NULL child: nothing descends, rect on the branch grows, no split
          have heq : insertRectRec rect item (.mk l bs) level =
              (⟨l, bs.set (pickBranch rect (nodeT.mk l bs))
                (combineRect rect ((bs.getD (pickBranch rect (nodeT.mk l bs)) defaultBranch).1),
                 none,
                 (bs.getD (pickBranch rect (nodeT.mk l bs)) defaultBranch).2.2)⟩, none) := by
            rw [insertRectRec]
            rw [if_pos hgt]
            simp only [walkChild_eq, hch]
          rw [heq]
          refine ⟨⟨rfl, ?_⟩, ?_, ?_⟩
          · rw [good_iff]
            refine ⟨hl0, ?_, ?_⟩
            · rw [List.length_set]
              exact hlen
            · intro x hx
              rcases List.mem_or_eq_of_mem_set hx with h | h
              · exact hbs x h
              · rw [h]
                refine ⟨wfRect_combine_left _ hwfr, fun _ => rfl, ?_⟩
                intro c hc
                exact Option.noConfusion hc
          · intro _
            show bs.length ≤ (bs.set _ _).length ∧ (bs.set _ _).length ≤ bs.length + 1
            rw [List.length_set]
            omega
          · intro o ho
            exact Option.noConfusion ho
        · -- live child: recurse
          have hok := hbs _ hbmem
          obtain ⟨hcl, hcc, hcg⟩ := hok.2.2 c hch
          have ihc := ih _ hbmem c hch hcg level
          obtain ⟨⟨ia, ib⟩, ic, idd⟩ := ihc
          rcases hr2 : (insertRectRec rect item c level).2 with _ | other
          · -- child did not split
            obtain ⟨ic1, ic2⟩ := ic hr2
            have heq : insertRectRec rect item (.mk l bs) level =
                (⟨l, bs.set (pickBranch rect (nodeT.mk l bs))
                  (combineRect rect ((bs.getD (pickBranch rect (nodeT.mk l bs)) defaultBranch).1),
                   some (insertRectRec rect item c level).1,
                   (bs.getD (pickBranch rect (nodeT.mk l bs)) defaultBranch).2.2)⟩, none) := by
              rw [insertRectRec]
              rw [if_pos hgt]
              simp only [walkChild_eq, hch, hr2]
            rw [heq]
            refine ⟨⟨rfl, ?_⟩, ?_, ?_⟩
            · rw [good_iff]
              refine ⟨hl0, ?_, ?_⟩
              · rw [List.length_set]
                exact hlen
              · intro x hx
                rcases List.mem_or_eq_of_mem_set hx with h | h
                · exact hbs x h
                · rw [h]
                  refine ⟨wfRect_combine_left _ hwfr, ?_, ?_⟩
                  · intro hl0'
                    exact absurd (hok.2.1 hl0') (by rw [hch]; exact fun h => Option.noConfusion h)
                  · intro c' hc'
                    have hc'' : (insertRectRec rect item c level).1 = c' := Option.some.inj hc'
                    rw [← hc'']
                    refine ⟨by rw [ia, hcl], by omega, ib⟩
            · intro _
              show bs.length ≤ (bs.set _ _).length ∧ (bs.set _ _).length ≤ bs.length + 1
              rw [List.length_set]
              omega
            · intro o ho
              exact Option.noConfusion ho
          · -- child split: refresh the branch, add the new sibling branch
            obtain ⟨ida, idb, idc, idd'⟩ := idd other hr2
            have heq : insertRectRec rect item (.mk l bs) level =
                addBranch (nodeCover other, some other, 0)
                  ⟨l, bs.set (pickBranch rect (nodeT.mk l bs))
                    (nodeCoverChild (some (insertRectRec rect item c level).1),
                     some (insertRectRec rect item c level).1,
                     (bs.getD (pickBranch rect (nodeT.mk l bs)) defaultBranch).2.2)⟩ := by
              rw [insertRectRec]
              rw [if_pos hgt]
              simp only [walkChild_eq, hch, hr2]
            have hmn8 : (8 : ℕ) = MIN_NODES := rfl
            have hgood2 : Good (nodeT.mk l (bs.set (pickBranch rect (nodeT.mk l bs))
                (nodeCoverChild (some (insertRectRec rect item c level).1),
                 some (insertRectRec rect item c level).1,
                 (bs.getD (pickBranch rect (nodeT.mk l bs)) defaultBranch).2.2))) := by
              rw [good_iff]
              refine ⟨hl0, ?_, ?_⟩
              · rw [List.length_set]
                exact hlen
              · intro x hx
                rcases List.mem_or_eq_of_mem_set hx with h | h
                · exact hbs x h
                · rw [h]
                  refine ⟨?_, ?_, ?_⟩
                  · show wfRect (nodeCover (insertRectRec rect item c level).1)
                    apply wf_coverOfList
                    · apply count_pos_branch_ne_nil
                      rw [← hmn8] at idc
                      omega
                    · intro x hx
                      obtain ⟨_, _, hwfx⟩ := (good_iff' _).mp ib
                      exact (hwfx x hx).1
                  · intro hl0'
                    exact absurd (hok.2.1 hl0')
                      (by rw [hch]; exact fun h => Option.noConfusion h)
                  · intro c' hc'
                    rw [← Option.some.inj hc']
                    refine ⟨by rw [ia, hcl], by rw [← hmn8] at idc ⊢; omega, ib⟩
            have hbrok : branchOk l (nodeCover other, some other, 0) := by
              refine ⟨?_, ?_, ?_⟩
              · show wfRect (nodeCover other)
                apply wf_coverOfList
                · apply count_pos_branch_ne_nil
                  rw [← hmn8] at idd'
                  omega
                · intro x hx
                  obtain ⟨_, _, hwfx⟩ := (good_iff' _).mp ida
                  exact (hwfx x hx).1
              · intro hl0'
                exact absurd (hok.2.1 hl0')
                  (by rw [hch]; exact fun h => Option.noConfusion h)
              · intro c' hc'
                rw [← Option.some.inj hc']
                refine ⟨by rw [idb, hcl], by rw [← hmn8] at idd' ⊢; omega, ida⟩
            have hadd := addBranch_good (nodeCover other, some other, 0) hgood2 hbrok
            rw [heq]
            have hsetlen : (bs.set (pickBranch rect (nodeT.mk l bs))
                (nodeCoverChild (some (insertRectRec rect item c level).1),
                 some (insertRectRec rect item c level).1,
                 (bs.getD (pickBranch rect (nodeT.mk l bs)) defaultBranch).2.2)).length
                = bs.length := List.length_set ..
            refine ⟨⟨hadd.1.1, hadd.1.2⟩, ?_, hadd.2.2⟩
            intro hnone
            have := hadd.2.1 hnone
            rw [hsetlen] at this
            show bs.length ≤ _ ∧ _ ≤ bs.length + 1
            omega
      · -- index out of range: the default branch has a NULL child
        have hgd : bs.getD (pickBranch rect (nodeT.mk l bs)) defaultBranch = defaultBranch :=
          List.getD_eq_default _ _ (le_of_not_lt hidxlt)
        have hch : (bs.getD (pickBranch rect (nodeT.mk l bs)) defaultBranch).2.1 = none := by
          rw [hgd]
          rfl
        have heq : insertRectRec rect item (.mk l bs) level =
            (⟨l, bs.set (pickBranch rect (nodeT.mk l bs))
              (combineRect rect ((bs.getD (pickBranch rect (nodeT.mk l bs)) defaultBranch).1),
               none,
               (bs.getD (pickBranch rect (nodeT.mk l bs)) defaultBranch).2.2)⟩, none) := by
          rw [insertRectRec]
          rw [if_pos hgt]
          simp only [walkChild_eq, hch]
        have hset : bs.set (pickBranch rect (nodeT.mk l bs))
            (combineRect rect ((bs.getD (pickBranch rect (nodeT.mk l bs)) defaultBranch).1),
             none,
             (bs.getD (pickBranch rect (nodeT.mk l bs)) defaultBranch).2.2) = bs :=
          List.set_eq_of_length_le (le_of_not_lt hidxlt)
        rw [heq, hset]
        exact ⟨⟨rfl, hg⟩, fun _ => ⟨le_refl _, Nat.le_succ _⟩, fun o ho => Option.noConfusion ho⟩
    · by_cases heql : l = level
      · have heq : insertRectRec rect item (.mk l bs) level =
            addBranch (rect, none, item) ⟨l, bs⟩ := by
          rw [insertRectRec]
          rw [if_neg hgt, if_pos heql]
        have hbrok : branchOk l (rect, none, item) :=
          ⟨hwfr, fun _ => rfl, fun c hc => Option.noConfusion hc⟩
        have hadd := addBranch_good (rect, none, item) hg hbrok
        rw [heq]
        refine ⟨⟨hadd.1.1, hadd.1.2⟩, ?_, hadd.2.2⟩
        intro hnone
        have := hadd.2.1 hnone
        show bs.length ≤ _ ∧ _ ≤ bs.length + 1
        omega
      · have heq : insertRectRec rect item (.mk l bs) level = (⟨l, bs⟩, none) := by
          rw [insertRectRec]
          rw [if_neg hgt, if_neg heql]
        rw [heq]
        exact ⟨⟨rfl, hg⟩, fun _ => ⟨le_refl _, Nat.le_succ _⟩, fun o ho => Option.noConfusion ho⟩

theorem getLastD_getElem {α : Type _} (bs : List α) (d : α) (h : 0 < bs.length) :
    bs.getLastD d = bs.get ⟨bs.length - 1, Nat.sub_lt h Nat.one_pos⟩ := by
  rw [List.getLastD_eq_getLast?, List.getLast?_eq_getElem?,
    List.getElem?_eq_getElem (Nat.sub_lt h Nat.one_pos)]
  rfl

/-- Every element of the branch array after a disconnectBranch-style update
comes from a position other than the removed index. -/
theorem disconnect_mem {α : Type _} (Q : α → Prop) (bs : List α) (idx : ℕ) (d : α)
    (hok : ∀ j (hj : j < bs.length), j ≠ idx → Q (bs.get ⟨j, hj⟩)) :
    ∀ x ∈ (bs.set idx (bs.getLastD d)).dropLast, Q x := by
  intro x hx
  obtain ⟨j, hj, hxe⟩ := List.mem_iff_getElem.mp hx
  have hj' : j < bs.length - 1 := by
    have := hj
    rw [List.length_dropLast, List.length_set] at this
    exact this
  have hjlt : j < bs.length := by omega
  have hpos : 0 < bs.length := by omega
  rw [List.getElem_dropLast, List.getElem_set] at hxe
  by_cases hji : idx = j
  · rw [if_pos hji] at hxe
    rw [getLastD_getElem bs d hpos] at hxe
    have := hok (bs.length - 1) (Nat.sub_lt hpos Nat.one_pos) (by omega)
    rw [show bs.get ⟨bs.length - 1, Nat.sub_lt hpos Nat.one_pos⟩ =
      bs.get ⟨bs.length - 1, Nat.sub_lt hpos Nat.one_pos⟩ from rfl] at this
    rw [← hxe]
    exact this
  · rw [if_neg hji] at hxe
    rw [← hxe]
    exact hok j hjlt (fun h => hji h.symm)

/-- An item found in a child is an item of the (internal) parent. -/
theorem mem_itemsOf_of_child {l : ℤ} (hl : 0 < l) {bs : List branchT} {b : branchT}
    {c : nodeT} (hb : b ∈ bs) (hc : b.2.1 = some c) {it : ℕ} (hit : it ∈ itemsOf c) :
    it ∈ itemsOf (.mk l bs) := by
  have hgo : it ∈ (leafEntries.goList bs).map Prod.snd := by
    induction bs with
    | nil => exact absurd hb (List.not_mem_nil b)
    | cons hd tl ihtl =>
      rcases List.mem_cons.mp hb with hhd | htl
      · rcases hd with ⟨r, oc, i⟩
        rw [hhd] at hc
        cases oc with
        | none => exact Option.noConfusion hc
        | some c' =>
          have hcc : c' = c := Option.some.inj hc
          rw [leafEntries.goList, List.map_append]
          exact List.mem_append.mpr (Or.inl (by rw [hcc]; exact hit))
      · rcases hd with ⟨r, oc, i⟩
        cases oc with
        | none =>
          rw [leafEntries.goList]
          exact ihtl htl
        | some c' =>
          rw [leafEntries.goList, List.map_append]
          exact List.mem_append.mpr (Or.inr (ihtl htl))
  rw [itemsOf, leafEntries, if_pos hl]
  exact hgo

/-- An item of a leaf node seen positionally. -/
theorem mem_itemsOf_leaf {l : ℤ} (hl : ¬ 0 < l) {bs : List branchT} {j : ℕ}
    (hj : j < bs.length) : (bs.get ⟨j, hj⟩).2.2 ∈ itemsOf (.mk l bs) := by
  rw [itemsOf, leafEntries, if_neg hl, List.map_map]
  exact List.mem_iff_getElem.mpr ⟨j, by rw [List.length_map]; exact hj, by
    rw [List.getElem_map]; rfl⟩

/-- The scan loop of removeRectRec: nothing changes while no child reports a
removal; on the first success only the branch at the reported index changes,
to the same rectangle and item over the updated child. -/
theorem remLoop_spec (R : nodeT → Prop) (rect : rectT) (item : ℕ) :
    ∀ (bs : List branchT) (l0 : List nodeT),
    (∀ b ∈ bs, ∀ c : nodeT, (b : branchT).2.1 = some c →
      ∀ l' : List nodeT,
        ((removeRectRec rect item c l').1 = false →
          (removeRectRec rect item c l').2.1 = c ∧ (removeRectRec rect item c l').2.2 = l') ∧
        ((removeRectRec rect item c l').1 = true → item ∈ itemsOf c) ∧
        R (removeRectRec rect item c l').2.1 ∧
        (removeRectRec rect item c l').2.1.level = c.level ∧
        (removeRectRec rect item c l').2.1.count ≤ c.count ∧
        (∀ x ∈ (removeRectRec rect item c l').2.2, x ∈ l' ∨ R x)) →
    ((removeRectRec.remLoop rect item bs l0).1.length = bs.length) ∧
    ((removeRectRec.remLoop rect item bs l0).2.2 = none →
      (removeRectRec.remLoop rect item bs l0).1 = bs ∧
      (removeRectRec.remLoop rect item bs l0).2.1 = l0) ∧
    (∀ idx, (removeRectRec.remLoop rect item bs l0).2.2 = some idx →
      ∃ br c it c2, idx < bs.length ∧
        bs.getD idx defaultBranch = (br, some c, it) ∧
        (removeRectRec.remLoop rect item bs l0).1 = bs.set idx (br, some c2, it) ∧
        R c2 ∧ c2.level = c.level ∧ c2.count ≤ c.count ∧ item ∈ itemsOf c) ∧
    (∀ x ∈ (removeRectRec.remLoop rect item bs l0).2.1, x ∈ l0 ∨ R x) := by
  intro bs
  induction bs with
  | nil =>
    intro l0 hch
    rw [removeRectRec.remLoop]
    exact ⟨rfl, fun _ => ⟨rfl, rfl⟩, fun idx h => Option.noConfusion h,
      fun x hx => Or.inl hx⟩
  | cons hd rest ihrest =>
    intro l0 hch
    have hchrest : ∀ b ∈ rest, ∀ c : nodeT, (b : branchT).2.1 = some c →
        ∀ l' : List nodeT,
        ((removeRectRec rect item c l').1 = false →
          (removeRectRec rect item c l').2.1 = c ∧ (removeRectRec rect item c l').2.2 = l') ∧
        ((removeRectRec rect item c l').1 = true → item ∈ itemsOf c) ∧
        R (removeRectRec rect item c l').2.1 ∧
        (removeRectRec rect item c l').2.1.level = c.level ∧
        (removeRectRec rect item c l').2.1.count ≤ c.count ∧
        (∀ x ∈ (removeRectRec rect item c l').2.2, x ∈ l' ∨ R x) :=
      fun b hb => hch b (List.mem_cons_of_mem hd hb)
    rcases hd with ⟨br, oc, it⟩
    cases oc with
    | none =>
      rw [removeRectRec.remLoop]
      obtain ⟨ih1, ih2, ih3, ih4⟩ := ihrest l0 hchrest
      refine ⟨?_, ?_, ?_, ?_⟩
      · show ((br, none, it) :: (removeRectRec.remLoop rect item rest l0).1).length = _
        rw [List.length_cons, ih1, List.length_cons]
      · intro hnone
        have hnone' : (removeRectRec.remLoop rect item rest l0).2.2 = none :=
          Option.map_eq_none'.mp hnone
        obtain ⟨he1, he2⟩ := ih2 hnone'
        exact ⟨by rw [he1], he2⟩
      · intro idx hsome
        obtain ⟨j, hj, hjidx⟩ := Option.map_eq_some'.mp hsome
        obtain ⟨br', c', it', c2, hlt, hgd, hset, hgc2, hlev, hcnt, hitem⟩ := ih3 j hj
        refine ⟨br', c', it', c2, ?_, ?_, ?_, hgc2, hlev, hcnt, hitem⟩
        · rw [← hjidx, List.length_cons]
          omega
        · rw [← hjidx]
          show rest.getD j defaultBranch = _
          exact hgd
        · rw [← hjidx]
          show (br, none, it) :: (removeRectRec.remLoop rect item rest l0).1 = _
          rw [hset]
          rfl
      · exact ih4
    | some c =>
      have hchc := hch (br, some c, it) (List.mem_cons_self _ _) c rfl
      rw [removeRectRec.remLoop]
      by_cases hov : overlap rect br = true
      · rw [if_pos hov]
        rcases hres : (removeRectRec rect item c l0) with ⟨found, c2, l2⟩
        have h1 := (hchc l0).1
        have h2 := (hchc l0).2.1
        have h3 := (hchc l0).2.2.1
        have h4 := (hchc l0).2.2.2.1
        have h5 := (hchc l0).2.2.2.2.1
        have h6 := (hchc l0).2.2.2.2.2
        simp only [hres] at h1 h2 h3 h4 h5 h6
        cases found with
        | true =>
          simp only [hres]
          refine ⟨?_, ?_, ?_, ?_⟩
          · rw [List.length_cons, List.length_cons]
          · intro hnone
            exact Option.noConfusion hnone
          · intro idx hsome
            cases Option.some.inj hsome
            exact ⟨br, c, it, c2, Nat.succ_pos _, rfl, rfl, h3, h4, h5, h2 rfl⟩
          · intro x hx
            exact h6 x hx
        | false =>
          obtain ⟨hc2, hl2⟩ := h1 rfl
          rw [hc2, hl2]
          obtain ⟨ih1, ih2, ih3, ih4⟩ := ihrest l0 hchrest
          refine ⟨?_, ?_, ?_, ?_⟩
          · show ((br, some c, it) :: (removeRectRec.remLoop rect item rest l0).1).length = _
            rw [List.length_cons, ih1, List.length_cons]
          · intro hnone
            have hnone' : (removeRectRec.remLoop rect item rest l0).2.2 = none :=
              Option.map_eq_none'.mp hnone
            obtain ⟨he1, he2⟩ := ih2 hnone'
            constructor
            · show (br, some c, it) :: (removeRectRec.remLoop rect item rest l0).1 = _
              rw [he1]
            · exact he2
          · intro idx hsome
            have hsome' : Option.map (· + 1) (removeRectRec.remLoop rect item rest l0).2.2 =
                some idx := hsome
            obtain ⟨j, hj, hjidx⟩ := Option.map_eq_some'.mp hsome'
            obtain ⟨br', c', it', c2', hlt, hgd, hset, hgc2, hlev, hcnt, hitem⟩ := ih3 j hj
            refine ⟨br', c', it', c2', ?_, ?_, ?_, hgc2, hlev, hcnt, hitem⟩
            · rw [← hjidx, List.length_cons]
              omega
            · rw [← hjidx]
              show rest.getD j defaultBranch = _
              exact hgd
            · rw [← hjidx]
              show (br, some c, it) :: (removeRectRec.remLoop rect item rest l0).1 = _
              rw [hset]
              rfl
          · intro x hx
            exact ih4 x hx
      · rw [if_neg hov]
        obtain ⟨ih1, ih2, ih3, ih4⟩ := ihrest l0 hchrest
        refine ⟨?_, ?_, ?_, ?_⟩
        · show ((br, some c, it) :: (removeRectRec.remLoop rect item rest l0).1).length = _
          rw [List.length_cons, ih1, List.length_cons]
        · intro hnone
          have hnone' : (removeRectRec.remLoop rect item rest l0).2.2 = none :=
            Option.map_eq_none'.mp hnone
          obtain ⟨he1, he2⟩ := ih2 hnone'
          constructor
          · show (br, some c, it) :: (removeRectRec.remLoop rect item rest l0).1 = _
            rw [he1]
          · exact he2
        · intro idx hsome
          have hsome' : Option.map (· + 1) (removeRectRec.remLoop rect item rest l0).2.2 =
              some idx := hsome
          obtain ⟨j, hj, hjidx⟩ := Option.map_eq_some'.mp hsome'
          obtain ⟨br', c', it', c2', hlt, hgd, hset, hgc2, hlev, hcnt, hitem⟩ := ih3 j hj
          refine ⟨br', c', it', c2', ?_, ?_, ?_, hgc2, hlev, hcnt, hitem⟩
          · rw [← hjidx, List.length_cons]
            omega
          · rw [← hjidx]
            show rest.getD j defaultBranch = _
            exact hgd
          · rw [← hjidx]
            show (br, some c, it) :: (removeRectRec.remLoop rect item rest l0).1 = _
            rw [hset]
            rfl
        · intro x hx
          exact ih4 x hx

/-- Goodness, level, count and the untouched-on-failure property of the
recursive removal. -/
theorem removeRectRec_good (rect : rectT) (item : ℕ) :
    ∀ n : nodeT, Good n → ∀ l0 : List nodeT,
    ((removeRectRec rect item n l0).1 = false →
      (removeRectRec rect item n l0).2.1 = n ∧ (removeRectRec rect item n l0).2.2 = l0) ∧
    ((removeRectRec rect item n l0).1 = true → item ∈ itemsOf n) ∧
    Good (removeRectRec rect item n l0).2.1 ∧
    (removeRectRec rect item n l0).2.1.level = n.level ∧
    (removeRectRec rect item n l0).2.1.count ≤ n.count ∧
    (∀ x ∈ (removeRectRec rect item n l0).2.2, x ∈ l0 ∨ Good x) := by
  intro n
  induction n using nodeT.inductionOn with
  | h l bs ih =>
    intro hg l0
    obtain ⟨hl0, hlen, hbs⟩ := (good_iff l bs).mp hg
    by_cases hl : l > 0
    · obtain ⟨sp1, sp2, sp3, sp4⟩ := remLoop_spec Good rect item bs l0
        (fun b hb c hc l' => ih b hb c hc ((hbs b hb).2.2 c hc).2.2 l')
      rw [removeRectRec, if_pos hl]
      rcases hri : (removeRectRec.remLoop rect item bs l0).2.2 with _ | idx
      · obtain ⟨he1, he2⟩ := sp2 hri
        have hrl : removeRectRec.remLoop rect item bs l0 = (bs, l0, none) := by
          have hx : removeRectRec.remLoop rect item bs l0 =
              ((removeRectRec.remLoop rect item bs l0).1,
               (removeRectRec.remLoop rect item bs l0).2.1,
               (removeRectRec.remLoop rect item bs l0).2.2) := rfl
          rw [hx, he1, he2, hri]
        rw [hrl]
        exact ⟨fun _ => ⟨rfl, rfl⟩, fun htrue => Bool.noConfusion htrue, hg, rfl, le_refl _,
          fun x hx => Or.inl hx⟩
      · obtain ⟨br, c, it, c2, hlt, hgd, hset, hgc2, hlev, hcnt, hitem⟩ := sp3 idx hri
        have hrl : removeRectRec.remLoop rect item bs l0 =
            (bs.set idx (br, some c2, it),
             (removeRectRec.remLoop rect item bs l0).2.1, some idx) := by
          have hx : removeRectRec.remLoop rect item bs l0 =
              ((removeRectRec.remLoop rect item bs l0).1,
               (removeRectRec.remLoop rect item bs l0).2.1,
               (removeRectRec.remLoop rect item bs l0).2.2) := rfl
          rw [hx, hset, hri]
        rw [hrl]
        have hgetd : (bs.set idx (br, some c2, it)).getD idx defaultBranch =
            (br, some c2, it) := by
          rw [List.getD_eq_getElem _ _ (by rw [List.length_set]; exact hlt),
            List.getElem_set, if_pos rfl]
        simp only [hgetd]
        have hbmem : (br, some c, it) ∈ bs := by
          rw [List.getD_eq_getElem _ _ hlt] at hgd
          rw [← hgd]
          exact List.getElem_mem hlt
        have hcok := (hbs _ hbmem).2.2 c rfl
        have hinitems : item ∈ itemsOf (nodeT.mk l bs) :=
          mem_itemsOf_of_child hl hbmem rfl hitem
        by_cases hmin : MIN_NODES ≤ c2.count
        · rw [if_pos hmin]
          rw [List.set_set]
          refine ⟨fun hfalse => Bool.noConfusion hfalse, fun _ => hinitems, ?_, rfl, ?_,
            fun x hx => sp4 x hx⟩
          · rw [good_iff]
            refine ⟨hl0, by rw [List.length_set]; exact hlen, ?_⟩
            intro x hx
            rcases List.mem_or_eq_of_mem_set hx with h | h
            · exact hbs x h
            · rw [h]
              refine ⟨?_, fun h0 => absurd h0 (by omega), ?_⟩
              · show wfRect (nodeCover c2)
                apply wf_coverOfList
                · apply count_pos_branch_ne_nil
                  have h8 : MIN_NODES = 8 := rfl
                  rw [h8] at hmin
                  omega
                · intro y hy
                  obtain ⟨_, _, hwfy⟩ := (good_iff' _).mp hgc2
                  exact (hwfy y hy).1
              · intro c' hc'
                rw [← Option.some.inj hc']
                exact ⟨by rw [hlev, hcok.1], hmin, hgc2⟩
          · show (bs.set idx _).length ≤ bs.length
            rw [List.length_set]
        · rw [if_neg hmin]
          refine ⟨fun hfalse => Bool.noConfusion hfalse, fun _ => hinitems, ?_, rfl, ?_, ?_⟩
          · show Good (nodeT.mk l (((bs.set idx (br, some c2, it)).set idx
              ((bs.set idx (br, some c2, it)).getLastD defaultBranch)).dropLast))
            rw [good_iff]
            refine ⟨hl0, ?_, ?_⟩
            · rw [List.length_dropLast, List.length_set, List.length_set]
              omega
            · apply disconnect_mem
              intro j hj hne
              have hjlen : j < bs.length := by
                rw [List.length_set] at hj
                exact hj
              have : (bs.set idx (br, some c2, it)).get ⟨j, hj⟩ = bs.get ⟨j, hjlen⟩ := by
                show (bs.set idx (br, some c2, it))[j] = bs[j]
                rw [List.getElem_set, if_neg (fun h => hne h.symm)]
              rw [this]
              exact hbs _ (List.get_mem bs j hjlen)
          · show ((bs.set idx (br, some c2, it)).set idx _).dropLast.length ≤ bs.length
            rw [List.length_dropLast, List.length_set, List.length_set]
            omega
          · intro x hx
            rcases List.mem_cons.mp hx with h | h
            · exact Or.inr (h ▸ hgc2)
            · exact sp4 x h
    · rw [removeRectRec, if_neg hl]
      rcases hf : bs.findIdx? (fun b => b.2.2 == item) with _ | index
      · rw [hf]
        exact ⟨fun _ => ⟨rfl, rfl⟩, fun htrue => Bool.noConfusion htrue, hg, rfl, le_refl _,
          fun x hx => Or.inl hx⟩
      · rw [hf]
        obtain ⟨hlt', hfi⟩ := List.findIdx?_eq_some_iff_findIdx_eq.mp hf
        have hpred : ((bs.get ⟨index, hlt'⟩).2.2 == item) = true := by
          have hw : bs.findIdx (fun b => b.2.2 == item) < bs.length := by rw [hfi]; exact hlt'
          have := List.findIdx_getElem (p := fun b => (b : branchT).2.2 == item) (w := hw)
          rw [List.get_eq_getElem]
          rw [show bs[index] = bs[bs.findIdx fun b => b.2.2 == item] from by
            congr 1
            exact hfi.symm]
          exact this
        have hii : item ∈ itemsOf (nodeT.mk l bs) := by
          have hmm := mem_itemsOf_leaf hl hlt'
          rw [beq_iff_eq.mp hpred] at hmm
          exact hmm
        refine ⟨fun hfalse => Bool.noConfusion hfalse, fun _ => hii, ?_, rfl, ?_,
          fun x hx => Or.inl hx⟩
        · show Good (nodeT.mk l ((bs.set index (bs.getLastD defaultBranch)).dropLast))
          rw [good_iff]
          refine ⟨hl0, ?_, ?_⟩
          · rw [List.length_dropLast, List.length_set]
            omega
          · apply disconnect_mem
            intro j hj hne
            exact hbs _ (List.get_mem bs j hj)
        · show (bs.set index _).dropLast.length ≤ bs.length
          rw [List.length_dropLast, List.length_set]
          omega

/-- Top-level insert preserves goodness; the root level grows by at most 1. -/
theorem insertRect_good (rect : rectT) (item : ℕ) (hwfr : wfRect rect)
    (root : nodeT) (hg : Good root) (level : ℤ) :
    Good (insertRect rect item root level).2 ∧
    (root.level ≤ (insertRect rect item root level).2.level ∧
     (insertRect rect item root level).2.level ≤ root.level + 1) := by
  have h := insertRectRec_good rect item hwfr root hg level
  rcases hr : insertRectRec rect item root level with ⟨r2, os⟩
  rw [hr] at h
  obtain ⟨⟨ha, hb⟩, hc, hd⟩ := h
  cases os with
  | none =>
    have heq : insertRect rect item root level = (false, r2) := by
      rw [insertRect, hr]
    rw [heq]
    exact ⟨hb, by rw [ha], by rw [ha]; omega⟩
  | some nn =>
    obtain ⟨hgn, hln, hc1, hc2⟩ := hd nn rfl
    have ha' : r2.level = root.level := ha
    have hb' : Good r2 := hb
    have hc1' : MIN_NODES ≤ r2.count := hc1
    have heq : insertRect rect item root level =
        (true, ⟨r2.level + 1, [(nodeCover r2, some r2, 0), (nodeCover nn, some nn, 0)]⟩) := by
      rw [insertRect, hr]
      rfl
    rw [heq]
    have hl0r : 0 ≤ r2.level := ((good_iff' r2).mp hb').1
    have hmn8 : MIN_NODES = 8 := rfl
    refine ⟨?_, ?_, ?_⟩
    · show Good (nodeT.mk (r2.level + 1)
        [(nodeCover r2, some r2, 0), (nodeCover nn, some nn, 0)])
      rw [good_iff]
      refine ⟨by omega, by norm_num [MAX_NODES], ?_⟩
      intro x hx
      rcases List.mem_cons.mp hx with h | h
      · rw [h]
        refine ⟨?_, fun h0 => absurd h0 (by omega), ?_⟩
        · show wfRect (nodeCover r2)
          apply wf_coverOfList
          · apply count_pos_branch_ne_nil
            rw [hmn8] at hc1'
            omega
          · intro y hy
            exact (((good_iff' r2).mp hb').2.2 y hy).1
        · intro c' hc'
          rw [← Option.some.inj hc']
          exact ⟨by omega, hc1', hb'⟩
      · rw [List.mem_singleton.mp h]
        refine ⟨?_, fun h0 => absurd h0 (by omega), ?_⟩
        · show wfRect (nodeCover nn)
          apply wf_coverOfList
          · apply count_pos_branch_ne_nil
            rw [hmn8] at hc2
            omega
          · intro y hy
            exact (((good_iff' nn).mp hgn).2.2 y hy).1
        · intro c' hc'
          rw [← Option.some.inj hc']
          refine ⟨?_, hc2, hgn⟩
          rw [hln, ← ha']
          omega
    · show root.level ≤ r2.level + 1
      omega
    · show r2.level + 1 ≤ root.level + 1
      omega

/-- insertRectTop preserves the optional-root goodness. -/
theorem insertRectTop_good (rect : rectT) (item : ℕ) (hwfr : wfRect rect)
    (root : Option nodeT) (hg : ∀ n, root = some n → Good n) (level : ℤ) :
    ∀ n, insertRectTop rect item root level = some n → Good n := by
  cases root with
  | none =>
    intro n h
    exact Option.noConfusion h
  | some r =>
    intro n h
    have hr : n = (insertRect rect item r level).2 := (Option.some.inj h).symm
    rw [hr]
    exact (insertRect_good rect item hwfr r (hg r rfl) level).1

/-- Reinsertion of a list of well-formed branches preserves goodness. -/
theorem insertBranches_good :
    ∀ (bs : List branchT) (level : ℤ) (root : Option nodeT),
    (∀ b ∈ bs, wfRect (b : branchT).1) →
    (∀ n, root = some n → Good n) →
    ∀ n, insertBranches bs level root = some n → Good n := by
  intro bs
  induction bs with
  | nil =>
    intro level root hwf hg n h
    rw [insertBranches] at h
    exact hg n h
  | cons b rest ihrest =>
    intro level root hwf hg n h
    rw [insertBranches] at h
    exact ihrest level _ (fun x hx => hwf x (List.mem_cons_of_mem b hx))
      (insertRectTop_good b.1 b.2.2 (hwf b (List.mem_cons_self _ _)) root hg level) n h

/-- Draining the reinsertion list preserves goodness. -/
theorem drainList_good :
    ∀ (ns : List nodeT) (root : Option nodeT),
    (∀ x ∈ ns, Good x) →
    (∀ n, root = some n → Good n) →
    ∀ n, drainList ns root = some n → Good n := by
  intro ns
  induction ns with
  | nil =>
    intro root hns hg n h
    rw [drainList] at h
    exact hg n h
  | cons t rest ihrest =>
    intro root hns hg n h
    rw [drainList] at h
    have hgt := hns t (List.mem_cons_self _ _)
    exact ihrest _ (fun x hx => hns x (List.mem_cons_of_mem t hx))
      (insertBranches_good t.branch t.level root
        (fun b hb => (((good_iff' t).mp hgt).2.2 b hb).1) hg) n h

/-- Top-level removal preserves goodness of the (possibly collapsed) root. -/
theorem removeRect_good (rect : rectT) (item : ℕ) (root : nodeT) (hg : Good root) :
    ∀ n, (removeRect rect item root).2 = some n → Good n := by
  have h := removeRectRec_good rect item root hg []
  rcases hr : removeRectRec rect item root [] with ⟨found, r2, lst⟩
  rw [hr] at h
  have hfalse : found = false → r2 = root ∧ lst = [] := fun hf => ⟨(h.1 hf).1, (h.1 hf).2⟩
  have hgood : Good r2 := h.2.2.1
  have hlst : ∀ x ∈ lst, x ∈ ([] : List nodeT) ∨ Good x := h.2.2.2.2.2
  cases found with
  | false =>
    intro n hn
    have heq : removeRect rect item root = (false, some r2) := by
      rw [removeRect, hr]
    rw [heq] at hn
    have hnr : n = r2 := (Option.some.inj hn).symm
    rw [hnr, (hfalse rfl).1]
    exact hg
  | true =>
    have hlst' : ∀ x ∈ lst, Good x := by
      intro x hx
      rcases hlst x hx with h' | h'
      · exact absurd h' (List.not_mem_nil x)
      · exact h'
    have hdrain := drainList_good lst (some r2) hlst'
      (fun m hm => by rw [← Option.some.inj hm]; exact hgood)
    have hstep : removeRect rect item root =
        (match drainList lst (some r2) with
         | some r3 =>
           if r3.count = 1 ∧ r3.level > 0 then
             (true, (r3.branch.getD 0 defaultBranch).2.1)
           else (true, some r3)
         | none => (true, none)) := by
      rw [removeRect, hr]
    rcases hd : drainList lst (some r2) with _ | r3
    · have hstep2 : removeRect rect item root = (true, none) := by
        rw [hstep, hd]
      intro n hn
      rw [hstep2] at hn
      exact Option.noConfusion hn
    · have hstep2 : removeRect rect item root =
          (if r3.count = 1 ∧ r3.level > 0 then
            (true, (r3.branch.getD 0 defaultBranch).2.1)
          else (true, some r3)) := by
        rw [hstep, hd]
      have hgr3 : Good r3 := hdrain r3 hd
      by_cases hcol : r3.count = 1 ∧ r3.level > 0
      · rw [if_pos hcol] at hstep2
        intro n hn
        rw [hstep2] at hn
        have h1 : 0 < r3.branch.length := by
          have h2 : r3.count = 1 := hcol.1
          rw [nodeT.count] at h2
          omega
        have hmem : r3.branch.getD 0 defaultBranch ∈ r3.branch := by
          rw [List.getD_eq_getElem _ _ h1]
          exact List.getElem_mem h1
        have hok := ((good_iff' r3).mp hgr3).2.2 _ hmem
        exact (hok.2.2 n hn).2.2
      · rw [if_neg hcol] at hstep2
        intro n hn
        rw [hstep2] at hn
        rw [← Option.some.inj hn]
        exact hgr3

/-- One operation preserves goodness of the optional root. -/
theorem applyOp_good (root : Option nodeT) (op : OpT) (hop : opWf op)
    (hg : ∀ n, root = some n → Good n) :
    ∀ n, applyOp root op = some n → Good n := by
  cases op with
  | ins rect item =>
    exact insertRectTop_good rect item hop root hg 0
  | del rect item =>
    cases root with
    | none =>
      intro n h
      exact Option.noConfusion h
    | some r =>
      intro n h
      exact removeRect_good rect item r (hg r rfl) n h

/-- Any operation sequence from a good root keeps the root good. -/
theorem applyOps_good :
    ∀ (ops : List OpT) (root : Option nodeT),
    (∀ op ∈ ops, opWf op) →
    (∀ n, root = some n → Good n) →
    ∀ n, applyOps ops root = some n → Good n := by
  intro ops
  induction ops with
  | nil =>
    intro root hops hg n h
    exact hg n h
  | cons op rest ihrest =>
    intro root hops hg n h
    exact ihrest (applyOp root op)
      (fun x hx => hops x (List.mem_cons_of_mem op hx))
      (applyOp_good root op (hops op (List.mem_cons_self _ _)) hg) n h

/-- Every strict descendant of a good node is good and has at least
MIN_NODES branches. -/
theorem subnode_good : ∀ {m n : nodeT}, Subnode m n → Good n →
    Good m ∧ MIN_NODES ≤ m.count := by
  intro m n h
  induction h with
  | child b hb hc =>
    intro hg
    rename_i c' n'
    have hok := ((good_iff' n').mp hg).2.2 b hb
    obtain ⟨_, _, h3⟩ := hok
    exact ⟨(h3 c' hc).2.2, (h3 c' hc).2.1⟩
  | trans hab hbc iha ihb =>
    intro hg
    obtain ⟨hgb, _⟩ := ihb hg
    exact iha hgb

theorem good_emptyRoot : Good emptyRoot :=
  (good_iff 0 []).mpr ⟨le_refl 0, by norm_num [MAX_NODES],
    fun b hb => absurd hb (List.not_mem_nil b)⟩

/-- C3: after any finite sequence of Insert and Delete operations (with
well-formed inserted rectangles) starting from the empty root, every node
other than the root holds between MIN_NODES and MAX_NODES branches, and the
root holds at most MAX_NODES. -/
theorem balance_after_operations (ops : List OpT) (hops : ∀ op ∈ ops, opWf op)
    (n : nodeT) (hn : applyOps ops (some emptyRoot) = some n) :
    n.count ≤ MAX_NODES ∧
    ∀ m, Subnode m n → MIN_NODES ≤ m.count ∧ m.count ≤ MAX_NODES := by
  have hg : Good n := applyOps_good ops (some emptyRoot) hops
    (fun m hm => by rw [← Option.some.inj hm]; exact good_emptyRoot) n hn
  refine ⟨((good_iff' n).mp hg).2.1, ?_⟩
  intro m hsub
  obtain ⟨hgm, hmn⟩ := subnode_good hsub hg
  exact ⟨hmn, ((good_iff' m).mp hgm).2.1⟩

theorem balance_after_operations_witness :
    (∀ op ∈ [OpT.ins ⟨0, 0, 1, 1⟩ 5], opWf op) ∧
    applyOps [OpT.ins ⟨0, 0, 1, 1⟩ 5] (some emptyRoot) =
      some ⟨0, [(⟨0, 0, 1, 1⟩, none, 5)]⟩ ∧
    ((⟨0, [(⟨0, 0, 1, 1⟩, none, 5)]⟩ : nodeT).count ≤ MAX_NODES ∧
     ∀ m, Subnode m ⟨0, [(⟨0, 0, 1, 1⟩, none, 5)]⟩ →
       MIN_NODES ≤ m.count ∧ m.count ≤ MAX_NODES) :=
  ⟨by decide, by decide,
    balance_after_operations [OpT.ins ⟨0, 0, 1, 1⟩ 5] (by decide) _ (by decide)⟩

/-- pickBranch always returns an index below the branch count of a nonempty
node. -/
theorem pickBranch_lt (rect : rectT) (l : ℤ) (bs : List branchT) (h : bs ≠ []) :
    pickBranch rect (.mk l bs) < bs.length := by
  have hlen : 0 < bs.length := List.length_pos.mpr h
  have hfold := foldl_preserve (fun (st : Bool × ℤ × ℤ × ℕ) => st.2.2.2 < bs.length)
    (fun st ib =>
      let curRect := ib.2.1
      let area := calcRectVolume curRect
      let tempRect := combineRect rect curRect
      let increase := calcRectVolume tempRect - area
      if increase < st.2.1 ∨ st.1 = true then (false, increase, area, ib.1)
      else if increase = st.2.1 ∧ area < st.2.2.1 then (st.1, increase, area, ib.1)
      else st)
    ((nodeT.mk l bs).branch.enum) ((true, -volUnit, 0, 0) : Bool × ℤ × ℤ × ℕ)
    (by
      intro b a ha hb
      by_cases h1 : calcRectVolume (combineRect rect a.2.1) - calcRectVolume a.2.1 < b.2.1 ∨
          b.1 = true
      · simp only [if_pos h1]
        exact List.fst_lt_of_mem_enum ha
      · simp only [if_neg h1]
        by_cases h2 : calcRectVolume (combineRect rect a.2.1) - calcRectVolume a.2.1 = b.2.1 ∧
            calcRectVolume a.2.1 < b.2.2.1
        · simp only [if_pos h2]
          exact List.fst_lt_of_mem_enum ha
        · simp only [if_neg h2]
          exact hb)
    hlen
  exact hfold

theorem combineRect_comm (a b : rectT) : combineRect a b = combineRect b a := by
  simp only [combineRect, dmin_eq, dmax_eq, min_comm, max_comm]

theorem combine_mono_right {a b : rectT} (r : rectT) (h : rectSub a b) :
    rectSub (combineRect r a) (combineRect r b) := by
  simp only [rectSub, combineRect, dmin_eq, dmax_eq] at *
  omega

/-- Permutation invariance of the covering rectangle. -/
theorem coverOfList_perm {l1 l2 : List branchT} (hp : l1.Perm l2) (h1 : l1 ≠ []) :
    coverOfList l1 = coverOfList l2 := by
  have h2 : l2 ≠ [] := by
    intro h
    rw [h] at hp
    exact h1 (List.Perm.eq_nil hp)
  apply rectSub_antisymm
  · exact coverOfList_sub h1 (fun x hx => sub_coverOfList l2 x (hp.mem_iff.mp hx))
  · exact coverOfList_sub h2 (fun x hx => sub_coverOfList l1 x (hp.mem_iff.mpr hx))

/-- Cover of a concatenation is the union of the covers. -/
theorem coverOfList_append {l1 l2 : List branchT} (h1 : l1 ≠ []) (h2 : l2 ≠ []) :
    coverOfList (l1 ++ l2) = combineRect (coverOfList l1) (coverOfList l2) := by
  have h12 : l1 ++ l2 ≠ [] := by
    intro h
    exact h1 (List.append_eq_nil.mp h).1
  apply rectSub_antisymm
  · apply coverOfList_sub h12
    intro x hx
    rcases List.mem_append.mp hx with h | h
    · exact rectSub_trans (sub_coverOfList l1 x h) (rectSub_combine_left _ _)
    · exact rectSub_trans (sub_coverOfList l2 x h) (rectSub_combine_right _ _)
  · apply combine_rectSub
    · exact coverOfList_sub h1 (fun x hx => sub_coverOfList _ x (List.mem_append.mpr (Or.inl hx)))
    · exact coverOfList_sub h2 (fun x hx => sub_coverOfList _ x (List.mem_append.mpr (Or.inr hx)))

theorem coverOfList_singleton (b : branchT) : coverOfList [b] = b.1 := rfl

/-- Replacing the branch at a live position by one with rectangle
combineRect rect (old rectangle) turns the cover into combineRect rect
(old cover), whatever the new child and item fields are. -/
theorem coverOfList_set_combine {bs : List branchT} {i : ℕ} (hi : i < bs.length)
    (rect : rectT) (ch : Option nodeT) (it : ℕ) :
    coverOfList (bs.set i (combineRect rect (bs.getD i defaultBranch).1, ch, it)) =
      combineRect rect (coverOfList bs) := by
  have hbs : bs ≠ [] := by
    intro h
    rw [h] at hi
    exact absurd hi (by simp)
  have hset : bs.set i (combineRect rect (bs.getD i defaultBranch).1, ch, it) ≠ [] := by
    intro h
    have := List.length_set bs i (combineRect rect (bs.getD i defaultBranch).1, ch, it)
    rw [h] at this
    rw [← this] at hi
    exact absurd hi (by simp)
  have hilt : i < (bs.set i (combineRect rect (bs.getD i defaultBranch).1, ch, it)).length := by
    rw [List.length_set]
    exact hi
  have hnewmem : (combineRect rect (bs.getD i defaultBranch).1, ch, it) ∈
      bs.set i (combineRect rect (bs.getD i defaultBranch).1, ch, it) := by
    rw [List.mem_iff_getElem]
    exact ⟨i, hilt, by rw [List.getElem_set, if_pos rfl]⟩
  apply rectSub_antisymm
  · apply coverOfList_sub hset
    intro x hx
    rcases List.mem_or_eq_of_mem_set hx with h | h
    · exact rectSub_trans (sub_coverOfList bs x h) (rectSub_combine_right _ _)
    · rw [h]
      show rectSub (combineRect rect (bs.getD i defaultBranch).1) _
      apply combine_rectSub
      · exact rectSub_combine_left _ _
      · refine rectSub_trans ?_ (rectSub_combine_right _ _)
        apply sub_coverOfList
        rw [List.getD_eq_getElem _ _ hi]
        exact List.getElem_mem hi
  · apply combine_rectSub
    · refine rectSub_trans (rectSub_combine_left rect (bs.getD i defaultBranch).1) ?_
      exact sub_coverOfList _ _ hnewmem
    · apply coverOfList_sub hbs
      intro x hx
      obtain ⟨j, hj, hxj⟩ := List.mem_iff_getElem.mp hx
      by_cases hji : j = i
      · subst hji
        have hxb : x = bs.getD j defaultBranch := by
          rw [List.getD_eq_getElem _ _ hi]
          exact hxj.symm
        rw [hxb]
        refine rectSub_trans (rectSub_combine_right rect (bs.getD j defaultBranch).1) ?_
        exact sub_coverOfList _ _ hnewmem
      · have hxmem : x ∈ bs.set i (combineRect rect (bs.getD i defaultBranch).1, ch, it) := by
          rw [List.mem_iff_getElem]
          refine ⟨j, by rw [List.length_set]; exact hj, ?_⟩
          rw [List.getElem_set, if_neg (fun h => hji h.symm)]
          exact hxj
        exact sub_coverOfList _ _ hxmem

theorem covered_iff (l : ℤ) (bs : List branchT) :
    Covered (.mk l bs) ↔
      ∀ b ∈ bs, ∀ c : nodeT, (b : branchT).2.1 = some c → b.1 = nodeCover c ∧ Covered c := by
  constructor
  · intro h
    cases h with
    | intro l bs h1 h2 => exact fun b hb c hc => ⟨h1 b hb c hc, h2 b hb c hc⟩
  · intro h
    exact Covered.intro l bs (fun b hb c hc => (h b hb c hc).1) (fun b hb c hc => (h b hb c hc).2)

theorem covered_iff' (n : nodeT) :
    Covered n ↔
      ∀ b ∈ n.branch, ∀ c : nodeT, (b : branchT).2.1 = some c → b.1 = nodeCover c ∧ Covered c := by
  cases n with
  | mk l bs => exact covered_iff l bs

theorem combine_mono_left {a b : rectT} (r : rectT) (h : rectSub a b) :
    rectSub (combineRect a r) (combineRect b r) := by
  simp only [rectSub, combineRect, dmin_eq, dmax_eq] at *
  omega

theorem coverOfList_append_singleton {bs : List branchT} (h : bs ≠ []) (b : branchT) :
    coverOfList (bs ++ [b]) = combineRect (coverOfList bs) b.1 := by
  rw [coverOfList_append h (by intro hx; exact List.noConfusion hx)]
  rfl

/-- Cover bookkeeping for the split case of the recursive insert: if the
combined cover of the two halves of the split child equals the inserted
rectangle joined with the old child cover, then after refreshing the branch
to the updated child and accounting the new sibling, the overall cover is
the inserted rectangle joined with the old node cover. -/
theorem cover_set_split {bs : List branchT} {i : ℕ} (hi : i < bs.length)
    {rect u v : rectT} (ch : Option nodeT) (it : ℕ)
    (hcomb : combineRect u v = combineRect rect (bs.getD i defaultBranch).1) :
    combineRect (coverOfList (bs.set i (u, ch, it))) v =
      combineRect rect (coverOfList bs) := by
  have hbs : bs ≠ [] := by
    intro h
    rw [h] at hi
    exact absurd hi (by simp)
  have hset : bs.set i (u, ch, it) ≠ [] := by
    intro h
    have hl := List.length_set bs i ((u, ch, it) : branchT)
    rw [h] at hl
    rw [← hl] at hi
    exact absurd hi (by simp)
  have hnewmem : ((u, ch, it) : branchT) ∈ bs.set i (u, ch, it) := by
    rw [List.mem_iff_getElem]
    exact ⟨i, by rw [List.length_set]; exact hi, by rw [List.getElem_set, if_pos rfl]⟩
  have hbmem : bs.getD i defaultBranch ∈ bs := by
    rw [List.getD_eq_getElem _ _ hi]
    exact List.getElem_mem hi
  have hwC : rectSub (bs.getD i defaultBranch).1 (coverOfList bs) :=
    sub_coverOfList bs _ hbmem
  apply rectSub_antisymm
  · apply combine_rectSub
    · apply coverOfList_sub hset
      intro x hx
      rcases List.mem_or_eq_of_mem_set hx with h | h
      · exact rectSub_trans (sub_coverOfList bs x h) (rectSub_combine_right _ _)
      · rw [h]
        show rectSub u _
        refine rectSub_trans (rectSub_combine_left u v) ?_
        rw [hcomb]
        exact combine_mono_right rect hwC
    · refine rectSub_trans (rectSub_combine_right u v) ?_
      rw [hcomb]
      exact combine_mono_right rect hwC
  · have hXsub : rectSub (combineRect u v) (combineRect (coverOfList (bs.set i (u, ch, it))) v) := by
      apply combine_rectSub
      · refine rectSub_trans (sub_coverOfList _ _ hnewmem) (rectSub_combine_left _ _)
      · exact rectSub_combine_right _ _
    apply combine_rectSub
    · refine rectSub_trans ?_ hXsub
      rw [hcomb]
      exact rectSub_combine_left _ _
    · apply coverOfList_sub hbs
      intro x hx
      obtain ⟨j, hj, hxj⟩ := List.mem_iff_getElem.mp hx
      by_cases hji : j = i
      · subst hji
        have hxb : x = bs.getD j defaultBranch := by
          rw [List.getD_eq_getElem _ _ hi]
          exact hxj.symm
        rw [hxb]
        refine rectSub_trans ?_ hXsub
        rw [hcomb]
        exact rectSub_combine_right _ _
      · have hxmem : x ∈ bs.set i (u, ch, it) := by
          rw [List.mem_iff_getElem]
          refine ⟨j, by rw [List.length_set]; exact hj, ?_⟩
          rw [List.getElem_set, if_neg (fun h => hji h.symm)]
          exact hxj
        exact rectSub_trans (sub_coverOfList _ _ hxmem) (rectSub_combine_left _ _)

/-- Covering bookkeeping of addBranch: in both outcomes the branches involved
keep their exact-cover property, and the total cover is the old cover joined
with the new branch rectangle. -/
theorem addBranch_covered (l : ℤ) (bs2 : List branchT) (b : branchT)
    (hlen : bs2.length ≤ MAX_NODES)
    (hwf : ∀ x ∈ bs2, wfRect (x : branchT).1) (hwfb : wfRect b.1)
    (hcov : ∀ x ∈ bs2, ∀ c : nodeT, (x : branchT).2.1 = some c → x.1 = nodeCover c ∧ Covered c)
    (hcovb : ∀ c : nodeT, b.2.1 = some c → b.1 = nodeCover c ∧ Covered c)
    (hne : bs2 ≠ []) :
    Covered (addBranch b (.mk l bs2)).1 ∧
    (∀ o, (addBranch b (.mk l bs2)).2 = some o → Covered o) ∧
    ((addBranch b (.mk l bs2)).2 = none →
      nodeCover (addBranch b (.mk l bs2)).1 = combineRect (coverOfList bs2) b.1) ∧
    (∀ o, (addBranch b (.mk l bs2)).2 = some o →
      combineRect (nodeCover (addBranch b (.mk l bs2)).1) (nodeCover o) =
        combineRect (coverOfList bs2) b.1) := by
  by_cases hlt : (nodeT.mk l bs2).count < MAX_NODES
  · rw [addBranch_lt hlt]
    refine ⟨?_, ?_, ?_, ?_⟩
    · rw [covered_iff']
      intro x hx c hc
      rcases List.mem_append.mp hx with h | h
      · exact hcov x h c hc
      · rw [List.mem_singleton.mp h] at hc ⊢
        exact hcovb c hc
    · intro o ho
      exact Option.noConfusion ho
    · intro _
      show coverOfList ((nodeT.mk l bs2).branch ++ [b]) = _
      exact coverOfList_append_singleton hne b
    · intro o ho
      exact Option.noConfusion ho
  · have hfst : (addBranch b (nodeT.mk l bs2)).1 = (splitNode (nodeT.mk l bs2) b).1 := by
      rw [addBranch_full hlt]
    have hsnd : (addBranch b (nodeT.mk l bs2)).2 = some (splitNode (nodeT.mk l bs2) b).2 := by
      rw [addBranch_full hlt]
    rw [hfst, hsnd]
    have hlen16 : bs2.length = MAX_NODES := by
      have hc : (nodeT.mk l bs2).count = bs2.length := rfl
      rw [hc] at hlt
      omega
    obtain ⟨s1, s2, s3, s4, s5, s6⟩ :=
      splitNode_spec l bs2 b hlen16 (fun x hx => hwf x hx) hwfb
    have hmm : ∀ x ∈ (splitNode (.mk l bs2) b).1.branch ++ (splitNode (.mk l bs2) b).2.branch,
        ∀ c : nodeT, (x : branchT).2.1 = some c → x.1 = nodeCover c ∧ Covered c := by
      intro x hx
      have hx2 : x ∈ bs2 ++ [b] := s6.mem_iff.mp hx
      rcases List.mem_append.mp hx2 with h | h
      · exact hcov x h
      · rw [List.mem_singleton.mp h]
        exact hcovb
    have hmn8 : MIN_NODES = 8 := rfl
    have hne1 : (splitNode (.mk l bs2) b).1.branch ≠ [] := by
      apply count_pos_branch_ne_nil
      rw [hmn8] at s3
      omega
    have hne2 : (splitNode (.mk l bs2) b).2.branch ≠ [] := by
      apply count_pos_branch_ne_nil
      rw [hmn8] at s4
      omega
    have hcovers : combineRect (nodeCover (splitNode (.mk l bs2) b).1)
        (nodeCover (splitNode (.mk l bs2) b).2) = combineRect (coverOfList bs2) b.1 := by
      show combineRect (coverOfList (splitNode (.mk l bs2) b).1.branch)
        (coverOfList (splitNode (.mk l bs2) b).2.branch) = _
      rw [← coverOfList_append hne1 hne2]
      rw [coverOfList_perm s6 (by
        intro h
        exact hne1 (List.append_eq_nil.mp h).1)]
      exact coverOfList_append_singleton (by
        intro h
        rw [h] at hlen16
        exact absurd hlen16.symm (by norm_num [MAX_NODES])) b
    refine ⟨?_, ?_, ?_, ?_⟩
    · rw [covered_iff']
      intro x hx
      exact hmm x (List.mem_append.mpr (Or.inl hx))
    · intro o ho
      rw [← Option.some.inj ho]
      rw [covered_iff']
      intro x hx
      exact hmm x (List.mem_append.mpr (Or.inr hx))
    · intro h
      exact Option.noConfusion h
    · intro o ho
      rw [← Option.some.inj ho]
      exact hcovers

/-- Exact-cover preservation through the recursive insert, together with the
equation describing how the cover grows. -/
theorem insertRectRec_covered (rect : rectT) (item : ℕ) (hwfr : wfRect rect) :
    ∀ n : nodeT, Good n → Covered n → ∀ level : ℤ,
    Covered (insertRectRec rect item n level).1 ∧
    (∀ o, (insertRectRec rect item n level).2 = some o → Covered o) ∧
    ((insertRectRec rect item n level).2 = none → 1 ≤ n.count → level ≤ n.level →
      nodeCover (insertRectRec rect item n level).1 = combineRect rect (nodeCover n)) ∧
    (∀ o, (insertRectRec rect item n level).2 = some o →
      combineRect (nodeCover (insertRectRec rect item n level).1) (nodeCover o) =
        combineRect rect (nodeCover n)) := by
  intro n
  induction n using nodeT.inductionOn with
  | h l bs ih =>
    intro hg hcov level
    obtain ⟨hl0, hlen, hbs⟩ := (good_iff l bs).mp hg
    have hcovbs := (covered_iff l bs).mp hcov
    have hmn8 : MIN_NODES = 8 := rfl
    by_cases hgt : l > level
    · by_cases hidxlt : pickBranch rect (nodeT.mk l bs) < bs.length
      · have hbmem : bs.getD (pickBranch rect (nodeT.mk l bs)) defaultBranch ∈ bs := by
          rw [List.getD_eq_getElem bs defaultBranch hidxlt]
          exact List.getElem_mem hidxlt
        rcases hch : (bs.getD (pickBranch rect (nodeT.mk l bs)) defaultBranch).2.1 with _ | c
        · have heq : insertRectRec rect item (.mk l bs) level =
              (⟨l, bs.set (pickBranch rect (nodeT.mk l bs))
                (combineRect rect ((bs.getD (pickBranch rect (nodeT.mk l bs)) defaultBranch).1),
                 none,
                 (bs.getD (pickBranch rect (nodeT.mk l bs)) defaultBranch).2.2)⟩, none) := by
            rw [insertRectRec]
            rw [if_pos hgt]
            simp only [walkChild_eq, hch]
          rw [heq]
          refine ⟨?_, fun o ho => Option.noConfusion ho, ?_, fun o ho => Option.noConfusion ho⟩
          · rw [covered_iff]
            intro x hx c hc
            rcases List.mem_or_eq_of_mem_set hx with h | h
            · exact hcovbs x h c hc
            · rw [h] at hc
              exact Option.noConfusion hc
          · intro _ _ _
            exact coverOfList_set_combine hidxlt rect none _
        · have hok := hbs _ hbmem
          obtain ⟨hcl, hcc, hcg⟩ := hok.2.2 c hch
          have hcovc := hcovbs _ hbmem c hch
          have ihc := ih _ hbmem c hch hcg hcovc.2 level
          have ihg := insertRectRec_good rect item hwfr c hcg level
          rcases hr2 : (insertRectRec rect item c level).2 with _ | other
          · have hcoverc : nodeCover (insertRectRec rect item c level).1 =
                combineRect rect (nodeCover c) := by
              apply ihc.2.2.1 hr2
              · rw [hmn8] at hcc
                omega
              · rw [hcl]
                omega
            have heq : insertRectRec rect item (.mk l bs) level =
                (⟨l, bs.set (pickBranch rect (nodeT.mk l bs))
                  (combineRect rect ((bs.getD (pickBranch rect (nodeT.mk l bs)) defaultBranch).1),
                   some (insertRectRec rect item c level).1,
                   (bs.getD (pickBranch rect (nodeT.mk l bs)) defaultBranch).2.2)⟩, none) := by
              rw [insertRectRec]
              rw [if_pos hgt]
              simp only [walkChild_eq, hch, hr2]
            rw [heq]
            refine ⟨?_, fun o ho => Option.noConfusion ho, ?_, fun o ho => Option.noConfusion ho⟩
            · rw [covered_iff]
              intro x hx c' hc'
              rcases List.mem_or_eq_of_mem_set hx with h | h
              · exact hcovbs x h c' hc'
              · rw [h] at hc' ⊢
                have hcc' : (insertRectRec rect item c level).1 = c' := Option.some.inj hc'
                rw [← hcc']
                constructor
                · show combineRect rect _ = _
                  rw [hcovc.1, hcoverc]
                · exact ihc.1
            · intro _ _ _
              exact coverOfList_set_combine hidxlt rect _ _
          · have hcombIH := ihc.2.2.2 other hr2
            have hcovother := ihc.2.1 other hr2
            have hgc' : Good (insertRectRec rect item c level).1 := ihg.1.2
            obtain ⟨hgother, hlother, hcntc', hcntother⟩ := ihg.2.2 other hr2
            have heq : insertRectRec rect item (.mk l bs) level =
                addBranch (nodeCover other, some other, 0)
                  ⟨l, bs.set (pickBranch rect (nodeT.mk l bs))
                    (nodeCoverChild (some (insertRectRec rect item c level).1),
                     some (insertRectRec rect item c level).1,
                     (bs.getD (pickBranch rect (nodeT.mk l bs)) defaultBranch).2.2)⟩ := by
              rw [insertRectRec]
              rw [if_pos hgt]
              simp only [walkChild_eq, hch, hr2]
            have hwfc' : wfRect (nodeCover (insertRectRec rect item c level).1) := by
              apply wf_coverOfList
              · apply count_pos_branch_ne_nil
                rw [hmn8] at hcntc'
                omega
              · intro y hy
                exact (((good_iff' _).mp hgc').2.2 y hy).1
            have hwfother : wfRect (nodeCover other) := by
              apply wf_coverOfList
              · apply count_pos_branch_ne_nil
                rw [hmn8] at hcntother
                omega
              · intro y hy
                exact (((good_iff' _).mp hgother).2.2 y hy).1
            have hadd := addBranch_covered l
              (bs.set (pickBranch rect (nodeT.mk l bs))
                (nodeCoverChild (some (insertRectRec rect item c level).1),
                 some (insertRectRec rect item c level).1,
                 (bs.getD (pickBranch rect (nodeT.mk l bs)) defaultBranch).2.2))
              (nodeCover other, some other, 0)
              (by rw [List.length_set]; exact hlen)
              (by
                intro x hx
                rcases List.mem_or_eq_of_mem_set hx with h | h
                · exact (hbs x h).1
                · rw [h]
                  exact hwfc')
              hwfother
              (by
                intro x hx c' hc'
                rcases List.mem_or_eq_of_mem_set hx with h | h
                · exact hcovbs x h c' hc'
                · rw [h] at hc' ⊢
                  have hcc' : (insertRectRec rect item c level).1 = c' := Option.some.inj hc'
                  rw [← hcc']
                  exact ⟨rfl, ihc.1⟩)
              (by
                intro c' hc'
                have hcc' : other = c' := Option.some.inj hc'
                rw [← hcc']
                exact ⟨rfl, hcovother⟩)
              (by
                intro h0
                have hl0' := List.length_set bs (pickBranch rect (nodeT.mk l bs))
                  ((nodeCoverChild (some (insertRectRec rect item c level).1),
                    some (insertRectRec rect item c level).1,
                    (bs.getD (pickBranch rect (nodeT.mk l bs)) defaultBranch).2.2) : branchT)
                rw [h0] at hl0'
                rw [← hl0'] at hidxlt
                exact absurd hidxlt (by simp))
            have hsplitcover : combineRect (coverOfList (bs.set (pickBranch rect (nodeT.mk l bs))
                (nodeCoverChild (some (insertRectRec rect item c level).1),
                 some (insertRectRec rect item c level).1,
                 (bs.getD (pickBranch rect (nodeT.mk l bs)) defaultBranch).2.2)))
                (nodeCover other) = combineRect rect (coverOfList bs) := by
              apply cover_set_split hidxlt
              show combineRect (nodeCover (insertRectRec rect item c level).1)
                (nodeCover other) = _
              rw [hcombIH, hcovc.1]
            rw [heq]
            refine ⟨hadd.1, hadd.2.1, ?_, ?_⟩
            · intro hnone _ _
              rw [hadd.2.2.1 hnone]
              exact hsplitcover
            · intro o ho
              rw [hadd.2.2.2 o ho]
              exact hsplitcover
      · have hgd : bs.getD (pickBranch rect (nodeT.mk l bs)) defaultBranch = defaultBranch :=
          List.getD_eq_default _ _ (le_of_not_lt hidxlt)
        have hch : (bs.getD (pickBranch rect (nodeT.mk l bs)) defaultBranch).2.1 = none := by
          rw [hgd]
          rfl
        have heq : insertRectRec rect item (.mk l bs) level =
            (⟨l, bs.set (pickBranch rect (nodeT.mk l bs))
              (combineRect rect ((bs.getD (pickBranch rect (nodeT.mk l bs)) defaultBranch).1),
               none,
               (bs.getD (pickBranch rect (nodeT.mk l bs)) defaultBranch).2.2)⟩, none) := by
          rw [insertRectRec]
          rw [if_pos hgt]
          simp only [walkChild_eq, hch]
        have hset : bs.set (pickBranch rect (nodeT.mk l bs))
            (combineRect rect ((bs.getD (pickBranch rect (nodeT.mk l bs)) defaultBranch).1),
             none,
             (bs.getD (pickBranch rect (nodeT.mk l bs)) defaultBranch).2.2) = bs :=
          List.set_eq_of_length_le (le_of_not_lt hidxlt)
        rw [heq, hset]
        refine ⟨hcov, fun o ho => Option.noConfusion ho, ?_, fun o ho => Option.noConfusion ho⟩
        intro _ h1 _
        exfalso
        have hne : bs ≠ [] := by
          intro h0
          rw [h0] at h1
          exact absurd h1 (by show ¬ (1 : ℕ) ≤ 0; decide)
        exact hidxlt (pickBranch_lt rect l bs hne)
    · by_cases heql : l = level
      · have heq : insertRectRec rect item (.mk l bs) level =
            addBranch (rect, none, item) ⟨l, bs⟩ := by
          rw [insertRectRec]
          rw [if_neg hgt, if_pos heql]
        rw [heq]
        by_cases hbs0 : bs = []
        · subst hbs0
          have hlt : (nodeT.mk l ([] : List branchT)).count < MAX_NODES := by
            show (0 : ℕ) < 16
            decide
          rw [addBranch_lt hlt]
          refine ⟨?_, fun o ho => Option.noConfusion ho, ?_, fun o ho => Option.noConfusion ho⟩
          · rw [covered_iff']
            intro x hx c hc
            have hx' : x = ((rect, none, item) : branchT) := by
              rcases List.mem_append.mp hx with h | h
              · exact absurd h (List.not_mem_nil x)
              · exact List.mem_singleton.mp h
            rw [hx'] at hc
            exact Option.noConfusion hc
          · intro _ h1 _
            exact absurd h1 (by show ¬ (1 : ℕ) ≤ 0; decide)
        · have hadd := addBranch_covered l bs ((rect, none, item) : branchT) hlen
            (fun x hx => (hbs x hx).1) hwfr hcovbs
            (fun c hc => Option.noConfusion hc) hbs0
          refine ⟨hadd.1, hadd.2.1, ?_, ?_⟩
          · intro hnone _ _
            rw [hadd.2.2.1 hnone]
            exact combineRect_comm _ _
          · intro o ho
            rw [hadd.2.2.2 o ho]
            exact combineRect_comm _ _
      · have heq : insertRectRec rect item (.mk l bs) level = (⟨l, bs⟩, none) := by
          rw [insertRectRec]
          rw [if_neg hgt, if_neg heql]
        rw [heq]
        refine ⟨hcov, fun o ho => Option.noConfusion ho, ?_, fun o ho => Option.noConfusion ho⟩
        intro _ _ hlev
        exfalso
        have hle : l ≤ level := not_lt.mp hgt
        have hlev' : level ≤ l := hlev
        omega

/-- Exact-cover preservation through the recursive removal. -/
theorem removeRectRec_covered (rect : rectT) (item : ℕ) :
    ∀ n : nodeT, Good n → Covered n → ∀ l0 : List nodeT,
    Covered (removeRectRec rect item n l0).2.1 ∧
    (∀ x ∈ (removeRectRec rect item n l0).2.2, x ∈ l0 ∨ Covered x) := by
  intro n
  induction n using nodeT.inductionOn with
  | h l bs ih =>
    intro hg hcov l0
    obtain ⟨hl0, hlen, hbs⟩ := (good_iff l bs).mp hg
    have hcovbs := (covered_iff l bs).mp hcov
    by_cases hl : l > 0
    · obtain ⟨sp1, sp2, sp3, sp4⟩ := remLoop_spec (fun x => Good x ∧ Covered x) rect item bs l0
        (by
          intro b hb c hc l'
          have hgc := ((hbs b hb).2.2 c hc).2.2
          have hcc := (hcovbs b hb c hc).2
          have hgood := removeRectRec_good rect item c hgc l'
          have hcov' := ih b hb c hc hgc hcc l'
          refine ⟨hgood.1, hgood.2.1, ⟨hgood.2.2.1, hcov'.1⟩, hgood.2.2.2.1,
            hgood.2.2.2.2.1, ?_⟩
          intro x hx
          rcases hgood.2.2.2.2.2 x hx with h | h
          · exact Or.inl h
          · rcases hcov'.2 x hx with h' | h'
            · exact Or.inl h'
            · exact Or.inr ⟨h, h'⟩)
      rw [removeRectRec, if_pos hl]
      rcases hri : (removeRectRec.remLoop rect item bs l0).2.2 with _ | idx
      · obtain ⟨he1, he2⟩ := sp2 hri
        have hrl : removeRectRec.remLoop rect item bs l0 = (bs, l0, none) := by
          have hx : removeRectRec.remLoop rect item bs l0 =
              ((removeRectRec.remLoop rect item bs l0).1,
               (removeRectRec.remLoop rect item bs l0).2.1,
               (removeRectRec.remLoop rect item bs l0).2.2) := rfl
          rw [hx, he1, he2, hri]
        rw [hrl]
        exact ⟨hcov, fun x hx => Or.inl hx⟩
      · obtain ⟨br, c, it, c2, hlt, hgd, hset, hgcc2, hlev, hcnt, hitem⟩ := sp3 idx hri
        obtain ⟨hgc2, hcovc2⟩ := hgcc2
        have hrl : removeRectRec.remLoop rect item bs l0 =
            (bs.set idx (br, some c2, it),
             (removeRectRec.remLoop rect item bs l0).2.1, some idx) := by
          have hx : removeRectRec.remLoop rect item bs l0 =
              ((removeRectRec.remLoop rect item bs l0).1,
               (removeRectRec.remLoop rect item bs l0).2.1,
               (removeRectRec.remLoop rect item bs l0).2.2) := rfl
          rw [hx, hset, hri]
        rw [hrl]
        have hgetd : (bs.set idx (br, some c2, it)).getD idx defaultBranch =
            (br, some c2, it) := by
          rw [List.getD_eq_getElem _ _ (by rw [List.length_set]; exact hlt),
            List.getElem_set, if_pos rfl]
        simp only [hgetd]
        by_cases hmin : MIN_NODES ≤ c2.count
        · rw [if_pos hmin]
          rw [List.set_set]
          refine ⟨?_, fun x hx => ?_⟩
          · rw [covered_iff]
            intro x hx c' hc'
            rcases List.mem_or_eq_of_mem_set hx with h | h
            · exact hcovbs x h c' hc'
            · rw [h] at hc' ⊢
              have hcc' : c2 = c' := Option.some.inj hc'
              rw [← hcc']
              exact ⟨rfl, hcovc2⟩
          · rcases sp4 x hx with h | h
            · exact Or.inl h
            · exact Or.inr h.2
        · rw [if_neg hmin]
          refine ⟨?_, fun x hx => ?_⟩
          · show Covered (nodeT.mk l (((bs.set idx (br, some c2, it)).set idx
              ((bs.set idx (br, some c2, it)).getLastD defaultBranch)).dropLast))
            rw [covered_iff]
            apply disconnect_mem
            intro j hj hne
            have hjlen : j < bs.length := by
              rw [List.length_set] at hj
              exact hj
            have hjn : (bs.set idx (br, some c2, it)).get ⟨j, hj⟩ = bs.get ⟨j, hjlen⟩ := by
              show (bs.set idx (br, some c2, it))[j] = bs[j]
              rw [List.getElem_set, if_neg (fun h => hne h.symm)]
            rw [hjn]
            exact hcovbs _ (List.get_mem bs j hjlen)
          · rcases List.mem_cons.mp hx with h | h
            · exact Or.inr (h ▸ hcovc2)
            · rcases sp4 x h with h' | h'
              · exact Or.inl h'
              · exact Or.inr h'.2
    · rw [removeRectRec, if_neg hl]
      rcases hf : bs.findIdx? (fun b => b.2.2 == item) with _ | index
      · rw [hf]
        exact ⟨hcov, fun x hx => Or.inl hx⟩
      · rw [hf]
        refine ⟨?_, fun x hx => Or.inl hx⟩
        show Covered (nodeT.mk l ((bs.set index (bs.getLastD defaultBranch)).dropLast))
        rw [covered_iff]
        apply disconnect_mem
        intro j hj hne
        exact hcovbs _ (List.get_mem bs j hj)

/-- Top-level insert keeps the root exactly covered. -/
theorem insertRect_covered (rect : rectT) (item : ℕ) (hwfr : wfRect rect)
    (root : nodeT) (hg : Good root) (hcov : Covered root) (level : ℤ) :
    Covered (insertRect rect item root level).2 := by
  have h := insertRectRec_covered rect item hwfr root hg hcov level
  rcases hr : insertRectRec rect item root level with ⟨r2, os⟩
  rw [hr] at h
  have hcr2 : Covered r2 := h.1
  cases os with
  | none =>
    have heq : insertRect rect item root level = (false, r2) := by
      rw [insertRect, hr]
    rw [heq]
    exact hcr2
  | some nn =>
    have hcnn : Covered nn := h.2.1 nn rfl
    have heq : insertRect rect item root level =
        (true, ⟨r2.level + 1, [(nodeCover r2, some r2, 0), (nodeCover nn, some nn, 0)]⟩) := by
      rw [insertRect, hr]
      rfl
    rw [heq]
    show Covered (nodeT.mk (r2.level + 1)
      [(nodeCover r2, some r2, 0), (nodeCover nn, some nn, 0)])
    rw [covered_iff]
    intro b hb c hc
    rcases List.mem_cons.mp hb with h1 | h1
    · rw [h1] at hc ⊢
      have : r2 = c := Option.some.inj hc
      rw [← this]
      exact ⟨rfl, hcr2⟩
    · rw [List.mem_singleton.mp h1] at hc ⊢
      have : nn = c := Option.some.inj hc
      rw [← this]
      exact ⟨rfl, hcnn⟩


theorem insertRectTop_GC (rect : rectT) (item : ℕ) (hwfr : wfRect rect)
    (root : Option nodeT) (h : rootInv root) (level : ℤ) :
    rootInv (insertRectTop rect item root level) := by
  cases root with
  | none =>
    intro n hn
    exact Option.noConfusion hn
  | some r =>
    intro n hn
    have hr : n = (insertRect rect item r level).2 := (Option.some.inj hn).symm
    obtain ⟨hg, hcov⟩ := h r rfl
    rw [hr]
    exact ⟨(insertRect_good rect item hwfr r hg level).1,
      insertRect_covered rect item hwfr r hg hcov level⟩

theorem insertBranches_GC :
    ∀ (bs : List branchT) (level : ℤ) (root : Option nodeT),
    (∀ b ∈ bs, wfRect (b : branchT).1) → rootInv root →
    rootInv (insertBranches bs level root) := by
  intro bs
  induction bs with
  | nil =>
    intro level root _ h
    rw [insertBranches]
    exact h
  | cons b rest ihrest =>
    intro level root hwf h
    rw [insertBranches]
    exact ihrest level _ (fun x hx => hwf x (List.mem_cons_of_mem b hx))
      (insertRectTop_GC b.1 b.2.2 (hwf b (List.mem_cons_self _ _)) root h level)

theorem drainList_GC :
    ∀ (ns : List nodeT) (root : Option nodeT),
    (∀ x ∈ ns, Good x ∧ Covered x) → rootInv root →
    rootInv (drainList ns root) := by
  intro ns
  induction ns with
  | nil =>
    intro root _ h
    rw [drainList]
    exact h
  | cons t rest ihrest =>
    intro root hns h
    rw [drainList]
    have hgt := hns t (List.mem_cons_self _ _)
    exact ihrest _ (fun x hx => hns x (List.mem_cons_of_mem t hx))
      (insertBranches_GC t.branch t.level root
        (fun b hb => (((good_iff' t).mp hgt.1).2.2 b hb).1) h)

/-- Top-level removal keeps the (possibly collapsed) root good and exactly
covered. -/
theorem removeRect_GC (rect : rectT) (item : ℕ) (root : nodeT)
    (hg : Good root) (hcov : Covered root) :
    rootInv (removeRect rect item root).2 := by
  have h := removeRectRec_good rect item root hg []
  have hc := removeRectRec_covered rect item root hg hcov []
  rcases hr : removeRectRec rect item root [] with ⟨found, r2, lst⟩
  rw [hr] at h hc
  have hfalse : found = false → r2 = root ∧ lst = [] := fun hf => ⟨(h.1 hf).1, (h.1 hf).2⟩
  have hgood : Good r2 := h.2.2.1
  have hcov2 : Covered r2 := hc.1
  have hlstGC : ∀ x ∈ lst, Good x ∧ Covered x := by
    intro x hx
    have h1 := h.2.2.2.2.2 x hx
    have h2 := hc.2 x hx
    rcases h1 with h1 | h1
    · exact absurd h1 (List.not_mem_nil x)
    · rcases h2 with h2 | h2
      · exact absurd h2 (List.not_mem_nil x)
      · exact ⟨h1, h2⟩
  cases found with
  | false =>
    intro n hn
    have heq : removeRect rect item root = (false, some r2) := by
      rw [removeRect, hr]
    rw [heq] at hn
    have hnr : n = r2 := (Option.some.inj hn).symm
    rw [hnr, (hfalse rfl).1]
    exact ⟨hg, hcov⟩
  | true =>
    have hdrain := drainList_GC lst (some r2) hlstGC
      (fun m hm => by rw [← Option.some.inj hm]; exact ⟨hgood, hcov2⟩)
    have hstep : removeRect rect item root =
        (match drainList lst (some r2) with
         | some r3 =>
           if r3.count = 1 ∧ r3.level > 0 then
             (true, (r3.branch.getD 0 defaultBranch).2.1)
           else (true, some r3)
         | none => (true, none)) := by
      rw [removeRect, hr]
    rcases hd : drainList lst (some r2) with _ | r3
    · have hstep2 : removeRect rect item root = (true, none) := by
        rw [hstep, hd]
      intro n hn
      rw [hstep2] at hn
      exact Option.noConfusion hn
    · have hstep2 : removeRect rect item root =
          (if r3.count = 1 ∧ r3.level > 0 then
            (true, (r3.branch.getD 0 defaultBranch).2.1)
          else (true, some r3)) := by
        rw [hstep, hd]
      obtain ⟨hgr3, hcr3⟩ := hdrain r3 hd
      by_cases hcol : r3.count = 1 ∧ r3.level > 0
      · rw [if_pos hcol] at hstep2
        intro n hn
        rw [hstep2] at hn
        have h1 : 0 < r3.branch.length := by
          have h2 : r3.count = 1 := hcol.1
          rw [nodeT.count] at h2
          omega
        have hmem : r3.branch.getD 0 defaultBranch ∈ r3.branch := by
          rw [List.getD_eq_getElem _ _ h1]
          exact List.getElem_mem h1
        have hok := ((good_iff' r3).mp hgr3).2.2 _ hmem
        have hcok := ((covered_iff' r3).mp hcr3) _ hmem n hn
        exact ⟨(hok.2.2 n hn).2.2, hcok.2⟩
      · rw [if_neg hcol] at hstep2
        intro n hn
        rw [hstep2] at hn
        rw [← Option.some.inj hn]
        exact ⟨hgr3, hcr3⟩

theorem applyOp_GC (root : Option nodeT) (op : OpT) (hop : opWf op)
    (h : rootInv root) : rootInv (applyOp root op) := by
  cases op with
  | ins rect item =>
    exact insertRectTop_GC rect item hop root h 0
  | del rect item =>
    cases root with
    | none =>
      intro n hn
      exact Option.noConfusion hn
    | some r =>
      intro n hn
      exact removeRect_GC rect item r (h r rfl).1 (h r rfl).2 n hn

theorem applyOps_GC :
    ∀ (ops : List OpT) (root : Option nodeT),
    (∀ op ∈ ops, opWf op) → rootInv root → rootInv (applyOps ops root) := by
  intro ops
  induction ops with
  | nil =>
    intro root _ h
    exact h
  | cons op rest ihrest =>
    intro root hops h
    exact ihrest (applyOp root op)
      (fun x hx => hops x (List.mem_cons_of_mem op hx))
      (applyOp_GC root op (hops op (List.mem_cons_self _ _)) h)

/-- Every strict descendant of an exactly covered good node is exactly
covered. -/
theorem subnode_covered : ∀ {m n : nodeT}, Subnode m n → Covered n → Covered m := by
  intro m n h
  induction h with
  | child b hb hc =>
    intro hcov
    rename_i c' n'
    exact (((covered_iff' n').mp hcov) b hb c' hc).2
  | trans hab hbc iha ihb =>
    intro hcov
    exact iha (ihb hcov)

theorem rootInv_empty : rootInv (some emptyRoot) := by
  intro n hn
  rw [← Option.some.inj hn]
  refine ⟨good_emptyRoot, ?_⟩
  rw [covered_iff']
  intro b hb
  exact absurd hb (List.not_mem_nil b)

/-- C4: after any sequence of operations from the empty root, every branch of
every node of the tree that points at a child carries exactly the covering
rectangle (per-dimension min of mins and max of maxes over the child's
branch rectangles) of that child. -/
theorem covers_exact_after_operations (ops : List OpT) (hops : ∀ op ∈ ops, opWf op)
    (n : nodeT) (hn : applyOps ops (some emptyRoot) = some n) :
    ∀ m, (m = n ∨ Subnode m n) →
      ∀ b ∈ m.branch, ∀ c : nodeT, (b : branchT).2.1 = some c → b.1 = nodeCover c := by
  have hinv := applyOps_GC ops (some emptyRoot) hops rootInv_empty n hn
  intro m hm b hb c hc
  have hcovm : Covered m := by
    rcases hm with h | h
    · rw [h]
      exact hinv.2
    · exact subnode_covered h hinv.2
  exact (((covered_iff' m).mp hcovm) b hb c hc).1

theorem covers_exact_after_operations_witness :
    (∀ op ∈ [OpT.ins ⟨0, 0, 2, 2⟩ 7, OpT.ins ⟨1, 1, 3, 3⟩ 8], opWf op) ∧
    applyOps [OpT.ins ⟨0, 0, 2, 2⟩ 7, OpT.ins ⟨1, 1, 3, 3⟩ 8] (some emptyRoot) =
      some ⟨0, [(⟨0, 0, 2, 2⟩, none, 7), (⟨1, 1, 3, 3⟩, none, 8)]⟩ ∧
    (∀ m, (m = (⟨0, [(⟨0, 0, 2, 2⟩, none, 7), (⟨1, 1, 3, 3⟩, none, 8)]⟩ : nodeT) ∨
        Subnode m ⟨0, [(⟨0, 0, 2, 2⟩, none, 7), (⟨1, 1, 3, 3⟩, none, 8)]⟩) →
      ∀ b ∈ m.branch, ∀ c : nodeT, (b : branchT).2.1 = some c → b.1 = nodeCover c) :=
  ⟨by decide, by decide,
    covers_exact_after_operations [OpT.ins ⟨0, 0, 2, 2⟩ 7, OpT.ins ⟨1, 1, 3, 3⟩ 8]
      (by decide) _ (by decide)⟩

theorem goList_flatMap : ∀ bs : List branchT,
    leafEntries.goList bs = bs.flatMap branchEntries
  | [] => rfl
  | (r, some c, i) :: rest => by
    rw [leafEntries.goList, goList_flatMap rest]
    rfl
  | (r, none, i) :: rest => by
    rw [leafEntries.goList, goList_flatMap rest]
    rfl

theorem leafEntries_internal {l : ℤ} (hl : 0 < l) (bs : List branchT) :
    leafEntries (.mk l bs) = bs.flatMap branchEntries := by
  rw [leafEntries, if_pos hl]
  exact goList_flatMap bs

theorem leafEntries_leaf {l : ℤ} (hl : ¬ 0 < l) (bs : List branchT) :
    leafEntries (.mk l bs) = bs.map (fun b => ((b : branchT).1, b.2.2)) := by
  rw [leafEntries, if_neg hl]

theorem nonull_iff (l : ℤ) (bs : List branchT) :
    NoNull (.mk l bs) ↔
      ∀ b ∈ bs, (0 < l → (b : branchT).2.1 ≠ none) ∧
        ∀ c : nodeT, b.2.1 = some c → NoNull c := by
  constructor
  · intro h
    cases h with
    | intro l bs h1 h2 => exact fun b hb => ⟨fun hl => h1 hl b hb, fun c hc => h2 b hb c hc⟩
  · intro h
    exact NoNull.intro l bs (fun hl b hb => (h b hb).1 hl) (fun b hb c hc => (h b hb).2 c hc)

theorem nonull_iff' (n : nodeT) :
    NoNull n ↔
      ∀ b ∈ n.branch, (0 < n.level → (b : branchT).2.1 ≠ none) ∧
        ∀ c : nodeT, b.2.1 = some c → NoNull c := by
  cases n with
  | mk l bs => exact nonull_iff l bs

/-- Move a permuted middle segment out of a concatenation, absorbing an
extra tail segment. -/
theorem perm_insert_mid {α : Type _} (T E' D X E : List α) (x : α)
    (h : (E' ++ X).Perm (x :: E)) : ((T ++ (E' ++ D)) ++ X).Perm (x :: (T ++ (E ++ D))) := by
  have s1 : ((T ++ (E' ++ D)) ++ X).Perm (T ++ (E' ++ (D ++ X))) := by
    rw [List.append_assoc, List.append_assoc]
  have s2 : (E' ++ (D ++ X)).Perm ((E' ++ X) ++ D) := by
    refine List.Perm.trans (List.Perm.append_left E' List.perm_append_comm) ?_
    rw [List.append_assoc]
  have s3 : ((E' ++ X) ++ D).Perm ((x :: E) ++ D) := List.Perm.append_right D h
  have s4 : (T ++ ((x :: E) ++ D)).Perm (x :: (T ++ (E ++ D))) := by
    rw [show (x :: E) ++ D = x :: (E ++ D) from rfl]
    exact List.perm_middle
  exact s1.trans ((List.Perm.append_left T (s2.trans s3)).trans s4)

theorem perm_insert_mid0 {α : Type _} (T E' D E : List α) (x : α)
    (h : E'.Perm (x :: E)) : (T ++ (E' ++ D)).Perm (x :: (T ++ (E ++ D))) := by
  have := perm_insert_mid T E' D [] E x (by rw [List.append_nil]; exact h)
  rw [List.append_nil] at this
  exact this

theorem take_getD_drop {α : Type _} (bs : List α) (d : α) {i : ℕ} (hi : i < bs.length) :
    bs.take i ++ bs.getD i d :: bs.drop (i + 1) = bs := by
  rw [List.getD_eq_getElem _ _ hi, ← List.drop_eq_getElem_cons hi, List.take_append_drop]

theorem flatMap_set {bs : List branchT} {i : ℕ} (hi : i < bs.length) (b' : branchT) :
    (bs.set i b').flatMap branchEntries =
      (bs.take i).flatMap branchEntries ++
        (branchEntries b' ++ (bs.drop (i + 1)).flatMap branchEntries) := by
  rw [List.set_eq_take_cons_drop b' hi, List.flatMap_append, List.flatMap_cons]

theorem flatMap_self_decomp {bs : List branchT} {i : ℕ} (hi : i < bs.length) :
    bs.flatMap branchEntries =
      (bs.take i).flatMap branchEntries ++
        (branchEntries (bs.getD i defaultBranch) ++ (bs.drop (i + 1)).flatMap branchEntries) := by
  conv_lhs => rw [← take_getD_drop bs defaultBranch hi]
  rw [List.flatMap_append, List.flatMap_cons]

theorem leafEntries_internal' {n : nodeT} (hl : 0 < n.level) :
    leafEntries n = n.branch.flatMap branchEntries := by
  cases n with
  | mk l bs => exact leafEntries_internal hl bs

theorem leafEntries_leaf' {n : nodeT} (hl : ¬ 0 < n.level) :
    leafEntries n = n.branch.map (fun b => ((b : branchT).1, b.2.2)) := by
  cases n with
  | mk l bs => exact leafEntries_leaf hl bs

/-- Leaf-level insertion: no NULL child appears in an insert-only tree, and
the leaf entries after the insert are the old ones plus the new pair; a split
distributes them over the two result nodes. -/
theorem insertRectRec_entries (rect : rectT) (item : ℕ) (hwfr : wfRect rect) :
    ∀ n : nodeT, Good n → NoNull n → (0 < n.level → 0 < n.count) →
    NoNull (insertRectRec rect item n 0).1 ∧
    (∀ o, (insertRectRec rect item n 0).2 = some o → NoNull o) ∧
    ((insertRectRec rect item n 0).2 = none →
      (leafEntries (insertRectRec rect item n 0).1).Perm ((rect, item) :: leafEntries n)) ∧
    (∀ o, (insertRectRec rect item n 0).2 = some o →
      (leafEntries (insertRectRec rect item n 0).1 ++ leafEntries o).Perm
        ((rect, item) :: leafEntries n)) := by
  intro n
  induction n using nodeT.inductionOn with
  | h l bs ih =>
    intro hg hnn hne0
    obtain ⟨hl0, hlen, hbs⟩ := (good_iff l bs).mp hg
    have hnnbs := (nonull_iff l bs).mp hnn
    have hmn8 : MIN_NODES = 8 := rfl
    by_cases hgt : l > 0
    · have hbsne : bs ≠ [] := by
        have hcp := hne0 hgt
        intro h0
        have hc : (nodeT.mk l bs).count = bs.length := rfl
        rw [hc, h0] at hcp
        simp at hcp
      have hidxlt := pickBranch_lt rect l bs hbsne
      have hbmem : bs.getD (pickBranch rect (nodeT.mk l bs)) defaultBranch ∈ bs := by
        rw [List.getD_eq_getElem bs defaultBranch hidxlt]
        exact List.getElem_mem hidxlt
      have hchne := (hnnbs _ hbmem).1 hgt
      rcases hch : (bs.getD (pickBranch rect (nodeT.mk l bs)) defaultBranch).2.1 with _ | c
      · exact absurd hch hchne
      · have hok := hbs _ hbmem
        obtain ⟨hcl, hcc, hcg⟩ := hok.2.2 c hch
        have hcnn := (hnnbs _ hbmem).2 c hch
        have hcne0 : 0 < c.level → 0 < c.count := fun _ => by
          rw [hmn8] at hcc
          omega
        have ihc := ih _ hbmem c hch hcg hcnn hcne0
        have ihg := insertRectRec_good rect item hwfr c hcg 0
        have hEc : branchEntries (bs.getD (pickBranch rect (nodeT.mk l bs)) defaultBranch) =
            leafEntries c := by
          simp only [branchEntries, hch]
        rcases hr2 : (insertRectRec rect item c 0).2 with _ | other
        · have heq : insertRectRec rect item (.mk l bs) 0 =
              (⟨l, bs.set (pickBranch rect (nodeT.mk l bs))
                (combineRect rect ((bs.getD (pickBranch rect (nodeT.mk l bs)) defaultBranch).1),
                 some (insertRectRec rect item c 0).1,
                 (bs.getD (pickBranch rect (nodeT.mk l bs)) defaultBranch).2.2)⟩, none) := by
            rw [insertRectRec]
            rw [if_pos hgt]
            simp only [walkChild_eq, hch, hr2]
          have heq1 : (insertRectRec rect item (.mk l bs) 0).1 =
              ⟨l, bs.set (pickBranch rect (nodeT.mk l bs))
                (combineRect rect ((bs.getD (pickBranch rect (nodeT.mk l bs)) defaultBranch).1),
                 some (insertRectRec rect item c 0).1,
                 (bs.getD (pickBranch rect (nodeT.mk l bs)) defaultBranch).2.2)⟩ := by
            rw [heq]
          have heq2 : (insertRectRec rect item (.mk l bs) 0).2 = none := by
            rw [heq]
          rw [heq1, heq2]
          refine ⟨?_, fun o ho => Option.noConfusion ho, ?_, fun o ho => Option.noConfusion ho⟩
          · rw [nonull_iff]
            intro x hx
            rcases List.mem_or_eq_of_mem_set hx with h | h
            · exact hnnbs x h
            · rw [h]
              refine ⟨fun _ h0 => Option.noConfusion h0, ?_⟩
              intro c' hc'
              rw [← Option.some.inj hc']
              exact ihc.1
          · intro _
            rw [leafEntries_internal hgt, leafEntries_internal hgt]
            rw [flatMap_set hidxlt, flatMap_self_decomp hidxlt, hEc]
            have hEc' : branchEntries
                (combineRect rect ((bs.getD (pickBranch rect (nodeT.mk l bs)) defaultBranch).1),
                 some (insertRectRec rect item c 0).1,
                 (bs.getD (pickBranch rect (nodeT.mk l bs)) defaultBranch).2.2) =
                leafEntries (insertRectRec rect item c 0).1 := by
              simp only [branchEntries]
            rw [hEc']
            exact perm_insert_mid0 _ _ _ _ _ (ihc.2.2.1 hr2)
        · obtain ⟨hgother, hlother, hcntc', hcntother⟩ := ihg.2.2 other hr2
          have hgc' : Good (insertRectRec rect item c 0).1 := ihg.1.2
          have hperm2 := ihc.2.2.2 other hr2
          have hnnc' := ihc.1
          have hnnother := ihc.2.1 other hr2
          have heq : insertRectRec rect item (.mk l bs) 0 =
              addBranch (nodeCover other, some other, 0)
                ⟨l, bs.set (pickBranch rect (nodeT.mk l bs))
                  (nodeCoverChild (some (insertRectRec rect item c 0).1),
                   some (insertRectRec rect item c 0).1,
                   (bs.getD (pickBranch rect (nodeT.mk l bs)) defaultBranch).2.2)⟩ := by
            rw [insertRectRec]
            rw [if_pos hgt]
            simp only [walkChild_eq, hch, hr2]
          rw [heq]
          have hnn2 : ∀ x ∈ bs.set (pickBranch rect (nodeT.mk l bs))
              (nodeCoverChild (some (insertRectRec rect item c 0).1),
               some (insertRectRec rect item c 0).1,
               (bs.getD (pickBranch rect (nodeT.mk l bs)) defaultBranch).2.2),
              (0 < l → (x : branchT).2.1 ≠ none) ∧
                ∀ c' : nodeT, x.2.1 = some c' → NoNull c' := by
            intro x hx
            rcases List.mem_or_eq_of_mem_set hx with h | h
            · exact hnnbs x h
            · rw [h]
              refine ⟨fun _ h0 => Option.noConfusion h0, ?_⟩
              intro c' hc'
              rw [← Option.some.inj hc']
              exact hnnc'
          have hE2 : (bs.set (pickBranch rect (nodeT.mk l bs))
              (nodeCoverChild (some (insertRectRec rect item c 0).1),
               some (insertRectRec rect item c 0).1,
               (bs.getD (pickBranch rect (nodeT.mk l bs)) defaultBranch).2.2)).flatMap
                branchEntries =
              (bs.take (pickBranch rect (nodeT.mk l bs))).flatMap branchEntries ++
                (leafEntries (insertRectRec rect item c 0).1 ++
                  (bs.drop (pickBranch rect (nodeT.mk l bs) + 1)).flatMap branchEntries) := by
            rw [flatMap_set hidxlt]
            rfl
          have hEbs : bs.flatMap branchEntries =
              (bs.take (pickBranch rect (nodeT.mk l bs))).flatMap branchEntries ++
                (leafEntries c ++
                  (bs.drop (pickBranch rect (nodeT.mk l bs) + 1)).flatMap branchEntries) := by
            rw [flatMap_self_decomp hidxlt, hEc]
          by_cases hlt : (nodeT.mk l (bs.set (pickBranch rect (nodeT.mk l bs))
              (nodeCoverChild (some (insertRectRec rect item c 0).1),
               some (insertRectRec rect item c 0).1,
               (bs.getD (pickBranch rect (nodeT.mk l bs)) defaultBranch).2.2))).count <
              MAX_NODES
          · have heqA : (addBranch ((nodeCover other, some other, 0) : branchT)
                (nodeT.mk l (bs.set (pickBranch rect (nodeT.mk l bs))
                  (nodeCoverChild (some (insertRectRec rect item c 0).1),
                   some (insertRectRec rect item c 0).1,
                   (bs.getD (pickBranch rect (nodeT.mk l bs)) defaultBranch).2.2)))).1 =
                ⟨l, bs.set (pickBranch rect (nodeT.mk l bs))
                  (nodeCoverChild (some (insertRectRec rect item c 0).1),
                   some (insertRectRec rect item c 0).1,
                   (bs.getD (pickBranch rect (nodeT.mk l bs)) defaultBranch).2.2) ++
                  [(nodeCover other, some other, 0)]⟩ := by
              rw [addBranch_lt hlt]
              rfl
            have heqB : (addBranch ((nodeCover other, some other, 0) : branchT)
                (nodeT.mk l (bs.set (pickBranch rect (nodeT.mk l bs))
                  (nodeCoverChild (some (insertRectRec rect item c 0).1),
                   some (insertRectRec rect item c 0).1,
                   (bs.getD (pickBranch rect (nodeT.mk l bs)) defaultBranch).2.2)))).2 =
                none := by
              rw [addBranch_lt hlt]
            rw [heqA, heqB]
            refine ⟨?_, fun o ho => Option.noConfusion ho, ?_, fun o ho => Option.noConfusion ho⟩
            · rw [nonull_iff']
              intro x hx
              rcases List.mem_append.mp hx with h | h
              · exact hnn2 x h
              · rw [List.mem_singleton.mp h]
                refine ⟨fun _ h0 => Option.noConfusion h0, ?_⟩
                intro c' hc'
                rw [← Option.some.inj hc']
                exact hnnother
            · intro _
              rw [leafEntries_internal hgt, leafEntries_internal hgt]
              rw [List.flatMap_append, hE2, hEbs]
              have hnewb : ([((nodeCover other, some other, 0) : branchT)]).flatMap
                  branchEntries = leafEntries other := by
                simp only [List.flatMap_cons, List.flatMap_nil, List.append_nil]
                rfl
              rw [hnewb]
              exact perm_insert_mid _ _ _ _ _ _ hperm2
          · have hfst : (addBranch ((nodeCover other, some other, 0) : branchT)
                (nodeT.mk l (bs.set (pickBranch rect (nodeT.mk l bs))
                  (nodeCoverChild (some (insertRectRec rect item c 0).1),
                   some (insertRectRec rect item c 0).1,
                   (bs.getD (pickBranch rect (nodeT.mk l bs)) defaultBranch).2.2)))).1 =
                (splitNode (nodeT.mk l (bs.set (pickBranch rect (nodeT.mk l bs))
                  (nodeCoverChild (some (insertRectRec rect item c 0).1),
                   some (insertRectRec rect item c 0).1,
                   (bs.getD (pickBranch rect (nodeT.mk l bs)) defaultBranch).2.2)))
                  (nodeCover other, some other, 0)).1 := by
              rw [addBranch_full hlt]
            have hsnd : (addBranch ((nodeCover other, some other, 0) : branchT)
                (nodeT.mk l (bs.set (pickBranch rect (nodeT.mk l bs))
                  (nodeCoverChild (some (insertRectRec rect item c 0).1),
                   some (insertRectRec rect item c 0).1,
                   (bs.getD (pickBranch rect (nodeT.mk l bs)) defaultBranch).2.2)))).2 =
                some (splitNode (nodeT.mk l (bs.set (pickBranch rect (nodeT.mk l bs))
                  (nodeCoverChild (some (insertRectRec rect item c 0).1),
                   some (insertRectRec rect item c 0).1,
                   (bs.getD (pickBranch rect (nodeT.mk l bs)) defaultBranch).2.2)))
                  (nodeCover other, some other, 0)).2 := by
              rw [addBranch_full hlt]
            rw [hfst, hsnd]
            have hlen16 : (bs.set (pickBranch rect (nodeT.mk l bs))
                (nodeCoverChild (some (insertRectRec rect item c 0).1),
                 some (insertRectRec rect item c 0).1,
                 (bs.getD (pickBranch rect (nodeT.mk l bs)) defaultBranch).2.2)).length =
                MAX_NODES := by
              have hc2 : (nodeT.mk l (bs.set (pickBranch rect (nodeT.mk l bs))
                  (nodeCoverChild (some (insertRectRec rect item c 0).1),
                   some (insertRectRec rect item c 0).1,
                   (bs.getD (pickBranch rect (nodeT.mk l bs)) defaultBranch).2.2))).count =
                  (bs.set (pickBranch rect (nodeT.mk l bs))
                  (nodeCoverChild (some (insertRectRec rect item c 0).1),
                   some (insertRectRec rect item c 0).1,
                   (bs.getD (pickBranch rect (nodeT.mk l bs)) defaultBranch).2.2)).length := rfl
              rw [hc2] at hlt
              rw [List.length_set] at hlt ⊢
              omega
            have hwfc' : wfRect (nodeCover (insertRectRec rect item c 0).1) := by
              apply wf_coverOfList
              · apply count_pos_branch_ne_nil
                rw [hmn8] at hcntc'
                omega
              · intro y hy
                exact (((good_iff' _).mp hgc').2.2 y hy).1
            have hwfother : wfRect (nodeCover other) := by
              apply wf_coverOfList
              · apply count_pos_branch_ne_nil
                rw [hmn8] at hcntother
                omega
              · intro y hy
                exact (((good_iff' _).mp hgother).2.2 y hy).1
            obtain ⟨s1, s2, s3, s4, s5, s6⟩ := splitNode_spec l _ (nodeCover other, some other, 0)
              hlen16
              (by
                intro x hx
                rcases List.mem_or_eq_of_mem_set hx with h | h
                · exact (hbs x h).1
                · rw [h]
                  exact hwfc')
              hwfother
            have hmm : ∀ x ∈ (splitNode (nodeT.mk l (bs.set (pickBranch rect (nodeT.mk l bs))
                (nodeCoverChild (some (insertRectRec rect item c 0).1),
                 some (insertRectRec rect item c 0).1,
                 (bs.getD (pickBranch rect (nodeT.mk l bs)) defaultBranch).2.2)))
                (nodeCover other, some other, 0)).1.branch ++
                (splitNode (nodeT.mk l (bs.set (pickBranch rect (nodeT.mk l bs))
                (nodeCoverChild (some (insertRectRec rect item c 0).1),
                 some (insertRectRec rect item c 0).1,
                 (bs.getD (pickBranch rect (nodeT.mk l bs)) defaultBranch).2.2)))
                (nodeCover other, some other, 0)).2.branch,
                (0 < l → (x : branchT).2.1 ≠ none) ∧
                  ∀ c' : nodeT, x.2.1 = some c' → NoNull c' := by
              intro x hx
              have hx2 := s6.mem_iff.mp hx
              rcases List.mem_append.mp hx2 with h | h
              · exact hnn2 x h
              · rw [List.mem_singleton.mp h]
                refine ⟨fun _ h0 => Option.noConfusion h0, ?_⟩
                intro c' hc'
                rw [← Option.some.inj hc']
                exact hnnother
            refine ⟨?_, ?_, ?_, ?_⟩
            · rw [nonull_iff']
              intro x hx
              rw [s1]
              exact hmm x (List.mem_append.mpr (Or.inl hx))
            · intro o ho
              rw [← Option.some.inj ho]
              rw [nonull_iff']
              intro x hx
              rw [s2]
              exact hmm x (List.mem_append.mpr (Or.inr hx))
            · intro h0
              exact Option.noConfusion h0
            · intro o ho
              rw [← Option.some.inj ho]
              rw [leafEntries_internal' (by rw [s1]; exact hgt),
                leafEntries_internal' (by rw [s2]; exact hgt),
                leafEntries_internal hgt]
              rw [← List.flatMap_append]
              refine List.Perm.trans (List.Perm.flatMap_right branchEntries s6) ?_
              rw [List.flatMap_append, hE2, hEbs]
              have hnewb : ([((nodeCover other, some other, 0) : branchT)]).flatMap
                  branchEntries = leafEntries other := by
                simp only [List.flatMap_cons, List.flatMap_nil, List.append_nil]
                rfl
              rw [hnewb]
              exact perm_insert_mid _ _ _ _ _ _ hperm2
    · have heql : l = 0 := by omega
      subst heql
      have heq : insertRectRec rect item (.mk 0 bs) 0 =
          addBranch (rect, none, item) ⟨0, bs⟩ := by
        rw [insertRectRec]
        rw [if_neg hgt, if_pos rfl]
      rw [heq]
      have hmapb : (fun b => ((b : branchT).1, b.2.2)) ((rect, none, item) : branchT) =
          (rect, item) := rfl
      by_cases hlt : (nodeT.mk 0 bs).count < MAX_NODES
      · have heq1 : (addBranch ((rect, none, item) : branchT) (nodeT.mk 0 bs)).1 =
            ⟨0, bs ++ [(rect, none, item)]⟩ := by
          rw [addBranch_lt hlt]
          rfl
        have heq2 : (addBranch ((rect, none, item) : branchT) (nodeT.mk 0 bs)).2 = none := by
          rw [addBranch_lt hlt]
        rw [heq1, heq2]
        refine ⟨?_, fun o ho => Option.noConfusion ho, ?_, fun o ho => Option.noConfusion ho⟩
        · rw [nonull_iff']
          intro x hx
          rcases List.mem_append.mp hx with h | h
          · exact hnnbs x h
          · rw [List.mem_singleton.mp h]
            exact ⟨fun h0 _ => absurd (show (0:ℤ) < 0 from h0) (by decide),
              fun c' hc' => Option.noConfusion hc'⟩
        · intro _
          rw [leafEntries_leaf (l := 0) (by decide), leafEntries_leaf (l := 0) (by decide)]
          rw [List.map_append]
          simp only [List.map_cons, List.map_nil]
          exact List.perm_append_comm
      · have hfst : (addBranch ((rect, none, item) : branchT) (nodeT.mk 0 bs)).1 =
            (splitNode (nodeT.mk 0 bs) (rect, none, item)).1 := by
          rw [addBranch_full hlt]
        have hsnd : (addBranch ((rect, none, item) : branchT) (nodeT.mk 0 bs)).2 =
            some (splitNode (nodeT.mk 0 bs) (rect, none, item)).2 := by
          rw [addBranch_full hlt]
        rw [hfst, hsnd]
        have hlen16 : bs.length = MAX_NODES := by
          have hc2 : (nodeT.mk 0 bs).count = bs.length := rfl
          rw [hc2] at hlt
          omega
        obtain ⟨s1, s2, s3, s4, s5, s6⟩ := splitNode_spec 0 bs (rect, none, item)
          hlen16 (fun x hx => (hbs x hx).1) hwfr
        have hmm : ∀ x ∈ (splitNode (nodeT.mk 0 bs) (rect, none, item)).1.branch ++
            (splitNode (nodeT.mk 0 bs) (rect, none, item)).2.branch,
            (0 < (0:ℤ) → (x : branchT).2.1 ≠ none) ∧
              ∀ c' : nodeT, x.2.1 = some c' → NoNull c' := by
          intro x hx
          have hx2 := s6.mem_iff.mp hx
          rcases List.mem_append.mp hx2 with h | h
          · exact hnnbs x h
          · rw [List.mem_singleton.mp h]
            exact ⟨fun h0 => absurd (show (0:ℤ) < 0 from h0) (by decide),
              fun c' hc' => Option.noConfusion hc'⟩
        refine ⟨?_, ?_, ?_, ?_⟩
        · rw [nonull_iff']
          intro x hx
          have := hmm x (List.mem_append.mpr (Or.inl hx))
          rw [s1]
          exact this
        · intro o ho
          rw [← Option.some.inj ho]
          rw [nonull_iff']
          intro x hx
          have := hmm x (List.mem_append.mpr (Or.inr hx))
          rw [s2]
          exact this
        · intro h0
          exact Option.noConfusion h0
        · intro o ho
          rw [← Option.some.inj ho]
          rw [leafEntries_leaf' (n := (splitNode (nodeT.mk 0 bs) (rect, none, item)).1)
              (by rw [s1]; decide),
            leafEntries_leaf' (n := (splitNode (nodeT.mk 0 bs) (rect, none, item)).2)
              (by rw [s2]; decide),
            leafEntries_leaf (l := 0) (by decide)]
          rw [← List.map_append]
          refine List.Perm.trans (List.Perm.map _ s6) ?_
          rw [List.map_append]
          simp only [List.map_cons, List.map_nil]
          exact List.perm_append_comm

/-- A rectangle inside a well-formed rectangle overlaps it. -/
theorem overlap_of_sub {a q : rectT} (hwa : wfRect a) (hs : rectSub a q) :
    overlap q a = true := by
  obtain ⟨h1, h2⟩ := hwa
  obtain ⟨h3, h4, h5, h6⟩ := hs
  rw [overlap, if_neg (by omega), if_neg (by omega)]

/-- Top-level insert at leaf level: entries gain exactly the new pair. -/
theorem insertRect_entries (rect : rectT) (item : ℕ) (hwfr : wfRect rect)
    (root : nodeT) (hg : Good root) (hnn : NoNull root)
    (hne0 : 0 < root.level → 0 < root.count) :
    NoNull (insertRect rect item root 0).2 ∧
    (0 < (insertRect rect item root 0).2.level → 0 < (insertRect rect item root 0).2.count) ∧
    (leafEntries (insertRect rect item root 0).2).Perm ((rect, item) :: leafEntries root) := by
  have h := insertRectRec_entries rect item hwfr root hg hnn hne0
  have hgg := insertRectRec_good rect item hwfr root hg 0
  rcases hr : insertRectRec rect item root 0 with ⟨r2, os⟩
  rw [hr] at h hgg
  cases os with
  | none =>
    have heq : insertRect rect item root 0 = (false, r2) := by
      rw [insertRect, hr]
    rw [heq]
    have hlev : r2.level = root.level := hgg.1.1
    have hcnt : root.count ≤ r2.count := (hgg.2.1 rfl).1
    refine ⟨h.1, ?_, h.2.2.1 rfl⟩
    intro hl
    show 0 < r2.count
    have hl2 : 0 < root.level := by
      rw [← hlev]
      exact hl
    have := hne0 hl2
    omega
  | some nn =>
    have heq : insertRect rect item root 0 =
        (true, ⟨r2.level + 1, [(nodeCover r2, some r2, 0), (nodeCover nn, some nn, 0)]⟩) := by
      rw [insertRect, hr]
      rfl
    rw [heq]
    have hnnr2 : NoNull r2 := h.1
    have hnnnn : NoNull nn := h.2.1 nn rfl
    have hperm := h.2.2.2 nn rfl
    have hl0r : 0 ≤ r2.level := ((good_iff' r2).mp hgg.1.2).1
    refine ⟨?_, ?_, ?_⟩
    · show NoNull (nodeT.mk (r2.level + 1) _)
      rw [nonull_iff]
      intro b hb
      rcases List.mem_cons.mp hb with h1 | h1
      · rw [h1]
        exact ⟨fun _ h0 => Option.noConfusion h0,
          fun c hc => by rw [← Option.some.inj hc]; exact hnnr2⟩
      · rw [List.mem_singleton.mp h1]
        exact ⟨fun _ h0 => Option.noConfusion h0,
          fun c hc => by rw [← Option.some.inj hc]; exact hnnnn⟩
    · intro _
      show 0 < ([(nodeCover r2, some r2, (0:ℕ)), (nodeCover nn, some nn, 0)] : List branchT).length
      simp
    · have hlev2 : 0 < (nodeT.mk (r2.level + 1)
          [((nodeCover r2, some r2, 0) : branchT), (nodeCover nn, some nn, 0)]).level := by
        show 0 < r2.level + 1
        omega
      rw [leafEntries_internal' hlev2]
      show ((([((nodeCover r2, some r2, 0) : branchT), (nodeCover nn, some nn, 0)]).flatMap
        branchEntries)).Perm _
      simp only [List.flatMap_cons, List.flatMap_nil, List.append_nil]
      show (leafEntries r2 ++ leafEntries nn).Perm _
      exact hperm

/-- Inserting a list of pairs at leaf level keeps every structural invariant
and extends the entries by exactly those pairs. -/
theorem insertAll_spec : ∀ (ps : List (rectT × ℕ)) (root : nodeT),
    (∀ p ∈ ps, wfRect (p : rectT × ℕ).1) → Good root → Covered root → NoNull root →
    (0 < root.level → 0 < root.count) →
    ∀ n, insertAll ps (some root) = some n →
      Good n ∧ Covered n ∧ NoNull n ∧ (0 < n.level → 0 < n.count) ∧
      (leafEntries n).Perm (ps ++ leafEntries root) := by
  intro ps
  induction ps with
  | nil =>
    intro root _ hg hcov hnn hne0 n hn
    have : root = n := Option.some.inj hn
    rw [← this]
    rw [List.nil_append]
    exact ⟨hg, hcov, hnn, hne0, List.Perm.refl _⟩
  | cons p rest ihrest =>
    intro root hwf hg hcov hnn hne0 n hn
    have hwfp : wfRect p.1 := hwf p (List.mem_cons_self _ _)
    have hstep : insertAll (p :: rest) (some root) =
        insertAll rest (some (insertRect p.1 p.2 root 0).2) := rfl
    rw [hstep] at hn
    have hGC := insertRectTop_GC p.1 p.2 hwfp (some root)
      (fun m hm => by rw [← Option.some.inj hm]; exact ⟨hg, hcov⟩) 0
    have hg1 : Good (insertRect p.1 p.2 root 0).2 ∧ Covered (insertRect p.1 p.2 root 0).2 :=
      hGC _ rfl
    have hent := insertRect_entries p.1 p.2 hwfp root hg hnn hne0
    have ihr := ihrest (insertRect p.1 p.2 root 0).2
      (fun x hx => hwf x (List.mem_cons_of_mem p hx)) hg1.1 hg1.2 hent.1 hent.2.1 n hn
    refine ⟨ihr.1, ihr.2.1, ihr.2.2.1, ihr.2.2.2.1, ?_⟩
    refine List.Perm.trans ihr.2.2.2.2 ?_
    refine List.Perm.trans (List.Perm.append_left rest hent.2.2) ?_
    have hpp : ((p.1, p.2) : rectT × ℕ) = p := rfl
    rw [hpp]
    exact List.perm_middle

theorem goLeaf_all (q : rectT) : ∀ bs : List branchT,
    (∀ b ∈ bs, overlap q (b : branchT).1 = true) →
    searchNode.goLeaf bs q = bs.length
  | [], _ => rfl
  | (r, ch, i) :: rest, h => by
    rw [searchNode.goLeaf]
    rw [h (r, ch, i) (List.mem_cons_self _ _), if_pos rfl]
    rw [goLeaf_all q rest (fun b hb => h b (List.mem_cons_of_mem _ hb))]
    rw [List.length_cons]
    omega

theorem goInt_all (q : rectT) : ∀ bs : List branchT,
    (∀ b ∈ bs, ∀ c : nodeT, (b : branchT).2.1 = some c →
      overlap q b.1 = true ∧ searchNode c q = (leafEntries c).length) →
    searchNode.goInt bs q = (bs.flatMap branchEntries).length
  | [], _ => rfl
  | (r, some c, i) :: rest, h => by
    rw [searchNode.goInt]
    obtain ⟨hov, hcnt⟩ := h (r, some c, i) (List.mem_cons_self _ _) c rfl
    rw [hov, if_pos rfl, hcnt]
    rw [goInt_all q rest (fun b hb => h b (List.mem_cons_of_mem _ hb))]
    rw [List.flatMap_cons, List.length_append]
    rfl
  | (r, none, i) :: rest, h => by
    rw [searchNode.goInt]
    rw [goInt_all q rest (fun b hb => h b (List.mem_cons_of_mem _ hb))]
    rw [List.flatMap_cons]
    rfl

/-- On a tree satisfying the structural invariants whose leaf rectangles all
lie inside the query, search visits every leaf entry. -/
theorem searchNode_all (q : rectT) :
    ∀ n : nodeT, Good n → Covered n → NoNull n →
    (∀ e ∈ leafEntries n, rectSub (e : rectT × ℕ).1 q) →
    searchNode n q = (leafEntries n).length ∧
    (1 ≤ n.count → rectSub (nodeCover n) q) := by
  intro n
  induction n using nodeT.inductionOn with
  | h l bs ih =>
    intro hg hcov hnn hsub
    obtain ⟨hl0, hlen, hbs⟩ := (good_iff l bs).mp hg
    have hcovbs := (covered_iff l bs).mp hcov
    have hnnbs := (nonull_iff l bs).mp hnn
    have hmn8 : MIN_NODES = 8 := rfl
    by_cases hl : l > 0
    · have hchsub : ∀ b ∈ bs, ∀ c : nodeT, (b : branchT).2.1 = some c →
          ∀ e ∈ leafEntries c, rectSub (e : rectT × ℕ).1 q := by
        intro b hb c hc e he
        apply hsub
        rw [leafEntries_internal hl]
        rw [List.mem_flatMap]
        refine ⟨b, hb, ?_⟩
        simp only [branchEntries, hc]
        exact he
      have hbr : ∀ b ∈ bs, ∀ c : nodeT, (b : branchT).2.1 = some c →
          overlap q b.1 = true ∧ searchNode c q = (leafEntries c).length := by
        intro b hb c hc
        obtain ⟨hcl, hcc, hcg⟩ := (hbs b hb).2.2 c hc
        have hccov := (hcovbs b hb c hc).2
        have hcnn := (hnnbs b hb).2 c hc
        have ihc := ih b hb c hc hcg hccov hcnn (hchsub b hb c hc)
        have hcsub : rectSub (nodeCover c) q := by
          apply ihc.2
          rw [hmn8] at hcc
          omega
        have hwfc : wfRect (nodeCover c) := by
          apply wf_coverOfList
          · apply count_pos_branch_ne_nil
            rw [hmn8] at hcc
            omega
          · intro y hy
            exact (((good_iff' c).mp hcg).2.2 y hy).1
        refine ⟨?_, ihc.1⟩
        rw [(hcovbs b hb c hc).1]
        exact overlap_of_sub hwfc hcsub
      constructor
      · rw [searchNode, if_pos hl, leafEntries_internal hl]
        exact goInt_all q bs hbr
      · intro hcnt
        show rectSub (coverOfList bs) q
        apply coverOfList_sub
        · intro h0
          have hc : (nodeT.mk l bs).count = bs.length := rfl
          rw [hc, h0] at hcnt
          simp at hcnt
        · intro x hx
          have hne := (hnnbs x hx).1 hl
          rcases hcx : (x : branchT).2.1 with _ | c
          · exact absurd hcx hne
          · obtain ⟨hov, _⟩ := hbr x hx c hcx
            obtain ⟨hcl, hcc, hcg⟩ := (hbs x hx).2.2 c hcx
            have hccov := (hcovbs x hx c hcx).2
            have hcnn := (hnnbs x hx).2 c hcx
            have ihc := ih x hx c hcx hcg hccov hcnn (hchsub x hx c hcx)
            show rectSub x.1 q
            rw [(hcovbs x hx c hcx).1]
            apply ihc.2
            rw [hmn8] at hcc
            omega
    · have hovs : ∀ b ∈ bs, overlap q (b : branchT).1 = true := by
        intro b hb
        apply overlap_of_sub (hbs b hb).1
        have hbb := hsub (b.1, b.2.2) (by
          rw [leafEntries_leaf hl]
          exact List.mem_map.mpr ⟨b, hb, rfl⟩)
        exact hbb
      constructor
      · rw [searchNode, if_neg hl, leafEntries_leaf hl, List.length_map]
        exact goLeaf_all q bs hovs
      · intro hcnt
        show rectSub (coverOfList bs) q
        apply coverOfList_sub
        · intro h0
          have hc : (nodeT.mk l bs).count = bs.length := rfl
          rw [hc, h0] at hcnt
          simp at hcnt
        · intro x hx
          show rectSub x.1 q
          have hxx := hsub (x.1, x.2.2) (by
            rw [leafEntries_leaf hl]
            exact List.mem_map.mpr ⟨x, hx, rfl⟩)
          exact hxx

theorem insertAll_isSome : ∀ (ps : List (rectT × ℕ)) (root : nodeT),
    ∃ n, insertAll ps (some root) = some n := by
  intro ps
  induction ps with
  | nil =>
    intro root
    exact ⟨root, rfl⟩
  | cons p rest ihrest =>
    intro root
    have hstep : insertAll (p :: rest) (some root) =
        insertAll rest (some (insertRect p.1 p.2 root 0).2) := rfl
    rw [hstep]
    exact ihrest _

theorem nonull_emptyRoot : NoNull emptyRoot := by
  rw [show emptyRoot = nodeT.mk 0 [] from rfl, nonull_iff]
  intro b hb
  exact absurd hb (List.not_mem_nil b)

/-- C6: inserting a list of pairs with well-formed rectangles into an
initially empty tree and then searching with a query rectangle that contains
every inserted rectangle visits exactly one match per inserted pair: the
count equals the number of insertions, the leaf entries are exactly the
inserted pairs, and distinct payloads are each found exactly once. -/
theorem search_finds_all_inserted (ps : List (rectT × ℕ))
    (hwf : ∀ p ∈ ps, wfRect (p : rectT × ℕ).1)
    (q : rectT) (hq : ∀ p ∈ ps, rectSub (p : rectT × ℕ).1 q) :
    search (insertAll ps (some emptyRoot)) q = ps.length ∧
    ∀ n, insertAll ps (some emptyRoot) = some n →
      (leafEntries n).Perm ps ∧
      ((ps.map Prod.snd).Nodup → (itemsOf n).Nodup) := by
  obtain ⟨n0, hn0⟩ := insertAll_isSome ps emptyRoot
  have hge := rootInv_empty emptyRoot rfl
  have hne0 : 0 < emptyRoot.level → 0 < emptyRoot.count := by
    intro h
    exact absurd (show (0:ℤ) < 0 from h) (by decide)
  have hspec := insertAll_spec ps emptyRoot hwf hge.1 hge.2 nonull_emptyRoot hne0 n0 hn0
  obtain ⟨hgn, hcovn, hnnn, _, hperm⟩ := hspec
  have hentries : (leafEntries n0).Perm ps := by
    have h0 : leafEntries emptyRoot = [] := rfl
    rw [h0, List.append_nil] at hperm
    exact hperm
  have hsubn : ∀ e ∈ leafEntries n0, rectSub (e : rectT × ℕ).1 q := by
    intro e he
    exact hq e (hentries.mem_iff.mp he)
  have hsearch := searchNode_all q n0 hgn hcovn hnnn hsubn
  constructor
  · rw [hn0]
    show searchNode n0 q = ps.length
    rw [hsearch.1]
    exact hentries.length_eq
  · intro n hn
    have hnn0 : n0 = n := by
      rw [hn0] at hn
      exact Option.some.inj hn
    rw [← hnn0]
    refine ⟨hentries, ?_⟩
    intro hnodup
    have hmap : (itemsOf n0).Perm (ps.map Prod.snd) := List.Perm.map Prod.snd hentries
    exact (hmap.nodup_iff).mpr hnodup

theorem search_finds_all_inserted_witness :
    (∀ p ∈ [(((⟨0, 0, 1, 1⟩ : rectT), 1) : rectT × ℕ), ((⟨2, 2, 3, 3⟩ : rectT), 2)],
      wfRect (p : rectT × ℕ).1) ∧
    (∀ p ∈ [(((⟨0, 0, 1, 1⟩ : rectT), 1) : rectT × ℕ), ((⟨2, 2, 3, 3⟩ : rectT), 2)],
      rectSub (p : rectT × ℕ).1 (⟨0, 0, 3, 3⟩ : rectT)) ∧
    (search (insertAll [(((⟨0, 0, 1, 1⟩ : rectT), 1) : rectT × ℕ), ((⟨2, 2, 3, 3⟩ : rectT), 2)]
        (some emptyRoot)) ⟨0, 0, 3, 3⟩ =
      ([(((⟨0, 0, 1, 1⟩ : rectT), 1) : rectT × ℕ), ((⟨2, 2, 3, 3⟩ : rectT), 2)]).length ∧
    ∀ n, insertAll [(((⟨0, 0, 1, 1⟩ : rectT), 1) : rectT × ℕ), ((⟨2, 2, 3, 3⟩ : rectT), 2)]
        (some emptyRoot) = some n →
      (leafEntries n).Perm [(((⟨0, 0, 1, 1⟩ : rectT), 1) : rectT × ℕ), ((⟨2, 2, 3, 3⟩ : rectT), 2)] ∧
      ((([(((⟨0, 0, 1, 1⟩ : rectT), 1) : rectT × ℕ), ((⟨2, 2, 3, 3⟩ : rectT), 2)]).map
        Prod.snd).Nodup → (itemsOf n).Nodup)) :=
  ⟨by decide, by decide,
    search_finds_all_inserted
      [(((⟨0, 0, 1, 1⟩ : rectT), 1) : rectT × ℕ), ((⟨2, 2, 3, 3⟩ : rectT), 2)]
      (by decide) ⟨0, 0, 3, 3⟩ (by decide)⟩

/-- The boolean result of removeRect is the recursion's result. -/
theorem removeRect_found (rect : rectT) (item : ℕ) (root : nodeT) :
    (removeRect rect item root).1 = (removeRectRec rect item root []).1 := by
  rcases hr : removeRectRec rect item root [] with ⟨found, r2, lst⟩
  cases found with
  | false =>
    have heq : removeRect rect item root = (false, some r2) := by
      rw [removeRect, hr]
    rw [heq]
  | true =>
    have hstep : removeRect rect item root =
        (match drainList lst (some r2) with
         | some r3 =>
           if r3.count = 1 ∧ r3.level > 0 then
             (true, (r3.branch.getD 0 defaultBranch).2.1)
           else (true, some r3)
         | none => (true, none)) := by
      rw [removeRect, hr]
    rcases hd : drainList lst (some r2) with _ | r3
    · have hstep2 : removeRect rect item root = (true, none) := by
        rw [hstep, hd]
      rw [hstep2]
    · have hstep2 : removeRect rect item root =
          (if r3.count = 1 ∧ r3.level > 0 then
            (true, (r3.branch.getD 0 defaultBranch).2.1)
          else (true, some r3)) := by
        rw [hstep, hd]
      by_cases hcol : r3.count = 1 ∧ r3.level > 0
      · rw [if_pos hcol] at hstep2
        rw [hstep2]
      · rw [if_neg hcol] at hstep2
        rw [hstep2]

/-- On a leaf node the removal scan finds any stored payload, whatever the
query rectangle. -/
theorem removeRectRec_leaf_found (rect : rectT) (item : ℕ) (l : ℤ) (bs : List branchT)
    (hl : ¬ l > 0) (l0 : List nodeT) (hmem : item ∈ itemsOf (.mk l bs)) :
    (removeRectRec rect item (.mk l bs) l0).1 = true := by
  have hmem' : ∃ b ∈ bs, (b : branchT).2.2 = item := by
    rw [itemsOf, leafEntries, if_neg hl, List.map_map] at hmem
    obtain ⟨b, hb, hbe⟩ := List.mem_map.mp hmem
    exact ⟨b, hb, hbe⟩
  rw [removeRectRec, if_neg hl]
  rcases hf : bs.findIdx? (fun b => b.2.2 == item) with _ | index
  · exfalso
    obtain ⟨b, hb, hbe⟩ := hmem'
    have := List.findIdx?_eq_none_iff.mp hf b hb
    rw [hbe] at this
    simp at this
  · rw [hf]

/-- C1 (corrected): the Delete operation matches leaf entries by payload
identity alone; the query rectangle only prunes which subtrees are scanned
and is never compared against the stored rectangle of a leaf entry.  A
not-found result leaves the tree unchanged, a found result means the payload
was stored somewhere in the tree, and on a leaf root the result is found if
and only if the payload occurs, regardless of any rectangle overlap. -/
theorem delete_matches_payload_only (rect : rectT) (item : ℕ) (root : nodeT)
    (hg : Good root) :
    ((removeRect rect item root).1 = false → (removeRect rect item root).2 = some root) ∧
    ((removeRect rect item root).1 = true → item ∈ itemsOf root) ∧
    (root.level = 0 → ((removeRect rect item root).1 = true ↔ item ∈ itemsOf root)) := by
  have h := removeRectRec_good rect item root hg []
  rcases hr : removeRectRec rect item root [] with ⟨found, r2, lst⟩
  rw [hr] at h
  have hfound := removeRect_found rect item root
  rw [hr] at hfound
  have hfalse : found = false → r2 = root ∧ lst = [] := fun hf => ⟨(h.1 hf).1, (h.1 hf).2⟩
  have htrue : found = true → item ∈ itemsOf root := fun ht => h.2.1 ht
  refine ⟨?_, ?_, ?_⟩
  · intro hff
    rw [hfound] at hff
    cases found with
    | false =>
      have heq : removeRect rect item root = (false, some r2) := by
        rw [removeRect, hr]
      rw [heq, (hfalse rfl).1]
    | true => exact Bool.noConfusion hff
  · intro htt
    rw [hfound] at htt
    exact htrue htt
  · intro hlev
    constructor
    · intro htt
      rw [hfound] at htt
      exact htrue htt
    · intro hmem
      rw [hfound]
      cases root with
      | mk l bs =>
        have hl0 : l = 0 := hlev
        subst hl0
        rw [← hr]
        exact removeRectRec_leaf_found rect item 0 bs (by decide) [] hmem

/-- A concrete one-entry leaf tree. -/
theorem good_leaf1 : Good (⟨0, [(⟨0, 0, 1, 1⟩, none, 5)]⟩ : nodeT) :=
  (good_iff 0 _).mpr ⟨by decide, by decide, by
    intro b hb
    rw [List.mem_singleton.mp hb]
    exact ⟨by decide, fun _ => rfl, fun c hc => Option.noConfusion hc⟩⟩

theorem delete_matches_payload_only_witness :
    Good (⟨0, [(⟨0, 0, 1, 1⟩, none, 5)]⟩ : nodeT) ∧
    (((removeRect ⟨10, 10, 11, 11⟩ 5 ⟨0, [(⟨0, 0, 1, 1⟩, none, 5)]⟩).1 = false →
        (removeRect ⟨10, 10, 11, 11⟩ 5 ⟨0, [(⟨0, 0, 1, 1⟩, none, 5)]⟩).2 =
          some ⟨0, [(⟨0, 0, 1, 1⟩, none, 5)]⟩) ∧
      ((removeRect ⟨10, 10, 11, 11⟩ 5 ⟨0, [(⟨0, 0, 1, 1⟩, none, 5)]⟩).1 = true →
        5 ∈ itemsOf ⟨0, [(⟨0, 0, 1, 1⟩, none, 5)]⟩) ∧
      ((⟨0, [(⟨0, 0, 1, 1⟩, none, 5)]⟩ : nodeT).level = 0 →
        ((removeRect ⟨10, 10, 11, 11⟩ 5 ⟨0, [(⟨0, 0, 1, 1⟩, none, 5)]⟩).1 = true ↔
          5 ∈ itemsOf ⟨0, [(⟨0, 0, 1, 1⟩, none, 5)]⟩))) :=
  ⟨good_leaf1, delete_matches_payload_only ⟨10, 10, 11, 11⟩ 5 _ good_leaf1⟩

/-- C7 (corrected): deleting a payload that occurs nowhere in the tree
returns not-found and leaves the tree handle and contents unchanged.  (The
original claim's notion of a matching entry also compared the stored
rectangle; the counterexample shows a payload-only match with a disjoint
rectangle is found and removed, so absence must be payload absence.) -/
theorem delete_absent_payload_noop (rect : rectT) (item : ℕ) (root : nodeT)
    (hg : Good root) (habs : item ∉ itemsOf root) :
    (removeRect rect item root).1 = false ∧
    (removeRect rect item root).2 = some root := by
  have h := removeRectRec_good rect item root hg []
  rcases hr : removeRectRec rect item root [] with ⟨found, r2, lst⟩
  rw [hr] at h
  have hfound := removeRect_found rect item root
  rw [hr] at hfound
  cases found with
  | true => exact absurd (h.2.1 rfl) habs
  | false =>
    have heq : removeRect rect item root = (false, some r2) := by
      rw [removeRect, hr]
    have hh : r2 = root := (h.1 rfl).1
    rw [heq, hh]
    exact ⟨rfl, rfl⟩

theorem delete_absent_payload_noop_witness :
    Good (⟨0, [(⟨0, 0, 1, 1⟩, none, 5)]⟩ : nodeT) ∧
    (99 : ℕ) ∉ itemsOf (⟨0, [(⟨0, 0, 1, 1⟩, none, 5)]⟩ : nodeT) ∧
    ((removeRect ⟨0, 0, 1, 1⟩ 99 ⟨0, [(⟨0, 0, 1, 1⟩, none, 5)]⟩).1 = false ∧
     (removeRect ⟨0, 0, 1, 1⟩ 99 ⟨0, [(⟨0, 0, 1, 1⟩, none, 5)]⟩).2 =
       some ⟨0, [(⟨0, 0, 1, 1⟩, none, 5)]⟩) :=
  ⟨good_leaf1, by decide,
    delete_absent_payload_noop ⟨0, 0, 1, 1⟩ 99 _ good_leaf1 (by decide)⟩

theorem applyOps_append (l1 l2 : List OpT) (r : Option nodeT) :
    applyOps (l1 ++ l2) r = applyOps l2 (applyOps l1 r) :=
  List.foldl_append applyOp r l1 l2

theorem chunk0_4 : applyOps (opsChunk 0 4) (some emptyRoot) = some state4 := by decide

theorem chunk4_8 : applyOps (opsChunk 4 4) (some state4) = some state8 := by decide

theorem chunk8_12 : applyOps (opsChunk 8 4) (some state8) = some state12 := by decide

theorem chunk12_16 : applyOps (opsChunk 12 4) (some state12) = some state16 := by decide

theorem chunk16_20 : applyOps (opsChunk 16 4) (some state16) = some state20 := by decide

theorem chunk20_24 : applyOps (opsChunk 20 4) (some state20) = some state24 := by
  decide

theorem pick25_child :
    (bs25.getD (pickBranch ⟨100, 0, 101, 1⟩ (nodeT.mk 1 bs25)) defaultBranch).2.1 =
      some leaf25 := by decide

theorem leafsplit25 : insertRectRec ⟨100, 0, 101, 1⟩ 25 leaf25 0 = (leaf25a, some leaf25b) := by
  decide

theorem split25_eq : insertRectRec ⟨100, 0, 101, 1⟩ 25 (nodeT.mk 1 bs25) 0 =
    addBranch (nodeCover leaf25b, some leaf25b, 0)
      (nodeT.mk 1 (bs25.set (pickBranch ⟨100, 0, 101, 1⟩ (nodeT.mk 1 bs25))
        (nodeCoverChild (some leaf25a), some leaf25a,
         (bs25.getD (pickBranch ⟨100, 0, 101, 1⟩ (nodeT.mk 1 bs25)) defaultBranch).2.2))) := by
  rw [insertRectRec]
  rw [if_pos (by decide : (1:ℤ) > 0)]
  simp only [walkChild_eq, pick25_child, leafsplit25]

theorem op25_eq : applyOp (some (nodeT.mk 1 bs25)) (mkIns 25) = some state26 := by
  show some (insertRect ⟨100, 0, 101, 1⟩ 25 (nodeT.mk 1 bs25) 0).2 = some state26
  rw [insertRect, split25_eq]
  decide

theorem pre25 : applyOps (opsChunk 24 1) (some state24) = some (nodeT.mk 1 bs25) := by
  decide

theorem post25 : applyOps (opsChunk 26 2) (some state26) = some state28 := by
  decide

theorem chunk24_28 : applyOps (opsChunk 24 4) (some state24) = some state28 := by
  have h1 : opsChunk 24 4 = opsChunk 24 1 ++ ([mkIns 25] ++ opsChunk 26 2) := by decide
  rw [h1, applyOps_append, applyOps_append, pre25]
  show applyOps (opsChunk 26 2) (applyOp (some (nodeT.mk 1 bs25)) (mkIns 25)) =
    some state28
  rw [op25_eq]
  exact post25

theorem chunk28_32 : applyOps (opsChunk 28 4) (some state28) = some state32 := by
  decide

theorem pick34_child :
    (bs34.getD (pickBranch ⟨136, 0, 137, 1⟩ (nodeT.mk 1 bs34)) defaultBranch).2.1 =
      some leaf34 := by decide

theorem leafsplit34 : insertRectRec ⟨136, 0, 137, 1⟩ 34 leaf34 0 = (leaf34a, some leaf34b) := by
  decide

theorem split34_eq : insertRectRec ⟨136, 0, 137, 1⟩ 34 (nodeT.mk 1 bs34) 0 =
    addBranch (nodeCover leaf34b, some leaf34b, 0)
      (nodeT.mk 1 (bs34.set (pickBranch ⟨136, 0, 137, 1⟩ (nodeT.mk 1 bs34))
        (nodeCoverChild (some leaf34a), some leaf34a,
         (bs34.getD (pickBranch ⟨136, 0, 137, 1⟩ (nodeT.mk 1 bs34)) defaultBranch).2.2))) := by
  rw [insertRectRec]
  rw [if_pos (by decide : (1:ℤ) > 0)]
  simp only [walkChild_eq, pick34_child, leafsplit34]

theorem op34_eq : applyOp (some (nodeT.mk 1 bs34)) (mkIns 34) = some state35 := by
  show some (insertRect ⟨136, 0, 137, 1⟩ 34 (nodeT.mk 1 bs34) 0).2 = some state35
  rw [insertRect, split34_eq]
  decide

theorem pre34 : applyOps (opsChunk 32 2) (some state32) = some (nodeT.mk 1 bs34) := by
  decide

theorem post34 : applyOps (opsChunk 35 1) (some state35) = some state36 := by
  decide

theorem chunk32_36 : applyOps (opsChunk 32 4) (some state32) = some state36 := by
  have h1 : opsChunk 32 4 = opsChunk 32 2 ++ ([mkIns 34] ++ opsChunk 35 1) := by decide
  rw [h1, applyOps_append, applyOps_append, pre34]
  show applyOps (opsChunk 35 1) (applyOp (some (nodeT.mk 1 bs34)) (mkIns 34)) =
    some state36
  rw [op34_eq]
  exact post34

theorem chunk36_40 : applyOps (opsChunk 36 4) (some state36) = some state40 := by
  decide

theorem pick43_child :
    (bs43.getD (pickBranch ⟨172, 0, 173, 1⟩ (nodeT.mk 1 bs43)) defaultBranch).2.1 =
      some leaf43 := by decide

theorem leafsplit43 : insertRectRec ⟨172, 0, 173, 1⟩ 43 leaf43 0 = (leaf43a, some leaf43b) := by
  decide

theorem split43_eq : insertRectRec ⟨172, 0, 173, 1⟩ 43 (nodeT.mk 1 bs43) 0 =
    addBranch (nodeCover leaf43b, some leaf43b, 0)
      (nodeT.mk 1 (bs43.set (pickBranch ⟨172, 0, 173, 1⟩ (nodeT.mk 1 bs43))
        (nodeCoverChild (some leaf43a), some leaf43a,
         (bs43.getD (pickBranch ⟨172, 0, 173, 1⟩ (nodeT.mk 1 bs43)) defaultBranch).2.2))) := by
  rw [insertRectRec]
  rw [if_pos (by decide : (1:ℤ) > 0)]
  simp only [walkChild_eq, pick43_child, leafsplit43]

theorem op43_eq : applyOp (some (nodeT.mk 1 bs43)) (mkIns 43) = some state44 := by
  show some (insertRect ⟨172, 0, 173, 1⟩ 43 (nodeT.mk 1 bs43) 0).2 = some state44
  rw [insertRect, split43_eq]
  decide

theorem pre43 : applyOps (opsChunk 40 3) (some state40) = some (nodeT.mk 1 bs43) := by
  decide

theorem chunk40_44 : applyOps (opsChunk 40 4) (some state40) = some state44 := by
  have h1 : opsChunk 40 4 = opsChunk 40 3 ++ ([mkIns 43] ++ opsChunk 44 0) := by decide
  rw [h1, applyOps_append, applyOps_append, pre43]
  show applyOps (opsChunk 44 0) (applyOp (some (nodeT.mk 1 bs43)) (mkIns 43)) =
    some state44
  rw [op43_eq]
  rfl

theorem chunk44_48 : applyOps (opsChunk 44 4) (some state44) = some state48 := by
  decide

theorem chunk48_52 : applyOps (opsChunk 48 4) (some state48) = some state52 := by
  decide

theorem pick52_child :
    (bs52.getD (pickBranch ⟨208, 0, 209, 1⟩ (nodeT.mk 1 bs52)) defaultBranch).2.1 =
      some leaf52 := by decide

theorem leafsplit52 : insertRectRec ⟨208, 0, 209, 1⟩ 52 leaf52 0 = (leaf52a, some leaf52b) := by
  decide

theorem split52_eq : insertRectRec ⟨208, 0, 209, 1⟩ 52 (nodeT.mk 1 bs52) 0 =
    addBranch (nodeCover leaf52b, some leaf52b, 0)
      (nodeT.mk 1 (bs52.set (pickBranch ⟨208, 0, 209, 1⟩ (nodeT.mk 1 bs52))
        (nodeCoverChild (some leaf52a), some leaf52a,
         (bs52.getD (pickBranch ⟨208, 0, 209, 1⟩ (nodeT.mk 1 bs52)) defaultBranch).2.2))) := by
  rw [insertRectRec]
  rw [if_pos (by decide : (1:ℤ) > 0)]
  simp only [walkChild_eq, pick52_child, leafsplit52]

theorem op52_eq : applyOp (some (nodeT.mk 1 bs52)) (mkIns 52) = some state53 := by
  show some (insertRect ⟨208, 0, 209, 1⟩ 52 (nodeT.mk 1 bs52) 0).2 = some state53
  rw [insertRect, split52_eq]
  decide

theorem post52 : applyOps (opsChunk 53 3) (some state53) = some state56 := by
  decide

theorem chunk52_56 : applyOps (opsChunk 52 4) (some state52) = some state56 := by
  have h0 : state52 = nodeT.mk 1 bs52 := by decide
  have h1 : opsChunk 52 4 = [mkIns 52] ++ opsChunk 53 3 := by decide
  rw [h1, applyOps_append, h0]
  show applyOps (opsChunk 53 3) (applyOp (some (nodeT.mk 1 bs52)) (mkIns 52)) =
    some state56
  rw [op52_eq]
  exact post52

theorem chunk56_60 : applyOps (opsChunk 56 4) (some state56) = some state60 := by
  decide

theorem pick61_child :
    (bs61.getD (pickBranch ⟨244, 0, 245, 1⟩ (nodeT.mk 1 bs61)) defaultBranch).2.1 =
      some leaf61 := by decide

theorem leafsplit61 : insertRectRec ⟨244, 0, 245, 1⟩ 61 leaf61 0 = (leaf61a, some leaf61b) := by
  decide

theorem split61_eq : insertRectRec ⟨244, 0, 245, 1⟩ 61 (nodeT.mk 1 bs61) 0 =
    addBranch (nodeCover leaf61b, some leaf61b, 0)
      (nodeT.mk 1 (bs61.set (pickBranch ⟨244, 0, 245, 1⟩ (nodeT.mk 1 bs61))
        (nodeCoverChild (some leaf61a), some leaf61a,
         (bs61.getD (pickBranch ⟨244, 0, 245, 1⟩ (nodeT.mk 1 bs61)) defaultBranch).2.2))) := by
  rw [insertRectRec]
  rw [if_pos (by decide : (1:ℤ) > 0)]
  simp only [walkChild_eq, pick61_child, leafsplit61]

theorem op61_eq : applyOp (some (nodeT.mk 1 bs61)) (mkIns 61) = some state62 := by
  show some (insertRect ⟨244, 0, 245, 1⟩ 61 (nodeT.mk 1 bs61) 0).2 = some state62
  rw [insertRect, split61_eq]
  decide

theorem pre61 : applyOps (opsChunk 60 1) (some state60) = some (nodeT.mk 1 bs61) := by
  decide

theorem post61 : applyOps (opsChunk 62 2) (some state62) = some state64 := by
  decide

theorem chunk60_64 : applyOps (opsChunk 60 4) (some state60) = some state64 := by
  have h1 : opsChunk 60 4 = opsChunk 60 1 ++ ([mkIns 61] ++ opsChunk 62 2) := by decide
  rw [h1, applyOps_append, applyOps_append, pre61]
  show applyOps (opsChunk 62 2) (applyOp (some (nodeT.mk 1 bs61)) (mkIns 61)) =
    some state64
  rw [op61_eq]
  exact post61

theorem chunk64_68 : applyOps (opsChunk 64 4) (some state64) = some state68 := by
  decide

theorem pick70_child :
    (bs70.getD (pickBranch ⟨280, 0, 281, 1⟩ (nodeT.mk 1 bs70)) defaultBranch).2.1 =
      some leaf70 := by decide

theorem leafsplit70 : insertRectRec ⟨280, 0, 281, 1⟩ 70 leaf70 0 = (leaf70a, some leaf70b) := by
  decide

theorem split70_eq : insertRectRec ⟨280, 0, 281, 1⟩ 70 (nodeT.mk 1 bs70) 0 =
    addBranch (nodeCover leaf70b, some leaf70b, 0)
      (nodeT.mk 1 (bs70.set (pickBranch ⟨280, 0, 281, 1⟩ (nodeT.mk 1 bs70))
        (nodeCoverChild (some leaf70a), some leaf70a,
         (bs70.getD (pickBranch ⟨280, 0, 281, 1⟩ (nodeT.mk 1 bs70)) defaultBranch).2.2))) := by
  rw [insertRectRec]
  rw [if_pos (by decide : (1:ℤ) > 0)]
  simp only [walkChild_eq, pick70_child, leafsplit70]

theorem op70_eq : applyOp (some (nodeT.mk 1 bs70)) (mkIns 70) = some state71 := by
  show some (insertRect ⟨280, 0, 281, 1⟩ 70 (nodeT.mk 1 bs70) 0).2 = some state71
  rw [insertRect, split70_eq]
  decide

theorem pre70 : applyOps (opsChunk 68 2) (some state68) = some (nodeT.mk 1 bs70) := by
  decide

theorem post70 : applyOps (opsChunk 71 1) (some state71) = some state72 := by
  decide

theorem chunk68_72 : applyOps (opsChunk 68 4) (some state68) = some state72 := by
  have h1 : opsChunk 68 4 = opsChunk 68 2 ++ ([mkIns 70] ++ opsChunk 71 1) := by decide
  rw [h1, applyOps_append, applyOps_append, pre70]
  show applyOps (opsChunk 71 1) (applyOp (some (nodeT.mk 1 bs70)) (mkIns 70)) =
    some state72
  rw [op70_eq]
  exact post70

theorem chunk72_76 : applyOps (opsChunk 72 4) (some state72) = some state76 := by
  decide

theorem pick79_child :
    (bs79.getD (pickBranch ⟨316, 0, 317, 1⟩ (nodeT.mk 1 bs79)) defaultBranch).2.1 =
      some leaf79 := by decide

theorem leafsplit79 : insertRectRec ⟨316, 0, 317, 1⟩ 79 leaf79 0 = (leaf79a, some leaf79b) := by
  decide

theorem split79_eq : insertRectRec ⟨316, 0, 317, 1⟩ 79 (nodeT.mk 1 bs79) 0 =
    addBranch (nodeCover leaf79b, some leaf79b, 0)
      (nodeT.mk 1 (bs79.set (pickBranch ⟨316, 0, 317, 1⟩ (nodeT.mk 1 bs79))
        (nodeCoverChild (some leaf79a), some leaf79a,
         (bs79.getD (pickBranch ⟨316, 0, 317, 1⟩ (nodeT.mk 1 bs79)) defaultBranch).2.2))) := by
  rw [insertRectRec]
  rw [if_pos (by decide : (1:ℤ) > 0)]
  simp only [walkChild_eq, pick79_child, leafsplit79]

theorem op79_eq : applyOp (some (nodeT.mk 1 bs79)) (mkIns 79) = some state80 := by
  show some (insertRect ⟨316, 0, 317, 1⟩ 79 (nodeT.mk 1 bs79) 0).2 = some state80
  rw [insertRect, split79_eq]
  decide

theorem pre79 : applyOps (opsChunk 76 3) (some state76) = some (nodeT.mk 1 bs79) := by
  decide

theorem chunk76_80 : applyOps (opsChunk 76 4) (some state76) = some state80 := by
  have h1 : opsChunk 76 4 = opsChunk 76 3 ++ ([mkIns 79] ++ opsChunk 80 0) := by decide
  rw [h1, applyOps_append, applyOps_append, pre79]
  show applyOps (opsChunk 80 0) (applyOp (some (nodeT.mk 1 bs79)) (mkIns 79)) =
    some state80
  rw [op79_eq]
  rfl

theorem chunk80_84 : applyOps (opsChunk 80 4) (some state80) = some state84 := by
  decide

theorem chunk84_88 : applyOps (opsChunk 84 4) (some state84) = some state88 := by
  decide

theorem pick88_child :
    (bs88.getD (pickBranch ⟨352, 0, 353, 1⟩ (nodeT.mk 1 bs88)) defaultBranch).2.1 =
      some leaf88 := by decide

theorem leafsplit88 : insertRectRec ⟨352, 0, 353, 1⟩ 88 leaf88 0 = (leaf88a, some leaf88b) := by
  decide

theorem split88_eq : insertRectRec ⟨352, 0, 353, 1⟩ 88 (nodeT.mk 1 bs88) 0 =
    addBranch (nodeCover leaf88b, some leaf88b, 0)
      (nodeT.mk 1 (bs88.set (pickBranch ⟨352, 0, 353, 1⟩ (nodeT.mk 1 bs88))
        (nodeCoverChild (some leaf88a), some leaf88a,
         (bs88.getD (pickBranch ⟨352, 0, 353, 1⟩ (nodeT.mk 1 bs88)) defaultBranch).2.2))) := by
  rw [insertRectRec]
  rw [if_pos (by decide : (1:ℤ) > 0)]
  simp only [walkChild_eq, pick88_child, leafsplit88]

theorem op88_eq : applyOp (some (nodeT.mk 1 bs88)) (mkIns 88) = some state89 := by
  show some (insertRect ⟨352, 0, 353, 1⟩ 88 (nodeT.mk 1 bs88) 0).2 = some state89
  rw [insertRect, split88_eq]
  decide

theorem post88 : applyOps (opsChunk 89 3) (some state89) = some state92 := by
  decide

theorem chunk88_92 : applyOps (opsChunk 88 4) (some state88) = some state92 := by
  have h0 : state88 = nodeT.mk 1 bs88 := by decide
  have h1 : opsChunk 88 4 = [mkIns 88] ++ opsChunk 89 3 := by decide
  rw [h1, applyOps_append, h0]
  show applyOps (opsChunk 89 3) (applyOp (some (nodeT.mk 1 bs88)) (mkIns 88)) =
    some state92
  rw [op88_eq]
  exact post88

theorem chunk92_96 : applyOps (opsChunk 92 4) (some state92) = some state96 := by
  decide

theorem pick97_child :
    (bs97.getD (pickBranch ⟨388, 0, 389, 1⟩ (nodeT.mk 1 bs97)) defaultBranch).2.1 =
      some leaf97 := by decide

theorem leafsplit97 : insertRectRec ⟨388, 0, 389, 1⟩ 97 leaf97 0 = (leaf97a, some leaf97b) := by
  decide

theorem split97_eq : insertRectRec ⟨388, 0, 389, 1⟩ 97 (nodeT.mk 1 bs97) 0 =
    addBranch (nodeCover leaf97b, some leaf97b, 0)
      (nodeT.mk 1 (bs97.set (pickBranch ⟨388, 0, 389, 1⟩ (nodeT.mk 1 bs97))
        (nodeCoverChild (some leaf97a), some leaf97a,
         (bs97.getD (pickBranch ⟨388, 0, 389, 1⟩ (nodeT.mk 1 bs97)) defaultBranch).2.2))) := by
  rw [insertRectRec]
  rw [if_pos (by decide : (1:ℤ) > 0)]
  simp only [walkChild_eq, pick97_child, leafsplit97]

theorem op97_eq : applyOp (some (nodeT.mk 1 bs97)) (mkIns 97) = some state98 := by
  show some (insertRect ⟨388, 0, 389, 1⟩ 97 (nodeT.mk 1 bs97) 0).2 = some state98
  rw [insertRect, split97_eq]
  decide

theorem pre97 : applyOps (opsChunk 96 1) (some state96) = some (nodeT.mk 1 bs97) := by
  decide

theorem post97 : applyOps (opsChunk 98 2) (some state98) = some state100 := by
  decide

theorem chunk96_100 : applyOps (opsChunk 96 4) (some state96) = some state100 := by
  have h1 : opsChunk 96 4 = opsChunk 96 1 ++ ([mkIns 97] ++ opsChunk 98 2) := by decide
  rw [h1, applyOps_append, applyOps_append, pre97]
  show applyOps (opsChunk 98 2) (applyOp (some (nodeT.mk 1 bs97)) (mkIns 97)) =
    some state100
  rw [op97_eq]
  exact post97

theorem chunk100_104 : applyOps (opsChunk 100 4) (some state100) = some state104 := by
  decide

theorem pick106_child :
    (bs106.getD (pickBranch ⟨424, 0, 425, 1⟩ (nodeT.mk 1 bs106)) defaultBranch).2.1 =
      some leaf106 := by decide

theorem leafsplit106 : insertRectRec ⟨424, 0, 425, 1⟩ 106 leaf106 0 = (leaf106a, some leaf106b) := by
  decide

theorem split106_eq : insertRectRec ⟨424, 0, 425, 1⟩ 106 (nodeT.mk 1 bs106) 0 =
    addBranch (nodeCover leaf106b, some leaf106b, 0)
      (nodeT.mk 1 (bs106.set (pickBranch ⟨424, 0, 425, 1⟩ (nodeT.mk 1 bs106))
        (nodeCoverChild (some leaf106a), some leaf106a,
         (bs106.getD (pickBranch ⟨424, 0, 425, 1⟩ (nodeT.mk 1 bs106)) defaultBranch).2.2))) := by
  rw [insertRectRec]
  rw [if_pos (by decide : (1:ℤ) > 0)]
  simp only [walkChild_eq, pick106_child, leafsplit106]

theorem op106_eq : applyOp (some (nodeT.mk 1 bs106)) (mkIns 106) = some state107 := by
  show some (insertRect ⟨424, 0, 425, 1⟩ 106 (nodeT.mk 1 bs106) 0).2 = some state107
  rw [insertRect, split106_eq]
  decide

theorem pre106 : applyOps (opsChunk 104 2) (some state104) = some (nodeT.mk 1 bs106) := by
  decide

theorem post106 : applyOps (opsChunk 107 1) (some state107) = some state108 := by
  decide

theorem chunk104_108 : applyOps (opsChunk 104 4) (some state104) = some state108 := by
  have h1 : opsChunk 104 4 = opsChunk 104 2 ++ ([mkIns 106] ++ opsChunk 107 1) := by decide
  rw [h1, applyOps_append, applyOps_append, pre106]
  show applyOps (opsChunk 107 1) (applyOp (some (nodeT.mk 1 bs106)) (mkIns 106)) =
    some state108
  rw [op106_eq]
  exact post106

theorem chunk108_112 : applyOps (opsChunk 108 4) (some state108) = some state112 := by
  decide

theorem pick115_child :
    (bs115.getD (pickBranch ⟨460, 0, 461, 1⟩ (nodeT.mk 1 bs115)) defaultBranch).2.1 =
      some leaf115 := by decide

theorem leafsplit115 : insertRectRec ⟨460, 0, 461, 1⟩ 115 leaf115 0 = (leaf115a, some leaf115b) := by
  decide

theorem split115_eq : insertRectRec ⟨460, 0, 461, 1⟩ 115 (nodeT.mk 1 bs115) 0 =
    addBranch (nodeCover leaf115b, some leaf115b, 0)
      (nodeT.mk 1 (bs115.set (pickBranch ⟨460, 0, 461, 1⟩ (nodeT.mk 1 bs115))
        (nodeCoverChild (some leaf115a), some leaf115a,
         (bs115.getD (pickBranch ⟨460, 0, 461, 1⟩ (nodeT.mk 1 bs115)) defaultBranch).2.2))) := by
  rw [insertRectRec]
  rw [if_pos (by decide : (1:ℤ) > 0)]
  simp only [walkChild_eq, pick115_child, leafsplit115]

theorem op115_eq : applyOp (some (nodeT.mk 1 bs115)) (mkIns 115) = some state116 := by
  show some (insertRect ⟨460, 0, 461, 1⟩ 115 (nodeT.mk 1 bs115) 0).2 = some state116
  rw [insertRect, split115_eq]
  decide

theorem pre115 : applyOps (opsChunk 112 3) (some state112) = some (nodeT.mk 1 bs115) := by
  decide

theorem chunk112_116 : applyOps (opsChunk 112 4) (some state112) = some state116 := by
  have h1 : opsChunk 112 4 = opsChunk 112 3 ++ ([mkIns 115] ++ opsChunk 116 0) := by decide
  rw [h1, applyOps_append, applyOps_append, pre115]
  show applyOps (opsChunk 116 0) (applyOp (some (nodeT.mk 1 bs115)) (mkIns 115)) =
    some state116
  rw [op115_eq]
  rfl

theorem chunk116_120 : applyOps (opsChunk 116 4) (some state116) = some state120 := by
  decide

theorem chunk120_124 : applyOps (opsChunk 120 4) (some state120) = some state124 := by
  decide

theorem pick124_child :
    (bs124.getD (pickBranch ⟨496, 0, 497, 1⟩ (nodeT.mk 1 bs124)) defaultBranch).2.1 =
      some leaf124 := by decide

theorem leafsplit124 : insertRectRec ⟨496, 0, 497, 1⟩ 124 leaf124 0 = (leaf124a, some leaf124b) := by
  decide

theorem split124_eq : insertRectRec ⟨496, 0, 497, 1⟩ 124 (nodeT.mk 1 bs124) 0 =
    addBranch (nodeCover leaf124b, some leaf124b, 0)
      (nodeT.mk 1 (bs124.set (pickBranch ⟨496, 0, 497, 1⟩ (nodeT.mk 1 bs124))
        (nodeCoverChild (some leaf124a), some leaf124a,
         (bs124.getD (pickBranch ⟨496, 0, 497, 1⟩ (nodeT.mk 1 bs124)) defaultBranch).2.2))) := by
  rw [insertRectRec]
  rw [if_pos (by decide : (1:ℤ) > 0)]
  simp only [walkChild_eq, pick124_child, leafsplit124]

theorem op124_eq : applyOp (some (nodeT.mk 1 bs124)) (mkIns 124) = some state125 := by
  show some (insertRect ⟨496, 0, 497, 1⟩ 124 (nodeT.mk 1 bs124) 0).2 = some state125
  rw [insertRect, split124_eq]
  decide

theorem post124 : applyOps (opsChunk 125 3) (some state125) = some state128 := by
  decide

theorem chunk124_128 : applyOps (opsChunk 124 4) (some state124) = some state128 := by
  have h0 : state124 = nodeT.mk 1 bs124 := by decide
  have h1 : opsChunk 124 4 = [mkIns 124] ++ opsChunk 125 3 := by decide
  rw [h1, applyOps_append, h0]
  show applyOps (opsChunk 125 3) (applyOp (some (nodeT.mk 1 bs124)) (mkIns 124)) =
    some state128
  rw [op124_eq]
  exact post124

theorem chunk128_132 : applyOps (opsChunk 128 4) (some state128) = some state132 := by
  decide

theorem pick133_child :
    (bs133.getD (pickBranch ⟨532, 0, 533, 1⟩ (nodeT.mk 1 bs133)) defaultBranch).2.1 =
      some leaf133 := by decide

theorem leafsplit133 : insertRectRec ⟨532, 0, 533, 1⟩ 133 leaf133 0 = (leaf133a, some leaf133b) := by
  decide

theorem split133_eq : insertRectRec ⟨532, 0, 533, 1⟩ 133 (nodeT.mk 1 bs133) 0 =
    addBranch (nodeCover leaf133b, some leaf133b, 0)
      (nodeT.mk 1 (bs133.set (pickBranch ⟨532, 0, 533, 1⟩ (nodeT.mk 1 bs133))
        (nodeCoverChild (some leaf133a), some leaf133a,
         (bs133.getD (pickBranch ⟨532, 0, 533, 1⟩ (nodeT.mk 1 bs133)) defaultBranch).2.2))) := by
  rw [insertRectRec]
  rw [if_pos (by decide : (1:ℤ) > 0)]
  simp only [walkChild_eq, pick133_child, leafsplit133]

theorem op133_eq : applyOp (some (nodeT.mk 1 bs133)) (mkIns 133) = some state134 := by
  show some (insertRect ⟨532, 0, 533, 1⟩ 133 (nodeT.mk 1 bs133) 0).2 = some state134
  rw [insertRect, split133_eq]
  decide

theorem pre133 : applyOps (opsChunk 132 1) (some state132) = some (nodeT.mk 1 bs133) := by
  decide

theorem post133 : applyOps (opsChunk 134 2) (some state134) = some state136 := by
  decide

theorem chunk132_136 : applyOps (opsChunk 132 4) (some state132) = some state136 := by
  have h1 : opsChunk 132 4 = opsChunk 132 1 ++ ([mkIns 133] ++ opsChunk 134 2) := by decide
  rw [h1, applyOps_append, applyOps_append, pre133]
  show applyOps (opsChunk 134 2) (applyOp (some (nodeT.mk 1 bs133)) (mkIns 133)) =
    some state136
  rw [op133_eq]
  exact post133

theorem chunk136_140 : applyOps (opsChunk 136 4) (some state136) = some state140 := by
  decide

theorem pick142_child :
    (bs142.getD (pickBranch ⟨568, 0, 569, 1⟩ (nodeT.mk 1 bs142)) defaultBranch).2.1 =
      some leaf142 := by decide

theorem leafsplit142 : insertRectRec ⟨568, 0, 569, 1⟩ 142 leaf142 0 = (leaf142a, some leaf142b) := by
  decide

theorem split142_eq : insertRectRec ⟨568, 0, 569, 1⟩ 142 (nodeT.mk 1 bs142) 0 =
    addBranch (nodeCover leaf142b, some leaf142b, 0)
      (nodeT.mk 1 (bs142.set (pickBranch ⟨568, 0, 569, 1⟩ (nodeT.mk 1 bs142))
        (nodeCoverChild (some leaf142a), some leaf142a,
         (bs142.getD (pickBranch ⟨568, 0, 569, 1⟩ (nodeT.mk 1 bs142)) defaultBranch).2.2))) := by
  rw [insertRectRec]
  rw [if_pos (by decide : (1:ℤ) > 0)]
  simp only [walkChild_eq, pick142_child, leafsplit142]

theorem op142_eq : applyOp (some (nodeT.mk 1 bs142)) (mkIns 142) = some state143 := by
  show some (insertRect ⟨568, 0, 569, 1⟩ 142 (nodeT.mk 1 bs142) 0).2 = some state143
  rw [insertRect, split142_eq]
  decide

theorem pre142 : applyOps (opsChunk 140 2) (some state140) = some (nodeT.mk 1 bs142) := by
  decide

theorem post142 : applyOps (opsChunk 143 1) (some state143) = some state144 := by
  decide

theorem chunk140_144 : applyOps (opsChunk 140 4) (some state140) = some state144 := by
  have h1 : opsChunk 140 4 = opsChunk 140 2 ++ ([mkIns 142] ++ opsChunk 143 1) := by decide
  rw [h1, applyOps_append, applyOps_append, pre142]
  show applyOps (opsChunk 143 1) (applyOp (some (nodeT.mk 1 bs142)) (mkIns 142)) =
    some state144
  rw [op142_eq]
  exact post142

theorem chunk144_148 : applyOps (opsChunk 144 4) (some state144) = some state148 := by
  decide

theorem chunk148_151 : applyOps (opsChunk 148 3) (some state148) = some (nodeT.mk 1 bs150) := by
  decide

theorem pick151_child :
    (bs150.getD (pickBranch ⟨604, 0, 605, 1⟩ (nodeT.mk 1 bs150)) defaultBranch).2.1 =
      some leaf15 := by decide

theorem leafsplit151 : insertRectRec ⟨604, 0, 605, 1⟩ 151 leaf15 0 = (leafA, some leafB) := by
  decide

/-- Insert 151 on the full level-1 root: the leaf split propagates into a
root split; the two phases are separated so each evaluation stays shallow. -/
theorem split151_eq : insertRectRec ⟨604, 0, 605, 1⟩ 151 (nodeT.mk 1 bs150) 0 =
    addBranch (nodeCover leafB, some leafB, 0)
      (nodeT.mk 1 (bs150.set (pickBranch ⟨604, 0, 605, 1⟩ (nodeT.mk 1 bs150))
        (nodeCoverChild (some leafA), some leafA,
         (bs150.getD (pickBranch ⟨604, 0, 605, 1⟩ (nodeT.mk 1 bs150)) defaultBranch).2.2))) := by
  rw [insertRectRec]
  rw [if_pos (by decide : (1:ℤ) > 0)]
  simp only [walkChild_eq, pick151_child, leafsplit151]

theorem rootsplit151 : addBranch ((nodeCover leafB, some leafB, 0) : branchT)
    (nodeT.mk 1 (bs150.set (pickBranch ⟨604, 0, 605, 1⟩ (nodeT.mk 1 bs150))
      (nodeCoverChild (some leafA), some leafA,
       (bs150.getD (pickBranch ⟨604, 0, 605, 1⟩ (nodeT.mk 1 bs150)) defaultBranch).2.2))) =
    (rootA, some rootB) := by decide

theorem hins151 : applyOp (some (nodeT.mk 1 bs150)) (OpT.ins ⟨604, 0, 605, 1⟩ 151) =
    some state152 := by
  have hcomb : insertRectRec ⟨604, 0, 605, 1⟩ 151 (nodeT.mk 1 bs150) 0 = (rootA, some rootB) :=
    split151_eq.trans rootsplit151
  show some (insertRect ⟨604, 0, 605, 1⟩ 151 (nodeT.mk 1 bs150) 0).2 = some state152
  rw [insertRect, hcomb]
  decide

theorem statedel0_eq : applyOp (some state152) (OpT.del ⟨0, 0, 1, 1⟩ 0) = some state151del := by
  decide

theorem statedel1_eq : applyOp (some state151del) (OpT.del ⟨4, 0, 5, 1⟩ 1) =
    some stateDamaged := by
  decide

theorem stateins_eq : applyOp (some stateDamaged) (OpT.ins ⟨10, 0, 11, 1⟩ 500) =
    some stateAfterLostInsert := by
  decide

/-- The 152-insert build phase, evaluated in small chunks. -/
theorem build152 : applyOps (opsChunk 0 152) (some emptyRoot) = some state152 := by
  have hsplit : opsChunk 0 152 = opsChunk 0 4 ++ (opsChunk 4 4 ++ (opsChunk 8 4 ++ (opsChunk 12 4 ++ (opsChunk 16 4 ++ (opsChunk 20 4 ++ (opsChunk 24 4 ++ (opsChunk 28 4 ++ (opsChunk 32 4 ++ (opsChunk 36 4 ++ (opsChunk 40 4 ++ (opsChunk 44 4 ++ (opsChunk 48 4 ++ (opsChunk 52 4 ++ (opsChunk 56 4 ++ (opsChunk 60 4 ++ (opsChunk 64 4 ++ (opsChunk 68 4 ++ (opsChunk 72 4 ++ (opsChunk 76 4 ++ (opsChunk 80 4 ++ (opsChunk 84 4 ++ (opsChunk 88 4 ++ (opsChunk 92 4 ++ (opsChunk 96 4 ++ (opsChunk 100 4 ++ (opsChunk 104 4 ++ (opsChunk 108 4 ++ (opsChunk 112 4 ++ (opsChunk 116 4 ++ (opsChunk 120 4 ++ (opsChunk 124 4 ++ (opsChunk 128 4 ++ (opsChunk 132 4 ++ (opsChunk 136 4 ++ (opsChunk 140 4 ++ (opsChunk 144 4 ++ (opsChunk 148 3 ++ ([OpT.ins ⟨604, 0, 605, 1⟩ 151])))))))))))))))))))))))))))))))))) )))):= by decide
  rw [hsplit, applyOps_append, chunk0_4, applyOps_append, chunk4_8, applyOps_append, chunk8_12, applyOps_append, chunk12_16, applyOps_append, chunk16_20, applyOps_append, chunk20_24, applyOps_append, chunk24_28, applyOps_append, chunk28_32, applyOps_append, chunk32_36, applyOps_append, chunk36_40, applyOps_append, chunk40_44, applyOps_append, chunk44_48, applyOps_append, chunk48_52, applyOps_append, chunk52_56, applyOps_append, chunk56_60, applyOps_append, chunk60_64, applyOps_append, chunk64_68, applyOps_append, chunk68_72, applyOps_append, chunk72_76, applyOps_append, chunk76_80, applyOps_append, chunk80_84, applyOps_append, chunk84_88, applyOps_append, chunk88_92, applyOps_append, chunk92_96, applyOps_append, chunk96_100, applyOps_append, chunk100_104, applyOps_append, chunk104_108, applyOps_append, chunk108_112, applyOps_append, chunk112_116, applyOps_append, chunk116_120, applyOps_append, chunk120_124, applyOps_append, chunk124_128, applyOps_append, chunk128_132, applyOps_append, chunk132_136, applyOps_append, chunk136_140, applyOps_append, chunk140_144, applyOps_append, chunk144_148, applyOps_append, chunk148_151]
  exact hins151

/-- C2: evaluated counterexample.  After the reachable 152-insert build,
deleting item 0 behaves (152 entries become 151); deleting item 1 underflows
its leaf and then the leaf's level-1 parent, and the drain reinserts the
detached internal node's branches through insertRect(rect, item, root,
level), which never passes the child pointer: the subtrees they referred to
are dropped, and even the 7 surviving leaf entries vanish into the freshly
created NULL-child branches.  Only 80 of the expected 150 entries remain. -/
theorem delete_reinsertion_loses_subtrees :
    applyOps (opsChunk 0 152) (some emptyRoot) = some state152 ∧
    countRec state152 0 = 152 ∧
    applyOp (some state152) (OpT.del ⟨0, 0, 1, 1⟩ 0) = some state151del ∧
    countRec state151del 0 = 151 ∧
    applyOp (some state151del) (OpT.del ⟨4, 0, 5, 1⟩ 1) = some stateDamaged ∧
    countRec stateDamaged 0 = 80 :=
  ⟨build152, by decide, statedel0_eq, by decide, statedel1_eq, by decide⟩

/-- C10: evaluated counterexample.  On the reachable deletion-damaged tree,
one more Insert descends into an orphaned NULL-child branch (the cheapest
enlargement) and is silently dropped: the entry count stays 80 instead of
growing to 81, and the inserted payload 500 is nowhere in the tree. -/
theorem insert_into_damaged_tree_vanishes :
    applyOps (opsChunk 0 152 ++ [OpT.del ⟨0, 0, 1, 1⟩ 0, OpT.del ⟨4, 0, 5, 1⟩ 1])
      (some emptyRoot) = some stateDamaged ∧
    applyOp (some stateDamaged) (OpT.ins ⟨10, 0, 11, 1⟩ 500) = some stateAfterLostInsert ∧
    countRec stateDamaged 0 = 80 ∧
    countRec stateAfterLostInsert 0 = 80 ∧
    (500 : ℕ) ∉ itemsOf stateAfterLostInsert := by
  refine ⟨?_, stateins_eq, by decide, by decide, by decide⟩
  rw [applyOps_append, build152]
  calc applyOps [OpT.del ⟨0, 0, 1, 1⟩ 0, OpT.del ⟨4, 0, 5, 1⟩ 1] (some state152)
      = applyOp (applyOp (some state152) (OpT.del ⟨0, 0, 1, 1⟩ 0)) (OpT.del ⟨4, 0, 5, 1⟩ 1) :=
        rfl
    _ = applyOp (some state151del) (OpT.del ⟨4, 0, 5, 1⟩ 1) := by rw [statedel0_eq]
    _ = some stateDamaged := statedel1_eq
